import Mathlib

/-!
# Reflective shadow map pipeline: embedding and verified properties

A shallow embedding of `obj_loader.{hpp,cpp}`, `rsm_main.cpp` and the function
`create_cube_mesh` of `main.cpp`.

* Scalars of type `float` are values of a linearly ordered field `F`, so the
  arithmetic of the embedding is exact (no rounding, no NaN, no infinity).
* Where rounding decides a property, the bounding sphere, the operations are
  embedded a second time with the rounding of each result explicit
  (`Rounded.getCenter`, `Rounded.getRadius`), and `Binary32.round` and
  `Binary32.sqrt` give the rounding of the binary32 format on the rationals.
* `std::sin`, `std::cos`, the square root inside `glm::length` and the
  `std::mt19937` / `std::uniform_real_distribution` pair are library code; they
  are the fields of `FloatLib`.
* Matrices built by glm (`lookAt`, `perspective`, `ortho`, products, inverses)
  are kept as terms of `Mat4`, recording each call with its arguments.
* The OpenGL context is the record `GLContext`: the current bindings, the uniform
  values of the four programs, and a log of the calls that create, delete,
  clear or draw.
* Where a property needs the numbers behind a matrix, `lookAtCoords` gives the
  view-space coordinates of `glm::lookAt` and `insideOrtho` the volume of
  `glm::ortho`, after glm's definitions.
* The fragment shaders are not among the sources. The per-pixel computation of
  the shading pass, `ShadingPixel`, follows the specification's description of
  it; the host side that feeds it is the code.
-/

set_option linter.unusedSectionVars false
set_option linter.unusedVariables false

namespace RSM

/-! ## Vectors -/

/-- Two floats (glm::vec2). -/
structure Vec2 (F : Type) where
  x : F
  y : F

/-- Three floats (glm::vec3). -/
structure Vec3 (F : Type) where
  x : F
  y : F
  z : F

/-- Four floats (glm::vec4). -/
structure Vec4 (F : Type) where
  x : F
  y : F
  z : F
  w : F

/-- Library functions the program calls on floats, and the random generator:
`seed n` is `std::mt19937 rng(n)` and `uniform01 s` is one evaluation of
`dist(rng)` for `std::uniform_real_distribution<float> dist(0.0f, 1.0f)`,
returning the draw and the advanced generator. -/
structure FloatLib (F : Type) (S : Type) where
  sin : F → F
  cos : F → F
  sqrt : F → F
  seed : Nat → S
  uniform01 : S → F × S

namespace Vec3

variable {F : Type} [LinearOrderedField F]

/-- The constructor glm::vec3(a) with one scalar. -/
def splat (a : F) : Vec3 F := ⟨a, a, a⟩

/-- Componentwise sum. -/
def add (a b : Vec3 F) : Vec3 F := ⟨a.x + b.x, a.y + b.y, a.z + b.z⟩

/-- Componentwise difference. -/
def sub (a b : Vec3 F) : Vec3 F := ⟨a.x - b.x, a.y - b.y, a.z - b.z⟩

/-- Product with a scalar on the right. -/
def scale (a : Vec3 F) (s : F) : Vec3 F := ⟨a.x * s, a.y * s, a.z * s⟩

/-- The dot product glm::dot. -/
def dot (a b : Vec3 F) : F := a.x * b.x + a.y * b.y + a.z * b.z

/-- The scalar glm::min(x, y), which is `(y < x) ? y : x`. -/
def minS (x y : F) : F := if y < x then y else x

/-- The scalar glm::max(x, y), which is `(x < y) ? y : x`. -/
def maxS (x y : F) : F := if x < y then y else x

/-- Componentwise glm::min. -/
def min (a b : Vec3 F) : Vec3 F := ⟨minS a.x b.x, minS a.y b.y, minS a.z b.z⟩

/-- Componentwise glm::max. -/
def max (a b : Vec3 F) : Vec3 F := ⟨maxS a.x b.x, maxS a.y b.y, maxS a.z b.z⟩

/-- The Euclidean norm glm::length, `sqrt(dot(v, v))`. -/
def length {S : Type} (lib : FloatLib F S) (v : Vec3 F) : F := lib.sqrt (dot v v)

/-- The unit vector glm::normalize, `v * inversesqrt(dot(v, v))`. -/
def normalize {S : Type} (lib : FloatLib F S) (v : Vec3 F) : Vec3 F :=
  scale v (1 / lib.sqrt (dot v v))

end Vec3

/-- The conversion glm::radians from degrees. -/
def radians {F : Type} [LinearOrderedField F] (degrees : F) : F :=
  degrees * 0.01745329251994329576923690768489

/-- A 4x4 matrix, kept as the glm expression that builds it. -/
inductive Mat4 (F : Type) where
  | identity : Mat4 F
  | lookAt (eye center up : Vec3 F) : Mat4 F
  | perspective (fovy aspect zNear zFar : F) : Mat4 F
  | ortho (left right bottom top zNear zFar : F) : Mat4 F
  | mul (a b : Mat4 F) : Mat4 F
  | inverse (a : Mat4 F) : Mat4 F

/-! ## OpenGL objects and context -/

/-- Internal formats of the textures the program creates; `image` is a texture
decoded from a file. -/
inductive PixelFormat where
  | RGB16F
  | RGB32F
  | RGBA16F
  | DEPTH24_STENCIL8
  | image
deriving DecidableEq, Repr

/-- A Texture2D object. `id` is unique to each constructed object and stands
for its identity (what `get()` returns). -/
structure Texture2D where
  id : Nat
  width : Int
  height : Int
  format : PixelFormat
deriving DecidableEq, Repr

/-- A Framebuffer object: the ids of its colour attachments, in order, and of
its depth/stencil attachment. -/
structure Framebuffer where
  id : Nat
  colors : List Nat
  depth : Nat
deriving DecidableEq, Repr

/-- The four shader programs of RSMApp. -/
inductive ProgramName where
  | gbuffer
  | rsmBuffer
  | shading
  | display
deriving DecidableEq, Repr

/-- The uniform names the host code sets. -/
inductive Uniform where
  | uModel
  | uView
  | uProjection
  | uLightVP
  | uLightColor
  | uLightDirViewSpace
  | uDiffuseColor
  | uHasTexture
  | uDiffuseTexture
  | uAlbedoTexture
  | uNormalTexture
  | uPositionTexture
  | uRSMFluxTexture
  | uRSMNormalTexture
  | uRSMPositionTexture
  | uShadowMap
  | uInView
  | uLightDirWorld
  | uLightVPMulInvCameraView
  | uRSMResolution
  | uVPLNum
  | uMaxSampleRadius
  | uIndirectStrength
  | uEnableRSM
  | uVPLSamples
  | uTexture
  | uDisplayMode
deriving DecidableEq, Repr

/-- The value of a uniform. `dir m v` is `glm::vec3(m * glm::vec4(v, 0.0f))`. -/
inductive UValue (F : Type) where
  | int (v : Int) : UValue F
  | float (v : F) : UValue F
  | vec3 (v : Vec3 F) : UValue F
  | mat4 (m : Mat4 F) : UValue F
  | dir (m : Mat4 F) (v : Vec3 F) : UValue F
  | vec4Array (vs : List (Vec4 F)) : UValue F

/-- The mesh a draw call submits: batch `i` of the scene or the full-screen
triangle. -/
inductive MeshRef where
  | batch (i : Nat)
  | screenQuad
deriving DecidableEq, Repr

/-- What a draw call sees: the bound framebuffer (0 is the presentation
surface), the program in use with its uniform values, and the textures bound
to the texture units. -/
structure DrawRecord (F : Type) where
  target : Nat
  program : Option ProgramName
  mesh : MeshRef
  uniforms : Uniform → Option (UValue F)
  units : Nat → Nat

/-- Logged OpenGL calls. -/
inductive GLEvent (F : Type) where
  | genTexture (t : Texture2D) : GLEvent F
  | deleteTexture (id : Nat) : GLEvent F
  | genFramebuffer (fb : Framebuffer) : GLEvent F
  | deleteFramebuffer (id : Nat) : GLEvent F
  | bindFramebuffer (id : Nat) : GLEvent F
  | clear (color depth : Bool) : GLEvent F
  | draw (r : DrawRecord F) : GLEvent F

/-- The OpenGL context. `hasLocation p u` says whether `glGetUniformLocation`
finds `u` in program `p` (the shader sources decide it). `events` is in
chronological order. -/
structure GLContext (F : Type) where
  nextId : Nat
  events : List (GLEvent F)
  boundFramebuffer : Nat
  viewport : Int × Int
  clearColor : Vec4 F
  depthTest : Bool
  currentProgram : Option ProgramName
  activeUnit : Nat
  units : Nat → Nat
  hasLocation : ProgramName → Uniform → Bool
  uniforms : ProgramName → Uniform → Option (UValue F)

namespace GLContext

variable {F : Type}

/-- Append a call to the log. -/
def log (gl : GLContext F) (e : GLEvent F) : GLContext F :=
  { gl with events := gl.events ++ [e] }

/-- The constructor `Texture2D(nullptr, type, width, height, internal, format)`. -/
def newTexture (gl : GLContext F) (width height : Int) (fmt : PixelFormat) : Texture2D × GLContext F :=
  let t : Texture2D := ⟨gl.nextId, width, height, fmt⟩
  (t, { gl with nextId := gl.nextId + 1, events := gl.events ++ [GLEvent.genTexture t] })

/-- The constructor `Framebuffer(colorAttachments, n, depth)`. -/
def newFramebuffer (gl : GLContext F) (colors : List Texture2D) (depth : Texture2D) :
    Framebuffer × GLContext F :=
  let fb : Framebuffer := ⟨gl.nextId, colors.map (fun t => t.id), depth.id⟩
  (fb, { gl with nextId := gl.nextId + 1, events := gl.events ++ [GLEvent.genFramebuffer fb] })

/-- The call `p.reset()` on a `std::unique_ptr<Texture2D>`: destroys the
object when there is one. -/
def resetTexture (gl : GLContext F) (p : Option Texture2D) : GLContext F :=
  match p with
  | some t => gl.log (GLEvent.deleteTexture t.id)
  | none => gl

/-- The call `p.reset()` on a `std::unique_ptr<Framebuffer>`. -/
def resetFramebuffer (gl : GLContext F) (p : Option Framebuffer) : GLContext F :=
  match p with
  | some fb => gl.log (GLEvent.deleteFramebuffer fb.id)
  | none => gl

/-- The call glBindFramebuffer(GL_FRAMEBUFFER, id). -/
def bindFramebuffer (gl : GLContext F) (id : Nat) : GLContext F :=
  { gl with boundFramebuffer := id, events := gl.events ++ [GLEvent.bindFramebuffer id] }

/-- The call glViewport(0, 0, w, h). -/
def setViewport (gl : GLContext F) (w h : Int) : GLContext F :=
  { gl with viewport := (w, h) }

/-- The call glClearColor(r, g, b, a). -/
def setClearColor (gl : GLContext F) (c : Vec4 F) : GLContext F :=
  { gl with clearColor := c }

/-- The call glClear with the colour bit and, when `depth`, the depth bit. -/
def clear (gl : GLContext F) (depth : Bool) : GLContext F :=
  gl.log (GLEvent.clear true depth)

/-- The calls glEnable / glDisable of GL_DEPTH_TEST. -/
def setDepthTest (gl : GLContext F) (enabled : Bool) : GLContext F :=
  { gl with depthTest := enabled }

/-- The call glUseProgram. -/
def useProgram (gl : GLContext F) (p : ProgramName) : GLContext F :=
  { gl with currentProgram := some p }

/-- The call glActiveTexture(GL_TEXTURE0 + unit). -/
def activeTexture (gl : GLContext F) (unit : Nat) : GLContext F :=
  { gl with activeUnit := unit }

/-- The call glBindTexture(GL_TEXTURE_2D, id) on the active unit. -/
def bindTexture (gl : GLContext F) (id : Nat) : GLContext F :=
  { gl with units := fun u => if u = gl.activeUnit then id else gl.units u }

/-- The helpers setUniformMat4, setUniformVec3, setUniformInt, setUniformFloat,
setUniformVec4Array: look the name up in `p` and store the value when the
location is non-negative. -/
def setUniform (gl : GLContext F) (p : ProgramName) (u : Uniform) (v : UValue F) : GLContext F :=
  if gl.hasLocation p u then
    { gl with uniforms := fun q w => if q = p ∧ w = u then some v else gl.uniforms q w }
  else gl

/-- The helper setUniformBool, which stores the integer 1 or 0. -/
def setUniformBool (gl : GLContext F) (p : ProgramName) (u : Uniform) (b : Bool) : GLContext F :=
  gl.setUniform p u (UValue.int (if b then 1 else 0))

/-- A draw call (`Mesh::draw`) with the current state. -/
def draw (gl : GLContext F) (m : MeshRef) : GLContext F :=
  gl.log (GLEvent.draw
    { target := gl.boundFramebuffer
      program := gl.currentProgram
      mesh := m
      uniforms := fun u => match gl.currentProgram with
        | some p => gl.uniforms p u
        | none => none
      units := gl.units })

end GLContext

/-! ## The OBJ loader (obj_loader.hpp, obj_loader.cpp) -/

/-- The vertex record Mesh::Vertex, fields in declaration order. -/
structure Vertex (F : Type) where
  position : Vec3 F
  normal : Vec3 F
  tangent : Vec4 F
  uv0 : Vec2 F
  uv1 : Vec2 F
  color : Vec4 F

/-- A Mesh object: the vertex and index data it was built from. -/
structure Mesh (F : Type) where
  vertices : List (Vertex F)
  indices : List Nat

/-- A loaded OBJ mesh with its material (struct ObjMesh). -/
structure ObjMesh (F : Type) where
  mesh : Option (Mesh F)
  materialName : String
  materialIndex : Int

/-- A material loaded from the MTL file (struct ObjMaterial). -/
structure ObjMaterial (F : Type) where
  name : String
  diffuseColor : Vec3 F
  specularColor : Vec3 F
  shininess : F
  diffuseTexturePath : String
  diffuseTexture : Option Texture2D
  hasTexture : Bool

/-- The value of a default-constructed ObjMaterial. -/
def ObjMaterial.init {F : Type} [LinearOrderedField F] : ObjMaterial F :=
  { name := ""
    diffuseColor := Vec3.splat 1
    specularColor := Vec3.splat 0
    shininess := 1
    diffuseTexturePath := ""
    diffuseTexture := none
    hasTexture := false }

/-- The index triple tinyobj::index_t. -/
structure TinyIndex where
  vertex_index : Int
  normal_index : Int
  texcoord_index : Int
deriving DecidableEq, Repr

/-- The face data of one shape (tinyobj::mesh_t). -/
structure TinyMesh where
  indices : List TinyIndex
  num_face_vertices : List Nat
  material_ids : List Int
deriving DecidableEq, Repr

/-- One shape of the parsed file (tinyobj::shape_t). -/
structure TinyShape where
  mesh : TinyMesh
deriving DecidableEq, Repr

/-- The fields of tinyobj::material_t that the loader reads. -/
structure TinyMaterial (F : Type) where
  name : String
  diffuse : Vec3 F
  specular : Vec3 F
  shininess : F
  diffuse_texname : String

/-- The attribute arrays tinyobj::attrib_t. -/
structure TinyAttrib (F : Type) where
  vertices : List F
  normals : List F
  texcoords : List F

/-- What a successful `reader.ParseFromFile` makes available. -/
structure ParsedObj (F : Type) where
  attrib : TinyAttrib F
  shapes : List TinyShape
  materials : List (TinyMaterial F)

/-- The files the loader can see. `parseObj path` is the outcome of
`reader.ParseFromFile(path, config)`, `none` when it returns false.
`loadImage path` is the outcome of constructing `Texture2D(fs::path(path),
&settings)`: the size of the decoded image, `none` when the constructor throws. -/
structure FileSystem (F : Type) where
  parseObj : String → Option (ParsedObj F)
  loadImage : String → Option (Int × Int)

/-- The constant FLT_MAX, `(2 - 2^(-23)) * 2^127`. -/
def FLT_MAX {F : Type} [LinearOrderedField F] : F :=
  340282346638528859811704183484516925440

/-- The loader object. -/
structure ObjLoader (F : Type) where
  _meshes : List (ObjMesh F)
  _materials : List (ObjMaterial F)
  _minBounds : Vec3 F
  _maxBounds : Vec3 F
  _basePath : String

namespace ObjLoader

variable {F : Type} [LinearOrderedField F]

/-- A freshly constructed loader (the default member initialisers). -/
def init : ObjLoader F :=
  { _meshes := []
    _materials := []
    _minBounds := Vec3.splat FLT_MAX
    _maxBounds := Vec3.splat (-FLT_MAX)
    _basePath := "" }

/-- The accessor getMeshes. -/
def getMeshes (self : ObjLoader F) : List (ObjMesh F) := self._meshes

/-- The accessor getMaterials. -/
def getMaterials (self : ObjLoader F) : List (ObjMaterial F) := self._materials

/-- The accessor getMinBounds. -/
def getMinBounds (self : ObjLoader F) : Vec3 F := self._minBounds

/-- The accessor getMaxBounds. -/
def getMaxBounds (self : ObjLoader F) : Vec3 F := self._maxBounds

/-- The accessor getCenter, `(_minBounds + _maxBounds) * 0.5f`, in exact
arithmetic; `Rounded.getCenter` is the same expression with the rounding of
each operation. -/
def getCenter (self : ObjLoader F) : Vec3 F :=
  Vec3.scale (Vec3.add self._minBounds self._maxBounds) 0.5

/-- The method getRadius, `glm::length(_maxBounds - _minBounds) * 0.5f`, in
exact arithmetic; `Rounded.getRadius` is the same expression with the rounding
of each operation. -/
def getRadius {S : Type} (lib : FloatLib F S) (self : ObjLoader F) : F :=
  Vec3.length lib (Vec3.sub self._maxBounds self._minBounds) * 0.5

/-- The method calculateBounds: fold min and max over the vertex positions. -/
def calculateBounds (self : ObjLoader F) (vertices : List (Vertex F)) : ObjLoader F :=
  vertices.foldl
    (fun s v =>
      { s with
        _minBounds := Vec3.min s._minBounds v.position
        _maxBounds := Vec3.max s._maxBounds v.position })
    self

/-- Whether a character is one of the two separators of `find_last_of`. -/
def isSeparator (c : Char) : Bool := c == '/' || c == Char.ofNat 92

/-- The base path computed by load: the file path up to and including its last
separator, empty when it has none. -/
def basePathOf (filepath : String) : String :=
  String.mk ((filepath.toList.reverse.dropWhile (fun c => !isSeparator c)).reverse)

/-- The texture path tried for a material: base path, then the material's
path, with every backslash replaced by a slash. -/
def texturePath (basePath : String) (relative : String) : String :=
  (basePath ++ relative).map (fun c => if c == Char.ofNat 92 then '/' else c)

/-- The body of the loop of loadTextures for one material. -/
def loadTexture (fs : FileSystem F) (basePath : String) (mat : ObjMaterial F)
    (gl : GLContext F) : ObjMaterial F × GLContext F :=
  if mat.hasTexture && !mat.diffuseTexturePath.isEmpty then
    match fs.loadImage (texturePath basePath mat.diffuseTexturePath) with
    | some (w, h) =>
      let r := gl.newTexture w h PixelFormat.image
      ({ mat with diffuseTexture := some r.1 }, r.2.resetTexture mat.diffuseTexture)
    | none => ({ mat with hasTexture := false }, gl)
  else (mat, gl)

/-- The method loadTextures, over the material list in order. -/
def loadTextures (fs : FileSystem F) (basePath : String) :
    List (ObjMaterial F) → GLContext F → List (ObjMaterial F) × GLContext F
  | [], gl => ([], gl)
  | mat :: rest, gl =>
    let r := loadTexture fs basePath mat gl
    let rs := loadTextures fs basePath rest r.2
    (r.1 :: rs.1, rs.2)

/-- The material built from one parsed material (first loop of load). -/
def convertMaterial (mat : TinyMaterial F) : ObjMaterial F :=
  let objMat : ObjMaterial F :=
    { (ObjMaterial.init : ObjMaterial F) with
      name := mat.name
      diffuseColor := mat.diffuse
      specularColor := mat.specular
      shininess := mat.shininess }
  if !mat.diffuse_texname.isEmpty then
    { objMat with diffuseTexturePath := mat.diffuse_texname, hasTexture := true }
  else objMat

/-- The default material added when the file defines none. -/
def defaultMaterial : ObjMaterial F :=
  { (ObjMaterial.init : ObjMaterial F) with name := "default", diffuseColor := Vec3.splat 0.8 }

/-- The statement `materialFaces[matId].push_back(f)`. The standard leaves the
iteration order of `std::unordered_map` unspecified; here the keys are kept,
and later visited, in the order of their first insertion. -/
def pushFace : List (Int × List Nat) → Int → Nat → List (Int × List Nat)
  | [], k, f => [(k, [f])]
  | (k0, fs) :: rest, k, f =>
    if k0 = k then (k0, fs ++ [f]) :: rest else (k0, fs) :: pushFace rest k f

/-- Group the faces of a shape by material: ids below zero become 0. The
faces are the indices of `num_face_vertices`. -/
def groupFaces (m : TinyMesh) : List (Int × List Nat) :=
  (List.range m.num_face_vertices.length).foldl
    (fun acc f =>
      let matId := m.material_ids.getD f 0
      let matId := if matId < 0 then 0 else matId
      pushFace acc matId f)
    []

/-- Element `i` of a float array addressed by a signed index. -/
def elemAt (xs : List F) (i : Int) : F := if i < 0 then 0 else xs.getD i.toNat 0

/-- The vertex built for one index triple. -/
def makeVertex (attrib : TinyAttrib F) (idx : TinyIndex) : Vertex F :=
  { position :=
      ⟨elemAt attrib.vertices (3 * idx.vertex_index + 0),
       elemAt attrib.vertices (3 * idx.vertex_index + 1),
       elemAt attrib.vertices (3 * idx.vertex_index + 2)⟩
    normal :=
      if 0 ≤ idx.normal_index ∧ 3 * idx.normal_index + 2 < (attrib.normals.length : Int) then
        ⟨elemAt attrib.normals (3 * idx.normal_index + 0),
         elemAt attrib.normals (3 * idx.normal_index + 1),
         elemAt attrib.normals (3 * idx.normal_index + 2)⟩
      else ⟨0, 1, 0⟩
    uv0 :=
      if 0 ≤ idx.texcoord_index ∧
          2 * idx.texcoord_index + 1 < (attrib.texcoords.length : Int) then
        ⟨elemAt attrib.texcoords (2 * idx.texcoord_index + 0),
         1 - elemAt attrib.texcoords (2 * idx.texcoord_index + 1)⟩
      else ⟨0, 0⟩
    tangent := ⟨1, 0, 0, 1⟩
    uv1 := ⟨0, 0⟩
    color := ⟨1, 1, 1, 1⟩ }

/-- The vertices of face `f` of a shape, in order. -/
def faceVertices (attrib : TinyAttrib F) (m : TinyMesh) (f : Nat) : List (Vertex F) :=
  let indexOffset := (m.num_face_vertices.take f).sum
  let fv := m.num_face_vertices.getD f 0
  (List.range fv).map
    (fun v => makeVertex attrib (m.indices.getD (indexOffset + v) ⟨0, -1, -1⟩))

/-- The body of the loop over material groups: build the vertices of the
group and, when there are any, extend the bounds and append a mesh. -/
def addGroup (attrib : TinyAttrib F) (m : TinyMesh) (self : ObjLoader F)
    (group : Int × List Nat) : ObjLoader F :=
  let matId := group.1
  let vertices := group.2.flatMap (faceVertices attrib m)
  let indices := List.range vertices.length
  if vertices.isEmpty then self
  else
    let self := self.calculateBounds vertices
    let objMesh : ObjMesh F :=
      { mesh := some ⟨vertices, indices⟩
        materialIndex := matId
        materialName :=
          if 0 ≤ matId ∧ matId < (self._materials.length : Int) then
            match self._materials.get? matId.toNat with
            | some mat => mat.name
            | none => ""
          else "" }
    { self with _meshes := self._meshes ++ [objMesh] }

/-- The body of the loop over shapes. -/
def addShape (attrib : TinyAttrib F) (self : ObjLoader F) (shape : TinyShape) : ObjLoader F :=
  (groupFaces shape.mesh).foldl (addGroup attrib shape.mesh) self

/-- The statement `_materials.clear()`: the textures owned by the old
materials are destroyed. -/
def clearMaterials (mats : List (ObjMaterial F)) (gl : GLContext F) : GLContext F :=
  mats.foldl (fun g mat => g.resetTexture mat.diffuseTexture) gl

/-- The method load. Returns the value returned, the loader and the context
afterwards. -/
def load (fs : FileSystem F) (self : ObjLoader F) (filepath : String) (gl : GLContext F) :
    Bool × ObjLoader F × GLContext F :=
  match fs.parseObj filepath with
  | none => (false, self, gl)
  | some parsed =>
    let basePath := basePathOf filepath
    let gl := clearMaterials self._materials gl
    let mats := parsed.materials.map convertMaterial
    let mats := if mats.isEmpty then [defaultMaterial] else mats
    let r := loadTextures fs basePath mats gl
    let self := { self with _basePath := basePath, _materials := r.1, _meshes := [] }
    (true, parsed.shapes.foldl (addShape parsed.attrib) self, r.2)

end ObjLoader

/-! ## The application (rsm_main.cpp) -/

/-- The constant RSM_SIZE. -/
def RSM_SIZE : Int := 2048

/-- The constant MAX_VPL_NUM. -/
def MAX_VPL_NUM : Nat := 512

/-- The members of RSMApp. A `std::unique_ptr` member is an `Option`, `none`
being the null pointer; `gl` is the OpenGL context the application issues its
calls to. -/
structure RSMApp (F : Type) (S : Type) where
  _currentWidth : Int
  _currentHeight : Int
  _gbufferProgram : Option ProgramName
  _rsmBufferProgram : Option ProgramName
  _shadingProgram : Option ProgramName
  _displayProgram : Option ProgramName
  _gbufferAlbedo : Option Texture2D
  _gbufferNormal : Option Texture2D
  _gbufferPosition : Option Texture2D
  _gbufferDepth : Option Texture2D
  _gbufferFBO : Option Framebuffer
  _rsmFlux : Option Texture2D
  _rsmNormal : Option Texture2D
  _rsmPosition : Option Texture2D
  _rsmDepth : Option Texture2D
  _rsmFBO : Option Framebuffer
  _outputTexture : Option Texture2D
  _outputDepth : Option Texture2D
  _outputFBO : Option Framebuffer
  _screenQuad : Option (Mesh F)
  _scene : Option (ObjLoader F)
  _vplSamples : List (Vec4 F)
  _cameraYaw : F
  _cameraPitch : F
  _cameraDistance : F
  _cameraTarget : Vec3 F
  _lightDir : Vec3 F
  _lightColor : Vec3 F
  _lightYaw : F
  _lightPitch : F
  _enableRSM : Bool
  _vplNum : Int
  _maxSampleRadius : F
  _indirectStrength : F
  _displayMode : Int
  _shadowMapTexture : Option Texture2D
  _shadowMapFBO : Option Framebuffer
  _width : Int
  _height : Int
  gl : GLContext F

/-- What the outside world supplies to `init`: the framebuffer size reported
by `glfwGetFramebufferSize`, the files, the directory `Data::data_path()`, and
the outcome of compiling the four shader programs (`none` when
`Program::create_from_files` throws, otherwise the uniforms each program has a
location for). -/
structure Env (F : Type) where
  framebufferSize : Int × Int
  fs : FileSystem F
  dataPath : String
  shaders : Option (ProgramName → Uniform → Bool)

/-- What the user did in the UI during one frame: for each widget of drawUI,
the value it writes to its variable, `none` when the widget leaves the variable
alone. -/
structure UIInput (F : Type) where
  lightYaw : Option F
  lightPitch : Option F
  lightColor : Option (Vec3 F)
  cameraYaw : Option F
  cameraPitch : Option F
  cameraDistance : Option F
  cameraTarget : Option (Vec3 F)
  enableRSM : Option Bool
  vplNum : Option Int
  maxSampleRadius : Option F
  indirectStrength : Option F
  displayMode : Option Int

namespace RSMApp

variable {F : Type} [LinearOrderedField F] {S : Type}

/-- The context before any call. -/
def freshContext : GLContext F :=
  { nextId := 1
    events := []
    boundFramebuffer := 0
    viewport := (0, 0)
    clearColor := ⟨0, 0, 0, 0⟩
    depthTest := false
    currentProgram := none
    activeUnit := 0
    units := fun _ => 0
    hasLocation := fun _ _ => false
    uniforms := fun _ _ => none }

/-- The object after the constructor (default member initialisers). -/
def new (lib : FloatLib F S) : RSMApp F S :=
  { _currentWidth := 1024
    _currentHeight := 768
    _gbufferProgram := none
    _rsmBufferProgram := none
    _shadingProgram := none
    _displayProgram := none
    _gbufferAlbedo := none
    _gbufferNormal := none
    _gbufferPosition := none
    _gbufferDepth := none
    _gbufferFBO := none
    _rsmFlux := none
    _rsmNormal := none
    _rsmPosition := none
    _rsmDepth := none
    _rsmFBO := none
    _outputTexture := none
    _outputDepth := none
    _outputFBO := none
    _screenQuad := none
    _scene := none
    _vplSamples := []
    _cameraYaw := 180
    _cameraPitch := 0
    _cameraDistance := 1
    _cameraTarget := ⟨0, 100, 0⟩
    _lightDir := Vec3.normalize lib ⟨-1, -1, -1⟩
    _lightColor := ⟨1, 0.95, 0.9⟩
    _lightYaw := 45
    _lightPitch := 45
    _enableRSM := true
    _vplNum := 64
    _maxSampleRadius := 25
    _indirectStrength := 5
    _displayMode := 0
    _shadowMapTexture := none
    _shadowMapFBO := none
    _width := 1024
    _height := 768
    gl := freshContext }

/-- The method loadScene. A failed load is reported and otherwise ignored. -/
def loadScene (env : Env F) (self : RSMApp F S) : RSMApp F S :=
  let modelPath := env.dataPath ++ "/../Model/sponza/sponza.obj"
  let r := ObjLoader.load env.fs ObjLoader.init modelPath self.gl
  { self with
    _scene := some r.2.1
    gl := r.2.2
    _cameraTarget := ⟨0.8, -0.1, 3.3⟩
    _cameraDistance := 1.5
    _cameraYaw := 210
    _cameraPitch := 10 }

/-- The method createShaders; `none` when a program fails to build (the
exception leaves init). -/
def createShaders (env : Env F) (self : RSMApp F S) : Option (RSMApp F S) :=
  match env.shaders with
  | none => none
  | some locations =>
    some { self with
      _gbufferProgram := some ProgramName.gbuffer
      _rsmBufferProgram := some ProgramName.rsmBuffer
      _shadingProgram := some ProgramName.shading
      _displayProgram := some ProgramName.display
      gl := { self.gl with hasLocation := locations } }

/-- The method createFramebuffers. -/
def createFramebuffers (self : RSMApp F S) : RSMApp F S :=
  let a := self.gl.newTexture self._width self._height PixelFormat.RGB16F
  let n := a.2.newTexture self._width self._height PixelFormat.RGB16F
  let p := n.2.newTexture self._width self._height PixelFormat.RGB32F
  let d := p.2.newTexture self._width self._height PixelFormat.DEPTH24_STENCIL8
  let g := d.2.newFramebuffer [a.1, n.1, p.1] d.1
  let rf := g.2.newTexture RSM_SIZE RSM_SIZE PixelFormat.RGB16F
  let rn := rf.2.newTexture RSM_SIZE RSM_SIZE PixelFormat.RGB16F
  let rp := rn.2.newTexture RSM_SIZE RSM_SIZE PixelFormat.RGB32F
  let rd := rp.2.newTexture RSM_SIZE RSM_SIZE PixelFormat.DEPTH24_STENCIL8
  let r := rd.2.newFramebuffer [rf.1, rn.1, rp.1] rd.1
  let ot := r.2.newTexture self._width self._height PixelFormat.RGBA16F
  let od := ot.2.newTexture self._width self._height PixelFormat.DEPTH24_STENCIL8
  let o := od.2.newFramebuffer [ot.1] od.1
  { self with
    _gbufferAlbedo := some a.1
    _gbufferNormal := some n.1
    _gbufferPosition := some p.1
    _gbufferDepth := some d.1
    _gbufferFBO := some g.1
    _rsmFlux := some rf.1
    _rsmNormal := some rn.1
    _rsmPosition := some rp.1
    _rsmDepth := some rd.1
    _rsmFBO := some r.1
    _outputTexture := some ot.1
    _outputDepth := some od.1
    _outputFBO := some o.1
    gl := o.2 }

/-- One vertex of the full-screen triangle. -/
def quadVertex (px py u v : F) : Vertex F :=
  { position := ⟨px, py, 0⟩
    normal := ⟨0, 0, 1⟩
    tangent := ⟨1, 0, 0, 1⟩
    uv0 := ⟨u, v⟩
    uv1 := ⟨0, 0⟩
    color := ⟨1, 1, 1, 1⟩ }

/-- The method createScreenQuad. -/
def createScreenQuad (self : RSMApp F S) : RSMApp F S :=
  { self with
    _screenQuad :=
      some ⟨[quadVertex (-1) (-1) 0 0, quadVertex 3 (-1) 2 0, quadVertex (-1) 3 0 2],
        [0, 1, 2]⟩ }

/-- The value assigned to `_vplSamples[i]` for the draws `xi1`, `xi2`. -/
def vplSample (lib : FloatLib F S) (xi1 xi2 : F) : Vec4 F :=
  let angle := 2.0 * 3.14159265 * xi2
  ⟨xi1 * lib.sin angle, xi1 * lib.cos angle, xi1 * xi1, 0⟩

/-- The loop of generateVPLSamples with `n` iterations left, at index `i`,
generator `rng`. -/
def vplLoop (lib : FloatLib F S) : Nat → Nat → S → List (Vec4 F) → List (Vec4 F)
  | 0, _, _, samples => samples
  | n + 1, i, rng, samples =>
    let d1 := lib.uniform01 rng
    let d2 := lib.uniform01 d1.2
    vplLoop lib n (i + 1) d2.2 (samples.set i (vplSample lib d1.1 d2.1))

/-- The call `v.resize(n)` on a vector of vec4; entries that are added are
zero. -/
def resize (v : List (Vec4 F)) (n : Nat) : List (Vec4 F) :=
  v.take n ++ List.replicate (n - v.length) ⟨0, 0, 0, 0⟩

/-- The method generateVPLSamples. -/
def generateVPLSamples (lib : FloatLib F S) (self : RSMApp F S) : RSMApp F S :=
  { self with
    _vplSamples := vplLoop lib MAX_VPL_NUM 0 (lib.seed 42) (resize self._vplSamples MAX_VPL_NUM) }

/-- The method init; `none` when an exception leaves it. -/
def init (lib : FloatLib F S) (env : Env F) (self : RSMApp F S) : Option (RSMApp F S) := do
  let self := { self with
    _currentWidth := env.framebufferSize.1
    _currentHeight := env.framebufferSize.2
    _width := env.framebufferSize.1
    _height := env.framebufferSize.2 }
  let self := loadScene env self
  let self ← createShaders env self
  let self := createFramebuffers self
  let self := createScreenQuad self
  pure (generateVPLSamples lib self)

/-- The light direction computed from yaw and pitch (in degrees), before
normalisation. -/
def lightDirRaw (lib : FloatLib F S) (yaw pitch : F) : Vec3 F :=
  let yawRad := radians yaw
  let pitchRad := radians pitch
  ⟨lib.sin yawRad * lib.sin pitchRad, -lib.cos pitchRad, lib.cos yawRad * lib.sin pitchRad⟩

/-- The method getLightViewProjection (not called by update, which repeats
its body): updates `_lightDir` and returns `lightProj * lightView`; `none`
when the scene pointer is null. -/
def getLightViewProjection (lib : FloatLib F S) (self : RSMApp F S) :
    Option (Mat4 F × RSMApp F S) := do
  let self := { self with
    _lightDir := Vec3.normalize lib (lightDirRaw lib self._lightYaw self._lightPitch) }
  let scene ← self._scene
  let center := scene.getCenter
  let radius := scene.getRadius lib * 1.5
  let lightPos := Vec3.sub center (Vec3.scale self._lightDir radius)
  let lightView := Mat4.lookAt lightPos center ⟨0, 1, 0⟩
  let lightProj := Mat4.ortho (-radius) radius (-radius) radius 0.1 (radius * 3.0)
  pure (Mat4.mul lightProj lightView, self)

/-- The body of the loop of gbufferPass for batch `i`; `none` when the mesh
pointer of the batch is null. -/
def gbufferBatch (prog : ProgramName) (scene : ObjLoader F) (gl : GLContext F) (i : Nat)
    (mesh : ObjMesh F) : Option (GLContext F) :=
  let matIdx := mesh.materialIndex
  let gl :=
    if 0 ≤ matIdx ∧ matIdx < (scene.getMaterials.length : Int) then
      match scene.getMaterials.get? matIdx.toNat with
      | some mat =>
        let gl := gl.setUniform prog Uniform.uDiffuseColor (UValue.vec3 mat.diffuseColor)
        let gl := gl.setUniformBool prog Uniform.uHasTexture mat.hasTexture
        match mat.hasTexture, mat.diffuseTexture with
        | true, some t =>
          ((gl.activeTexture 0).bindTexture t.id).setUniform prog Uniform.uDiffuseTexture
            (UValue.int 0)
        | _, _ => gl
      | none => gl
    else gl
  match mesh.mesh with
  | some _ => some (gl.draw (MeshRef.batch i))
  | none => none

/-- The loop of gbufferPass over the batches from index `i` on. -/
def gbufferBatches (prog : ProgramName) (scene : ObjLoader F) :
    Nat → List (ObjMesh F) → GLContext F → Option (GLContext F)
  | _, [], gl => some gl
  | i, mesh :: rest, gl =>
    match gbufferBatch prog scene gl i mesh with
    | some gl1 => gbufferBatches prog scene (i + 1) rest gl1
    | none => none

/-- The method gbufferPass; `none` when it dereferences a null pointer. -/
def gbufferPass (view proj : Mat4 F) (self : RSMApp F S) : Option (RSMApp F S) := do
  let fbo ← self._gbufferFBO
  let gl := self.gl.bindFramebuffer fbo.id
  let gl := gl.setViewport self._width self._height
  let gl := gl.setClearColor ⟨0, 0, 0, 1⟩
  let gl := gl.clear true
  let gl := gl.setDepthTest true
  let prog ← self._gbufferProgram
  let gl := gl.useProgram prog
  let gl := gl.setUniform prog Uniform.uModel (UValue.mat4 Mat4.identity)
  let gl := gl.setUniform prog Uniform.uView (UValue.mat4 view)
  let gl := gl.setUniform prog Uniform.uProjection (UValue.mat4 proj)
  let scene ← self._scene
  let gl ← gbufferBatches prog scene 0 scene.getMeshes gl
  let gl := gl.bindFramebuffer 0
  pure { self with gl := gl }

/-- The body of the loop of rsmBufferPass for batch `i`. -/
def rsmBatch (prog : ProgramName) (scene : ObjLoader F) (gl : GLContext F) (i : Nat)
    (mesh : ObjMesh F) : Option (GLContext F) :=
  let matIdx := mesh.materialIndex
  let gl :=
    if 0 ≤ matIdx ∧ matIdx < (scene.getMaterials.length : Int) then
      match scene.getMaterials.get? matIdx.toNat with
      | some mat =>
        let gl := gl.setUniform prog Uniform.uDiffuseColor (UValue.vec3 mat.diffuseColor)
        gl.setUniformBool prog Uniform.uHasTexture mat.hasTexture
      | none => gl
    else gl
  match mesh.mesh with
  | some _ => some (gl.draw (MeshRef.batch i))
  | none => none

/-- The loop of rsmBufferPass over the batches from index `i` on. -/
def rsmBatches (prog : ProgramName) (scene : ObjLoader F) :
    Nat → List (ObjMesh F) → GLContext F → Option (GLContext F)
  | _, [], gl => some gl
  | i, mesh :: rest, gl =>
    match rsmBatch prog scene gl i mesh with
    | some gl1 => rsmBatches prog scene (i + 1) rest gl1
    | none => none

/-- The method rsmBufferPass. -/
def rsmBufferPass (lightview lightVP : Mat4 F) (self : RSMApp F S) : Option (RSMApp F S) := do
  let fbo ← self._rsmFBO
  let gl := self.gl.bindFramebuffer fbo.id
  let gl := gl.setViewport RSM_SIZE RSM_SIZE
  let gl := gl.setClearColor ⟨0, 0, 0, 1⟩
  let gl := gl.clear true
  let gl := gl.setDepthTest true
  let prog ← self._rsmBufferProgram
  let gl := gl.useProgram prog
  let gl := gl.setUniform prog Uniform.uModel (UValue.mat4 Mat4.identity)
  let gl := gl.setUniform prog Uniform.uView (UValue.mat4 lightview)
  let gl := gl.setUniform prog Uniform.uLightVP (UValue.mat4 lightVP)
  let gl := gl.setUniform prog Uniform.uLightColor (UValue.vec3 self._lightColor)
  let gl := gl.setUniform prog Uniform.uLightDirViewSpace (UValue.dir lightview self._lightDir)
  let scene ← self._scene
  let gl ← rsmBatches prog scene 0 scene.getMeshes gl
  let gl := gl.bindFramebuffer 0
  pure { self with gl := gl }

/-- The three statements of shadingPass that bind texture `t` to `unit` and
point the sampler uniform `u` at it. -/
def bindSampler (gl : GLContext F) (prog : ProgramName) (unit : Nat) (t : Texture2D)
    (u : Uniform) : GLContext F :=
  ((gl.activeTexture unit).bindTexture t.id).setUniform prog u (UValue.int unit)

/-- The method shadingPass. -/
def shadingPass (view lightVP : Mat4 F) (self : RSMApp F S) : Option (RSMApp F S) := do
  let fbo ← self._outputFBO
  let gl := self.gl.bindFramebuffer fbo.id
  let gl := gl.setViewport self._width self._height
  let gl := gl.clear false
  let gl := gl.setDepthTest false
  let prog ← self._shadingProgram
  let gl := gl.useProgram prog
  let albedo ← self._gbufferAlbedo
  let gl := bindSampler gl prog 0 albedo Uniform.uAlbedoTexture
  let normal ← self._gbufferNormal
  let gl := bindSampler gl prog 1 normal Uniform.uNormalTexture
  let position ← self._gbufferPosition
  let gl := bindSampler gl prog 2 position Uniform.uPositionTexture
  let flux ← self._rsmFlux
  let gl := bindSampler gl prog 3 flux Uniform.uRSMFluxTexture
  let rsmNormal ← self._rsmNormal
  let gl := bindSampler gl prog 4 rsmNormal Uniform.uRSMNormalTexture
  let rsmPosition ← self._rsmPosition
  let gl := bindSampler gl prog 5 rsmPosition Uniform.uRSMPositionTexture
  let rsmDepth ← self._rsmDepth
  let gl := bindSampler gl prog 6 rsmDepth Uniform.uShadowMap
  let invView := Mat4.inverse view
  let gl := gl.setUniform prog Uniform.uInView (UValue.mat4 invView)
  let gl := gl.setUniform prog Uniform.uLightDirWorld (UValue.vec3 self._lightDir)
  let gl := gl.setUniform prog Uniform.uLightVPMulInvCameraView
    (UValue.mat4 (Mat4.mul lightVP invView))
  let gl := gl.setUniform prog Uniform.uLightDirViewSpace (UValue.dir view self._lightDir)
  let gl := gl.setUniform prog Uniform.uLightColor (UValue.vec3 self._lightColor)
  let gl := gl.setUniform prog Uniform.uRSMResolution (UValue.int RSM_SIZE)
  let gl := gl.setUniform prog Uniform.uVPLNum (UValue.int self._vplNum)
  let gl := gl.setUniform prog Uniform.uMaxSampleRadius (UValue.float self._maxSampleRadius)
  let gl := gl.setUniform prog Uniform.uIndirectStrength (UValue.float self._indirectStrength)
  let gl := gl.setUniformBool prog Uniform.uEnableRSM self._enableRSM
  let gl := gl.setUniform prog Uniform.uVPLSamples
    (UValue.vec4Array (self._vplSamples.take MAX_VPL_NUM))
  let _ ← self._screenQuad
  let gl := gl.draw MeshRef.screenQuad
  let gl := gl.bindFramebuffer 0
  pure { self with gl := gl }

/-- The render target the switch of displayPass selects. -/
def displayTexture (self : RSMApp F S) : Option Texture2D :=
  match self._displayMode with
  | 0 => self._outputTexture
  | 1 => self._gbufferAlbedo
  | 2 => self._gbufferNormal
  | 3 => self._gbufferPosition
  | 4 => self._rsmFlux
  | 5 => self._rsmNormal
  | 6 => self._rsmPosition
  | _ => self._outputTexture

/-- The method displayPass. -/
def displayPass (self : RSMApp F S) : Option (RSMApp F S) := do
  let gl := self.gl.bindFramebuffer 0
  let gl := gl.setViewport self._width self._height
  let gl := gl.clear false
  let gl := gl.setDepthTest false
  let prog ← self._displayProgram
  let gl := gl.useProgram prog
  let gl := gl.activeTexture 0
  let t ← displayTexture self
  let gl := gl.bindTexture t.id
  let gl := gl.setUniform prog Uniform.uTexture (UValue.int 0)
  let gl := gl.setUniform prog Uniform.uDisplayMode (UValue.int self._displayMode)
  let _ ← self._screenQuad
  let gl := gl.draw MeshRef.screenQuad
  pure { self with gl := gl }

/-- The direction from the eye to the target used by getCameraView. -/
def cameraDir (lib : FloatLib F S) (yaw pitch : F) : Vec3 F :=
  let yawRad := radians yaw
  let pitchRad := radians pitch
  ⟨lib.sin yawRad * lib.cos pitchRad, lib.sin pitchRad, lib.cos yawRad * lib.cos pitchRad⟩

/-- The eye position used by getCameraView. -/
def cameraPos (lib : FloatLib F S) (self : RSMApp F S) : Vec3 F :=
  Vec3.sub self._cameraTarget
    (Vec3.scale (cameraDir lib self._cameraYaw self._cameraPitch) self._cameraDistance)

/-- The method getCameraView. -/
def getCameraView (lib : FloatLib F S) (self : RSMApp F S) : Mat4 F :=
  Mat4.lookAt (cameraPos lib self) self._cameraTarget ⟨0, 1, 0⟩

/-- The method drawUI: every widget that was operated writes its value. The
values are taken as given; no range is imposed on them here. -/
def drawUI (ui : UIInput F) (self : RSMApp F S) : RSMApp F S :=
  { self with
    _lightYaw := ui.lightYaw.getD self._lightYaw
    _lightPitch := ui.lightPitch.getD self._lightPitch
    _lightColor := ui.lightColor.getD self._lightColor
    _cameraYaw := ui.cameraYaw.getD self._cameraYaw
    _cameraPitch := ui.cameraPitch.getD self._cameraPitch
    _cameraDistance := ui.cameraDistance.getD self._cameraDistance
    _cameraTarget := ui.cameraTarget.getD self._cameraTarget
    _enableRSM := ui.enableRSM.getD self._enableRSM
    _vplNum := ui.vplNum.getD self._vplNum
    _maxSampleRadius := ui.maxSampleRadius.getD self._maxSampleRadius
    _indirectStrength := ui.indirectStrength.getD self._indirectStrength
    _displayMode := ui.displayMode.getD self._displayMode }

/-- The method recreateGBuffer. -/
def recreateGBuffer (self : RSMApp F S) : RSMApp F S :=
  let gl := self.gl.resetTexture self._gbufferAlbedo
  let gl := gl.resetTexture self._gbufferNormal
  let gl := gl.resetTexture self._gbufferPosition
  let gl := gl.resetTexture self._gbufferDepth
  let gl := gl.resetFramebuffer self._gbufferFBO
  let gl := gl.resetTexture self._outputTexture
  let gl := gl.resetTexture self._outputDepth
  let gl := gl.resetFramebuffer self._outputFBO
  let a := gl.newTexture self._currentWidth self._currentHeight PixelFormat.RGB16F
  let n := a.2.newTexture self._currentWidth self._currentHeight PixelFormat.RGB16F
  let p := n.2.newTexture self._currentWidth self._currentHeight PixelFormat.RGB32F
  let d := p.2.newTexture self._currentWidth self._currentHeight PixelFormat.DEPTH24_STENCIL8
  let g := d.2.newFramebuffer [a.1, n.1, p.1] d.1
  let ot := g.2.newTexture self._currentWidth self._currentHeight PixelFormat.RGBA16F
  let od := ot.2.newTexture self._currentWidth self._currentHeight PixelFormat.DEPTH24_STENCIL8
  let o := od.2.newFramebuffer [ot.1] od.1
  { self with
    _gbufferAlbedo := some a.1
    _gbufferNormal := some n.1
    _gbufferPosition := some p.1
    _gbufferDepth := some d.1
    _gbufferFBO := some g.1
    _outputTexture := some ot.1
    _outputDepth := some od.1
    _outputFBO := some o.1
    _width := self._currentWidth
    _height := self._currentHeight
    gl := o.2 }

/-- The resize step at the head of update: compare the observed framebuffer
size with the stored one and rebuild on a difference. -/
def resizeStep (size : Int × Int) (self : RSMApp F S) : RSMApp F S :=
  let newWidth := size.1
  let newHeight := size.2
  if newWidth ≠ self._currentWidth ∨ newHeight ≠ self._currentHeight then
    recreateGBuffer { self with _currentWidth := newWidth, _currentHeight := newHeight }
  else self

/-- The method update for one frame: `ui` is what drawUI does this frame,
`size` what `glfwGetFramebufferSize` reports. `none` when a null pointer is
dereferenced. -/
def update (lib : FloatLib F S) (ui : UIInput F) (size : Int × Int) (self : RSMApp F S) :
    Option (RSMApp F S) := do
  let self := drawUI ui self
  let self := resizeStep size self
  let aspect : F := (self._currentWidth : F) / (self._currentHeight : F)
  let view := getCameraView lib self
  let proj := Mat4.perspective (radians 60.0) aspect 1.0 10000.0
  let self := { self with
    _lightDir := Vec3.normalize lib (lightDirRaw lib self._lightYaw self._lightPitch) }
  let scene ← self._scene
  let center := scene.getCenter
  let radius := scene.getRadius lib * 1.5
  let lightPos := Vec3.sub center (Vec3.scale self._lightDir radius)
  let lightView := Mat4.lookAt lightPos center ⟨0, 1, 0⟩
  let lightProj := Mat4.ortho (-radius) radius (-radius) radius 0.1 (radius * 3.0)
  let lightVP := Mat4.mul lightProj lightView
  let self ← gbufferPass view proj self
  let self ← rsmBufferPass lightView lightVP self
  let self ← shadingPass view lightVP self
  displayPass self

/-- Run update over a sequence of frames, each with its UI input and observed
size. -/
def run (lib : FloatLib F S) : List (UIInput F × (Int × Int)) → RSMApp F S → Option (RSMApp F S)
  | [], self => some self
  | frame :: rest, self =>
    match update lib frame.1 frame.2 self with
    | some next => run lib rest next
    | none => none

/-- The six camera-resolution targets: G-buffer albedo, normal, position,
depth; output colour, output depth. -/
def cameraTargets (self : RSMApp F S) : List (Option Texture2D) :=
  [self._gbufferAlbedo, self._gbufferNormal, self._gbufferPosition, self._gbufferDepth,
    self._outputTexture, self._outputDepth]

/-- The two framebuffer groups built on the camera-resolution targets: the
G-buffer group and the output group. -/
def cameraGroups (self : RSMApp F S) : List (Option Framebuffer) :=
  [self._gbufferFBO, self._outputFBO]

/-- The four RSM targets: flux, normal, position, depth. -/
def rsmTargets (self : RSMApp F S) : List (Option Texture2D) :=
  [self._rsmFlux, self._rsmNormal, self._rsmPosition, self._rsmDepth]

end RSMApp

/-- Whether a logged call creates or destroys a texture or a framebuffer. -/
def GLEvent.isResource {F : Type} : GLEvent F → Bool
  | GLEvent.genTexture _ => true
  | GLEvent.deleteTexture _ => true
  | GLEvent.genFramebuffer _ => true
  | GLEvent.deleteFramebuffer _ => true
  | _ => false

/-- The creations and destructions in the log, in order. -/
def GLContext.resourceEvents {F : Type} (gl : GLContext F) : List (GLEvent F) :=
  gl.events.filter GLEvent.isResource

/-- The pointer holds a texture of the given width and height. -/
def hasSize (t : Option Texture2D) (w h : Int) : Prop :=
  ∃ tex, t = some tex ∧ tex.width = w ∧ tex.height = h

/-- The generator `s` after `k` further draws. -/
def RSMApp.advance {F : Type} {S : Type} (lib : FloatLib F S) (k : Nat) (s : S) : S :=
  Nat.iterate (fun t => (lib.uniform01 t).2) k s

/-- Draw number `k` (counting from 0) of the generator started in state `s`. -/
def RSMApp.drawFrom {F : Type} {S : Type} (lib : FloatLib F S) (s : S) (k : Nat) : F :=
  (lib.uniform01 (RSMApp.advance lib k s)).1

/-- Draw number `k` (counting from 0) of the stream of the generator seeded
with 42. -/
def RSMApp.draw {F : Type} {S : Type} (lib : FloatLib F S) (k : Nat) : F :=
  RSMApp.drawFrom lib (lib.seed 42) k

/-- The state with the display-mode selector set to `mode`. -/
def RSMApp.withDisplayMode {F : Type} {S : Type} (app : RSMApp F S) (mode : Int) :
    RSMApp F S :=
  { app with _displayMode := mode }

/-- The state with the VPL-count parameter set to `n`. -/
def RSMApp.withVplNum {F : Type} {S : Type} (app : RSMApp F S) (n : Int) : RSMApp F S :=
  { app with _vplNum := n }

/-- VPL count clamping as the specification words it, for one call of
shadingPass: the pass returns and the value of uVPLNum that its draw call sees
is an integer between 0 and MAX_VPL_NUM. -/
def RSMApp.VplCountClamped {F : Type} [LinearOrderedField F] {S : Type}
    (view lightVP : Mat4 F) (app : RSMApp F S) : Prop :=
  ∃ next fbo r, RSMApp.shadingPass view lightVP app = some next ∧
    next.gl.events = app.gl.events ++
      [GLEvent.bindFramebuffer fbo, GLEvent.clear true false, GLEvent.draw r,
        GLEvent.bindFramebuffer 0] ∧
    ∃ n : Int, r.uniforms Uniform.uVPLNum = some (UValue.int n) ∧ 0 ≤ n ∧ n ≤ MAX_VPL_NUM

/-- The material fallback as the specification words it, for the body of the
loop of gbufferPass on one batch: the batch is drawn and its draw call sees the
default material, diffuse gray (0.8, 0.8, 0.8) and no texture. -/
def RSMApp.MaterialFallback {F : Type} [LinearOrderedField F] (prog : ProgramName)
    (scene : ObjLoader F) (gl : GLContext F) (i : Nat) (mesh : ObjMesh F) : Prop :=
  ∃ gl1 r, RSMApp.gbufferBatch prog scene gl i mesh = some gl1 ∧
    gl1.events = gl.events ++ [GLEvent.draw r] ∧
    r.uniforms Uniform.uDiffuseColor = some (UValue.vec3 (Vec3.splat 0.8)) ∧
    r.uniforms Uniform.uHasTexture = some (UValue.int 0)

/-! ## Invariants used in the proofs -/

/-- Two contexts with the same id counter, the same uniform locations and the
same creations and destructions. -/
def SameResources {F : Type} (a b : GLContext F) : Prop :=
  b.nextId = a.nextId ∧ b.hasLocation = a.hasLocation ∧ b.resourceEvents = a.resourceEvents

/-- Every pointer a frame dereferences is non-null. -/
structure Ready {F : Type} {S : Type} (app : RSMApp F S) : Prop where
  gbufferProgram : app._gbufferProgram = some ProgramName.gbuffer
  rsmBufferProgram : app._rsmBufferProgram = some ProgramName.rsmBuffer
  shadingProgram : app._shadingProgram = some ProgramName.shading
  displayProgram : app._displayProgram = some ProgramName.display
  gbufferAlbedo : ∃ t, app._gbufferAlbedo = some t
  gbufferNormal : ∃ t, app._gbufferNormal = some t
  gbufferPosition : ∃ t, app._gbufferPosition = some t
  gbufferDepth : ∃ t, app._gbufferDepth = some t
  gbufferFBO : ∃ t, app._gbufferFBO = some t
  rsmFlux : ∃ t, app._rsmFlux = some t
  rsmNormal : ∃ t, app._rsmNormal = some t
  rsmPosition : ∃ t, app._rsmPosition = some t
  rsmDepth : ∃ t, app._rsmDepth = some t
  rsmFBO : ∃ t, app._rsmFBO = some t
  outputTexture : ∃ t, app._outputTexture = some t
  outputDepth : ∃ t, app._outputDepth = some t
  outputFBO : ∃ t, app._outputFBO = some t
  screenQuad : ∃ m, app._screenQuad = some m
  scene : ∃ sc, app._scene = some sc ∧ ∀ m ∈ sc._meshes, ∃ k, m.mesh = some k

/-- The state that update returns: the state after the UI and the resize
step, with the light direction recomputed and the context `gl1`. -/
def afterFrame {F : Type} [LinearOrderedField F] {S : Type} (lib : FloatLib F S) (ui : UIInput F) (size : Int × Int) (self : RSMApp F S)
    (gl1 : GLContext F) : RSMApp F S :=
  { RSMApp.resizeStep size (RSMApp.drawUI ui self) with
    _lightDir := Vec3.normalize lib (RSMApp.lightDirRaw lib
      (RSMApp.resizeStep size (RSMApp.drawUI ui self))._lightYaw
      (RSMApp.resizeStep size (RSMApp.drawUI ui self))._lightPitch)
    gl := gl1 }

/-- The six camera-resolution targets have the stored size. -/
def Sized {F : Type} {S : Type} (app : RSMApp F S) : Prop :=
  ∀ t ∈ RSMApp.cameraTargets app, hasSize t app._currentWidth app._currentHeight

/-- The states the application can be in between frames: init succeeded and
some finite sequence of frames was processed. -/
def RSMApp.Reachable {F : Type} [LinearOrderedField F] {S : Type} (lib : FloatLib F S)
    (app : RSMApp F S) : Prop :=
  ∃ (env : Env F) (frames : List (UIInput F × (Int × Int))),
    (RSMApp.init lib env (RSMApp.new lib)).bind (RSMApp.run lib frames) = some app

/-- The state after the constructor and init in environment `env` (the
constructed object itself when init throws). -/
def RSMApp.start {F : Type} [LinearOrderedField F] {S : Type} (lib : FloatLib F S)
    (env : Env F) : RSMApp F S :=
  (RSMApp.init lib env (RSMApp.new lib)).getD (RSMApp.new lib)

/-- The zero-size guard as the specification words it, for state `app` and an
observed size: update returns, the six camera-resolution targets and the two
framebuffer groups built on them are the same objects as before, and the frame
logs no creation or destruction of a texture or framebuffer. -/
def RSMApp.ZeroSizeGuard {F : Type} [LinearOrderedField F] {S : Type} (lib : FloatLib F S)
    (ui : UIInput F) (app : RSMApp F S) (size : Int × Int) : Prop :=
  ∃ next, RSMApp.update lib ui size app = some next ∧
    RSMApp.cameraTargets next = RSMApp.cameraTargets app ∧
    next._gbufferFBO = app._gbufferFBO ∧ next._outputFBO = app._outputFBO ∧
    next.gl.resourceEvents = app.gl.resourceEvents

/-- The value `m` is the least element of the list `cs`. -/
def IsMinCoord {F : Type} [LinearOrderedField F] (m : F) (cs : List F) : Prop :=
  m ∈ cs ∧ ∀ c ∈ cs, m ≤ c

/-- The value `m` is the greatest element of the list `cs`. -/
def IsMaxCoord {F : Type} [LinearOrderedField F] (m : F) (cs : List F) : Prop :=
  m ∈ cs ∧ ∀ c ∈ cs, c ≤ m

/-- Every coordinate of the vector is a finite float: within
[-FLT_MAX, FLT_MAX]. -/
def InFloatRange {F : Type} [LinearOrderedField F] (p : Vec3 F) : Prop :=
  (-FLT_MAX ≤ p.x ∧ p.x ≤ FLT_MAX) ∧ (-FLT_MAX ≤ p.y ∧ p.y ≤ FLT_MAX) ∧
    (-FLT_MAX ≤ p.z ∧ p.z ≤ FLT_MAX)

/-! ## Concrete inputs used to instantiate the theorems -/

/-- A vertex at position `p` with the attributes the loader gives a vertex
that has neither normal nor texture coordinate. -/
def vertexAt {F : Type} [LinearOrderedField F] (p : Vec3 F) : Vertex F :=
  { position := p
    normal := ⟨0, 1, 0⟩
    tangent := ⟨1, 0, 0, 1⟩
    uv0 := ⟨0, 0⟩
    uv1 := ⟨0, 0⟩
    color := ⟨1, 1, 1, 1⟩ }

/-- The 8 corners of the cube with coordinates +0.5 and -0.5. -/
def cubeCorners {F : Type} [LinearOrderedField F] : List (Vertex F) :=
  [vertexAt ⟨-0.5, -0.5, -0.5⟩, vertexAt ⟨0.5, -0.5, -0.5⟩,
   vertexAt ⟨-0.5, 0.5, -0.5⟩, vertexAt ⟨0.5, 0.5, -0.5⟩,
   vertexAt ⟨-0.5, -0.5, 0.5⟩, vertexAt ⟨0.5, -0.5, 0.5⟩,
   vertexAt ⟨-0.5, 0.5, 0.5⟩, vertexAt ⟨0.5, 0.5, 0.5⟩]


/-- A library instance from given `sin`, `cos` and `sqrt`, with a generator
whose state is a counter and whose draws cycle through 0, 0.1, ..., 0.9. -/
def libOf {F : Type} [LinearOrderedField F] (sin cos sqrt : F → F) : FloatLib F Nat :=
  { sin := sin
    cos := cos
    sqrt := sqrt
    seed := fun n => n
    uniform01 := fun s => (((s % 10 : Nat) : F) / 10, s + 1) }

/-- A parsed scene: one triangle in the plane z = 0 that uses material 0, and
one material, red, that names the texture file `wall.png`. -/
def exampleParsed {F : Type} [LinearOrderedField F] : ParsedObj F :=
  { attrib :=
      { vertices := [0, 0, 0, 1, 0, 0, 0, 1, 0]
        normals := [0, 0, 1]
        texcoords := [] }
    shapes :=
      [{ mesh :=
          { indices := [⟨0, 0, -1⟩, ⟨1, 0, -1⟩, ⟨2, 0, -1⟩]
            num_face_vertices := [3]
            material_ids := [0] } }]
    materials :=
      [{ name := "wall"
         diffuse := ⟨1, 0, 0⟩
         specular := ⟨0, 0, 0⟩
         shininess := 1
         diffuse_texname := "wall.png" }] }

/-- Files: every OBJ path parses to `exampleParsed`, no image can be read. -/
def exampleFiles {F : Type} [LinearOrderedField F] : FileSystem F :=
  { parseObj := fun _ => some exampleParsed
    loadImage := fun _ => none }

/-- An environment with a 1024 x 768 framebuffer in which all shaders build and
every uniform has a location. -/
def exampleEnv {F : Type} [LinearOrderedField F] : Env F :=
  { framebufferSize := (1024, 768)
    fs := exampleFiles
    dataPath := "data"
    shaders := some (fun _ _ => true) }

/-- A triangle in the plane z = 0. -/
def triangle {F : Type} [LinearOrderedField F] : Mesh F :=
  ⟨[vertexAt ⟨0, 0, 0⟩, vertexAt ⟨1, 0, 0⟩, vertexAt ⟨0, 1, 0⟩], [0, 1, 2]⟩

/-- A red material without texture. -/
def redMaterial {F : Type} [LinearOrderedField F] : ObjMaterial F :=
  { (ObjMaterial.init : ObjMaterial F) with name := "red", diffuseColor := ⟨1, 0, 0⟩ }

/-- A batch that uses material 0. -/
def redBatch {F : Type} [LinearOrderedField F] : ObjMesh F :=
  { mesh := some triangle, materialName := "red", materialIndex := 0 }

/-- A batch whose material index, 5, is out of range for a one-material
scene. -/
def strayBatch {F : Type} [LinearOrderedField F] : ObjMesh F :=
  { mesh := some triangle, materialName := "", materialIndex := 5 }

/-- A scene with the one material `redMaterial` and the two batches
`redBatch`, `strayBatch`. -/
def strayScene {F : Type} [LinearOrderedField F] : ObjLoader F :=
  { (ObjLoader.init : ObjLoader F) with
    _materials := [redMaterial]
    _meshes := [redBatch, strayBatch] }

/-- A context in which every uniform has a location and the G-buffer program
is in use, as at the head of the loop of gbufferPass. -/
def gbufferContext {F : Type} [LinearOrderedField F] : GLContext F :=
  GLContext.useProgram
    { (RSMApp.freshContext : GLContext F) with hasLocation := fun _ _ => true }
    ProgramName.gbuffer

/-- The context after the loop body of gbufferPass has drawn `redBatch`. -/
def afterRedBatch {F : Type} [LinearOrderedField F] : GLContext F :=
  (RSMApp.gbufferBatch ProgramName.gbuffer strayScene gbufferContext 0 redBatch).getD
    gbufferContext

/-- A frame in which the user touches no widget. -/
def noInput {F : Type} : UIInput F :=
  { lightYaw := none
    lightPitch := none
    lightColor := none
    cameraYaw := none
    cameraPitch := none
    cameraDistance := none
    cameraTarget := none
    enableRSM := none
    vplNum := none
    maxSampleRadius := none
    indirectStrength := none
    displayMode := none }

/-! ## Render-target wiring -/

/-- The path loadScene hands to the loader. -/
def RSMApp.scenePath {F : Type} (env : Env F) : String :=
  env.dataPath ++ "/../Model/sponza/sponza.obj"

/-- The ids of the ten render-target textures: the six camera-resolution
targets, then the four RSM targets. -/
def RSMApp.targetIds {F : Type} {S : Type} (app : RSMApp F S) : List Nat :=
  (RSMApp.cameraTargets app ++ RSMApp.rsmTargets app).filterMap
    (fun t => t.map (fun x => x.id))

/-- The textures attached to a framebuffer group: the colour attachments in
order, then the depth/stencil attachment. -/
def attachments (fb : Option Framebuffer) : List Nat :=
  match fb with
  | some f => f.colors ++ [f.depth]
  | none => []

/-- The three framebuffer groups are built on the member textures, the RSM
targets are RSM_SIZE squared, the RSM group is an object other than the two
camera-resolution groups, the ten render targets are distinct objects created
before the next id, and every texture owned by a material of the scene was
created before every render target. -/
structure Wired {F : Type} {S : Type} (app : RSMApp F S) : Prop where
  gbuffer : ∃ a n p d g, app._gbufferAlbedo = some a ∧ app._gbufferNormal = some n ∧
    app._gbufferPosition = some p ∧ app._gbufferDepth = some d ∧ app._gbufferFBO = some g ∧
    g.colors = [a.id, n.id, p.id] ∧ g.depth = d.id
  rsm : ∃ a n p d g, app._rsmFlux = some a ∧ app._rsmNormal = some n ∧
    app._rsmPosition = some p ∧ app._rsmDepth = some d ∧ app._rsmFBO = some g ∧
    g.colors = [a.id, n.id, p.id] ∧ g.depth = d.id
  rsmSize : ∀ t ∈ RSMApp.rsmTargets app, hasSize t RSM_SIZE RSM_SIZE
  output : ∃ t d g, app._outputTexture = some t ∧ app._outputDepth = some d ∧
    app._outputFBO = some g ∧ g.colors = [t.id] ∧ g.depth = d.id
  groups : ∃ g r o, app._gbufferFBO = some g ∧ app._rsmFBO = some r ∧
    app._outputFBO = some o ∧ r.id ≠ g.id ∧ r.id ≠ o.id ∧ r.id < app.gl.nextId
  distinct : (RSMApp.targetIds app).Nodup
  below : ∀ i ∈ RSMApp.targetIds app, i < app.gl.nextId
  materials : ∀ sc, app._scene = some sc → ∀ m ∈ sc._materials, ∀ t,
    m.diffuseTexture = some t → ∀ i ∈ RSMApp.targetIds app, t.id < i

/-! ## The calls logged by one frame -/

/-- The draw calls `rs` are `n` draws of the scene batches `first`,
`first + 1`, ... in this order, each issued with program `prog` in use and
framebuffer `fb` bound. -/
def SceneDraws {F : Type} (prog : Option ProgramName) (fb first n : Nat)
    (rs : List (DrawRecord F)) : Prop :=
  rs.length = n ∧ ∀ k r, rs.get? k = some r →
    r.program = prog ∧ r.target = fb ∧ r.mesh = MeshRef.batch (first + k)

/-- The texture the loop body of gbufferPass binds to unit 0 for a batch: the
diffuse texture of the batch's material, when the material index is valid and
the material has a texture. -/
def RSMApp.boundTexture {F : Type} [LinearOrderedField F] (scene : ObjLoader F)
    (mesh : ObjMesh F) : Option Texture2D :=
  let matIdx := mesh.materialIndex
  if 0 ≤ matIdx ∧ matIdx < (scene.getMaterials.length : Int) then
    match scene.getMaterials.get? matIdx.toNat with
    | some mat =>
      match mat.hasTexture, mat.diffuseTexture with
      | true, some t => some t
      | _, _ => none
    | none => none
  else none
/-- The render targets shadingPass binds for sampling, in the order of their
texture units 0 to 6: G-buffer albedo, normal, position; RSM flux, normal,
position, depth. -/
def RSMApp.shadingReads {F : Type} {S : Type} (self : RSMApp F S) : List Nat :=
  [self._gbufferAlbedo, self._gbufferNormal, self._gbufferPosition, self._rsmFlux,
    self._rsmNormal, self._rsmPosition, self._rsmDepth].filterMap
    (fun t => t.map (fun x => x.id))

/-- The render target displayPass binds for sampling (unit 0). -/
def RSMApp.displayReads {F : Type} [LinearOrderedField F] {S : Type} (self : RSMApp F S) :
    List Nat :=
  (RSMApp.displayTexture self).toList.map (fun x => x.id)

/-- The textures gbufferPass binds for sampling: for each batch, the texture
its loop body binds, if any. -/
def RSMApp.gbufferReads {F : Type} [LinearOrderedField F] {S : Type} (self : RSMApp F S) :
    List Nat :=
  match self._scene with
  | some scene =>
    scene.getMeshes.filterMap (fun mesh => (RSMApp.boundTexture scene mesh).map (fun x => x.id))
  | none => []
/-- The calls gbufferPass logs in state `app`: bind the G-buffer framebuffer,
clear colour and depth, one draw per scene batch in order with the G-buffer
program (a batch whose loop body binds a texture sees it on unit 0), bind
framebuffer 0. -/
def RSMApp.GbufferLog {F : Type} [LinearOrderedField F] {S : Type} (app : RSMApp F S)
    (calls : List (GLEvent F)) : Prop :=
  ∃ (fb : Framebuffer) (sc : ObjLoader F) (rs : List (DrawRecord F)),
    app._gbufferFBO = some fb ∧ app._scene = some sc ∧
    calls = [GLEvent.bindFramebuffer fb.id, GLEvent.clear true true] ++ rs.map GLEvent.draw ++
      [GLEvent.bindFramebuffer 0] ∧
    SceneDraws (some ProgramName.gbuffer) fb.id 0 sc.getMeshes.length rs ∧
    ∀ k r mesh t, rs.get? k = some r → sc.getMeshes.get? k = some mesh →
      RSMApp.boundTexture sc mesh = some t → r.units 0 = t.id

/-- The calls rsmBufferPass logs in state `app`: bind the RSM framebuffer,
clear colour and depth, one draw per scene batch in order with the RSM
program, bind framebuffer 0. -/
def RSMApp.RsmLog {F : Type} [LinearOrderedField F] {S : Type} (app : RSMApp F S)
    (calls : List (GLEvent F)) : Prop :=
  ∃ (fb : Framebuffer) (sc : ObjLoader F) (rs : List (DrawRecord F)),
    app._rsmFBO = some fb ∧ app._scene = some sc ∧
    calls = [GLEvent.bindFramebuffer fb.id, GLEvent.clear true true] ++ rs.map GLEvent.draw ++
      [GLEvent.bindFramebuffer 0] ∧
    SceneDraws (some ProgramName.rsmBuffer) fb.id 0 sc.getMeshes.length rs

/-- The calls shadingPass logs in state `app`: bind the output framebuffer,
clear colour, one draw of the full-screen triangle with the shading program
that sees the render targets `shadingReads` on units 0 to 6, bind
framebuffer 0. -/
def RSMApp.ShadingLog {F : Type} [LinearOrderedField F] {S : Type} (app : RSMApp F S)
    (calls : List (GLEvent F)) : Prop :=
  ∃ (fb : Framebuffer) (r : DrawRecord F),
    app._outputFBO = some fb ∧
    calls = [GLEvent.bindFramebuffer fb.id, GLEvent.clear true false, GLEvent.draw r,
      GLEvent.bindFramebuffer 0] ∧
    r.target = fb.id ∧ r.program = some ProgramName.shading ∧ r.mesh = MeshRef.screenQuad ∧
    [r.units 0, r.units 1, r.units 2, r.units 3, r.units 4, r.units 5, r.units 6] =
      RSMApp.shadingReads app

/-- The calls displayPass logs in state `app`: bind framebuffer 0 (the
presentation surface), clear colour, one draw of the full-screen triangle with
the display program that sees the selected render target on unit 0. -/
def RSMApp.DisplayLog {F : Type} [LinearOrderedField F] {S : Type} (app : RSMApp F S)
    (calls : List (GLEvent F)) : Prop :=
  ∃ (tex : Texture2D) (r : DrawRecord F),
    RSMApp.displayTexture app = some tex ∧
    calls = [GLEvent.bindFramebuffer 0, GLEvent.clear true false, GLEvent.draw r] ∧
    r.target = 0 ∧ r.program = some ProgramName.display ∧ r.mesh = MeshRef.screenQuad ∧
    r.units 0 = tex.id

/-! ## Claim predicates and inputs for initialisation and frames -/

/-- The fatal initialisation error as the specification words it: when the
loader reports failure on the scene file, init does not complete. -/
def RSMApp.AbortsOnLoadFailure {F : Type} [LinearOrderedField F] {S : Type}
    (lib : FloatLib F S) (env : Env F) : Prop :=
  (ObjLoader.load env.fs ObjLoader.init (RSMApp.scenePath env)
      (RSMApp.freshContext : GLContext F)).1 = false →
    RSMApp.init lib env (RSMApp.new lib) = none

/-- An environment with a 1024 x 768 framebuffer in which no OBJ file can be
parsed, all shaders build and every uniform has a location. -/
def missingSceneEnv {F : Type} [LinearOrderedField F] : Env F :=
  { framebufferSize := (1024, 768)
    fs := { parseObj := fun _ => none, loadImage := fun _ => none }
    dataPath := "data"
    shaders := some (fun _ _ => true) }

/-- The accesses of the four passes of a frame run in state `app` (the state
after the resize step), in the order update runs them: for each pass, the
textures it binds for sampling and the textures attached to the framebuffer it
renders into. rsmBufferPass binds no texture; displayPass renders into
framebuffer 0, the presentation surface, to which no texture is attached. -/
def RSMApp.frameAccess {F : Type} [LinearOrderedField F] {S : Type} (app : RSMApp F S) :
    List (List Nat × List Nat) :=
  [(RSMApp.gbufferReads app, attachments app._gbufferFBO),
   ([], attachments app._rsmFBO),
   (RSMApp.shadingReads app, attachments app._outputFBO),
   (RSMApp.displayReads app, [])]

/-- No pass of the list reads a texture that it or a later pass of the list
writes. Each entry is (reads, writes). -/
def HazardFree : List (List Nat × List Nat) → Prop
  | [] => True
  | p :: rest => (∀ t ∈ p.1, t ∉ p.2 ∧ ∀ q ∈ rest, t ∉ q.2) ∧ HazardFree rest

/-- A framebuffer group whose attachments are the given colour targets and
depth/stencil target, all of one width and one height. -/
def GroupUniform (colors : List (Option Texture2D)) (depth : Option Texture2D)
    (fb : Option Framebuffer) : Prop :=
  ∃ (w h : Int) (f : Framebuffer) (d : Texture2D),
    fb = some f ∧ depth = some d ∧ f.depth = d.id ∧
    f.colors = colors.filterMap (fun t => t.map (fun x => x.id)) ∧
    d.width = w ∧ d.height = h ∧ ∀ c ∈ colors, hasSize c w h

/-- The state in which the four passes of a frame run: the state after
drawUI and the resize step of update. -/
def RSMApp.beforePasses {F : Type} [LinearOrderedField F] {S : Type} (ui : UIInput F)
    (size : Int × Int) (app : RSMApp F S) : RSMApp F S :=
  RSMApp.resizeStep size (RSMApp.drawUI ui app)

/-- A frame in which the user selects display mode 1, the G-buffer albedo, and
touches no other widget. -/
def albedoInput {F : Type} : UIInput F :=
  { (noInput : UIInput F) with displayMode := some 1 }

/-! ## The geometry of glm::lookAt and glm::ortho -/

/-- The cross product glm::cross. -/
def Vec3.cross {F : Type} [LinearOrderedField F] (a b : Vec3 F) : Vec3 F :=
  ⟨a.y * b.z - b.y * a.z, a.z * b.x - b.z * a.x, a.x * b.y - b.x * a.y⟩

/-- The view-space coordinates the matrix glm::lookAt(eye, center, up)
(right-handed) gives the point `p`: with f = normalize(center - eye),
s = normalize(cross(f, up)) and u = cross(s, f), the rows of the matrix are
s, u and -f, and its translation is (-dot(s, eye), -dot(u, eye), dot(f, eye)).
glm is a library the program links; this is its definition of lookAtRH. -/
def lookAtCoords {F : Type} [LinearOrderedField F] {S : Type} (lib : FloatLib F S)
    (eye center up p : Vec3 F) : Vec3 F :=
  let f := Vec3.normalize lib (Vec3.sub center eye)
  let s := Vec3.normalize lib (Vec3.cross f up)
  let u := Vec3.cross s f
  ⟨Vec3.dot s p - Vec3.dot s eye, Vec3.dot u p - Vec3.dot u eye,
    -(Vec3.dot f p) + Vec3.dot f eye⟩

/-- The view-space point `q` is inside the volume of
glm::ortho(left, right, bottom, top, zNear, zFar): its two lateral coordinates
are within [left, right] and [bottom, top], and its distance in front of the
eye, `-q.z`, is within [zNear, zFar]. -/
def insideOrtho {F : Type} [LinearOrderedField F] (left right bottom top zNear zFar : F)
    (q : Vec3 F) : Prop :=
  left ≤ q.x ∧ q.x ≤ right ∧ bottom ≤ q.y ∧ q.y ≤ top ∧ zNear ≤ -q.z ∧ -q.z ≤ zFar

/-- The world-space point `p` is inside the volume of the matrix `m`, for a
matrix of the form ortho(...) * lookAt(...). -/
def Mat4.encloses {F : Type} [LinearOrderedField F] {S : Type} (lib : FloatLib F S) :
    Mat4 F → Vec3 F → Prop
  | Mat4.mul (Mat4.ortho left right bottom top zNear zFar) (Mat4.lookAt eye center up), p =>
    insideOrtho left right bottom top zNear zFar (lookAtCoords lib eye center up p)
  | _, _ => False

/-- The light volume frames the scene, as the specification words it, for the
state `app`: the light view-projection is built, and every point within the
scene radius of the scene centre is inside its volume. -/
def RSMApp.LightVolumeFrames {F : Type} [LinearOrderedField F] {S : Type}
    (lib : FloatLib F S) (app : RSMApp F S) : Prop :=
  ∃ m next sc, RSMApp.getLightViewProjection lib app = some (m, next) ∧
    app._scene = some sc ∧
    ∀ p, Vec3.length lib (Vec3.sub p sc.getCenter) ≤ sc.getRadius lib →
      Mat4.encloses lib m p

/-- The state with the scene pointer set to the loader `sc`. -/
def RSMApp.withScene {F : Type} {S : Type} (app : RSMApp F S) (sc : ObjLoader F) :
    RSMApp F S :=
  { app with _scene := some sc }

/-- Two vertices 0.2 apart on the x axis. -/
def tinySegment {F : Type} [LinearOrderedField F] : List (Vertex F) :=
  [vertexAt ⟨0, 0, 0⟩, vertexAt ⟨0.2, 0, 0⟩]

/-- A loader whose bounds are those of `tinySegment`: centre (0.1, 0, 0),
radius 0.1. -/
def tinyScene {F : Type} [LinearOrderedField F] : ObjLoader F :=
  (ObjLoader.init : ObjLoader F).calculateBounds tinySegment

/-- A loader whose bounds are those of the 8 cube corners at +0.5 and -0.5:
centre (0, 0, 0), radius sqrt(3) / 2. -/
def cubeScene {F : Type} [LinearOrderedField F] : ObjLoader F :=
  (ObjLoader.init : ObjLoader F).calculateBounds cubeCorners

/-- The constructed application object with `cubeScene` as its scene; the
light yaw and pitch are the initial 45 degrees. -/
def cubeApp {F : Type} [LinearOrderedField F] {S : Type} (lib : FloatLib F S) : RSMApp F S :=
  (RSMApp.new lib).withScene cubeScene

/-- The constructed application object with `tinyScene` as its scene; the
light yaw and pitch are the initial 45 degrees. -/
def tinyApp {F : Type} [LinearOrderedField F] {S : Type} (lib : FloatLib F S) : RSMApp F S :=
  (RSMApp.new lib).withScene tinyScene

/-! ## The fragment stage of the Indirect Shading Pass -/

/-- Modelled from the spec: what the Indirect Shading Pass works from at one
output pixel (section 4.4). The surface albedo and normal come from the
G-buffer, `visible` is the outcome of the comparison against the RSM depth,
the enable flag, VPL count and indirect strength are the RSM parameters, and
for VPL sample `i` the functions give the flux read from the RSM, the form
factor between the shading point and the VPL, and the sample's radius-squared
weight. The fragment shader is not among the source files. -/
structure ShadingPixel (F : Type) where
  albedo : Vec3 F
  normal : Vec3 F
  visible : Bool
  lightColor : Vec3 F
  lightDir : Vec3 F
  enableRSM : Bool
  vplCount : Int
  indirectStrength : F
  flux : Nat → Vec3 F
  formFactor : Nat → F
  weight : Nat → F

/-- Modelled from the spec: the direct light of a pixel. When the pixel is
visible from the light it is albedo x light colour x
max(0, dot(normal, light direction)); otherwise it is zero. -/
def ShadingPixel.direct {F : Type} [LinearOrderedField F] (px : ShadingPixel F) : Vec3 F :=
  if px.visible then
    Vec3.scale
      ⟨px.albedo.x * px.lightColor.x, px.albedo.y * px.lightColor.y,
        px.albedo.z * px.lightColor.z⟩
      (Vec3.maxS 0 (Vec3.dot px.normal px.lightDir))
  else ⟨0, 0, 0⟩

/-- Modelled from the spec: the indirect-radiance accumulator after the first
`n` VPL samples: starting from zero, each sample in order adds
flux x form factor x radius-squared weight. -/
def ShadingPixel.gather {F : Type} [LinearOrderedField F] (px : ShadingPixel F) (n : Nat) :
    Vec3 F :=
  (List.range n).foldl
    (fun acc i => Vec3.add acc (Vec3.scale (px.flux i) (px.formFactor i * px.weight i)))
    ⟨0, 0, 0⟩

/-- Modelled from the spec: the indirect contribution of a pixel. It is zero
when RSM is disabled; otherwise it is the accumulator over the first
`VPL count` samples, scaled by the indirect strength. -/
def ShadingPixel.indirect {F : Type} [LinearOrderedField F] (px : ShadingPixel F) : Vec3 F :=
  if px.enableRSM then Vec3.scale (px.gather px.vplCount.toNat) px.indirectStrength
  else ⟨0, 0, 0⟩

/-- Modelled from the spec: the radiance the pass writes for the pixel, direct
light plus indirect contribution. -/
def ShadingPixel.shade {F : Type} [LinearOrderedField F] (px : ShadingPixel F) : Vec3 F :=
  Vec3.add px.direct px.indirect

/-- Modelled from the spec: the pixel inputs with the enable flag and the VPL
count taken from what a draw call of shadingPass sees in the uniforms
uEnableRSM (an integer, non-zero for true) and uVPLNum; a uniform that is not
set reads as false, respectively 0. -/
def ShadingPixel.withUniforms {F : Type} (px : ShadingPixel F) (r : DrawRecord F) :
    ShadingPixel F :=
  { px with
    enableRSM :=
      match r.uniforms Uniform.uEnableRSM with
      | some (UValue.int v) => decide (v ≠ 0)
      | _ => false
    vplCount :=
      match r.uniforms Uniform.uVPLNum with
      | some (UValue.int v) => v
      | _ => 0 }

/-- The state with the RSM enable flag set to `b`. -/
def RSMApp.withEnableRSM {F : Type} {S : Type} (app : RSMApp F S) (b : Bool) : RSMApp F S :=
  { app with _enableRSM := b }

/-- A pixel that the light reaches, with white albedo, lit head-on, and VPL
samples of unit flux, form factor and weight. -/
def examplePixel {F : Type} [LinearOrderedField F] : ShadingPixel F :=
  { albedo := ⟨1, 1, 1⟩
    normal := ⟨0, 1, 0⟩
    visible := true
    lightColor := ⟨1, 0.95, 0.9⟩
    lightDir := ⟨0, 1, 0⟩
    enableRSM := true
    vplCount := 64
    indirectStrength := 5
    flux := fun _ => ⟨1, 1, 1⟩
    formFactor := fun _ => 1
    weight := fun _ => 1 }
/-! ## Inputs for the loader's material assignment -/

/-- A parsed scene whose material file defines one material, "wall" (red, no
texture), and whose one triangle carries the material id -1, that is, no
material. -/
def untaggedParsed {F : Type} [LinearOrderedField F] : ParsedObj F :=
  { attrib :=
      { vertices := [0, 0, 0, 1, 0, 0, 0, 1, 0]
        normals := [0, 0, 1]
        texcoords := [] }
    shapes :=
      [{ mesh :=
          { indices := [⟨0, 0, -1⟩, ⟨1, 0, -1⟩, ⟨2, 0, -1⟩]
            num_face_vertices := [3]
            material_ids := [-1] } }]
    materials :=
      [{ name := "wall"
         diffuse := ⟨1, 0, 0⟩
         specular := ⟨0, 0, 0⟩
         shininess := 1
         diffuse_texname := "" }] }

/-- The same scene with a material file that defines no material. -/
def untaggedBare {F : Type} [LinearOrderedField F] : ParsedObj F :=
  { (untaggedParsed : ParsedObj F) with materials := [] }

/-- Files in which every OBJ path parses to `parsed` and no image can be
read. -/
def filesOf {F : Type} (parsed : ParsedObj F) : FileSystem F :=
  { parseObj := fun _ => some parsed
    loadImage := fun _ => none }

/-- The four passes of a frame in the order update runs them, on the state
`r.2` of the frame `app` with the light view-projection
`r.1 = lightProj * lightView` that getLightViewProjection returns:
rsmBufferPass is given `lightView` and `r.1`, shadingPass the camera view and
`r.1`. -/
def RSMApp.runPasses {F : Type} [LinearOrderedField F] {S : Type} (lib : FloatLib F S)
    (app : RSMApp F S) (r : Mat4 F × RSMApp F S) : Option (RSMApp F S) :=
  match r.1 with
  | Mat4.mul _ lightView =>
    (RSMApp.gbufferPass (RSMApp.getCameraView lib app)
      (Mat4.perspective (radians 60.0)
        ((app._currentWidth : F) / (app._currentHeight : F)) 1.0 10000.0)
      r.2).bind
      (fun s1 => (RSMApp.rsmBufferPass lightView r.1 s1).bind
        (fun s2 => (RSMApp.shadingPass (RSMApp.getCameraView lib app) r.1 s2).bind
          RSMApp.displayPass))
  | _ => none

/-! ## The cube mesh (main.cpp) -/

/-- One face block of create_cube_mesh. With `base` the number of vertices
pushed so far, it pushes the four corners `p0`, `p1`, `p2`, `p3` with the
face's normal and tangent, texture coordinates (0,0), (1,0), (1,1), (0,1),
second texture coordinate (0,0) and colour white, and appends the indices
base, base+1, base+2, base, base+2, base+3. -/
def pushCubeFace {F : Type} [LinearOrderedField F] (m : Mesh F) (normal : Vec3 F)
    (tangent : Vec4 F) (p0 p1 p2 p3 : Vec3 F) : Mesh F :=
  let base := m.vertices.length
  { vertices := m.vertices ++
      [⟨p0, normal, tangent, ⟨0, 0⟩, ⟨0, 0⟩, ⟨1, 1, 1, 1⟩⟩,
       ⟨p1, normal, tangent, ⟨1, 0⟩, ⟨0, 0⟩, ⟨1, 1, 1, 1⟩⟩,
       ⟨p2, normal, tangent, ⟨1, 1⟩, ⟨0, 0⟩, ⟨1, 1, 1, 1⟩⟩,
       ⟨p3, normal, tangent, ⟨0, 1⟩, ⟨0, 0⟩, ⟨1, 1, 1, 1⟩⟩]
    indices := m.indices ++ [base, base + 1, base + 2, base, base + 2, base + 3] }

/-- The function create_cube_mesh: the six face blocks in source order
(front z = +0.5, back z = -0.5, right x = +0.5, left x = -0.5, top y = +0.5,
bottom y = -0.5), and the mesh built from the two vectors. -/
def create_cube_mesh {F : Type} [LinearOrderedField F] : Mesh F :=
  let m : Mesh F := ⟨[], []⟩
  let m := pushCubeFace m ⟨0, 0, 1⟩ ⟨1, 0, 0, 1⟩
    ⟨-0.5, -0.5, 0.5⟩ ⟨0.5, -0.5, 0.5⟩ ⟨0.5, 0.5, 0.5⟩ ⟨-0.5, 0.5, 0.5⟩
  let m := pushCubeFace m ⟨0, 0, -1⟩ ⟨-1, 0, 0, 1⟩
    ⟨0.5, -0.5, -0.5⟩ ⟨-0.5, -0.5, -0.5⟩ ⟨-0.5, 0.5, -0.5⟩ ⟨0.5, 0.5, -0.5⟩
  let m := pushCubeFace m ⟨1, 0, 0⟩ ⟨0, 0, -1, 1⟩
    ⟨0.5, -0.5, 0.5⟩ ⟨0.5, -0.5, -0.5⟩ ⟨0.5, 0.5, -0.5⟩ ⟨0.5, 0.5, 0.5⟩
  let m := pushCubeFace m ⟨-1, 0, 0⟩ ⟨0, 0, 1, 1⟩
    ⟨-0.5, -0.5, -0.5⟩ ⟨-0.5, -0.5, 0.5⟩ ⟨-0.5, 0.5, 0.5⟩ ⟨-0.5, 0.5, -0.5⟩
  let m := pushCubeFace m ⟨0, 1, 0⟩ ⟨1, 0, 0, 1⟩
    ⟨-0.5, 0.5, 0.5⟩ ⟨0.5, 0.5, 0.5⟩ ⟨0.5, 0.5, -0.5⟩ ⟨-0.5, 0.5, -0.5⟩
  let m := pushCubeFace m ⟨0, -1, 0⟩ ⟨1, 0, 0, 1⟩
    ⟨-0.5, -0.5, -0.5⟩ ⟨0.5, -0.5, -0.5⟩ ⟨0.5, -0.5, 0.5⟩ ⟨-0.5, -0.5, 0.5⟩
  m

/-- The vertex that entry `j` of the index array refers to. -/
def Mesh.corner {F : Type} (m : Mesh F) (j : Nat) : Option (Vertex F) :=
  (m.indices.get? j).bind m.vertices.get?

/-- Triangle `k` of the mesh (index entries 3k, 3k+1, 3k+2) is wound
counter-clockwise seen from outside: its three vertices store one normal, and
the cross product of its two edges from the first corner is a positive
multiple of that normal. -/
def Mesh.OutwardWound {F : Type} [LinearOrderedField F] (m : Mesh F) (k : Nat) : Prop :=
  ∃ v0 v1 v2 c, m.corner (3 * k) = some v0 ∧ m.corner (3 * k + 1) = some v1 ∧
    m.corner (3 * k + 2) = some v2 ∧ v1.normal = v0.normal ∧ v2.normal = v0.normal ∧
    0 < c ∧
    Vec3.cross (Vec3.sub v1.position v0.position) (Vec3.sub v2.position v0.position) =
      Vec3.scale v0.normal c

/-! ## Inputs for repeated loads and texture loading -/

/-- Files in which every OBJ path parses to `parsed` and every image file is
read as a 4 x 4 image. -/
def imageFilesOf {F : Type} (parsed : ParsedObj F) : FileSystem F :=
  { parseObj := fun _ => some parsed
    loadImage := fun _ => some (4, 4) }

/-- A parsed scene of one large triangle with corners (-10, -10, -10),
(10, -10, -10), (0, 10, 10), and no material. -/
def largeParsed {F : Type} [LinearOrderedField F] : ParsedObj F :=
  { attrib :=
      { vertices := [-10, -10, -10, 10, -10, -10, 0, 10, 10]
        normals := [0, 0, 1]
        texcoords := [] }
    shapes :=
      [{ mesh :=
          { indices := [⟨0, 0, -1⟩, ⟨1, 0, -1⟩, ⟨2, 0, -1⟩]
            num_face_vertices := [3]
            material_ids := [-1] } }]
    materials := [] }

/-- Files in which `large.obj` parses to `largeParsed`, every other path to
the unit triangle `untaggedBare`, and no image can be read. -/
def twoSceneFiles {F : Type} [LinearOrderedField F] : FileSystem F :=
  { parseObj := fun path => if path = "large.obj" then some largeParsed else some untaggedBare
    loadImage := fun _ => none }

/-! ## The bounding sphere in rounded arithmetic -/

/-- The rounding `rnd` returns the exact result `x` of an operation with
relative error at most `u`. For binary32 and u = 2^(-24) this holds whenever
the result neither overflows nor underflows. -/
def Rounded.Accurate {F : Type} [LinearOrderedField F] (rnd : F → F) (u x : F) : Prop :=
  |rnd x - x| ≤ u * |x|

/-- The square root `sqrt` returns the square root of `x` with relative error
at most `u`: the value returned is not negative and its square is between
`(1 - u)^2 * x` and `(1 + u)^2 * x`. -/
def Rounded.SqrtAccurate {F : Type} [LinearOrderedField F] (sqrt : F → F) (u x : F) : Prop :=
  0 ≤ sqrt x ∧ (1 - u) ^ 2 * x ≤ sqrt x * sqrt x ∧ sqrt x * sqrt x ≤ (1 + u) ^ 2 * x

/-- The accessor getCenter as the machine evaluates it,
`(_minBounds + _maxBounds) * 0.5f` on `glm::vec3`: each component is one float
addition and one float multiplication, and `rnd` is the rounding applied to the
result of each. -/
def Rounded.getCenter {F : Type} [LinearOrderedField F] (rnd : F → F) (self : ObjLoader F) :
    Vec3 F :=
  ⟨rnd (rnd (self._minBounds.x + self._maxBounds.x) * 0.5),
    rnd (rnd (self._minBounds.y + self._maxBounds.y) * 0.5),
    rnd (rnd (self._minBounds.z + self._maxBounds.z) * 0.5)⟩

/-- The vector `_maxBounds - _minBounds` of getRadius as the machine evaluates
it: one float subtraction per component. -/
def Rounded.extent {F : Type} [LinearOrderedField F] (rnd : F → F) (self : ObjLoader F) :
    Vec3 F :=
  ⟨rnd (self._maxBounds.x - self._minBounds.x), rnd (self._maxBounds.y - self._minBounds.y),
    rnd (self._maxBounds.z - self._minBounds.z)⟩

/-- The dot product glm::dot on `glm::vec3` as the machine evaluates it: the
three products, then `tmp.x + tmp.y + tmp.z` from left to right, each result
rounded. -/
def Rounded.dot {F : Type} [LinearOrderedField F] (rnd : F → F) (a b : Vec3 F) : F :=
  rnd (rnd (rnd (a.x * b.x) + rnd (a.y * b.y)) + rnd (a.z * b.z))

/-- The method getRadius as the machine evaluates it,
`glm::length(extent) * 0.5f` with `glm::length(v) = sqrt(dot(v, v))`: `sqrt` is
the square root of the float type and `rnd` the rounding of every other
operation. -/
def Rounded.getRadius {F : Type} [LinearOrderedField F] (rnd sqrt : F → F)
    (self : ObjLoader F) : F :=
  rnd (sqrt (Rounded.dot rnd (Rounded.extent rnd self) (Rounded.extent rnd self)) * 0.5)

/-- Every operation of `Rounded.getCenter` on this loader is rounded with
relative error at most `u`. -/
def Rounded.CenterAccurate {F : Type} [LinearOrderedField F] (rnd : F → F) (u : F)
    (self : ObjLoader F) : Prop :=
  (Rounded.Accurate rnd u (self._minBounds.x + self._maxBounds.x) ∧
    Rounded.Accurate rnd u (rnd (self._minBounds.x + self._maxBounds.x) * 0.5)) ∧
  (Rounded.Accurate rnd u (self._minBounds.y + self._maxBounds.y) ∧
    Rounded.Accurate rnd u (rnd (self._minBounds.y + self._maxBounds.y) * 0.5)) ∧
  (Rounded.Accurate rnd u (self._minBounds.z + self._maxBounds.z) ∧
    Rounded.Accurate rnd u (rnd (self._minBounds.z + self._maxBounds.z) * 0.5))

/-- Every operation of `Rounded.dot` on these vectors is rounded with relative
error at most `u`. -/
def Rounded.DotAccurate {F : Type} [LinearOrderedField F] (rnd : F → F) (u : F)
    (a b : Vec3 F) : Prop :=
  Rounded.Accurate rnd u (a.x * b.x) ∧ Rounded.Accurate rnd u (a.y * b.y) ∧
    Rounded.Accurate rnd u (a.z * b.z) ∧
    Rounded.Accurate rnd u (rnd (a.x * b.x) + rnd (a.y * b.y)) ∧
    Rounded.Accurate rnd u (rnd (rnd (a.x * b.x) + rnd (a.y * b.y)) + rnd (a.z * b.z))

/-- Every operation of `Rounded.getRadius` on this loader is rounded with
relative error at most `u`: the three subtractions, the operations of the dot
product, the square root and the final multiplication. -/
def Rounded.RadiusAccurate {F : Type} [LinearOrderedField F] (rnd sqrt : F → F) (u : F)
    (self : ObjLoader F) : Prop :=
  (Rounded.Accurate rnd u (self._maxBounds.x - self._minBounds.x) ∧
    Rounded.Accurate rnd u (self._maxBounds.y - self._minBounds.y) ∧
    Rounded.Accurate rnd u (self._maxBounds.z - self._minBounds.z)) ∧
  Rounded.DotAccurate rnd u (Rounded.extent rnd self) (Rounded.extent rnd self) ∧
  Rounded.SqrtAccurate sqrt u
    (Rounded.dot rnd (Rounded.extent rnd self) (Rounded.extent rnd self)) ∧
  Rounded.Accurate rnd u
    (sqrt (Rounded.dot rnd (Rounded.extent rnd self) (Rounded.extent rnd self)) * 0.5)

/-! ## The binary32 format -/

/-- The integer nearest to `y`, a tie going to the even one. -/
def Binary32.roundEven (y : ℚ) : ℤ :=
  if y - ⌊y⌋ < 1 / 2 then ⌊y⌋
  else if 1 / 2 < y - ⌊y⌋ then ⌊y⌋ + 1
  else if ⌊y⌋ % 2 = 0 then ⌊y⌋ else ⌊y⌋ + 1

/-- The number of binary digits after the point that a binary32 value near `x`
has: `23 - e` when `2^e ≤ |x| < 2^(e+1)` (a 24-bit significand), and at most
149 (the subnormal values are the multiples of `2^(-149)`). -/
def Binary32.fracBits (x : ℚ) : ℤ := min (23 - Int.log 2 |x|) 149

/-- The binary32 value that the exact result `x` of an operation is rounded
to, in the default mode (to nearest, ties to even). Results above FLT_MAX in
absolute value, which binary32 turns into an infinity, are outside this
function. -/
def Binary32.round (x : ℚ) : ℚ :=
  (Binary32.roundEven (x * 2 ^ Binary32.fracBits x) : ℚ) / 2 ^ Binary32.fracBits x

/-- The function std::sqrt on float, for `x ≥ 0`: the binary32 value nearest
to the square root of `x` (the operation is correctly rounded). With
`k = 23 - floor(e / 2)` for `2^e ≤ x < 2^(e+1)` the square root of
`y = x * 4^k` lies in `[2^23, 2^24)`, `n` is its integer part, and the result
is `n / 2^k` or `(n + 1) / 2^k`, whichever is nearer. -/
def Binary32.sqrt (x : ℚ) : ℚ :=
  if x ≤ 0 then 0
  else
    let k : ℤ := 23 - Int.log 2 x / 2
    let y : ℚ := x * 4 ^ k
    let n : ℕ := Nat.sqrt ⌊y⌋₊
    let m : ℕ :=
      if y < ((n : ℚ) + 1 / 2) ^ 2 then n
      else if ((n : ℚ) + 1 / 2) ^ 2 < y then n + 1
      else if n % 2 = 0 then n else n + 1
    (m : ℚ) / 2 ^ k

/-- The unit roundoff of binary32, `2^(-24)`. -/
def Binary32.unitRoundoff : ℚ := 1 / 16777216

/-- Two vertices on the x axis, at the binary32 values of 0.1 and 0.7, which
are 13421773 / 2^27 and 11744051 / 2^24. -/
def segment32 : List (Vertex ℚ) :=
  [vertexAt ⟨13421773 / 134217728, 0, 0⟩, vertexAt ⟨11744051 / 16777216, 0, 0⟩]

/-! # Properties -/

section Lemmas

variable {F : Type} [LinearOrderedField F] {S : Type}

theorem SameResources.refl (a : GLContext F) : SameResources a a := ⟨rfl, rfl, rfl⟩

theorem SameResources.trans {a b c : GLContext F} (h1 : SameResources a b)
    (h2 : SameResources b c) : SameResources a c :=
  ⟨h2.1.trans h1.1, h2.2.1.trans h1.2.1, h2.2.2.trans h1.2.2⟩

theorem sameResources_bindFramebuffer (gl : GLContext F) (id : Nat) :
    SameResources gl (gl.bindFramebuffer id) := by
  simp [SameResources, GLContext.bindFramebuffer, GLContext.resourceEvents, GLEvent.isResource]

theorem sameResources_setViewport (gl : GLContext F) (w h : Int) :
    SameResources gl (gl.setViewport w h) := by
  simp [SameResources, GLContext.setViewport, GLContext.resourceEvents]

theorem sameResources_setClearColor (gl : GLContext F) (c : Vec4 F) :
    SameResources gl (gl.setClearColor c) := by
  simp [SameResources, GLContext.setClearColor, GLContext.resourceEvents]

theorem sameResources_clear (gl : GLContext F) (d : Bool) :
    SameResources gl (gl.clear d) := by
  simp [SameResources, GLContext.clear, GLContext.log, GLContext.resourceEvents,
    GLEvent.isResource]

theorem sameResources_setDepthTest (gl : GLContext F) (b : Bool) :
    SameResources gl (gl.setDepthTest b) := by
  simp [SameResources, GLContext.setDepthTest, GLContext.resourceEvents]

theorem sameResources_useProgram (gl : GLContext F) (p : ProgramName) :
    SameResources gl (gl.useProgram p) := by
  simp [SameResources, GLContext.useProgram, GLContext.resourceEvents]

theorem sameResources_activeTexture (gl : GLContext F) (u : Nat) :
    SameResources gl (gl.activeTexture u) := by
  simp [SameResources, GLContext.activeTexture, GLContext.resourceEvents]

theorem sameResources_bindTexture (gl : GLContext F) (id : Nat) :
    SameResources gl (gl.bindTexture id) := by
  simp [SameResources, GLContext.bindTexture, GLContext.resourceEvents]

theorem sameResources_setUniform (gl : GLContext F) (p : ProgramName) (u : Uniform)
    (v : UValue F) : SameResources gl (gl.setUniform p u v) := by
  unfold GLContext.setUniform
  split <;> simp [SameResources, GLContext.resourceEvents]

theorem sameResources_setUniformBool (gl : GLContext F) (p : ProgramName) (u : Uniform)
    (b : Bool) : SameResources gl (gl.setUniformBool p u b) :=
  sameResources_setUniform gl p u _

theorem sameResources_draw (gl : GLContext F) (m : MeshRef) :
    SameResources gl (gl.draw m) := by
  simp [SameResources, GLContext.draw, GLContext.log, GLContext.resourceEvents,
    GLEvent.isResource]

theorem sameResources_bindSampler (gl : GLContext F) (p : ProgramName) (unit : Nat)
    (t : Texture2D) (u : Uniform) : SameResources gl (RSMApp.bindSampler gl p unit t u) :=
  ((sameResources_activeTexture gl unit).trans (sameResources_bindTexture _ t.id)).trans
    (sameResources_setUniform _ p u _)

theorem option_bind_spec {α β : Type} {x : Option α} {f : α → Option β} {P : α → Prop}
    {Q : β → Prop} (hx : ∃ a, x = some a ∧ P a) (hf : ∀ a, P a → ∃ b, f a = some b ∧ Q b) :
    ∃ b, x.bind f = some b ∧ Q b := by
  obtain ⟨a, rfl, ha⟩ := hx
  simpa using hf a ha

theorem gbufferBatch_spec (prog : ProgramName) (sc : ObjLoader F) (gl : GLContext F) (i : Nat)
    (mesh : ObjMesh F) (hm : ∃ k, mesh.mesh = some k) :
    ∃ gl1, RSMApp.gbufferBatch prog sc gl i mesh = some gl1 ∧ SameResources gl gl1 := by
  obtain ⟨k, hk⟩ := hm
  unfold RSMApp.gbufferBatch
  simp only [hk]
  refine ⟨_, rfl, ?_⟩
  refine SameResources.trans ?_ (sameResources_draw _ _)
  split
  · split
    · split
      · exact ((((sameResources_setUniform _ _ _ _).trans
          (sameResources_setUniformBool _ _ _ _)).trans
          (sameResources_activeTexture _ _)).trans (sameResources_bindTexture _ _)).trans
          (sameResources_setUniform _ _ _ _)
      · exact (sameResources_setUniform _ _ _ _).trans (sameResources_setUniformBool _ _ _ _)
    · exact SameResources.refl _
  · exact SameResources.refl _

theorem gbufferBatches_spec (prog : ProgramName) (sc : ObjLoader F) (ms : List (ObjMesh F)) :
    ∀ (i : Nat) (gl : GLContext F), (∀ m ∈ ms, ∃ k, m.mesh = some k) →
      ∃ gl1, RSMApp.gbufferBatches prog sc i ms gl = some gl1 ∧ SameResources gl gl1 := by
  induction ms with
  | nil => intro i gl _; exact ⟨gl, rfl, SameResources.refl gl⟩
  | cons m rest ih =>
    intro i gl h
    obtain ⟨g1, hg1, hs1⟩ := gbufferBatch_spec prog sc gl i m (h m (List.mem_cons_self _ _))
    obtain ⟨g2, hg2, hs2⟩ := ih (i + 1) g1 (fun x hx => h x (List.mem_cons_of_mem _ hx))
    refine ⟨g2, ?_, hs1.trans hs2⟩
    simp only [RSMApp.gbufferBatches, hg1, hg2]

theorem rsmBatch_spec (prog : ProgramName) (sc : ObjLoader F) (gl : GLContext F) (i : Nat)
    (mesh : ObjMesh F) (hm : ∃ k, mesh.mesh = some k) :
    ∃ gl1, RSMApp.rsmBatch prog sc gl i mesh = some gl1 ∧ SameResources gl gl1 := by
  obtain ⟨k, hk⟩ := hm
  unfold RSMApp.rsmBatch
  simp only [hk]
  refine ⟨_, rfl, ?_⟩
  refine SameResources.trans ?_ (sameResources_draw _ _)
  split
  · split
    · exact (sameResources_setUniform _ _ _ _).trans (sameResources_setUniformBool _ _ _ _)
    · exact SameResources.refl _
  · exact SameResources.refl _

theorem rsmBatches_spec (prog : ProgramName) (sc : ObjLoader F) (ms : List (ObjMesh F)) :
    ∀ (i : Nat) (gl : GLContext F), (∀ m ∈ ms, ∃ k, m.mesh = some k) →
      ∃ gl1, RSMApp.rsmBatches prog sc i ms gl = some gl1 ∧ SameResources gl gl1 := by
  induction ms with
  | nil => intro i gl _; exact ⟨gl, rfl, SameResources.refl gl⟩
  | cons m rest ih =>
    intro i gl h
    obtain ⟨g1, hg1, hs1⟩ := rsmBatch_spec prog sc gl i m (h m (List.mem_cons_self _ _))
    obtain ⟨g2, hg2, hs2⟩ := ih (i + 1) g1 (fun x hx => h x (List.mem_cons_of_mem _ hx))
    refine ⟨g2, ?_, hs1.trans hs2⟩
    simp only [RSMApp.rsmBatches, hg1, hg2]

theorem gbufferPass_spec (view proj : Mat4 F) (self : RSMApp F S) (h : Ready self) :
    ∃ gl1, RSMApp.gbufferPass view proj self = some { self with gl := gl1 } ∧
      SameResources self.gl gl1 := by
  obtain ⟨fbo, hfbo⟩ := h.gbufferFBO
  obtain ⟨prog, hprog⟩ : ∃ p, self._gbufferProgram = some p := ⟨_, h.gbufferProgram⟩
  obtain ⟨sc, hsc, hmesh⟩ := h.scene
  simp only [RSMApp.gbufferPass, hfbo, hprog, hsc, Option.bind_eq_bind, Option.some_bind,
    Option.pure_def]
  have hb := gbufferBatches_spec prog sc sc.getMeshes 0
    (((((((((self.gl.bindFramebuffer fbo.id).setViewport self._width
      self._height).setClearColor ⟨0, 0, 0, 1⟩).clear
      true).setDepthTest true).useProgram prog).setUniform prog Uniform.uModel
      (UValue.mat4 Mat4.identity)).setUniform prog Uniform.uView
      (UValue.mat4 view)).setUniform prog Uniform.uProjection (UValue.mat4 proj)) hmesh
  obtain ⟨g, hg, hs⟩ := hb
  rw [hg]
  refine ⟨_, rfl, ?_⟩
  refine SameResources.trans ?_ (sameResources_bindFramebuffer _ _)
  refine SameResources.trans ?_ hs
  exact ((((((((sameResources_bindFramebuffer _ _).trans
    (sameResources_setViewport _ _ _)).trans (sameResources_setClearColor _ _)).trans
    (sameResources_clear _ _)).trans (sameResources_setDepthTest _ _)).trans
    (sameResources_useProgram _ _)).trans (sameResources_setUniform _ _ _ _)).trans
    (sameResources_setUniform _ _ _ _)).trans (sameResources_setUniform _ _ _ _)

theorem rsmBufferPass_spec (lightview lightVP : Mat4 F) (self : RSMApp F S) (h : Ready self) :
    ∃ gl1, RSMApp.rsmBufferPass lightview lightVP self = some { self with gl := gl1 } ∧
      SameResources self.gl gl1 := by
  obtain ⟨fbo, hfbo⟩ := h.rsmFBO
  obtain ⟨prog, hprog⟩ : ∃ p, self._rsmBufferProgram = some p := ⟨_, h.rsmBufferProgram⟩
  obtain ⟨sc, hsc, hmesh⟩ := h.scene
  simp only [RSMApp.rsmBufferPass, hfbo, hprog, hsc, Option.bind_eq_bind, Option.some_bind,
    Option.pure_def]
  have hb := rsmBatches_spec prog sc sc.getMeshes 0
    (((((((((((self.gl.bindFramebuffer fbo.id).setViewport RSM_SIZE
      RSM_SIZE).setClearColor ⟨0, 0, 0, 1⟩).clear
      true).setDepthTest true).useProgram prog).setUniform prog Uniform.uModel
      (UValue.mat4 Mat4.identity)).setUniform prog Uniform.uView
      (UValue.mat4 lightview)).setUniform prog Uniform.uLightVP
      (UValue.mat4 lightVP)).setUniform prog Uniform.uLightColor
      (UValue.vec3 self._lightColor)).setUniform prog Uniform.uLightDirViewSpace
      (UValue.dir lightview self._lightDir)) hmesh
  obtain ⟨g, hg, hs⟩ := hb
  rw [hg]
  refine ⟨_, rfl, ?_⟩
  refine SameResources.trans ?_ (sameResources_bindFramebuffer _ _)
  refine SameResources.trans ?_ hs
  exact ((((((((((sameResources_bindFramebuffer _ _).trans
    (sameResources_setViewport _ _ _)).trans (sameResources_setClearColor _ _)).trans
    (sameResources_clear _ _)).trans (sameResources_setDepthTest _ _)).trans
    (sameResources_useProgram _ _)).trans (sameResources_setUniform _ _ _ _)).trans
    (sameResources_setUniform _ _ _ _)).trans (sameResources_setUniform _ _ _ _)).trans
    (sameResources_setUniform _ _ _ _)).trans (sameResources_setUniform _ _ _ _)

theorem shadingPass_spec (view lightVP : Mat4 F) (self : RSMApp F S) (h : Ready self) :
    ∃ gl1, RSMApp.shadingPass view lightVP self = some { self with gl := gl1 } ∧
      SameResources self.gl gl1 := by
  obtain ⟨fbo, hfbo⟩ := h.outputFBO
  obtain ⟨prog, hprog⟩ : ∃ p, self._shadingProgram = some p := ⟨_, h.shadingProgram⟩
  obtain ⟨t0, h0⟩ := h.gbufferAlbedo
  obtain ⟨t1, h1⟩ := h.gbufferNormal
  obtain ⟨t2, h2⟩ := h.gbufferPosition
  obtain ⟨t3, h3⟩ := h.rsmFlux
  obtain ⟨t4, h4⟩ := h.rsmNormal
  obtain ⟨t5, h5⟩ := h.rsmPosition
  obtain ⟨t6, h6⟩ := h.rsmDepth
  obtain ⟨q, hq⟩ := h.screenQuad
  simp only [RSMApp.shadingPass, hfbo, hprog, h0, h1, h2, h3, h4, h5, h6, hq,
    Option.bind_eq_bind, Option.some_bind, Option.pure_def]
  refine ⟨_, rfl, ?_⟩
  refine SameResources.trans ?_ (sameResources_bindFramebuffer _ _)
  refine SameResources.trans ?_ (sameResources_draw _ _)
  refine SameResources.trans ?_ (sameResources_setUniform _ _ _ _)
  refine SameResources.trans ?_ (sameResources_setUniformBool _ _ _ _)
  refine SameResources.trans ?_ (sameResources_setUniform _ _ _ _)
  refine SameResources.trans ?_ (sameResources_setUniform _ _ _ _)
  refine SameResources.trans ?_ (sameResources_setUniform _ _ _ _)
  refine SameResources.trans ?_ (sameResources_setUniform _ _ _ _)
  refine SameResources.trans ?_ (sameResources_setUniform _ _ _ _)
  refine SameResources.trans ?_ (sameResources_setUniform _ _ _ _)
  refine SameResources.trans ?_ (sameResources_setUniform _ _ _ _)
  refine SameResources.trans ?_ (sameResources_setUniform _ _ _ _)
  refine SameResources.trans ?_ (sameResources_setUniform _ _ _ _)
  refine SameResources.trans ?_ (sameResources_bindSampler _ _ _ _ _)
  refine SameResources.trans ?_ (sameResources_bindSampler _ _ _ _ _)
  refine SameResources.trans ?_ (sameResources_bindSampler _ _ _ _ _)
  refine SameResources.trans ?_ (sameResources_bindSampler _ _ _ _ _)
  refine SameResources.trans ?_ (sameResources_bindSampler _ _ _ _ _)
  refine SameResources.trans ?_ (sameResources_bindSampler _ _ _ _ _)
  refine SameResources.trans ?_ (sameResources_bindSampler _ _ _ _ _)
  exact ((((sameResources_bindFramebuffer _ _).trans (sameResources_setViewport _ _ _)).trans
    (sameResources_clear _ _)).trans (sameResources_setDepthTest _ _)).trans
    (sameResources_useProgram _ _)

theorem displayTexture_some (self : RSMApp F S) (h : Ready self) :
    ∃ t, RSMApp.displayTexture self = some t := by
  unfold RSMApp.displayTexture
  split
  · exact h.outputTexture
  · exact h.gbufferAlbedo
  · exact h.gbufferNormal
  · exact h.gbufferPosition
  · exact h.rsmFlux
  · exact h.rsmNormal
  · exact h.rsmPosition
  · exact h.outputTexture

theorem displayPass_spec (self : RSMApp F S) (h : Ready self) :
    ∃ gl1, RSMApp.displayPass self = some { self with gl := gl1 } ∧
      SameResources self.gl gl1 := by
  obtain ⟨prog, hprog⟩ : ∃ p, self._displayProgram = some p := ⟨_, h.displayProgram⟩
  obtain ⟨t, ht⟩ := displayTexture_some self h
  obtain ⟨q, hq⟩ := h.screenQuad
  simp only [RSMApp.displayPass, hprog, ht, hq, Option.bind_eq_bind, Option.some_bind,
    Option.pure_def]
  refine ⟨_, rfl, ?_⟩
  refine SameResources.trans ?_ (sameResources_draw _ _)
  refine SameResources.trans ?_ (sameResources_setUniform _ _ _ _)
  refine SameResources.trans ?_ (sameResources_setUniform _ _ _ _)
  refine SameResources.trans ?_ (sameResources_bindTexture _ _)
  refine SameResources.trans ?_ (sameResources_activeTexture _ _)
  exact ((((sameResources_bindFramebuffer _ _).trans (sameResources_setViewport _ _ _)).trans
    (sameResources_clear _ _)).trans (sameResources_setDepthTest _ _)).trans
    (sameResources_useProgram _ _)

/-- Readiness does not depend on the context or on the parameters the UI and
update write. -/
theorem Ready.congr {a b : RSMApp F S} (h : Ready a)
    (e1 : b._gbufferProgram = a._gbufferProgram) (e2 : b._rsmBufferProgram = a._rsmBufferProgram)
    (e3 : b._shadingProgram = a._shadingProgram) (e4 : b._displayProgram = a._displayProgram)
    (e5 : ∀ t, a._gbufferAlbedo = some t → ∃ u, b._gbufferAlbedo = some u)
    (e6 : ∀ t, a._gbufferNormal = some t → ∃ u, b._gbufferNormal = some u)
    (e7 : ∀ t, a._gbufferPosition = some t → ∃ u, b._gbufferPosition = some u)
    (e8 : ∀ t, a._gbufferDepth = some t → ∃ u, b._gbufferDepth = some u)
    (e9 : ∀ t, a._gbufferFBO = some t → ∃ u, b._gbufferFBO = some u)
    (e10 : b._rsmFlux = a._rsmFlux) (e11 : b._rsmNormal = a._rsmNormal)
    (e12 : b._rsmPosition = a._rsmPosition) (e13 : b._rsmDepth = a._rsmDepth)
    (e14 : b._rsmFBO = a._rsmFBO)
    (e15 : ∀ t, a._outputTexture = some t → ∃ u, b._outputTexture = some u)
    (e16 : ∀ t, a._outputDepth = some t → ∃ u, b._outputDepth = some u)
    (e17 : ∀ t, a._outputFBO = some t → ∃ u, b._outputFBO = some u)
    (e18 : b._screenQuad = a._screenQuad) (e19 : b._scene = a._scene) : Ready b where
  gbufferProgram := e1 ▸ h.gbufferProgram
  rsmBufferProgram := e2 ▸ h.rsmBufferProgram
  shadingProgram := e3 ▸ h.shadingProgram
  displayProgram := e4 ▸ h.displayProgram
  gbufferAlbedo := h.gbufferAlbedo.elim e5
  gbufferNormal := h.gbufferNormal.elim e6
  gbufferPosition := h.gbufferPosition.elim e7
  gbufferDepth := h.gbufferDepth.elim e8
  gbufferFBO := h.gbufferFBO.elim e9
  rsmFlux := e10 ▸ h.rsmFlux
  rsmNormal := e11 ▸ h.rsmNormal
  rsmPosition := e12 ▸ h.rsmPosition
  rsmDepth := e13 ▸ h.rsmDepth
  rsmFBO := e14 ▸ h.rsmFBO
  outputTexture := h.outputTexture.elim e15
  outputDepth := h.outputDepth.elim e16
  outputFBO := h.outputFBO.elim e17
  screenQuad := e18 ▸ h.screenQuad
  scene := e19 ▸ h.scene

theorem ready_drawUI (ui : UIInput F) (self : RSMApp F S) (h : Ready self) :
    Ready (RSMApp.drawUI ui self) :=
  h.congr rfl rfl rfl rfl (fun t ht => ⟨t, ht⟩) (fun t ht => ⟨t, ht⟩) (fun t ht => ⟨t, ht⟩)
    (fun t ht => ⟨t, ht⟩) (fun t ht => ⟨t, ht⟩) rfl rfl rfl rfl rfl (fun t ht => ⟨t, ht⟩)
    (fun t ht => ⟨t, ht⟩) (fun t ht => ⟨t, ht⟩) rfl rfl

theorem ready_resizeStep (size : Int × Int) (self : RSMApp F S) (h : Ready self) :
    Ready (RSMApp.resizeStep size self) := by
  unfold RSMApp.resizeStep
  dsimp only
  split
  · exact h.congr rfl rfl rfl rfl (fun _ _ => ⟨_, rfl⟩) (fun _ _ => ⟨_, rfl⟩)
      (fun _ _ => ⟨_, rfl⟩) (fun _ _ => ⟨_, rfl⟩) (fun _ _ => ⟨_, rfl⟩) rfl rfl rfl rfl rfl
      (fun _ _ => ⟨_, rfl⟩) (fun _ _ => ⟨_, rfl⟩) (fun _ _ => ⟨_, rfl⟩) rfl rfl
  · exact h

theorem update_spec (lib : FloatLib F S) (ui : UIInput F) (size : Int × Int)
    (self : RSMApp F S) (h : Ready self) :
    ∃ gl1, RSMApp.update lib ui size self = some (afterFrame lib ui size self gl1) ∧
      SameResources (RSMApp.resizeStep size (RSMApp.drawUI ui self)).gl gl1 := by
  have hr : Ready (RSMApp.resizeStep size (RSMApp.drawUI ui self)) :=
    ready_resizeStep size _ (ready_drawUI ui self h)
  have hr1 : ∀ g, Ready (afterFrame lib ui size self g) := fun g =>
    hr.congr rfl rfl rfl rfl (fun t ht => ⟨t, ht⟩) (fun t ht => ⟨t, ht⟩) (fun t ht => ⟨t, ht⟩)
      (fun t ht => ⟨t, ht⟩) (fun t ht => ⟨t, ht⟩) rfl rfl rfl rfl rfl (fun t ht => ⟨t, ht⟩)
      (fun t ht => ⟨t, ht⟩) (fun t ht => ⟨t, ht⟩) rfl rfl
  obtain ⟨sc, hsc, hmesh⟩ := hr.scene
  have key : ∃ r, RSMApp.update lib ui size self = some r ∧
      ∃ g, r = afterFrame lib ui size self g ∧
        SameResources (RSMApp.resizeStep size (RSMApp.drawUI ui self)).gl g := by
    simp only [RSMApp.update, Option.bind_eq_bind]
    refine option_bind_spec (P := fun _ => True) ⟨sc, hsc, trivial⟩ ?_
    intro scene _
    refine option_bind_spec
      (P := fun r => ∃ g, r = afterFrame lib ui size self g ∧
        SameResources (RSMApp.resizeStep size (RSMApp.drawUI ui self)).gl g) ?_ ?_
    · exact Exists.elim (gbufferPass_spec _ _ _ (hr1 _))
        (fun g hg => ⟨_, hg.1, g, rfl, hg.2⟩)
    · rintro s1 ⟨g1, rfl, hs1⟩
      refine option_bind_spec
        (P := fun r => ∃ g, r = afterFrame lib ui size self g ∧
          SameResources (RSMApp.resizeStep size (RSMApp.drawUI ui self)).gl g) ?_ ?_
      · exact Exists.elim (rsmBufferPass_spec _ _ _ (hr1 g1))
          (fun g hg => ⟨_, hg.1, g, rfl, hs1.trans hg.2⟩)
      · rintro s2 ⟨g2, rfl, hs2⟩
        refine option_bind_spec
          (P := fun r => ∃ g, r = afterFrame lib ui size self g ∧
            SameResources (RSMApp.resizeStep size (RSMApp.drawUI ui self)).gl g) ?_ ?_
        · exact Exists.elim (shadingPass_spec _ _ _ (hr1 g2))
            (fun g hg => ⟨_, hg.1, g, rfl, hs2.trans hg.2⟩)
        · rintro s3 ⟨g3, rfl, hs3⟩
          exact Exists.elim (displayPass_spec _ (hr1 g3))
            (fun g hg => ⟨_, hg.1, g, rfl, hs3.trans hg.2⟩)
  obtain ⟨r, hr, g, rfl, hs⟩ := key
  exact ⟨g, hr, hs⟩

theorem calculateBounds_meshes (vs : List (Vertex F)) :
    ∀ self : ObjLoader F, (self.calculateBounds vs)._meshes = self._meshes ∧
      (self.calculateBounds vs)._materials = self._materials := by
  unfold ObjLoader.calculateBounds
  induction vs with
  | nil => intro self; exact ⟨rfl, rfl⟩
  | cons v rest ih =>
    intro self
    simp only [List.foldl_cons]
    exact ih _

theorem addGroup_meshes (attrib : TinyAttrib F) (m : TinyMesh) (self : ObjLoader F)
    (group : Int × List Nat) (h : ∀ x ∈ self._meshes, ∃ k, x.mesh = some k) :
    ∀ x ∈ (ObjLoader.addGroup attrib m self group)._meshes, ∃ k, x.mesh = some k := by
  unfold ObjLoader.addGroup
  dsimp only
  split
  · exact h
  · intro x hx
    simp only [List.mem_append, List.mem_singleton] at hx
    rcases hx with hx | hx
    · rw [(calculateBounds_meshes _ self).1] at hx
      exact h x hx
    · subst hx
      exact ⟨_, rfl⟩

theorem foldl_addGroup_meshes (attrib : TinyAttrib F) (m : TinyMesh)
    (groups : List (Int × List Nat)) :
    ∀ self : ObjLoader F, (∀ x ∈ self._meshes, ∃ k, x.mesh = some k) →
      ∀ x ∈ (groups.foldl (ObjLoader.addGroup attrib m) self)._meshes, ∃ k, x.mesh = some k := by
  induction groups with
  | nil => intro self h; exact h
  | cons g rest ih =>
    intro self h
    simp only [List.foldl_cons]
    exact ih _ (addGroup_meshes attrib m self g h)

theorem foldl_addShape_meshes (attrib : TinyAttrib F) (shapes : List TinyShape) :
    ∀ self : ObjLoader F, (∀ x ∈ self._meshes, ∃ k, x.mesh = some k) →
      ∀ x ∈ (shapes.foldl (ObjLoader.addShape attrib) self)._meshes, ∃ k, x.mesh = some k := by
  induction shapes with
  | nil => intro self h; exact h
  | cons sh rest ih =>
    intro self h
    simp only [List.foldl_cons]
    exact ih _ (foldl_addGroup_meshes attrib sh.mesh _ self h)

theorem load_meshes (fs : FileSystem F) (self : ObjLoader F) (filepath : String)
    (gl : GLContext F) (h : ∀ x ∈ self._meshes, ∃ k, x.mesh = some k) :
    ∀ x ∈ (ObjLoader.load fs self filepath gl).2.1._meshes, ∃ k, x.mesh = some k := by
  unfold ObjLoader.load
  split
  · exact h
  · dsimp only
    apply foldl_addShape_meshes
    intro x hx
    simp at hx

theorem init_spec (lib : FloatLib F S) (env : Env F) (hs : env.shaders.isSome) :
    ∃ app, RSMApp.init lib env (RSMApp.new lib) = some app ∧ Ready app ∧ Sized app ∧
      app._currentWidth = env.framebufferSize.1 ∧ app._currentHeight = env.framebufferSize.2 := by
  obtain ⟨loc, hloc⟩ := Option.isSome_iff_exists.mp hs
  simp only [RSMApp.init, RSMApp.createShaders, hloc, Option.bind_eq_bind, Option.some_bind,
    Option.pure_def]
  refine ⟨_, rfl, ?_, ?_, rfl, rfl⟩
  · refine ⟨rfl, rfl, rfl, rfl, ⟨_, rfl⟩, ⟨_, rfl⟩, ⟨_, rfl⟩, ⟨_, rfl⟩,
      ⟨_, rfl⟩, ⟨_, rfl⟩, ⟨_, rfl⟩, ⟨_, rfl⟩, ⟨_, rfl⟩, ⟨_, rfl⟩, ⟨_, rfl⟩, ⟨_, rfl⟩, ⟨_, rfl⟩,
      ⟨_, rfl⟩, ⟨_, rfl, ?_⟩⟩
    apply load_meshes
    intro x hx
    simp [ObjLoader.init] at hx
  · intro t ht
    simp only [RSMApp.cameraTargets, RSMApp.generateVPLSamples, RSMApp.createScreenQuad,
      RSMApp.createFramebuffers, List.mem_cons, List.mem_singleton, List.not_mem_nil,
      or_false] at ht
    rcases ht with ht | ht | ht | ht | ht | ht <;> subst ht <;> exact ⟨_, rfl, rfl, rfl⟩

theorem resizeStep_sized (size : Int × Int) (self : RSMApp F S) (h : Sized self) :
    (∀ t ∈ RSMApp.cameraTargets (RSMApp.resizeStep size self), hasSize t size.1 size.2) ∧
      (RSMApp.resizeStep size self)._currentWidth = size.1 ∧
      (RSMApp.resizeStep size self)._currentHeight = size.2 := by
  unfold RSMApp.resizeStep
  dsimp only
  split
  · refine ⟨?_, rfl, rfl⟩
    intro t ht
    simp only [RSMApp.cameraTargets, RSMApp.recreateGBuffer, List.mem_cons, List.mem_singleton,
      List.not_mem_nil, or_false] at ht
    rcases ht with ht | ht | ht | ht | ht | ht <;> subst ht <;> exact ⟨_, rfl, rfl, rfl⟩
  · rename_i hne
    have hw : size.1 = self._currentWidth := by
      by_contra hc; exact hne (Or.inl hc)
    have hh : size.2 = self._currentHeight := by
      by_contra hc; exact hne (Or.inr hc)
    rw [hw, hh]
    exact ⟨h, rfl, rfl⟩

theorem update_sized (lib : FloatLib F S) (ui : UIInput F) (size : Int × Int)
    (self : RSMApp F S) (h : Ready self) (hz : Sized self) :
    ∃ app, RSMApp.update lib ui size self = some app ∧ Ready app ∧ Sized app ∧
      app._currentWidth = size.1 ∧ app._currentHeight = size.2 := by
  obtain ⟨g, hg, _⟩ := update_spec lib ui size self h
  have hr : Ready (RSMApp.resizeStep size (RSMApp.drawUI ui self)) :=
    ready_resizeStep size _ (ready_drawUI ui self h)
  have hz1 : Sized (RSMApp.drawUI ui self) := hz
  obtain ⟨h1, h2, h3⟩ := resizeStep_sized size _ hz1
  refine ⟨_, hg, ?_, ?_, h2, h3⟩
  · exact hr.congr rfl rfl rfl rfl (fun t ht => ⟨t, ht⟩) (fun t ht => ⟨t, ht⟩)
      (fun t ht => ⟨t, ht⟩) (fun t ht => ⟨t, ht⟩) (fun t ht => ⟨t, ht⟩) rfl rfl rfl rfl rfl
      (fun t ht => ⟨t, ht⟩) (fun t ht => ⟨t, ht⟩) (fun t ht => ⟨t, ht⟩) rfl rfl
  · intro t ht
    have := h1 t ht
    rw [← h2, ← h3] at this
    exact this

theorem run_sized (lib : FloatLib F S) (frames : List (UIInput F × (Int × Int))) :
    ∀ self : RSMApp F S, Ready self → Sized self →
      ∃ app, RSMApp.run lib frames self = some app ∧ Ready app ∧ Sized app := by
  induction frames with
  | nil => intro self h hz; exact ⟨self, rfl, h, hz⟩
  | cons fr rest ih =>
    intro self h hz
    obtain ⟨a, ha, hra, hza, _, _⟩ := update_sized lib fr.1 fr.2 self h hz
    obtain ⟨b, hb, hrb, hzb⟩ := ih a hra hza
    exact ⟨b, by simp only [RSMApp.run, ha, hb], hrb, hzb⟩

theorem run_append (lib : FloatLib F S) (xs ys : List (UIInput F × (Int × Int))) :
    ∀ self : RSMApp F S,
      RSMApp.run lib (xs ++ ys) self = (RSMApp.run lib xs self).bind (RSMApp.run lib ys) := by
  induction xs with
  | nil => intro self; simp [RSMApp.run]
  | cons fr rest ih =>
    intro self
    simp only [List.cons_append, RSMApp.run]
    cases RSMApp.update lib fr.1 fr.2 self with
    | none => simp
    | some a => simpa using ih a

theorem recreateGBuffer_events (a : RSMApp F S) (h : Ready a) :
    ∃ extra, (RSMApp.recreateGBuffer a).gl.resourceEvents = a.gl.resourceEvents ++ extra ∧
      (∀ t ∈ RSMApp.cameraTargets a, ∃ tex, t = some tex ∧
        GLEvent.deleteTexture tex.id ∈ extra) ∧
      (∀ t ∈ RSMApp.cameraTargets (RSMApp.recreateGBuffer a), ∃ tex, t = some tex ∧
        tex.width = a._currentWidth ∧ tex.height = a._currentHeight ∧
        a.gl.nextId ≤ tex.id ∧ GLEvent.genTexture tex ∈ extra) ∧
      (∀ g ∈ RSMApp.cameraGroups a, ∃ fb, g = some fb ∧
        GLEvent.deleteFramebuffer fb.id ∈ extra) ∧
      (∀ g ∈ RSMApp.cameraGroups (RSMApp.recreateGBuffer a), ∃ fb, g = some fb ∧
        a.gl.nextId ≤ fb.id ∧ GLEvent.genFramebuffer fb ∈ extra) := by
  obtain ⟨t0, h0⟩ := h.gbufferAlbedo
  obtain ⟨t1, h1⟩ := h.gbufferNormal
  obtain ⟨t2, h2⟩ := h.gbufferPosition
  obtain ⟨t3, h3⟩ := h.gbufferDepth
  obtain ⟨f4, h4⟩ := h.gbufferFBO
  obtain ⟨t5, h5⟩ := h.outputTexture
  obtain ⟨t6, h6⟩ := h.outputDepth
  obtain ⟨f7, h7⟩ := h.outputFBO
  simp only [RSMApp.recreateGBuffer, RSMApp.cameraTargets, RSMApp.cameraGroups,
    h0, h1, h2, h3, h4, h5, h6, h7,
    GLContext.resetTexture, GLContext.resetFramebuffer, GLContext.log, GLContext.newTexture,
    GLContext.newFramebuffer, GLContext.resourceEvents, List.filter_append, List.filter_cons,
    List.filter_nil, GLEvent.isResource, if_true, List.append_assoc, List.singleton_append,
    List.cons_append, List.nil_append]
  refine ⟨_, rfl, ?_, ?_, ?_, ?_⟩
  · intro t ht
    simp only [List.mem_cons, List.mem_singleton, List.not_mem_nil, or_false] at ht
    rcases ht with ht | ht | ht | ht | ht | ht <;> subst ht <;>
      exact ⟨_, rfl, by simp⟩
  · intro t ht
    simp only [List.mem_cons, List.mem_singleton, List.not_mem_nil, or_false] at ht
    rcases ht with ht | ht | ht | ht | ht | ht <;> subst ht <;>
      exact ⟨_, rfl, rfl, rfl, by dsimp only; omega, by simp⟩
  · intro g hg
    simp only [List.mem_cons, List.mem_singleton, List.not_mem_nil, or_false] at hg
    rcases hg with hg | hg <;> subst hg <;> exact ⟨_, rfl, by simp⟩
  · intro g hg
    simp only [List.mem_cons, List.mem_singleton, List.not_mem_nil, or_false] at hg
    rcases hg with hg | hg <;> subst hg <;> exact ⟨_, rfl, by dsimp only; omega, by simp⟩

theorem reachable_spec (lib : FloatLib F S) (a : RSMApp F S) (h : RSMApp.Reachable lib a) :
    Ready a ∧ Sized a := by
  obtain ⟨env, frames, h⟩ := h
  cases hs : env.shaders with
  | none =>
    simp [RSMApp.init, RSMApp.createShaders, hs] at h
  | some loc =>
    obtain ⟨a0, h0, hr0, hz0, _⟩ := init_spec lib env (by simp [hs])
    obtain ⟨b, hb, hrb, hzb⟩ := run_sized lib frames a0 hr0 hz0
    rw [h0, Option.some_bind, hb] at h
    cases h
    exact ⟨hrb, hzb⟩

theorem start_reachable (lib : FloatLib F S) (env : Env F) (hs : env.shaders.isSome) :
    RSMApp.Reachable lib (RSMApp.start lib env) := by
  obtain ⟨a0, h0, _⟩ := init_spec lib env hs
  refine ⟨env, [], ?_⟩
  simp [RSMApp.start, h0, RSMApp.run]

theorem start_size (lib : FloatLib F S) (env : Env F) (hs : env.shaders.isSome) :
    ((RSMApp.start lib env)._currentWidth, (RSMApp.start lib env)._currentHeight) =
      env.framebufferSize := by
  obtain ⟨a0, h0, _, _, hw, hh⟩ := init_spec lib env hs
  simp only [RSMApp.start, h0, Option.getD_some, hw, hh]

/-- What update does when the observed size differs from the stored one. -/
theorem update_changed (lib : FloatLib F S) (ui : UIInput F) (a : RSMApp F S) (hr : Ready a)
    (size : Int × Int) (hdiff : size ≠ (a._currentWidth, a._currentHeight)) :
    ∃ b, RSMApp.update lib ui size a = some b ∧
      RSMApp.rsmTargets b = RSMApp.rsmTargets a ∧ b._rsmFBO = a._rsmFBO ∧
      ∃ extra, b.gl.resourceEvents = a.gl.resourceEvents ++ extra ∧
        (∀ t ∈ RSMApp.cameraTargets a, ∃ tex, t = some tex ∧
          GLEvent.deleteTexture tex.id ∈ extra) ∧
        (∀ t ∈ RSMApp.cameraTargets b, ∃ tex, t = some tex ∧
          tex.width = size.1 ∧ tex.height = size.2 ∧
          a.gl.nextId ≤ tex.id ∧ GLEvent.genTexture tex ∈ extra) ∧
        (∀ g ∈ RSMApp.cameraGroups a, ∃ fb, g = some fb ∧
          GLEvent.deleteFramebuffer fb.id ∈ extra) ∧
        (∀ g ∈ RSMApp.cameraGroups b, ∃ fb, g = some fb ∧
          a.gl.nextId ≤ fb.id ∧ GLEvent.genFramebuffer fb ∈ extra) := by
  obtain ⟨g, hg, hsame⟩ := update_spec lib ui size a hr
  have hne : size.1 ≠ (RSMApp.drawUI ui a)._currentWidth ∨
      size.2 ≠ (RSMApp.drawUI ui a)._currentHeight := by
    by_contra hc
    push_neg at hc
    exact hdiff (Prod.ext hc.1 hc.2)
  have hX : RSMApp.resizeStep size (RSMApp.drawUI ui a) =
      RSMApp.recreateGBuffer
        { RSMApp.drawUI ui a with _currentWidth := size.1, _currentHeight := size.2 } := by
    unfold RSMApp.resizeStep
    dsimp only
    rw [if_pos hne]
  have hr1 : Ready ({ RSMApp.drawUI ui a with
      _currentWidth := size.1, _currentHeight := size.2 } : RSMApp F S) :=
    hr.congr rfl rfl rfl rfl (fun t ht => ⟨t, ht⟩) (fun t ht => ⟨t, ht⟩) (fun t ht => ⟨t, ht⟩)
      (fun t ht => ⟨t, ht⟩) (fun t ht => ⟨t, ht⟩) rfl rfl rfl rfl rfl (fun t ht => ⟨t, ht⟩)
      (fun t ht => ⟨t, ht⟩) (fun t ht => ⟨t, ht⟩) rfl rfl
  obtain ⟨extra, hex, hdel, hgen, hfdel, hfgen⟩ := recreateGBuffer_events _ hr1
  refine ⟨_, hg, ?_, ?_, extra, ?_, hdel, ?_, hfdel, ?_⟩
  · show RSMApp.rsmTargets (RSMApp.resizeStep size (RSMApp.drawUI ui a)) = _
    rw [hX]; rfl
  · show (RSMApp.resizeStep size (RSMApp.drawUI ui a))._rsmFBO = _
    rw [hX]; rfl
  · show g.resourceEvents = _
    rw [hsame.2.2, hX, hex]; rfl
  · show ∀ t ∈ RSMApp.cameraTargets (RSMApp.resizeStep size (RSMApp.drawUI ui a)), _
    rw [hX]
    exact hgen
  · show ∀ g ∈ RSMApp.cameraGroups (RSMApp.resizeStep size (RSMApp.drawUI ui a)), _
    rw [hX]
    exact hfgen

theorem advance_two (lib : FloatLib F S) (k : Nat) (s : S) :
    RSMApp.advance lib (k + 2) s =
      RSMApp.advance lib k (lib.uniform01 (lib.uniform01 s).2).2 := by
  unfold RSMApp.advance
  rw [show k + 2 = (k + 1) + 1 from rfl, Function.iterate_succ_apply,
    Function.iterate_succ_apply]

/-- The loop of generateVPLSamples keeps the length and overwrites exactly the
entries `i .. i + n - 1` that exist, entry `j` with the sample built from draws
`2 (j - i)` and `2 (j - i) + 1` of the generator it starts with. -/
theorem vplLoop_spec (lib : FloatLib F S) :
    ∀ (n i : Nat) (rng : S) (samples : List (Vec4 F)),
      (RSMApp.vplLoop lib n i rng samples).length = samples.length ∧
      ∀ j, (RSMApp.vplLoop lib n i rng samples)[j]? =
        if i ≤ j ∧ j < i + n ∧ j < samples.length then
          some (RSMApp.vplSample lib (RSMApp.drawFrom lib rng (2 * (j - i)))
            (RSMApp.drawFrom lib rng (2 * (j - i) + 1)))
        else samples[j]? := by
  intro n
  induction n with
  | zero =>
    intro i rng samples
    refine ⟨rfl, fun j => ?_⟩
    rw [if_neg (by omega)]
    rfl
  | succ n ih =>
    intro i rng samples
    obtain ⟨hl, hj⟩ := ih (i + 1) (lib.uniform01 (lib.uniform01 rng).2).2
      (samples.set i (RSMApp.vplSample lib (lib.uniform01 rng).1
        (lib.uniform01 (lib.uniform01 rng).2).1))
    simp only [RSMApp.vplLoop]
    refine ⟨by rw [hl, List.length_set], fun j => ?_⟩
    rw [hj j, List.length_set]
    rcases Nat.lt_trichotomy j i with hlt | heq | hgt
    · rw [if_neg (by omega), if_neg (by omega), List.getElem?_set_ne (by omega)]
    · subst heq
      rw [if_neg (by omega), List.getElem?_set]
      by_cases hlen : j < samples.length
      · rw [if_pos rfl, if_pos hlen, if_pos ⟨le_refl _, by omega, hlen⟩]
        simp [RSMApp.drawFrom, RSMApp.advance]
      · rw [if_pos rfl, if_neg hlen, if_neg (by omega)]
        exact (List.getElem?_eq_none (by omega)).symm
    · by_cases hc : j < i + (n + 1) ∧ j < samples.length
      · rw [if_pos ⟨by omega, by omega, hc.2⟩, if_pos ⟨by omega, hc.1, hc.2⟩]
        have e1 : 2 * (j - i) = 2 * (j - (i + 1)) + 2 := by omega
        have e2 : 2 * (j - i) + 1 = (2 * (j - (i + 1)) + 1) + 2 := by omega
        have a1 : RSMApp.advance lib (2 * (j - i)) rng =
            RSMApp.advance lib (2 * (j - (i + 1))) (lib.uniform01 (lib.uniform01 rng).2).2 := by
          rw [e1, advance_two]
        have a2 : RSMApp.advance lib (2 * (j - i) + 1) rng =
            RSMApp.advance lib (2 * (j - (i + 1)) + 1) (lib.uniform01 (lib.uniform01 rng).2).2 := by
          rw [e2, advance_two]
        simp only [RSMApp.drawFrom, a1, a2]
      · rw [if_neg (by omega), if_neg (by omega), List.getElem?_set_ne (by omega)]

theorem resize_length (v : List (Vec4 F)) (n : Nat) : (RSMApp.resize v n).length = n := by
  simp only [RSMApp.resize, List.length_append, List.length_take, List.length_replicate]
  omega

/-- The result of generateVPLSamples: MAX_VPL_NUM entries, entry `i` built
from draws `2 i` and `2 i + 1` of the generator seeded with 42. -/
theorem generateVPLSamples_spec (lib : FloatLib F S) (app : RSMApp F S) :
    (RSMApp.generateVPLSamples lib app)._vplSamples.length = MAX_VPL_NUM ∧
      ∀ i, i < MAX_VPL_NUM →
        (RSMApp.generateVPLSamples lib app)._vplSamples[i]? =
          some (RSMApp.vplSample lib (RSMApp.draw lib (2 * i)) (RSMApp.draw lib (2 * i + 1))) := by
  obtain ⟨hl, hj⟩ := vplLoop_spec lib MAX_VPL_NUM 0 (lib.seed 42)
    (RSMApp.resize app._vplSamples MAX_VPL_NUM)
  refine ⟨by simp only [RSMApp.generateVPLSamples, hl, resize_length], fun i hi => ?_⟩
  simp only [RSMApp.generateVPLSamples]
  rw [hj i, resize_length, if_pos ⟨Nat.zero_le _, by omega, hi⟩]
  rfl

theorem vplSample_norm (lib : FloatLib F S) (hpyth : ∀ a, lib.sin a ^ 2 + lib.cos a ^ 2 = 1)
    (xi1 xi2 : F) :
    (RSMApp.vplSample lib xi1 xi2).x ^ 2 + (RSMApp.vplSample lib xi1 xi2).y ^ 2 = xi1 ^ 2 ∧
      (RSMApp.vplSample lib xi1 xi2).z = xi1 ^ 2 := by
  simp only [RSMApp.vplSample]
  constructor
  · have := hpyth (2.0 * 3.14159265 * xi2)
    linear_combination xi1 ^ 2 * this
  · ring

theorem sq_le_one_of_unit (d : F) (h0 : 0 ≤ d) (h1 : d < 1) : d ^ 2 ≤ 1 := by
  nlinarith

theorem libOf_draw_unit (sin cos sqrt : ℝ → ℝ) (s : Nat) :
    0 ≤ ((libOf sin cos sqrt).uniform01 s).1 ∧ ((libOf sin cos sqrt).uniform01 s).1 < 1 := by
  simp only [libOf]
  have h : ((s % 10 : Nat) : ℝ) < 10 := by exact_mod_cast Nat.mod_lt s (by decide)
  constructor
  · positivity
  · rw [div_lt_one (by norm_num)]
    exact h

theorem minS_le_left (a b : F) : Vec3.minS a b ≤ a := by
  unfold Vec3.minS; split <;> [exact le_of_lt ‹_›; exact le_refl _]

theorem minS_le_right (a b : F) : Vec3.minS a b ≤ b := by
  unfold Vec3.minS; split <;> [exact le_refl _; exact not_lt.mp ‹_›]

theorem minS_eq (a b : F) : Vec3.minS a b = a ∨ Vec3.minS a b = b := by
  unfold Vec3.minS; split <;> simp

theorem le_maxS_left (a b : F) : a ≤ Vec3.maxS a b := by
  unfold Vec3.maxS; split <;> [exact le_of_lt ‹_›; exact le_refl _]

theorem le_maxS_right (a b : F) : b ≤ Vec3.maxS a b := by
  unfold Vec3.maxS; split <;> [exact le_refl _; exact not_lt.mp ‹_›]

theorem maxS_eq (a b : F) : Vec3.maxS a b = a ∨ Vec3.maxS a b = b := by
  unfold Vec3.maxS; split <;> simp

/-- A left fold of glm::min over the values `f v`, started at `m0`. -/
theorem foldl_minS_spec {α : Type} (f : α → F) (vs : List α) :
    ∀ m0 : F,
      vs.foldl (fun m v => Vec3.minS m (f v)) m0 ≤ m0 ∧
      (∀ v ∈ vs, vs.foldl (fun m v => Vec3.minS m (f v)) m0 ≤ f v) ∧
      (vs.foldl (fun m v => Vec3.minS m (f v)) m0 = m0 ∨
        ∃ v ∈ vs, vs.foldl (fun m v => Vec3.minS m (f v)) m0 = f v) := by
  induction vs with
  | nil => intro m0; simp
  | cons a rest ih =>
    intro m0
    obtain ⟨h1, h2, h3⟩ := ih (Vec3.minS m0 (f a))
    simp only [List.foldl_cons]
    refine ⟨le_trans h1 (minS_le_left _ _), ?_, ?_⟩
    · intro v hv
      rcases List.mem_cons.mp hv with rfl | hv
      · exact le_trans h1 (minS_le_right _ _)
      · exact h2 v hv
    · rcases h3 with h3 | ⟨v, hv, h3⟩
      · rcases minS_eq m0 (f a) with h4 | h4
        · exact Or.inl (h3.trans h4)
        · exact Or.inr ⟨a, List.mem_cons_self _ _, h3.trans h4⟩
      · exact Or.inr ⟨v, List.mem_cons_of_mem _ hv, h3⟩

/-- A left fold of glm::max over the values `f v`, started at `m0`. -/
theorem foldl_maxS_spec {α : Type} (f : α → F) (vs : List α) :
    ∀ m0 : F,
      m0 ≤ vs.foldl (fun m v => Vec3.maxS m (f v)) m0 ∧
      (∀ v ∈ vs, f v ≤ vs.foldl (fun m v => Vec3.maxS m (f v)) m0) ∧
      (vs.foldl (fun m v => Vec3.maxS m (f v)) m0 = m0 ∨
        ∃ v ∈ vs, vs.foldl (fun m v => Vec3.maxS m (f v)) m0 = f v) := by
  induction vs with
  | nil => intro m0; simp
  | cons a rest ih =>
    intro m0
    obtain ⟨h1, h2, h3⟩ := ih (Vec3.maxS m0 (f a))
    simp only [List.foldl_cons]
    refine ⟨le_trans (le_maxS_left _ _) h1, ?_, ?_⟩
    · intro v hv
      rcases List.mem_cons.mp hv with rfl | hv
      · exact le_trans (le_maxS_right _ _) h1
      · exact h2 v hv
    · rcases h3 with h3 | ⟨v, hv, h3⟩
      · rcases maxS_eq m0 (f a) with h4 | h4
        · exact Or.inl (h3.trans h4)
        · exact Or.inr ⟨a, List.mem_cons_self _ _, h3.trans h4⟩
      · exact Or.inr ⟨v, List.mem_cons_of_mem _ hv, h3⟩

/-- The bounds after calculateBounds, component by component, as folds. -/
theorem calculateBounds_components (vs : List (Vertex F)) :
    ∀ self : ObjLoader F,
      (self.calculateBounds vs)._minBounds.x =
        vs.foldl (fun m v => Vec3.minS m v.position.x) self._minBounds.x ∧
      (self.calculateBounds vs)._minBounds.y =
        vs.foldl (fun m v => Vec3.minS m v.position.y) self._minBounds.y ∧
      (self.calculateBounds vs)._minBounds.z =
        vs.foldl (fun m v => Vec3.minS m v.position.z) self._minBounds.z ∧
      (self.calculateBounds vs)._maxBounds.x =
        vs.foldl (fun m v => Vec3.maxS m v.position.x) self._maxBounds.x ∧
      (self.calculateBounds vs)._maxBounds.y =
        vs.foldl (fun m v => Vec3.maxS m v.position.y) self._maxBounds.y ∧
      (self.calculateBounds vs)._maxBounds.z =
        vs.foldl (fun m v => Vec3.maxS m v.position.z) self._maxBounds.z := by
  unfold ObjLoader.calculateBounds
  induction vs with
  | nil => intro self; simp
  | cons a rest ih =>
    intro self
    simp only [List.foldl_cons]
    exact ih _

/-- Started from FLT_MAX, the fold of min over a non-empty list of values not
above FLT_MAX is the least of the values. -/
theorem foldl_minS_isMin {α : Type} (f : α → F) (vs : List α) (hne : vs ≠ [])
    (hr : ∀ v ∈ vs, f v ≤ FLT_MAX) :
    IsMinCoord (vs.foldl (fun m v => Vec3.minS m (f v)) FLT_MAX) (vs.map f) := by
  obtain ⟨h1, h2, h3⟩ := foldl_minS_spec f vs FLT_MAX
  refine ⟨?_, ?_⟩
  · rcases h3 with h3 | ⟨v, hv, h3⟩
    · obtain ⟨v0, hv0⟩ := List.exists_mem_of_ne_nil vs hne
      have : vs.foldl (fun m v => Vec3.minS m (f v)) FLT_MAX = f v0 :=
        le_antisymm (h2 v0 hv0) (le_of_le_of_eq (hr v0 hv0) h3.symm)
      rw [this]
      exact List.mem_map_of_mem f hv0
    · rw [h3]
      exact List.mem_map_of_mem f hv
  · intro c hc
    obtain ⟨v, hv, rfl⟩ := List.mem_map.mp hc
    exact h2 v hv

/-- Started from -FLT_MAX, the fold of max over a non-empty list of values not
below -FLT_MAX is the greatest of the values. -/
theorem foldl_maxS_isMax {α : Type} (f : α → F) (vs : List α) (hne : vs ≠ [])
    (hr : ∀ v ∈ vs, -FLT_MAX ≤ f v) :
    IsMaxCoord (vs.foldl (fun m v => Vec3.maxS m (f v)) (-FLT_MAX)) (vs.map f) := by
  obtain ⟨h1, h2, h3⟩ := foldl_maxS_spec f vs (-FLT_MAX)
  refine ⟨?_, ?_⟩
  · rcases h3 with h3 | ⟨v, hv, h3⟩
    · obtain ⟨v0, hv0⟩ := List.exists_mem_of_ne_nil vs hne
      have : vs.foldl (fun m v => Vec3.maxS m (f v)) (-FLT_MAX) = f v0 :=
        le_antisymm (le_of_eq_of_le h3 (hr v0 hv0)) (h2 v0 hv0)
      rw [this]
      exact List.mem_map_of_mem f hv0
    · rw [h3]
      exact List.mem_map_of_mem f hv
  · intro c hc
    obtain ⟨v, hv, rfl⟩ := List.mem_map.mp hc
    exact h2 v hv

theorem coord_within_half (lo hi v : F) (h1 : lo ≤ v) (h2 : v ≤ hi) :
    4 * ((v - (lo + hi) * 0.5) * (v - (lo + hi) * 0.5)) ≤ (hi - lo) * (hi - lo) := by
  have h := mul_nonneg (sub_nonneg.mpr h1) (sub_nonneg.mpr h2)
  have e : (0.5 : F) = 1 / 2 := by norm_num
  rw [e]
  nlinarith

theorem root_le_half_root (a e A E : F) (ha : 0 ≤ a) (haa : a * a = A) (he : 0 ≤ e)
    (hee : e * e = E) (h : 4 * A ≤ E) : a ≤ e * 0.5 := by
  have e2 : (0.5 : F) = 1 / 2 := by norm_num
  rw [e2]
  by_contra hc
  push_neg at hc
  have hpos : 0 < a - e * (1 / 2) := sub_pos.mpr hc
  have hsum : 0 < a + e * (1 / 2) := by linarith
  have := mul_pos hpos hsum
  nlinarith

/-- Every vertex folded by calculateBounds lies, component by component,
between the bounds. -/
theorem calculateBounds_encloses (vs : List (Vertex F)) (self : ObjLoader F) :
    ∀ v ∈ vs,
      ((self.calculateBounds vs)._minBounds.x ≤ v.position.x ∧
        v.position.x ≤ (self.calculateBounds vs)._maxBounds.x) ∧
      ((self.calculateBounds vs)._minBounds.y ≤ v.position.y ∧
        v.position.y ≤ (self.calculateBounds vs)._maxBounds.y) ∧
      ((self.calculateBounds vs)._minBounds.z ≤ v.position.z ∧
        v.position.z ≤ (self.calculateBounds vs)._maxBounds.z) := by
  intro v hv
  obtain ⟨e1, e2, e3, e4, e5, e6⟩ := calculateBounds_components vs self
  rw [e1, e2, e3, e4, e5, e6]
  exact ⟨⟨(foldl_minS_spec (fun w : Vertex F => w.position.x) vs _).2.1 v hv,
      (foldl_maxS_spec (fun w : Vertex F => w.position.x) vs _).2.1 v hv⟩,
    ⟨(foldl_minS_spec (fun w : Vertex F => w.position.y) vs _).2.1 v hv,
      (foldl_maxS_spec (fun w : Vertex F => w.position.y) vs _).2.1 v hv⟩,
    ⟨(foldl_minS_spec (fun w : Vertex F => w.position.z) vs _).2.1 v hv,
      (foldl_maxS_spec (fun w : Vertex F => w.position.z) vs _).2.1 v hv⟩⟩

/-- A point between the bounds of a loader is within getRadius of
getCenter. -/
theorem within_bounding_sphere (lib : FloatLib F S)
    (hsqrt : ∀ x, 0 ≤ x → 0 ≤ lib.sqrt x ∧ lib.sqrt x * lib.sqrt x = x)
    (self : ObjLoader F) (p : Vec3 F)
    (hx : self._minBounds.x ≤ p.x ∧ p.x ≤ self._maxBounds.x)
    (hy : self._minBounds.y ≤ p.y ∧ p.y ≤ self._maxBounds.y)
    (hz : self._minBounds.z ≤ p.z ∧ p.z ≤ self._maxBounds.z) :
    Vec3.length lib (Vec3.sub p self.getCenter) ≤ self.getRadius lib := by
  simp only [Vec3.length, ObjLoader.getRadius, ObjLoader.getCenter, Vec3.sub, Vec3.add,
    Vec3.scale, Vec3.dot]
  have cx := coord_within_half _ _ _ hx.1 hx.2
  have cy := coord_within_half _ _ _ hy.1 hy.2
  have cz := coord_within_half _ _ _ hz.1 hz.2
  have hA : 0 ≤ (p.x - (self._minBounds.x + self._maxBounds.x) * 0.5) *
        (p.x - (self._minBounds.x + self._maxBounds.x) * 0.5) +
      (p.y - (self._minBounds.y + self._maxBounds.y) * 0.5) *
        (p.y - (self._minBounds.y + self._maxBounds.y) * 0.5) +
      (p.z - (self._minBounds.z + self._maxBounds.z) * 0.5) *
        (p.z - (self._minBounds.z + self._maxBounds.z) * 0.5) := by
    have := mul_self_nonneg (p.x - (self._minBounds.x + self._maxBounds.x) * 0.5)
    have := mul_self_nonneg (p.y - (self._minBounds.y + self._maxBounds.y) * 0.5)
    have := mul_self_nonneg (p.z - (self._minBounds.z + self._maxBounds.z) * 0.5)
    linarith
  have hE : 0 ≤ (self._maxBounds.x - self._minBounds.x) *
        (self._maxBounds.x - self._minBounds.x) +
      (self._maxBounds.y - self._minBounds.y) * (self._maxBounds.y - self._minBounds.y) +
      (self._maxBounds.z - self._minBounds.z) * (self._maxBounds.z - self._minBounds.z) := by
    have := mul_self_nonneg (self._maxBounds.x - self._minBounds.x)
    have := mul_self_nonneg (self._maxBounds.y - self._minBounds.y)
    have := mul_self_nonneg (self._maxBounds.z - self._minBounds.z)
    linarith
  exact root_le_half_root _ _ _ _ (hsqrt _ hA).1 (hsqrt _ hA).2 (hsqrt _ hE).1 (hsqrt _ hE).2
    (by linarith)

/-! ### The state a draw call sees -/

theorem setUniform_uniforms (gl : GLContext F) (p : ProgramName) (u : Uniform) (v : UValue F)
    (q : ProgramName) (w : Uniform) :
    (gl.setUniform p u v).uniforms q w =
      if gl.hasLocation p u = true ∧ q = p ∧ w = u then some v else gl.uniforms q w := by
  unfold GLContext.setUniform
  by_cases h : gl.hasLocation p u = true
  · simp [h]
  · simp [h]

theorem setUniform_hasLocation (gl : GLContext F) (p : ProgramName) (u : Uniform)
    (v : UValue F) : (gl.setUniform p u v).hasLocation = gl.hasLocation := by
  unfold GLContext.setUniform; split <;> rfl

theorem setUniform_events (gl : GLContext F) (p : ProgramName) (u : Uniform) (v : UValue F) :
    (gl.setUniform p u v).events = gl.events := by
  unfold GLContext.setUniform; split <;> rfl

theorem setUniform_units (gl : GLContext F) (p : ProgramName) (u : Uniform) (v : UValue F) :
    (gl.setUniform p u v).units = gl.units := by
  unfold GLContext.setUniform; split <;> rfl

theorem setUniform_activeUnit (gl : GLContext F) (p : ProgramName) (u : Uniform)
    (v : UValue F) : (gl.setUniform p u v).activeUnit = gl.activeUnit := by
  unfold GLContext.setUniform; split <;> rfl

theorem setUniform_currentProgram (gl : GLContext F) (p : ProgramName) (u : Uniform)
    (v : UValue F) : (gl.setUniform p u v).currentProgram = gl.currentProgram := by
  unfold GLContext.setUniform; split <;> rfl

theorem setUniform_boundFramebuffer (gl : GLContext F) (p : ProgramName) (u : Uniform)
    (v : UValue F) : (gl.setUniform p u v).boundFramebuffer = gl.boundFramebuffer := by
  unfold GLContext.setUniform; split <;> rfl

/-- What shadingPass logs, and the state its draw call sees. -/
theorem shadingPass_events (view lightVP : Mat4 F) (app : RSMApp F S) (h : Ready app) :
    ∃ next fbo r, app._outputFBO = some fbo ∧
      RSMApp.shadingPass view lightVP app = some next ∧
      next.gl.events = app.gl.events ++
        [GLEvent.bindFramebuffer fbo.id, GLEvent.clear true false, GLEvent.draw r,
          GLEvent.bindFramebuffer 0] ∧
      r.target = fbo.id ∧ r.program = some ProgramName.shading ∧
      r.mesh = MeshRef.screenQuad ∧
      (app.gl.hasLocation ProgramName.shading Uniform.uVPLNum = true →
        r.uniforms Uniform.uVPLNum = some (UValue.int app._vplNum)) := by
  obtain ⟨fbo, hfbo⟩ := h.outputFBO
  have hprog := h.shadingProgram
  obtain ⟨t0, h0⟩ := h.gbufferAlbedo
  obtain ⟨t1, h1⟩ := h.gbufferNormal
  obtain ⟨t2, h2⟩ := h.gbufferPosition
  obtain ⟨t3, h3⟩ := h.rsmFlux
  obtain ⟨t4, h4⟩ := h.rsmNormal
  obtain ⟨t5, h5⟩ := h.rsmPosition
  obtain ⟨t6, h6⟩ := h.rsmDepth
  obtain ⟨q, hq⟩ := h.screenQuad
  simp only [RSMApp.shadingPass, hfbo, hprog, h0, h1, h2, h3, h4, h5, h6, hq,
    Option.bind_eq_bind, Option.some_bind, Option.pure_def]
  apply Exists.intro
  refine ⟨fbo, ?_⟩
  apply Exists.intro
  refine ⟨rfl, rfl, ?ev, ?tg, ?pg, ?ms, ?un⟩
  case ev =>
    simp only [GLContext.bindFramebuffer, GLContext.draw, GLContext.log,
      GLContext.setUniformBool, setUniform_events, RSMApp.bindSampler, GLContext.bindTexture,
      GLContext.activeTexture, GLContext.useProgram, GLContext.setDepthTest, GLContext.clear,
      GLContext.setViewport, List.append_assoc, List.cons_append, List.nil_append]
    rfl
  case tg =>
    simp only [GLContext.bindFramebuffer, GLContext.draw, GLContext.log,
      GLContext.setUniformBool, setUniform_boundFramebuffer, RSMApp.bindSampler,
      GLContext.bindTexture, GLContext.activeTexture, GLContext.useProgram,
      GLContext.setDepthTest, GLContext.clear, GLContext.setViewport]
  case pg =>
    simp only [GLContext.bindFramebuffer, GLContext.draw, GLContext.log,
      GLContext.setUniformBool, setUniform_currentProgram, RSMApp.bindSampler,
      GLContext.bindTexture, GLContext.activeTexture, GLContext.useProgram,
      GLContext.setDepthTest, GLContext.clear, GLContext.setViewport]
  case ms => rfl
  case un =>
    intro hloc
    simp only [GLContext.setUniformBool, setUniform_currentProgram, setUniform_uniforms,
      setUniform_hasLocation, RSMApp.bindSampler,
      GLContext.bindTexture, GLContext.activeTexture, GLContext.useProgram,
      GLContext.setDepthTest, GLContext.clear, GLContext.setViewport, GLContext.log,
      GLContext.bindFramebuffer, hloc]
    simp

/-- What displayPass logs, and the state its draw call sees. -/
theorem displayPass_events (app : RSMApp F S) (h : Ready app) :
    ∃ next tex r, RSMApp.displayTexture app = some tex ∧
      RSMApp.displayPass app = some next ∧
      next.gl.events = app.gl.events ++
        [GLEvent.bindFramebuffer 0, GLEvent.clear true false, GLEvent.draw r] ∧
      r.target = 0 ∧ r.program = some ProgramName.display ∧
      r.mesh = MeshRef.screenQuad ∧ r.units 0 = tex.id ∧
      (app.gl.hasLocation ProgramName.display Uniform.uTexture = true →
        r.uniforms Uniform.uTexture = some (UValue.int 0)) := by
  have hprog := h.displayProgram
  obtain ⟨t, ht⟩ := displayTexture_some app h
  obtain ⟨q, hq⟩ := h.screenQuad
  simp only [RSMApp.displayPass, hprog, ht, hq, Option.bind_eq_bind, Option.some_bind,
    Option.pure_def]
  apply Exists.intro
  refine ⟨t, ?_⟩
  apply Exists.intro
  refine ⟨rfl, rfl, ?ev, ?tg, ?pg, ?ms, ?un, ?ut⟩
  case ev =>
    simp only [GLContext.bindFramebuffer, GLContext.draw, GLContext.log,
      setUniform_events, GLContext.bindTexture,
      GLContext.activeTexture, GLContext.useProgram, GLContext.setDepthTest, GLContext.clear,
      GLContext.setViewport, List.append_assoc, List.cons_append, List.nil_append]
    rfl
  case tg =>
    simp only [GLContext.bindFramebuffer, GLContext.draw, GLContext.log,
      setUniform_boundFramebuffer,
      GLContext.bindTexture, GLContext.activeTexture, GLContext.useProgram,
      GLContext.setDepthTest, GLContext.clear, GLContext.setViewport]
  case pg =>
    simp only [GLContext.bindFramebuffer, GLContext.draw, GLContext.log,
      setUniform_currentProgram,
      GLContext.bindTexture, GLContext.activeTexture, GLContext.useProgram,
      GLContext.setDepthTest, GLContext.clear, GLContext.setViewport]
  case ms => rfl
  case un =>
    simp only [setUniform_units, GLContext.bindTexture, GLContext.activeTexture,
      GLContext.useProgram, GLContext.setDepthTest, GLContext.clear, GLContext.setViewport,
      GLContext.log, GLContext.bindFramebuffer, if_true]
  case ut =>
    intro hloc
    simp only [setUniform_currentProgram, setUniform_uniforms, setUniform_hasLocation,
      GLContext.bindTexture, GLContext.activeTexture, GLContext.useProgram,
      GLContext.setDepthTest, GLContext.clear, GLContext.setViewport, GLContext.log,
      GLContext.bindFramebuffer, hloc]
    simp

theorem ready_withDisplayMode (app : RSMApp F S) (mode : Int) (h : Ready app) :
    Ready (app.withDisplayMode mode) :=
  h.congr rfl rfl rfl rfl (fun t ht => ⟨t, ht⟩) (fun t ht => ⟨t, ht⟩) (fun t ht => ⟨t, ht⟩)
    (fun t ht => ⟨t, ht⟩) (fun t ht => ⟨t, ht⟩) rfl rfl rfl rfl rfl (fun t ht => ⟨t, ht⟩)
    (fun t ht => ⟨t, ht⟩) (fun t ht => ⟨t, ht⟩) rfl rfl

theorem ready_withVplNum (app : RSMApp F S) (n : Int) (h : Ready app) :
    Ready (app.withVplNum n) :=
  h.congr rfl rfl rfl rfl (fun t ht => ⟨t, ht⟩) (fun t ht => ⟨t, ht⟩) (fun t ht => ⟨t, ht⟩)
    (fun t ht => ⟨t, ht⟩) (fun t ht => ⟨t, ht⟩) rfl rfl rfl rfl rfl (fun t ht => ⟨t, ht⟩)
    (fun t ht => ⟨t, ht⟩) (fun t ht => ⟨t, ht⟩) rfl rfl

/-- After init the context knows the uniform locations the shaders have. -/
theorem start_hasLocation (lib : FloatLib F S) (env : Env F)
    (loc : ProgramName → Uniform → Bool) (hs : env.shaders = some loc) :
    (RSMApp.start lib env).gl.hasLocation = loc := by
  simp only [RSMApp.start, RSMApp.init, RSMApp.createShaders, hs, Option.bind_eq_bind,
    Option.some_bind, Option.pure_def, Option.getD_some]
  rfl

/-- The loop body of gbufferPass on a batch with an out-of-range material
index only issues the draw call. -/
theorem gbufferBatch_out_of_range (prog : ProgramName) (scene : ObjLoader F)
    (gl : GLContext F) (i : Nat) (mesh : ObjMesh F) (k : Mesh F) (hmesh : mesh.mesh = some k)
    (hinv : ¬ (0 ≤ mesh.materialIndex ∧
      mesh.materialIndex < (scene.getMaterials.length : Int))) :
    RSMApp.gbufferBatch prog scene gl i mesh = some (gl.draw (MeshRef.batch i)) := by
  simp only [RSMApp.gbufferBatch, hmesh, if_neg hinv]

/-- The loop body of rsmBufferPass on a batch with an out-of-range material
index only issues the draw call. -/
theorem rsmBatch_out_of_range (prog : ProgramName) (scene : ObjLoader F)
    (gl : GLContext F) (i : Nat) (mesh : ObjMesh F) (k : Mesh F) (hmesh : mesh.mesh = some k)
    (hinv : ¬ (0 ≤ mesh.materialIndex ∧
      mesh.materialIndex < (scene.getMaterials.length : Int))) :
    RSMApp.rsmBatch prog scene gl i mesh = some (gl.draw (MeshRef.batch i)) := by
  simp only [RSMApp.rsmBatch, hmesh, if_neg hinv]

/-- The loop body of gbufferPass logs one draw call, and leaves the program in
use, its uniform values and the texture bindings as that draw call saw them. -/
theorem gbufferBatch_draw (prog : ProgramName) (scene : ObjLoader F) (gl : GLContext F)
    (i : Nat) (mesh : ObjMesh F) (gl1 : GLContext F)
    (h : RSMApp.gbufferBatch prog scene gl i mesh = some gl1) :
    ∃ r, gl1.events = gl.events ++ [GLEvent.draw r] ∧ r.mesh = MeshRef.batch i ∧
      r.program = gl1.currentProgram ∧ r.units = gl1.units ∧
      r.uniforms = fun u => match gl1.currentProgram with
        | some p => gl1.uniforms p u
        | none => none := by
  unfold RSMApp.gbufferBatch at h
  cases hm : mesh.mesh with
  | none => simp [hm] at h
  | some k =>
    simp only [hm, Option.some.injEq] at h
    subst h
    apply Exists.intro
    refine ⟨?ev, ?ms, ?pg, ?un, ?uf⟩
    case ev =>
      simp only [GLContext.draw, GLContext.log]
      congr 1
      split
      · split
        · split
          · simp only [setUniform_events, GLContext.bindTexture, GLContext.activeTexture,
              GLContext.setUniformBool]
          · simp only [setUniform_events, GLContext.setUniformBool]
        · rfl
      · rfl
    case ms => rfl
    case pg => rfl
    case un => rfl
    case uf => rfl

/-! ### The loader's materials -/

theorem loadTextures_length (fs : FileSystem F) (basePath : String)
    (mats : List (ObjMaterial F)) :
    ∀ gl : GLContext F, (ObjLoader.loadTextures fs basePath mats gl).1.length = mats.length := by
  induction mats with
  | nil => intro gl; rfl
  | cons m rest ih =>
    intro gl
    simp only [ObjLoader.loadTextures, List.length_cons, ih]

/-- Entry `j` of the result of loadTextures is the result of the loop body on
entry `j` of the input (in the context the loop has reached by then). -/
theorem loadTextures_getElem (fs : FileSystem F) (basePath : String)
    (mats : List (ObjMaterial F)) :
    ∀ (gl : GLContext F) (j : Nat) (mj : ObjMaterial F), mats[j]? = some mj →
      ∃ glj, (ObjLoader.loadTextures fs basePath mats gl).1[j]? =
        some (ObjLoader.loadTexture fs basePath mj glj).1 := by
  induction mats with
  | nil => intro gl j mj h; simp at h
  | cons m rest ih =>
    intro gl j mj h
    cases j with
    | zero =>
      simp only [List.getElem?_cons_zero, Option.some.injEq] at h
      subst h
      exact ⟨gl, by simp only [ObjLoader.loadTextures, List.getElem?_cons_zero]⟩
    | succ j =>
      simp only [List.getElem?_cons_succ] at h
      obtain ⟨glj, hj⟩ := ih (ObjLoader.loadTexture fs basePath m gl).2 j mj h
      exact ⟨glj, by simp only [ObjLoader.loadTextures, List.getElem?_cons_succ, hj]⟩

/-- The loop body of loadTextures on a material whose texture fails to load
clears the flag and changes nothing else. -/
theorem loadTexture_failure (fs : FileSystem F) (basePath : String) (m : ObjMaterial F)
    (gl : GLContext F) (hflag : m.hasTexture = true)
    (hpath : m.diffuseTexturePath.isEmpty = false)
    (hfail : fs.loadImage (ObjLoader.texturePath basePath m.diffuseTexturePath) = none) :
    (ObjLoader.loadTexture fs basePath m gl).1 = { m with hasTexture := false } := by
  simp [ObjLoader.loadTexture, hflag, hpath, hfail]

theorem addGroup_materials (attrib : TinyAttrib F) (m : TinyMesh) (self : ObjLoader F)
    (group : Int × List Nat) :
    (ObjLoader.addGroup attrib m self group)._materials = self._materials := by
  unfold ObjLoader.addGroup
  dsimp only
  split
  · rfl
  · exact (calculateBounds_meshes _ self).2

theorem foldl_addGroup_materials (attrib : TinyAttrib F) (m : TinyMesh)
    (groups : List (Int × List Nat)) :
    ∀ self : ObjLoader F,
      (groups.foldl (ObjLoader.addGroup attrib m) self)._materials = self._materials := by
  induction groups with
  | nil => intro self; rfl
  | cons g rest ih =>
    intro self
    simp only [List.foldl_cons]
    rw [ih, addGroup_materials]

theorem foldl_addShape_materials (attrib : TinyAttrib F) (shapes : List TinyShape) :
    ∀ self : ObjLoader F,
      (shapes.foldl (ObjLoader.addShape attrib) self)._materials = self._materials := by
  induction shapes with
  | nil => intro self; rfl
  | cons sh rest ih =>
    intro self
    simp only [List.foldl_cons]
    rw [ih]
    exact foldl_addGroup_materials attrib sh.mesh _ self

/-- The outcome of load on a file that parses: it returns true and the
materials are those loadTextures leaves, computed from the parsed materials
(or from the default material when there are none). -/
theorem load_materials (fs : FileSystem F) (self : ObjLoader F) (filepath : String)
    (gl : GLContext F) (parsed : ParsedObj F) (hparse : fs.parseObj filepath = some parsed) :
    (ObjLoader.load fs self filepath gl).1 = true ∧
      (ObjLoader.load fs self filepath gl).2.1.getMaterials =
        (ObjLoader.loadTextures fs (ObjLoader.basePathOf filepath)
          (if (parsed.materials.map ObjLoader.convertMaterial).isEmpty then
            [ObjLoader.defaultMaterial] else parsed.materials.map ObjLoader.convertMaterial)
          (ObjLoader.clearMaterials self._materials gl)).1 := by
  refine ⟨by simp only [ObjLoader.load, hparse], ?_⟩
  simp only [ObjLoader.load, hparse, ObjLoader.getMaterials]
  rw [foldl_addShape_materials]

/-! ## Wiring of the render targets -/

theorem loadTexture_ids (fs : FileSystem F) (basePath : String) (m : ObjMaterial F)
    (gl : GLContext F) (hm : m.diffuseTexture = none) :
    gl.nextId ≤ (ObjLoader.loadTexture fs basePath m gl).2.nextId ∧
      ∀ t, (ObjLoader.loadTexture fs basePath m gl).1.diffuseTexture = some t →
        t.id < (ObjLoader.loadTexture fs basePath m gl).2.nextId := by
  unfold ObjLoader.loadTexture
  split
  · split
    · simp only [GLContext.newTexture, hm, GLContext.resetTexture]
      refine ⟨Nat.le_succ _, ?_⟩
      intro t ht
      cases ht
      exact Nat.lt_succ_self _
    · refine ⟨le_refl _, ?_⟩
      intro t ht
      rw [hm] at ht
      cases ht
  · refine ⟨le_refl _, ?_⟩
    intro t ht
    rw [hm] at ht
    cases ht

theorem loadTextures_ids (fs : FileSystem F) (basePath : String)
    (mats : List (ObjMaterial F)) :
    ∀ gl : GLContext F, (∀ m ∈ mats, m.diffuseTexture = none) →
      gl.nextId ≤ (ObjLoader.loadTextures fs basePath mats gl).2.nextId ∧
        ∀ m ∈ (ObjLoader.loadTextures fs basePath mats gl).1, ∀ t,
          m.diffuseTexture = some t →
            t.id < (ObjLoader.loadTextures fs basePath mats gl).2.nextId := by
  induction mats with
  | nil =>
    intro gl _
    exact ⟨le_refl _, fun m hm => by simp [ObjLoader.loadTextures] at hm⟩
  | cons m0 rest ih =>
    intro gl hnone
    obtain ⟨h1, h2⟩ := loadTexture_ids fs basePath m0 gl (hnone m0 (List.mem_cons_self _ _))
    obtain ⟨h3, h4⟩ := ih (ObjLoader.loadTexture fs basePath m0 gl).2
      (fun m hm => hnone m (List.mem_cons_of_mem _ hm))
    simp only [ObjLoader.loadTextures]
    refine ⟨le_trans h1 h3, ?_⟩
    intro m hm t ht
    rcases List.mem_cons.mp hm with hm | hm
    · subst hm
      exact lt_of_lt_of_le (h2 t ht) h3
    · exact h4 m hm t ht

theorem convertMaterial_texture (mat : TinyMaterial F) :
    (ObjLoader.convertMaterial mat).diffuseTexture = none := by
  unfold ObjLoader.convertMaterial
  dsimp only
  split <;> rfl

/-- A load into a new loader leaves every material texture with an id below
the context's next id. -/
theorem load_texture_ids (fs : FileSystem F) (filepath : String) (gl : GLContext F) :
    ∀ m ∈ (ObjLoader.load fs ObjLoader.init filepath gl).2.1._materials, ∀ t,
      m.diffuseTexture = some t →
        t.id < (ObjLoader.load fs ObjLoader.init filepath gl).2.2.nextId := by
  cases hparse : fs.parseObj filepath with
  | none =>
    intro m hm
    simp [ObjLoader.load, hparse, ObjLoader.init] at hm
  | some parsed =>
    simp only [ObjLoader.load, hparse]
    rw [foldl_addShape_materials]
    refine (loadTextures_ids fs _ _ _ ?_).2
    intro m hm
    split at hm
    · simp only [List.mem_singleton] at hm
      subst hm
      rfl
    · obtain ⟨tm, _, rfl⟩ := List.mem_map.mp hm
      exact convertMaterial_texture tm

theorem createFramebuffers_targetIds (self : RSMApp F S) :
    RSMApp.targetIds (RSMApp.createFramebuffers self) =
      [self.gl.nextId, self.gl.nextId + 1, self.gl.nextId + 2, self.gl.nextId + 3,
        self.gl.nextId + 10, self.gl.nextId + 11, self.gl.nextId + 5, self.gl.nextId + 6,
        self.gl.nextId + 7, self.gl.nextId + 8] ∧
      (RSMApp.createFramebuffers self).gl.nextId = self.gl.nextId + 13 :=
  ⟨rfl, rfl⟩

theorem nodup_created (k : Nat) :
    [k, k + 1, k + 2, k + 3, k + 10, k + 11, k + 5, k + 6, k + 7, k + 8].Nodup := by
  simp only [List.nodup_cons, List.mem_cons, List.mem_singleton, List.not_mem_nil,
    List.nodup_nil, not_or, and_true, not_false_eq_true]
  omega

/-- The state createFramebuffers leaves is wired when every material texture
is older than the context's next id. -/
theorem wired_createFramebuffers (self : RSMApp F S)
    (hmat : ∀ sc, self._scene = some sc → ∀ m ∈ sc._materials, ∀ t,
      m.diffuseTexture = some t → t.id < self.gl.nextId) :
    Wired (RSMApp.createFramebuffers self) := by
  obtain ⟨hids, hnext⟩ := createFramebuffers_targetIds self
  refine ⟨⟨_, _, _, _, _, rfl, rfl, rfl, rfl, rfl, rfl, rfl⟩,
    ⟨_, _, _, _, _, rfl, rfl, rfl, rfl, rfl, rfl, rfl⟩, ?_,
    ⟨_, _, _, rfl, rfl, rfl, rfl, rfl⟩, ⟨_, _, _, rfl, rfl, rfl, ?_, ?_, ?_⟩, ?_, ?_, ?_⟩
  · intro t ht
    simp only [RSMApp.rsmTargets, RSMApp.createFramebuffers, List.mem_cons,
      List.mem_singleton, List.not_mem_nil, or_false] at ht
    rcases ht with ht | ht | ht | ht <;> subst ht <;> exact ⟨_, rfl, rfl, rfl⟩
  · show self.gl.nextId + 9 ≠ self.gl.nextId + 4
    omega
  · show self.gl.nextId + 9 ≠ self.gl.nextId + 12
    omega
  · show self.gl.nextId + 9 < self.gl.nextId + 13
    omega
  · rw [hids]
    exact nodup_created _
  · intro i hi
    rw [hids] at hi
    rw [hnext]
    simp only [List.mem_cons, List.mem_singleton, List.not_mem_nil, or_false] at hi
    omega
  · intro sc hsc m hm t ht i hi
    have hlt := hmat sc hsc m hm t ht
    rw [hids] at hi
    simp only [List.mem_cons, List.mem_singleton, List.not_mem_nil, or_false] at hi
    omega

theorem wired_generate (lib : FloatLib F S) (x : RSMApp F S) (h : Wired x) :
    Wired (RSMApp.generateVPLSamples lib (RSMApp.createScreenQuad x)) :=
  ⟨h.gbuffer, h.rsm, h.rsmSize, h.output, h.groups, h.distinct, h.below, h.materials⟩

theorem init_wired (lib : FloatLib F S) (env : Env F) (hs : env.shaders.isSome) :
    ∃ app, RSMApp.init lib env (RSMApp.new lib) = some app ∧ Wired app := by
  obtain ⟨loc, hloc⟩ := Option.isSome_iff_exists.mp hs
  simp only [RSMApp.init, RSMApp.createShaders, hloc, Option.bind_eq_bind, Option.some_bind,
    Option.pure_def]
  refine ⟨_, rfl, ?_⟩
  have hmat := load_texture_ids env.fs (env.dataPath ++ "/../Model/sponza/sponza.obj")
    (RSMApp.freshContext : GLContext F)
  apply wired_generate
  apply wired_createFramebuffers
  intro sc hsc m hm t ht
  simp only [RSMApp.loadScene, Option.some.injEq] at hsc
  subst hsc
  exact hmat m hm t ht
theorem resetTexture_nextId (gl : GLContext F) (p : Option Texture2D) :
    (gl.resetTexture p).nextId = gl.nextId := by
  cases p <;> rfl

theorem resetFramebuffer_nextId (gl : GLContext F) (p : Option Framebuffer) :
    (gl.resetFramebuffer p).nextId = gl.nextId := by
  cases p <;> rfl

theorem recreateGBuffer_targetIds (self : RSMApp F S) :
    RSMApp.targetIds (RSMApp.recreateGBuffer self) =
      [self.gl.nextId, self.gl.nextId + 1, self.gl.nextId + 2, self.gl.nextId + 3,
        self.gl.nextId + 5, self.gl.nextId + 6] ++
        (RSMApp.rsmTargets self).filterMap (fun t => t.map (fun x => x.id)) ∧
      (RSMApp.recreateGBuffer self).gl.nextId = self.gl.nextId + 8 := by
  simp only [RSMApp.targetIds, RSMApp.recreateGBuffer, RSMApp.cameraTargets, RSMApp.rsmTargets,
    GLContext.newTexture, GLContext.newFramebuffer, resetTexture_nextId,
    resetFramebuffer_nextId, List.cons_append, List.nil_append, List.filterMap_cons,
    Option.map_some', and_self]

theorem targetIds_split (self : RSMApp F S) :
    RSMApp.targetIds self =
      (RSMApp.cameraTargets self).filterMap (fun t => t.map (fun x => x.id)) ++
        (RSMApp.rsmTargets self).filterMap (fun t => t.map (fun x => x.id)) := by
  simp only [RSMApp.targetIds, List.filterMap_append]

theorem wired_recreateGBuffer (self : RSMApp F S) (h : Wired self) :
    Wired (RSMApp.recreateGBuffer self) := by
  obtain ⟨hids, hnext⟩ := recreateGBuffer_targetIds self
  have hsplit := targetIds_split self
  have hrsmNodup : ((RSMApp.rsmTargets self).filterMap
      (fun t => t.map (fun x => x.id))).Nodup := by
    have := h.distinct
    rw [hsplit] at this
    exact (List.nodup_append.mp this).2.1
  have hrsmBelow : ∀ i ∈ (RSMApp.rsmTargets self).filterMap
      (fun t => t.map (fun x => x.id)), i < self.gl.nextId := by
    intro i hi
    exact h.below i (by rw [hsplit]; exact List.mem_append_right _ hi)
  obtain ⟨rf, rn, rp, rd, rg, e1, e2, e3, e4, e5, e6, e7⟩ := h.rsm
  obtain ⟨g0, r0, o0, _, er0, _, _, _, hr0⟩ := h.groups
  refine ⟨⟨_, _, _, _, _, rfl, rfl, rfl, rfl, rfl, rfl, rfl⟩,
    ⟨rf, rn, rp, rd, rg, e1, e2, e3, e4, e5, e6, e7⟩, h.rsmSize,
    ⟨_, _, _, rfl, rfl, rfl, rfl, rfl⟩, ⟨_, r0, _, rfl, er0, rfl, ?_, ?_, ?_⟩, ?_, ?_, ?_⟩
  · simp only [GLContext.newTexture, GLContext.newFramebuffer, resetTexture_nextId,
      resetFramebuffer_nextId]
    omega
  · simp only [GLContext.newTexture, GLContext.newFramebuffer, resetTexture_nextId,
      resetFramebuffer_nextId]
    omega
  · rw [hnext]
    omega
  · rw [hids]
    refine List.nodup_append.mpr ⟨?_, hrsmNodup, ?_⟩
    · simp only [List.nodup_cons, List.mem_cons, List.mem_singleton, List.not_mem_nil,
        List.nodup_nil, not_or, and_true, not_false_eq_true]
      omega
    · intro i hi hj
      have := hrsmBelow i hj
      simp only [List.mem_cons, List.mem_singleton, List.not_mem_nil, or_false] at hi
      omega
  · intro i hi
    rw [hids] at hi
    rw [hnext]
    rcases List.mem_append.mp hi with hi | hi
    · simp only [List.mem_cons, List.mem_singleton, List.not_mem_nil, or_false] at hi
      omega
    · have := hrsmBelow i hi
      omega
  · intro sc hsc m hm t ht i hi
    rw [hids] at hi
    have hold : ∀ j ∈ RSMApp.targetIds self, t.id < j := h.materials sc hsc m hm t ht
    rcases List.mem_append.mp hi with hi | hi
    · have hrf : rf.id ∈ RSMApp.targetIds self := by
        rw [hsplit]
        refine List.mem_append_right _ ?_
        simp [RSMApp.rsmTargets, e1]
      have h1 := hold _ hrf
      have h2 := h.below _ hrf
      simp only [List.mem_cons, List.mem_singleton, List.not_mem_nil, or_false] at hi
      omega
    · exact hold i (by rw [hsplit]; exact List.mem_append_right _ hi)

theorem wired_resizeStep (size : Int × Int) (self : RSMApp F S) (h : Wired self) :
    Wired (RSMApp.resizeStep size self) := by
  unfold RSMApp.resizeStep
  dsimp only
  split
  · apply wired_recreateGBuffer
    exact ⟨h.gbuffer, h.rsm, h.rsmSize, h.output, h.groups, h.distinct, h.below, h.materials⟩
  · exact h

theorem wired_afterFrame (lib : FloatLib F S) (ui : UIInput F) (size : Int × Int)
    (self : RSMApp F S) (g : GLContext F) (h : Wired self)
    (hn : g.nextId = (RSMApp.resizeStep size (RSMApp.drawUI ui self)).gl.nextId) :
    Wired (afterFrame lib ui size self g) := by
  have h1 : Wired (RSMApp.drawUI ui self) :=
    ⟨h.gbuffer, h.rsm, h.rsmSize, h.output, h.groups, h.distinct, h.below, h.materials⟩
  have h2 := wired_resizeStep size _ h1
  obtain ⟨g0, r0, o0, eg0, er0, eo0, n1, n2, n3⟩ := h2.groups
  exact ⟨h2.gbuffer, h2.rsm, h2.rsmSize, h2.output,
    ⟨g0, r0, o0, eg0, er0, eo0, n1, n2, by
      show r0.id < g.nextId
      rw [hn]
      exact n3⟩, h2.distinct,
    fun i hi => by
      have := h2.below i hi
      show i < g.nextId
      rw [hn]
      exact this, h2.materials⟩

theorem update_wired (lib : FloatLib F S) (ui : UIInput F) (size : Int × Int)
    (self : RSMApp F S) (hr : Ready self) (h : Wired self) :
    ∀ b, RSMApp.update lib ui size self = some b → Wired b := by
  intro b hb
  obtain ⟨g, hg, hsame⟩ := update_spec lib ui size self hr
  rw [hg] at hb
  cases hb
  exact wired_afterFrame lib ui size self g h hsame.1

theorem run_wired (lib : FloatLib F S) (frames : List (UIInput F × (Int × Int))) :
    ∀ self : RSMApp F S, Ready self → Sized self → Wired self →
      ∀ b, RSMApp.run lib frames self = some b → Wired b := by
  induction frames with
  | nil =>
    intro self _ _ h b hb
    simp only [RSMApp.run, Option.some.injEq] at hb
    subst hb
    exact h
  | cons fr rest ih =>
    intro self hr hz h b hb
    obtain ⟨a, ha, hra, hza, _, _⟩ := update_sized lib fr.1 fr.2 self hr hz
    simp only [RSMApp.run, ha] at hb
    exact ih a hra hza (update_wired lib fr.1 fr.2 self hr h a ha) b hb

theorem reachable_wired (lib : FloatLib F S) (a : RSMApp F S) (h : RSMApp.Reachable lib a) :
    Wired a := by
  obtain ⟨env, frames, h⟩ := h
  cases hs : env.shaders with
  | none =>
    simp [RSMApp.init, RSMApp.createShaders, hs] at h
  | some loc =>
    obtain ⟨a0, h0, hr0, hz0, _⟩ := init_spec lib env (by simp [hs])
    obtain ⟨a1, h1, hw1⟩ := init_wired lib env (by simp [hs])
    rw [h0] at h1
    cases h1
    rw [h0, Option.some_bind] at h
    exact run_wired lib frames a0 hr0 hz0 hw1 a h

/-! ## The calls logged by the passes -/

theorem gbufferBatch_pre (prog : ProgramName) (sc : ObjLoader F) (gl : GLContext F) (i : Nat)
    (mesh : ObjMesh F) (hm : ∃ k, mesh.mesh = some k) :
    ∃ g : GLContext F, RSMApp.gbufferBatch prog sc gl i mesh = some (g.draw (MeshRef.batch i)) ∧
      g.events = gl.events ∧ g.currentProgram = gl.currentProgram ∧
      g.boundFramebuffer = gl.boundFramebuffer ∧
      ∀ t, RSMApp.boundTexture sc mesh = some t → g.units 0 = t.id := by
  obtain ⟨k, hk⟩ := hm
  unfold RSMApp.gbufferBatch RSMApp.boundTexture
  simp only [hk]
  refine ⟨_, rfl, ?_, ?_, ?_, ?_⟩
  · split
    · split
      · split
        · simp only [setUniform_events, GLContext.bindTexture, GLContext.activeTexture,
            GLContext.setUniformBool]
        · simp only [setUniform_events, GLContext.setUniformBool]
      · rfl
    · rfl
  · split
    · split
      · split
        · simp only [setUniform_currentProgram, GLContext.bindTexture,
            GLContext.activeTexture, GLContext.setUniformBool]
        · simp only [setUniform_currentProgram, GLContext.setUniformBool]
      · rfl
    · rfl
  · split
    · split
      · split
        · simp only [setUniform_boundFramebuffer, GLContext.bindTexture,
            GLContext.activeTexture, GLContext.setUniformBool]
        · simp only [setUniform_boundFramebuffer, GLContext.setUniformBool]
      · rfl
    · rfl
  · intro t ht
    by_cases hc : 0 ≤ mesh.materialIndex ∧ mesh.materialIndex < (sc.getMaterials.length : Int)
    · simp only [if_pos hc] at ht ⊢
      cases hget : sc.getMaterials.get? mesh.materialIndex.toNat with
      | none => simp only [hget] at ht; cases ht
      | some mat =>
        simp only [hget] at ht ⊢
        cases hht : mat.hasTexture with
        | false => simp only [hht] at ht; cases ht
        | true =>
          cases hdt : mat.diffuseTexture with
          | none => simp only [hht, hdt] at ht; cases ht
          | some t1 =>
            simp only [hht, hdt, Option.some.injEq] at ht ⊢
            subst ht
            simp only [setUniform_units, GLContext.bindTexture, GLContext.activeTexture,
              GLContext.setUniformBool, if_true]
    · simp only [if_neg hc] at ht
      cases ht
theorem gbufferBatches_frame (prog : ProgramName) (sc : ObjLoader F) (ms : List (ObjMesh F)) :
    ∀ (i : Nat) (gl : GLContext F), (∀ m ∈ ms, ∃ k, m.mesh = some k) →
      ∃ (gl1 : GLContext F) (rs : List (DrawRecord F)),
        RSMApp.gbufferBatches prog sc i ms gl = some gl1 ∧
        gl1.events = gl.events ++ rs.map GLEvent.draw ∧
        SceneDraws gl.currentProgram gl.boundFramebuffer i ms.length rs ∧
        gl1.currentProgram = gl.currentProgram ∧
        gl1.boundFramebuffer = gl.boundFramebuffer ∧
        ∀ k r mesh t, rs.get? k = some r → ms.get? k = some mesh →
          RSMApp.boundTexture sc mesh = some t → r.units 0 = t.id := by
  induction ms with
  | nil =>
    intro i gl _
    refine ⟨gl, [], rfl, by simp, ⟨rfl, ?_⟩, rfl, rfl, ?_⟩
    · intro k r hk
      simp at hk
    · intro k r mesh t hk
      simp at hk
  | cons m rest ih =>
    intro i gl h
    obtain ⟨g, hg, he, hp, hb, hu⟩ :=
      gbufferBatch_pre prog sc gl i m (h m (List.mem_cons_self _ _))
    obtain ⟨gl2, rs, h2, he2, ⟨hlen, hdraws⟩, hp2, hb2, hu2⟩ :=
      ih (i + 1) (g.draw (MeshRef.batch i)) (fun x hx => h x (List.mem_cons_of_mem _ hx))
    refine ⟨gl2, { target := g.boundFramebuffer
                   program := g.currentProgram
                   mesh := MeshRef.batch i
                   uniforms := fun u => match g.currentProgram with
                     | some p => g.uniforms p u
                     | none => none
                   units := g.units } :: rs, ?_, ?_, ⟨?_, ?_⟩, ?_, ?_, ?_⟩
    · simp only [RSMApp.gbufferBatches, hg, h2]
    · rw [he2]
      simp only [GLContext.draw, GLContext.log, he, List.map_cons, List.append_assoc,
        List.singleton_append]
    · simp only [List.length_cons, hlen]
    · intro k r hk
      cases k with
      | zero =>
        simp only [List.get?_cons_zero, Option.some.injEq] at hk
        subst hk
        exact ⟨hp, hb, rfl⟩
      | succ k =>
        simp only [List.get?_cons_succ] at hk
        obtain ⟨a1, a2, a3⟩ := hdraws k r hk
        refine ⟨a1.trans hp, a2.trans hb, ?_⟩
        rw [a3]
        exact congrArg MeshRef.batch (by omega)
    · exact hp2.trans hp
    · exact hb2.trans hb
    · intro k r mesh t hk hmk ht
      cases k with
      | zero =>
        simp only [List.get?_cons_zero, Option.some.injEq] at hk hmk
        subst hk
        subst hmk
        exact hu t ht
      | succ k =>
        simp only [List.get?_cons_succ] at hk hmk
        exact hu2 k r mesh t hk hmk ht

theorem rsmBatch_pre (prog : ProgramName) (sc : ObjLoader F) (gl : GLContext F) (i : Nat)
    (mesh : ObjMesh F) (hm : ∃ k, mesh.mesh = some k) :
    ∃ g : GLContext F, RSMApp.rsmBatch prog sc gl i mesh = some (g.draw (MeshRef.batch i)) ∧
      g.events = gl.events ∧ g.currentProgram = gl.currentProgram ∧
      g.boundFramebuffer = gl.boundFramebuffer ∧ g.units = gl.units := by
  obtain ⟨k, hk⟩ := hm
  unfold RSMApp.rsmBatch
  simp only [hk]
  refine ⟨_, rfl, ?_, ?_, ?_, ?_⟩
  · split
    · split
      · simp only [setUniform_events, GLContext.setUniformBool]
      · rfl
    · rfl
  · split
    · split
      · simp only [setUniform_currentProgram, GLContext.setUniformBool]
      · rfl
    · rfl
  · split
    · split
      · simp only [setUniform_boundFramebuffer, GLContext.setUniformBool]
      · rfl
    · rfl
  · split
    · split
      · simp only [setUniform_units, GLContext.setUniformBool]
      · rfl
    · rfl

theorem rsmBatches_frame (prog : ProgramName) (sc : ObjLoader F) (ms : List (ObjMesh F)) :
    ∀ (i : Nat) (gl : GLContext F), (∀ m ∈ ms, ∃ k, m.mesh = some k) →
      ∃ (gl1 : GLContext F) (rs : List (DrawRecord F)),
        RSMApp.rsmBatches prog sc i ms gl = some gl1 ∧
        gl1.events = gl.events ++ rs.map GLEvent.draw ∧
        SceneDraws gl.currentProgram gl.boundFramebuffer i ms.length rs ∧
        gl1.currentProgram = gl.currentProgram ∧
        gl1.boundFramebuffer = gl.boundFramebuffer ∧
        gl1.units = gl.units ∧ ∀ r ∈ rs, r.units = gl.units := by
  induction ms with
  | nil =>
    intro i gl _
    refine ⟨gl, [], rfl, by simp, ⟨rfl, ?_⟩, rfl, rfl, rfl, ?_⟩
    · intro k r hk
      simp at hk
    · intro r hr
      simp at hr
  | cons m rest ih =>
    intro i gl h
    obtain ⟨g, hg, he, hp, hb, hu⟩ :=
      rsmBatch_pre prog sc gl i m (h m (List.mem_cons_self _ _))
    obtain ⟨gl2, rs, h2, he2, ⟨hlen, hdraws⟩, hp2, hb2, hu2, hall⟩ :=
      ih (i + 1) (g.draw (MeshRef.batch i)) (fun x hx => h x (List.mem_cons_of_mem _ hx))
    refine ⟨gl2, { target := g.boundFramebuffer
                   program := g.currentProgram
                   mesh := MeshRef.batch i
                   uniforms := fun u => match g.currentProgram with
                     | some p => g.uniforms p u
                     | none => none
                   units := g.units } :: rs, ?_, ?_, ⟨?_, ?_⟩, ?_, ?_, ?_, ?_⟩
    · simp only [RSMApp.rsmBatches, hg, h2]
    · rw [he2]
      simp only [GLContext.draw, GLContext.log, he, List.map_cons, List.append_assoc,
        List.singleton_append]
    · simp only [List.length_cons, hlen]
    · intro k r hk
      cases k with
      | zero =>
        simp only [List.get?_cons_zero, Option.some.injEq] at hk
        subst hk
        exact ⟨hp, hb, rfl⟩
      | succ k =>
        simp only [List.get?_cons_succ] at hk
        obtain ⟨a1, a2, a3⟩ := hdraws k r hk
        refine ⟨a1.trans hp, a2.trans hb, ?_⟩
        rw [a3]
        exact congrArg MeshRef.batch (by omega)
    · exact hp2.trans hp
    · exact hb2.trans hb
    · exact hu2.trans hu
    · intro r hr
      rcases List.mem_cons.mp hr with hr | hr
      · subst hr
        exact hu
      · exact (hall r hr).trans hu
theorem gl_of_some_eq {a : RSMApp F S} {g1 g2 : GLContext F}
    (h : some ({ a with gl := g1 } : RSMApp F S) = some { a with gl := g2 }) : g1 = g2 := by
  have := congrArg (fun o : Option (RSMApp F S) => o.map (fun x => x.gl)) h
  simpa using this

/-- What gbufferPass logs: it binds the G-buffer framebuffer, clears colour
and depth, draws every scene batch in order with the G-buffer program, and
binds framebuffer 0. -/
theorem gbufferPass_frame (view proj : Mat4 F) (self : RSMApp F S) (h : Ready self) :
    ∃ (gl1 : GLContext F) (fbo : Framebuffer) (sc : ObjLoader F) (rs : List (DrawRecord F)),
      self._gbufferFBO = some fbo ∧ self._scene = some sc ∧
      RSMApp.gbufferPass view proj self = some { self with gl := gl1 } ∧
      SameResources self.gl gl1 ∧
      gl1.events = self.gl.events ++
        ([GLEvent.bindFramebuffer fbo.id, GLEvent.clear true true] ++ rs.map GLEvent.draw ++
          [GLEvent.bindFramebuffer 0]) ∧
      SceneDraws (some ProgramName.gbuffer) fbo.id 0 sc.getMeshes.length rs ∧
      ∀ k r mesh t, rs.get? k = some r → sc.getMeshes.get? k = some mesh →
        RSMApp.boundTexture sc mesh = some t → r.units 0 = t.id := by
  obtain ⟨fbo, hfbo⟩ := h.gbufferFBO
  have hprog := h.gbufferProgram
  obtain ⟨sc, hsc, hmesh⟩ := h.scene
  obtain ⟨g1, hspec, hsame⟩ := gbufferPass_spec view proj self h
  obtain ⟨g, rs, hg, hev, hdraws, _, _, hu⟩ :=
    gbufferBatches_frame ProgramName.gbuffer sc sc.getMeshes 0
      (((((((((self.gl.bindFramebuffer fbo.id).setViewport self._width
        self._height).setClearColor ⟨0, 0, 0, 1⟩).clear
        true).setDepthTest true).useProgram ProgramName.gbuffer).setUniform
        ProgramName.gbuffer Uniform.uModel
        (UValue.mat4 Mat4.identity)).setUniform ProgramName.gbuffer Uniform.uView
        (UValue.mat4 view)).setUniform ProgramName.gbuffer Uniform.uProjection
        (UValue.mat4 proj)) hmesh
  have hcomp : RSMApp.gbufferPass view proj self =
      some { self with gl := g.bindFramebuffer 0 } := by
    simp only [RSMApp.gbufferPass, hfbo, hprog, hsc, Option.bind_eq_bind, Option.some_bind,
      Option.pure_def, hg]
  have hg1 : g1 = g.bindFramebuffer 0 := gl_of_some_eq (hspec.symm.trans hcomp)
  simp only [setUniform_events, setUniform_currentProgram, setUniform_boundFramebuffer,
    GLContext.useProgram, GLContext.setDepthTest, GLContext.clear, GLContext.log,
    GLContext.setClearColor, GLContext.setViewport, GLContext.bindFramebuffer] at hev hdraws
  refine ⟨g1, fbo, sc, rs, hfbo, hsc, hspec, hsame, ?_, hdraws, hu⟩
  rw [hg1]
  simp only [GLContext.bindFramebuffer, hev, List.append_assoc, List.cons_append,
    List.nil_append]

/-- What rsmBufferPass logs: it binds the RSM framebuffer, clears colour and
depth, draws every scene batch in order with the RSM program, and binds
framebuffer 0. -/
theorem rsmBufferPass_frame (lightview lightVP : Mat4 F) (self : RSMApp F S)
    (h : Ready self) :
    ∃ (gl1 : GLContext F) (fbo : Framebuffer) (sc : ObjLoader F) (rs : List (DrawRecord F)),
      self._rsmFBO = some fbo ∧ self._scene = some sc ∧
      RSMApp.rsmBufferPass lightview lightVP self = some { self with gl := gl1 } ∧
      SameResources self.gl gl1 ∧
      gl1.events = self.gl.events ++
        ([GLEvent.bindFramebuffer fbo.id, GLEvent.clear true true] ++ rs.map GLEvent.draw ++
          [GLEvent.bindFramebuffer 0]) ∧
      SceneDraws (some ProgramName.rsmBuffer) fbo.id 0 sc.getMeshes.length rs ∧
      gl1.units = self.gl.units ∧ ∀ r ∈ rs, r.units = self.gl.units := by
  obtain ⟨fbo, hfbo⟩ := h.rsmFBO
  have hprog := h.rsmBufferProgram
  obtain ⟨sc, hsc, hmesh⟩ := h.scene
  obtain ⟨g1, hspec, hsame⟩ := rsmBufferPass_spec lightview lightVP self h
  obtain ⟨g, rs, hg, hev, hdraws, _, _, hu, hall⟩ :=
    rsmBatches_frame ProgramName.rsmBuffer sc sc.getMeshes 0
      (((((((((((self.gl.bindFramebuffer fbo.id).setViewport RSM_SIZE
        RSM_SIZE).setClearColor ⟨0, 0, 0, 1⟩).clear
        true).setDepthTest true).useProgram ProgramName.rsmBuffer).setUniform
        ProgramName.rsmBuffer Uniform.uModel
        (UValue.mat4 Mat4.identity)).setUniform ProgramName.rsmBuffer Uniform.uView
        (UValue.mat4 lightview)).setUniform ProgramName.rsmBuffer Uniform.uLightVP
        (UValue.mat4 lightVP)).setUniform ProgramName.rsmBuffer Uniform.uLightColor
        (UValue.vec3 self._lightColor)).setUniform ProgramName.rsmBuffer
        Uniform.uLightDirViewSpace (UValue.dir lightview self._lightDir)) hmesh
  have hcomp : RSMApp.rsmBufferPass lightview lightVP self =
      some { self with gl := g.bindFramebuffer 0 } := by
    simp only [RSMApp.rsmBufferPass, hfbo, hprog, hsc, Option.bind_eq_bind, Option.some_bind,
      Option.pure_def, hg]
  have hg1 : g1 = g.bindFramebuffer 0 := gl_of_some_eq (hspec.symm.trans hcomp)
  simp only [setUniform_events, setUniform_currentProgram, setUniform_boundFramebuffer,
    setUniform_units,
    GLContext.useProgram, GLContext.setDepthTest, GLContext.clear, GLContext.log,
    GLContext.setClearColor, GLContext.setViewport, GLContext.bindFramebuffer]
    at hev hdraws hu hall
  refine ⟨g1, fbo, sc, rs, hfbo, hsc, hspec, hsame, ?_, hdraws, ?_, hall⟩
  · rw [hg1]
    simp only [GLContext.bindFramebuffer, hev, List.append_assoc, List.cons_append,
      List.nil_append]
  · rw [hg1]
    exact hu
/-- What shadingPass logs and what its draw call sees: the textures on units
0 to 6, and the values of uEnableRSM and uVPLNum. -/
theorem shadingPass_frame (view lightVP : Mat4 F) (app : RSMApp F S) (h : Ready app) :
    ∃ next fbo r, app._outputFBO = some fbo ∧
      RSMApp.shadingPass view lightVP app = some next ∧
      next.gl.events = app.gl.events ++
        [GLEvent.bindFramebuffer fbo.id, GLEvent.clear true false, GLEvent.draw r,
          GLEvent.bindFramebuffer 0] ∧
      r.target = fbo.id ∧ r.program = some ProgramName.shading ∧
      r.mesh = MeshRef.screenQuad ∧
      [r.units 0, r.units 1, r.units 2, r.units 3, r.units 4, r.units 5, r.units 6] =
        RSMApp.shadingReads app ∧
      (app.gl.hasLocation ProgramName.shading Uniform.uEnableRSM = true →
        r.uniforms Uniform.uEnableRSM =
          some (UValue.int (if app._enableRSM then 1 else 0))) ∧
      (app.gl.hasLocation ProgramName.shading Uniform.uVPLNum = true →
        r.uniforms Uniform.uVPLNum = some (UValue.int app._vplNum)) := by
  obtain ⟨fbo, hfbo⟩ := h.outputFBO
  have hprog := h.shadingProgram
  obtain ⟨t0, h0⟩ := h.gbufferAlbedo
  obtain ⟨t1, h1⟩ := h.gbufferNormal
  obtain ⟨t2, h2⟩ := h.gbufferPosition
  obtain ⟨t3, h3⟩ := h.rsmFlux
  obtain ⟨t4, h4⟩ := h.rsmNormal
  obtain ⟨t5, h5⟩ := h.rsmPosition
  obtain ⟨t6, h6⟩ := h.rsmDepth
  obtain ⟨q, hq⟩ := h.screenQuad
  simp only [RSMApp.shadingPass, hfbo, hprog, h0, h1, h2, h3, h4, h5, h6, hq,
    Option.bind_eq_bind, Option.some_bind, Option.pure_def]
  apply Exists.intro
  refine ⟨fbo, ?_⟩
  apply Exists.intro
  refine ⟨rfl, rfl, ?ev, ?tg, ?pg, ?ms, ?un, ?en, ?vp⟩
  case ev =>
    simp only [GLContext.bindFramebuffer, GLContext.draw, GLContext.log,
      GLContext.setUniformBool, setUniform_events, RSMApp.bindSampler, GLContext.bindTexture,
      GLContext.activeTexture, GLContext.useProgram, GLContext.setDepthTest, GLContext.clear,
      GLContext.setViewport, List.append_assoc, List.cons_append, List.nil_append]
    rfl
  case tg =>
    simp only [GLContext.bindFramebuffer, GLContext.draw, GLContext.log,
      GLContext.setUniformBool, setUniform_boundFramebuffer, RSMApp.bindSampler,
      GLContext.bindTexture, GLContext.activeTexture, GLContext.useProgram,
      GLContext.setDepthTest, GLContext.clear, GLContext.setViewport]
  case pg =>
    simp only [GLContext.bindFramebuffer, GLContext.draw, GLContext.log,
      GLContext.setUniformBool, setUniform_currentProgram, RSMApp.bindSampler,
      GLContext.bindTexture, GLContext.activeTexture, GLContext.useProgram,
      GLContext.setDepthTest, GLContext.clear, GLContext.setViewport]
  case ms => rfl
  case un =>
    simp only [RSMApp.shadingReads, h0, h1, h2, h3, h4, h5, h6, List.filterMap_cons,
      List.filterMap_nil, Option.map_some', GLContext.setUniformBool, setUniform_units,
      setUniform_activeUnit, RSMApp.bindSampler, GLContext.bindTexture,
      GLContext.activeTexture, GLContext.useProgram, GLContext.setDepthTest, GLContext.clear,
      GLContext.setViewport, GLContext.log, GLContext.bindFramebuffer]
    simp
  case en =>
    intro hloc
    simp only [GLContext.setUniformBool, setUniform_currentProgram, setUniform_uniforms,
      setUniform_hasLocation, RSMApp.bindSampler,
      GLContext.bindTexture, GLContext.activeTexture, GLContext.useProgram,
      GLContext.setDepthTest, GLContext.clear, GLContext.setViewport, GLContext.log,
      GLContext.bindFramebuffer, hloc]
    simp
  case vp =>
    intro hloc
    simp only [GLContext.setUniformBool, setUniform_currentProgram, setUniform_uniforms,
      setUniform_hasLocation, RSMApp.bindSampler,
      GLContext.bindTexture, GLContext.activeTexture, GLContext.useProgram,
      GLContext.setDepthTest, GLContext.clear, GLContext.setViewport, GLContext.log,
      GLContext.bindFramebuffer, hloc]
    simp
theorem app_of_some_eq {a b : RSMApp F S} (h : some a = some b) : a = b :=
  Option.some.inj h

theorem gbufferPass_log (view proj : Mat4 F) (self : RSMApp F S) (h : Ready self) :
    ∃ (gl1 : GLContext F) (calls : List (GLEvent F)),
      RSMApp.gbufferPass view proj self = some { self with gl := gl1 } ∧
      SameResources self.gl gl1 ∧ gl1.events = self.gl.events ++ calls ∧
      RSMApp.GbufferLog self calls := by
  obtain ⟨gl1, fbo, sc, rs, h1, h2, h3, h4, h5, h6, h7⟩ := gbufferPass_frame view proj self h
  exact ⟨gl1, _, h3, h4, h5, fbo, sc, rs, h1, h2, rfl, h6, h7⟩

theorem rsmBufferPass_log (lightview lightVP : Mat4 F) (self : RSMApp F S) (h : Ready self) :
    ∃ (gl1 : GLContext F) (calls : List (GLEvent F)),
      RSMApp.rsmBufferPass lightview lightVP self = some { self with gl := gl1 } ∧
      SameResources self.gl gl1 ∧ gl1.events = self.gl.events ++ calls ∧
      RSMApp.RsmLog self calls := by
  obtain ⟨gl1, fbo, sc, rs, h1, h2, h3, h4, h5, h6, _⟩ :=
    rsmBufferPass_frame lightview lightVP self h
  exact ⟨gl1, _, h3, h4, h5, fbo, sc, rs, h1, h2, rfl, h6⟩

theorem shadingPass_log (view lightVP : Mat4 F) (self : RSMApp F S) (h : Ready self) :
    ∃ (gl1 : GLContext F) (calls : List (GLEvent F)),
      RSMApp.shadingPass view lightVP self = some { self with gl := gl1 } ∧
      SameResources self.gl gl1 ∧ gl1.events = self.gl.events ++ calls ∧
      RSMApp.ShadingLog self calls := by
  obtain ⟨gl1, hspec, hsame⟩ := shadingPass_spec view lightVP self h
  obtain ⟨next, fbo, r, h1, h2, h3, h4, h5, h6, h7, _⟩ := shadingPass_frame view lightVP self h
  have hn : next = { self with gl := gl1 } := app_of_some_eq (h2.symm.trans hspec)
  subst hn
  exact ⟨gl1, _, hspec, hsame, h3, fbo, r, h1, rfl, h4, h5, h6, h7⟩

theorem displayPass_log (self : RSMApp F S) (h : Ready self) :
    ∃ (gl1 : GLContext F) (calls : List (GLEvent F)),
      RSMApp.displayPass self = some { self with gl := gl1 } ∧
      SameResources self.gl gl1 ∧ gl1.events = self.gl.events ++ calls ∧
      RSMApp.DisplayLog self calls := by
  obtain ⟨gl1, hspec, hsame⟩ := displayPass_spec self h
  obtain ⟨next, tex, r, h1, h2, h3, h4, h5, h6, h7, _⟩ := displayPass_events self h
  have hn : next = { self with gl := gl1 } := app_of_some_eq (h2.symm.trans hspec)
  subst hn
  exact ⟨gl1, _, hspec, hsame, h3, tex, r, h1, rfl, h4, h5, h6, h7⟩

/-- One frame: update returns, and what it appends to the log after the
resize step is the calls of gbufferPass, then those of rsmBufferPass, then
those of shadingPass, then those of displayPass. -/
theorem update_frame (lib : FloatLib F S) (ui : UIInput F) (size : Int × Int)
    (self : RSMApp F S) (h : Ready self) :
    ∃ (gl1 : GLContext F) (cg cr cs cd : List (GLEvent F)),
      RSMApp.update lib ui size self = some (afterFrame lib ui size self gl1) ∧
      SameResources (RSMApp.resizeStep size (RSMApp.drawUI ui self)).gl gl1 ∧
      gl1.events =
        (RSMApp.resizeStep size (RSMApp.drawUI ui self)).gl.events ++ cg ++ cr ++ cs ++ cd ∧
      RSMApp.GbufferLog (RSMApp.resizeStep size (RSMApp.drawUI ui self)) cg ∧
      RSMApp.RsmLog (RSMApp.resizeStep size (RSMApp.drawUI ui self)) cr ∧
      RSMApp.ShadingLog (RSMApp.resizeStep size (RSMApp.drawUI ui self)) cs ∧
      RSMApp.DisplayLog (RSMApp.resizeStep size (RSMApp.drawUI ui self)) cd := by
  have hr : Ready (RSMApp.resizeStep size (RSMApp.drawUI ui self)) :=
    ready_resizeStep size _ (ready_drawUI ui self h)
  have hr1 : ∀ g, Ready (afterFrame lib ui size self g) := fun g =>
    hr.congr rfl rfl rfl rfl (fun t ht => ⟨t, ht⟩) (fun t ht => ⟨t, ht⟩) (fun t ht => ⟨t, ht⟩)
      (fun t ht => ⟨t, ht⟩) (fun t ht => ⟨t, ht⟩) rfl rfl rfl rfl rfl (fun t ht => ⟨t, ht⟩)
      (fun t ht => ⟨t, ht⟩) (fun t ht => ⟨t, ht⟩) rfl rfl
  obtain ⟨sc, hsc, hmesh⟩ := hr.scene
  have key : ∃ r, RSMApp.update lib ui size self = some r ∧
      ∃ g cg cr cs cd, r = afterFrame lib ui size self g ∧
        SameResources (RSMApp.resizeStep size (RSMApp.drawUI ui self)).gl g ∧
        g.events =
          (RSMApp.resizeStep size (RSMApp.drawUI ui self)).gl.events ++ cg ++ cr ++ cs ++ cd ∧
        RSMApp.GbufferLog (RSMApp.resizeStep size (RSMApp.drawUI ui self)) cg ∧
        RSMApp.RsmLog (RSMApp.resizeStep size (RSMApp.drawUI ui self)) cr ∧
        RSMApp.ShadingLog (RSMApp.resizeStep size (RSMApp.drawUI ui self)) cs ∧
        RSMApp.DisplayLog (RSMApp.resizeStep size (RSMApp.drawUI ui self)) cd := by
    simp only [RSMApp.update, Option.bind_eq_bind]
    refine option_bind_spec (P := fun _ => True) ⟨sc, hsc, trivial⟩ ?_
    intro scene _
    refine option_bind_spec
      (P := fun r => ∃ g cg, r = afterFrame lib ui size self g ∧
        SameResources (RSMApp.resizeStep size (RSMApp.drawUI ui self)).gl g ∧
        g.events = (RSMApp.resizeStep size (RSMApp.drawUI ui self)).gl.events ++ cg ∧
        RSMApp.GbufferLog (RSMApp.resizeStep size (RSMApp.drawUI ui self)) cg) ?_ ?_
    · exact Exists.elim (gbufferPass_log _ _ _ (hr1 _))
        (fun g hg => Exists.elim hg
          (fun cg hc => ⟨_, hc.1, g, cg, rfl, hc.2.1, hc.2.2.1, hc.2.2.2⟩))
    · rintro s1 ⟨g1, cg, rfl, hs1, he1, hl1⟩
      refine option_bind_spec
        (P := fun r => ∃ g cr, r = afterFrame lib ui size self g ∧
          SameResources (RSMApp.resizeStep size (RSMApp.drawUI ui self)).gl g ∧
          g.events =
            (RSMApp.resizeStep size (RSMApp.drawUI ui self)).gl.events ++ cg ++ cr ∧
          RSMApp.RsmLog (RSMApp.resizeStep size (RSMApp.drawUI ui self)) cr) ?_ ?_
      · exact Exists.elim (rsmBufferPass_log _ _ _ (hr1 g1))
          (fun g hg => Exists.elim hg
            (fun cr hc => ⟨_, hc.1, g, cr, rfl, hs1.trans hc.2.1,
              hc.2.2.1.trans (congrArg (fun l => l ++ cr) he1), hc.2.2.2⟩))
      · rintro s2 ⟨g2, cr, rfl, hs2, he2, hl2⟩
        refine option_bind_spec
          (P := fun r => ∃ g cs, r = afterFrame lib ui size self g ∧
            SameResources (RSMApp.resizeStep size (RSMApp.drawUI ui self)).gl g ∧
            g.events =
              (RSMApp.resizeStep size (RSMApp.drawUI ui self)).gl.events ++ cg ++ cr ++ cs ∧
            RSMApp.ShadingLog (RSMApp.resizeStep size (RSMApp.drawUI ui self)) cs) ?_ ?_
        · exact Exists.elim (shadingPass_log _ _ _ (hr1 g2))
            (fun g hg => Exists.elim hg
              (fun cs hc => ⟨_, hc.1, g, cs, rfl, hs2.trans hc.2.1,
                hc.2.2.1.trans (congrArg (fun l => l ++ cs) he2), hc.2.2.2⟩))
        · rintro s3 ⟨g3, cs, rfl, hs3, he3, hl3⟩
          exact Exists.elim (displayPass_log _ (hr1 g3))
            (fun g hg => Exists.elim hg
              (fun cd hc => ⟨_, hc.1, g, cg, cr, cs, cd, rfl, hs3.trans hc.2.1,
                hc.2.2.1.trans (congrArg (fun l => l ++ cd) he3), hl1, hl2, hl3, hc.2.2.2⟩))
  obtain ⟨r, hr, g, cg, cr, cs, cd, rfl, hs, he, h1, h2, h3, h4⟩ := key
  exact ⟨g, cg, cr, cs, cd, hr, hs, he, h1, h2, h3, h4⟩

/-! ## Facts about the resize step, the scene load and the accesses of a frame -/

theorem load_false (fs : FileSystem F) (self : ObjLoader F) (filepath : String)
    (gl : GLContext F) (h : (ObjLoader.load fs self filepath gl).1 = false) :
    (ObjLoader.load fs self filepath gl).2 = (self, gl) := by
  unfold ObjLoader.load at h ⊢
  cases hp : fs.parseObj filepath with
  | none => rfl
  | some parsed => simp [hp] at h

theorem resizeStep_same (size : Int × Int) (a : RSMApp F S)
    (h : size = (a._currentWidth, a._currentHeight)) : RSMApp.resizeStep size a = a := by
  subst h
  simp [RSMApp.resizeStep]

theorem resizeStep_rsm (size : Int × Int) (a : RSMApp F S) :
    RSMApp.rsmTargets (RSMApp.resizeStep size a) = RSMApp.rsmTargets a ∧
      (RSMApp.resizeStep size a)._rsmFBO = a._rsmFBO ∧
      (RSMApp.resizeStep size a)._scene = a._scene := by
  unfold RSMApp.resizeStep
  dsimp only
  split
  · exact ⟨rfl, rfl, rfl⟩
  · exact ⟨rfl, rfl, rfl⟩

/-- The calls the resize step logs: only creations and destructions, and the
destructions are of the camera-resolution targets and groups. -/
theorem resizeStep_calls (size : Int × Int) (a : RSMApp F S) (h : Ready a) :
    ∃ rz, (RSMApp.resizeStep size a).gl.events = a.gl.events ++ rz ∧
      (∀ e ∈ rz, GLEvent.isResource e = true) ∧
      (∀ id, GLEvent.deleteTexture id ∈ rz →
        ∃ tex, some tex ∈ RSMApp.cameraTargets a ∧ tex.id = id) ∧
      (∀ id, GLEvent.deleteFramebuffer id ∈ rz →
        ∃ fb, some fb ∈ RSMApp.cameraGroups a ∧ fb.id = id) := by
  unfold RSMApp.resizeStep
  dsimp only
  split
  · obtain ⟨t0, h0⟩ := h.gbufferAlbedo
    obtain ⟨t1, h1⟩ := h.gbufferNormal
    obtain ⟨t2, h2⟩ := h.gbufferPosition
    obtain ⟨t3, h3⟩ := h.gbufferDepth
    obtain ⟨f4, h4⟩ := h.gbufferFBO
    obtain ⟨t5, h5⟩ := h.outputTexture
    obtain ⟨t6, h6⟩ := h.outputDepth
    obtain ⟨f7, h7⟩ := h.outputFBO
    simp only [RSMApp.recreateGBuffer, RSMApp.cameraTargets, RSMApp.cameraGroups,
      h0, h1, h2, h3, h4, h5, h6, h7,
      GLContext.resetTexture, GLContext.resetFramebuffer, GLContext.log, GLContext.newTexture,
      GLContext.newFramebuffer, List.append_assoc, List.singleton_append,
      List.cons_append, List.nil_append]
    refine ⟨_, rfl, ?_, ?_, ?_⟩
    · intro e he
      simp only [List.mem_cons, List.mem_singleton, List.not_mem_nil, or_false] at he
      rcases he with he | he | he | he | he | he | he | he | he | he | he | he | he | he |
        he | he <;> subst he <;> rfl
    · intro id he
      simp only [List.mem_cons, List.mem_singleton, List.not_mem_nil, or_false,
        GLEvent.deleteTexture.injEq, reduceCtorEq, false_or, or_false] at he
      rcases he with he | he | he | he | he | he <;> subst he <;> exact ⟨_, by simp, rfl⟩
    · intro id he
      simp only [List.mem_cons, List.mem_singleton, List.not_mem_nil, or_false,
        GLEvent.deleteFramebuffer.injEq, reduceCtorEq, false_or, or_false] at he
      rcases he with he | he <;> subst he <;> exact ⟨_, by simp, rfl⟩
  · exact ⟨[], by simp, by simp, by simp, by simp⟩

theorem boundTexture_mem (sc : ObjLoader F) (mesh : ObjMesh F) (t : Texture2D)
    (h : RSMApp.boundTexture sc mesh = some t) :
    ∃ m ∈ sc._materials, m.diffuseTexture = some t := by
  unfold RSMApp.boundTexture at h
  dsimp only at h
  split at h
  · split at h
    · rename_i mat hget
      split at h
      · rename_i hht hdt
        cases h
        exact ⟨mat, List.get?_mem hget, hdt⟩
      · cases h
    · cases h
  · cases h
theorem hazardFree_of_wired (app : RSMApp F S) (h : Wired app) :
    HazardFree (RSMApp.frameAccess app) := by
  obtain ⟨a, n, p, d, g, ea, en, ep, ed, eg, gc, gd⟩ := h.gbuffer
  obtain ⟨rf, rn, rp, rd, r, erf, ern, erp, erd, er, rc, rdd⟩ := h.rsm
  obtain ⟨ot, od, o, eot, eod, eo, oc, odd⟩ := h.output
  have hids : RSMApp.targetIds app =
      [a.id, n.id, p.id, d.id, ot.id, od.id, rf.id, rn.id, rp.id, rd.id] := by
    simp only [RSMApp.targetIds, RSMApp.cameraTargets, RSMApp.rsmTargets, ea, en, ep, ed, eot,
      eod, erf, ern, erp, erd, List.cons_append, List.nil_append, List.filterMap_cons,
      List.filterMap_nil, Option.map_some']
  have hd := h.distinct
  rw [hids] at hd
  simp only [List.nodup_cons, List.mem_cons, List.mem_singleton, List.not_mem_nil,
    List.nodup_nil, not_or, and_true, not_false_eq_true, or_false] at hd
  have hmat : ∀ t ∈ RSMApp.gbufferReads app, ∀ i ∈ RSMApp.targetIds app, t < i := by
    intro t ht i hi
    unfold RSMApp.gbufferReads at ht
    cases hsc : app._scene with
    | none => simp [hsc] at ht
    | some sc =>
      simp only [hsc, List.mem_filterMap, Option.map_eq_some'] at ht
      obtain ⟨mesh, _, tex, hb, rfl⟩ := ht
      obtain ⟨m, hm, hmt⟩ := boundTexture_mem sc mesh tex hb
      exact h.materials sc hsc m hm tex hmt i hi
  rw [hids] at hmat
  have hg : attachments app._gbufferFBO = [a.id, n.id, p.id, d.id] := by
    simp only [attachments, eg, gc, gd, List.cons_append, List.nil_append]
  have hr : attachments app._rsmFBO = [rf.id, rn.id, rp.id, rd.id] := by
    simp only [attachments, er, rc, rdd, List.cons_append, List.nil_append]
  have ho : attachments app._outputFBO = [ot.id, od.id] := by
    simp only [attachments, eo, oc, odd, List.cons_append, List.nil_append]
  have hs : RSMApp.shadingReads app = [a.id, n.id, p.id, rf.id, rn.id, rp.id, rd.id] := by
    simp only [RSMApp.shadingReads, ea, en, ep, erf, ern, erp, erd, List.filterMap_cons,
      List.filterMap_nil, Option.map_some']
  simp only [RSMApp.frameAccess, HazardFree, hg, hr, ho, hs, List.mem_cons, List.mem_singleton,
    List.not_mem_nil, or_false, not_false_eq_true, and_true, forall_eq_or_imp, forall_eq,
    implies_true, not_or, forall_const, false_or, IsEmpty.forall_iff]
  refine ⟨?_, ?_⟩
  · intro t ht
    have := hmat t ht
    simp only [List.mem_cons, List.mem_singleton, List.not_mem_nil, or_false,
      forall_eq_or_imp, forall_eq] at this
    omega
  · obtain ⟨⟨_, _, _, a4, a5, _⟩, ⟨_, _, b3, b4, _⟩, ⟨_, c2, c3, _⟩, _,
      ⟨_, e2, e3, e4, e5⟩, ⟨f1, f2, f3, f4⟩, _⟩ := hd
    exact ⟨trivial, ⟨a4, a5⟩, ⟨b3, b4⟩, ⟨c2, c3⟩, ⟨fun h => e2 h.symm, fun h => f1 h.symm⟩,
      ⟨fun h => e3 h.symm, fun h => f2 h.symm⟩, ⟨fun h => e4 h.symm, fun h => f3 h.symm⟩,
      fun h => e5 h.symm, fun h => f4 h.symm⟩
theorem init_scene (lib : FloatLib F S) (env : Env F) (hs : env.shaders.isSome) :
    ∃ app, RSMApp.init lib env (RSMApp.new lib) = some app ∧
      app._scene = some (ObjLoader.load env.fs ObjLoader.init (RSMApp.scenePath env)
        (RSMApp.freshContext : GLContext F)).2.1 ∧
      app._vplSamples.length = MAX_VPL_NUM := by
  obtain ⟨loc, hloc⟩ := Option.isSome_iff_exists.mp hs
  simp only [RSMApp.init, RSMApp.createShaders, hloc, Option.bind_eq_bind, Option.some_bind,
    Option.pure_def]
  exact ⟨_, rfl, rfl, (generateVPLSamples_spec lib _).1⟩

theorem init_none (lib : FloatLib F S) (env : Env F) (hs : env.shaders = none) :
    RSMApp.init lib env (RSMApp.new lib) = none := by
  simp only [RSMApp.init, RSMApp.createShaders, hs, Option.bind_eq_bind, Option.none_bind]

theorem wired_disjoint (app : RSMApp F S) (h : Wired app) :
    ∀ c, some c ∈ RSMApp.cameraTargets app → ∀ r, some r ∈ RSMApp.rsmTargets app →
      c.id ≠ r.id := by
  intro c hc r hr heq
  have hd := h.distinct
  rw [targetIds_split] at hd
  have hdis := (List.nodup_append.mp hd).2.2
  have h1 : c.id ∈ (RSMApp.cameraTargets app).filterMap (fun t => t.map (fun x => x.id)) :=
    List.mem_filterMap.mpr ⟨some c, hc, rfl⟩
  have h2 : c.id ∈ (RSMApp.rsmTargets app).filterMap (fun t => t.map (fun x => x.id)) :=
    List.mem_filterMap.mpr ⟨some r, hr, by simp [heq]⟩
  exact hdis h1 h2

theorem passes_not_resource (pre calls : List (GLEvent F))
    (h : (pre ++ calls).filter GLEvent.isResource = pre.filter GLEvent.isResource) :
    ∀ e ∈ calls, GLEvent.isResource e = false := by
  rw [List.filter_append] at h
  have hnil : calls.filter GLEvent.isResource = [] := by
    simpa using h
  intro e he
  have := List.filter_eq_nil_iff.mp hnil e he
  simpa using this

theorem reachable_of_run (lib : FloatLib F S) (env : Env F)
    (frames : List (UIInput F × (Int × Int))) (a0 app : RSMApp F S)
    (h0 : RSMApp.init lib env (RSMApp.new lib) = some a0)
    (h1 : RSMApp.run lib frames a0 = some app) : RSMApp.Reachable lib app :=
  ⟨env, frames, by rw [h0, Option.some_bind, h1]⟩

theorem run_rsm (lib : FloatLib F S) (frames : List (UIInput F × (Int × Int))) :
    ∀ self : RSMApp F S, Ready self → Sized self →
      ∀ b, RSMApp.run lib frames self = some b →
        RSMApp.rsmTargets b = RSMApp.rsmTargets self ∧ b._rsmFBO = self._rsmFBO := by
  induction frames with
  | nil =>
    intro self _ _ b hb
    simp only [RSMApp.run, Option.some.injEq] at hb
    subst hb
    exact ⟨rfl, rfl⟩
  | cons fr rest ih =>
    intro self hr hz b hb
    obtain ⟨a, ha, hra, hza, _, _⟩ := update_sized lib fr.1 fr.2 self hr hz
    obtain ⟨g, hg, _⟩ := update_spec lib fr.1 fr.2 self hr
    rw [ha] at hg
    cases hg
    simp only [RSMApp.run, ha] at hb
    obtain ⟨k1, k2⟩ := ih _ hra hza b hb
    obtain ⟨m1, m2, _⟩ := resizeStep_rsm fr.2 (RSMApp.drawUI fr.1 self)
    exact ⟨k1.trans m1, k2.trans m2⟩

/-! ## Geometry of the camera and the light -/

theorem sqrt_one_eq (lib : FloatLib F S)
    (hsqrt : ∀ x, 0 ≤ x → 0 ≤ lib.sqrt x ∧ lib.sqrt x * lib.sqrt x = x) :
    lib.sqrt 1 = 1 := by
  obtain ⟨h0, h1⟩ := hsqrt 1 zero_le_one
  have : (lib.sqrt 1 - 1) * (lib.sqrt 1 + 1) = 0 := by linear_combination h1
  rcases mul_eq_zero.mp this with h | h
  · linarith
  · linarith

theorem sqrt_mul_self_eq (lib : FloatLib F S)
    (hsqrt : ∀ x, 0 ≤ x → 0 ≤ lib.sqrt x ∧ lib.sqrt x * lib.sqrt x = x) (d : F) :
    lib.sqrt (d * d) = |d| := by
  obtain ⟨h0, h1⟩ := hsqrt (d * d) (mul_self_nonneg d)
  have h2 : |lib.sqrt (d * d)| = |d| := abs_eq_abs.mpr (mul_self_eq_mul_self_iff.mp h1)
  rwa [abs_of_nonneg h0] at h2

theorem cameraDir_unit (lib : FloatLib F S) (hpyth : ∀ a, lib.sin a ^ 2 + lib.cos a ^ 2 = 1)
    (yaw pitch : F) :
    Vec3.dot (RSMApp.cameraDir lib yaw pitch) (RSMApp.cameraDir lib yaw pitch) = 1 := by
  have h1 := hpyth (radians yaw)
  have h2 := hpyth (radians pitch)
  simp only [RSMApp.cameraDir, Vec3.dot]
  linear_combination (lib.cos (radians pitch)) ^ 2 * h1 + h2

theorem lightDirRaw_unit (lib : FloatLib F S)
    (hpyth : ∀ a, lib.sin a ^ 2 + lib.cos a ^ 2 = 1) (yaw pitch : F) :
    Vec3.dot (RSMApp.lightDirRaw lib yaw pitch) (RSMApp.lightDirRaw lib yaw pitch) = 1 := by
  have h1 := hpyth (radians yaw)
  have h2 := hpyth (radians pitch)
  simp only [RSMApp.lightDirRaw, Vec3.dot]
  linear_combination (lib.sin (radians pitch)) ^ 2 * h1 + h2

theorem normalize_unit (lib : FloatLib F S)
    (hsqrt : ∀ x, 0 ≤ x → 0 ≤ lib.sqrt x ∧ lib.sqrt x * lib.sqrt x = x) (v : Vec3 F)
    (hv : Vec3.dot v v = 1) : Vec3.normalize lib v = v := by
  simp only [Vec3.normalize, hv, sqrt_one_eq lib hsqrt, Vec3.scale, div_one, mul_one]

/-- Cauchy-Schwarz for a unit vector: the component of `v` along `e` is at
most `r` in absolute value when `v` has squared length at most `r * r`. -/
theorem dot_unit_bound (e v : Vec3 F) (r : F) (he : Vec3.dot e e = 1)
    (hv : Vec3.dot v v ≤ r * r) (hr : 0 ≤ r) :
    -r ≤ Vec3.dot e v ∧ Vec3.dot e v ≤ r := by
  simp only [Vec3.dot] at he hv ⊢
  have hcs : (e.x * v.x + e.y * v.y + e.z * v.z) ^ 2 ≤ r * r := by
    have hid : (e.x * v.x + e.y * v.y + e.z * v.z) ^ 2 =
        (e.x * e.x + e.y * e.y + e.z * e.z) * (v.x * v.x + v.y * v.y + v.z * v.z) -
          ((e.y * v.z - e.z * v.y) ^ 2 + (e.z * v.x - e.x * v.z) ^ 2 +
            (e.x * v.y - e.y * v.x) ^ 2) := by ring
    rw [hid, he, one_mul]
    nlinarith [sq_nonneg (e.y * v.z - e.z * v.y), sq_nonneg (e.z * v.x - e.x * v.z),
      sq_nonneg (e.x * v.y - e.y * v.x)]
  have hcs2 : (e.x * v.x + e.y * v.y + e.z * v.z) ^ 2 ≤ r ^ 2 := by
    rw [sq r]
    exact hcs
  exact abs_le_of_sq_le_sq' hcs2 hr
/-- A point within `r` of `c` is inside the orthographic volume of half-width
`R`, near plane 0.1 and far plane 3R, seen from `c - D * R` along the unit
vector `D` with unit lateral axes `s` and `u` orthogonal to `D`, when
`r ≤ R`, `0.1 ≤ R - r` and `R + r ≤ 3R`. -/
theorem inside_of_frame (s u D c p : Vec3 F) (R r : F)
    (hs : Vec3.dot s s = 1) (hu : Vec3.dot u u = 1) (hD : Vec3.dot D D = 1)
    (hsD : Vec3.dot s D = 0) (huD : Vec3.dot u D = 0)
    (hr : 0 ≤ r) (hrR : r ≤ R) (hnear : 0.1 ≤ R - r) (hfar : R + r ≤ R * 3.0)
    (hp : Vec3.dot (Vec3.sub p c) (Vec3.sub p c) ≤ r * r) :
    insideOrtho (-R) R (-R) R 0.1 (R * 3.0)
      ⟨Vec3.dot s p - Vec3.dot s (Vec3.sub c (Vec3.scale D R)),
        Vec3.dot u p - Vec3.dot u (Vec3.sub c (Vec3.scale D R)),
        -(Vec3.dot D p) + Vec3.dot D (Vec3.sub c (Vec3.scale D R))⟩ := by
  obtain ⟨s1, s2⟩ := dot_unit_bound s (Vec3.sub p c) r hs hp hr
  obtain ⟨u1, u2⟩ := dot_unit_bound u (Vec3.sub p c) r hu hp hr
  obtain ⟨d1, d2⟩ := dot_unit_bound D (Vec3.sub p c) r hD hp hr
  have ex : Vec3.dot s p - Vec3.dot s (Vec3.sub c (Vec3.scale D R)) =
      Vec3.dot s (Vec3.sub p c) + R * Vec3.dot s D := by
    simp only [Vec3.dot, Vec3.sub, Vec3.scale]
    ring
  have ey : Vec3.dot u p - Vec3.dot u (Vec3.sub c (Vec3.scale D R)) =
      Vec3.dot u (Vec3.sub p c) + R * Vec3.dot u D := by
    simp only [Vec3.dot, Vec3.sub, Vec3.scale]
    ring
  have ez : -(-(Vec3.dot D p) + Vec3.dot D (Vec3.sub c (Vec3.scale D R))) =
      Vec3.dot D (Vec3.sub p c) + R * Vec3.dot D D := by
    simp only [Vec3.dot, Vec3.sub, Vec3.scale]
    ring
  simp only [insideOrtho]
  rw [ex, ey, ez, hsD, huD, hD, mul_zero, add_zero, add_zero, mul_one]
  refine ⟨by linarith, by linarith, by linarith, by linarith, by linarith, by linarith⟩

/-- The axes glm::lookAt builds for the forward direction `D` and the up
vector (0, 1, 0): unit length and orthogonal to `D`, when `D` is a unit vector
that is not vertical. -/
theorem lookAt_axes (lib : FloatLib F S)
    (hsqrt : ∀ x, 0 ≤ x → 0 ≤ lib.sqrt x ∧ lib.sqrt x * lib.sqrt x = x) (D : Vec3 F)
    (hD : Vec3.dot D D = 1) (hq : D.x * D.x + D.z * D.z ≠ 0) :
    Vec3.dot (Vec3.normalize lib (Vec3.cross D ⟨0, 1, 0⟩))
        (Vec3.normalize lib (Vec3.cross D ⟨0, 1, 0⟩)) = 1 ∧
      Vec3.dot (Vec3.normalize lib (Vec3.cross D ⟨0, 1, 0⟩)) D = 0 ∧
      Vec3.dot (Vec3.cross (Vec3.normalize lib (Vec3.cross D ⟨0, 1, 0⟩)) D)
        (Vec3.cross (Vec3.normalize lib (Vec3.cross D ⟨0, 1, 0⟩)) D) = 1 ∧
      Vec3.dot (Vec3.cross (Vec3.normalize lib (Vec3.cross D ⟨0, 1, 0⟩)) D) D = 0 := by
  have hq0 : 0 ≤ D.x * D.x + D.z * D.z := add_nonneg (mul_self_nonneg _) (mul_self_nonneg _)
  obtain ⟨k0, k1⟩ := hsqrt _ hq0
  have hcross : Vec3.dot (Vec3.cross D ⟨0, 1, 0⟩) (Vec3.cross D ⟨0, 1, 0⟩) =
      D.x * D.x + D.z * D.z := by
    simp only [Vec3.dot, Vec3.cross]
    ring
  have hk : lib.sqrt (D.x * D.x + D.z * D.z) ≠ 0 := by
    intro h0
    rw [h0, mul_zero] at k1
    exact hq k1.symm
  have hD1 : D.x * D.x + D.y * D.y + D.z * D.z = 1 := hD
  have hinv : (1 / lib.sqrt (D.x * D.x + D.z * D.z)) *
      (1 / lib.sqrt (D.x * D.x + D.z * D.z)) * (D.x * D.x + D.z * D.z) = 1 := by
    field_simp
    exact k1.symm
  simp only [Vec3.normalize, hcross]
  simp only [Vec3.dot, Vec3.cross, Vec3.scale]
  generalize (1 / lib.sqrt (D.x * D.x + D.z * D.z)) = k at hinv
  refine ⟨?_, ?_, ?_, ?_⟩
  · linear_combination hinv
  · ring
  · linear_combination (D.x * D.x + D.z * D.z + D.y * D.y) * hinv + hD1
  · ring

theorem normalize_toward (lib : FloatLib F S)
    (hsqrt : ∀ x, 0 ≤ x → 0 ≤ lib.sqrt x ∧ lib.sqrt x * lib.sqrt x = x) (c D : Vec3 F)
    (R : F) (hD : Vec3.dot D D = 1) (hR : 0 < R) :
    Vec3.normalize lib (Vec3.sub c (Vec3.sub c (Vec3.scale D R))) = D := by
  have hdot : Vec3.dot (Vec3.sub c (Vec3.sub c (Vec3.scale D R)))
      (Vec3.sub c (Vec3.sub c (Vec3.scale D R))) = R * R := by
    have hD1 : D.x * D.x + D.y * D.y + D.z * D.z = 1 := hD
    simp only [Vec3.dot, Vec3.sub, Vec3.scale]
    linear_combination (R * R) * hD1
  have hroot : lib.sqrt (R * R) = R := by
    rw [sqrt_mul_self_eq lib hsqrt, abs_of_pos hR]
  simp only [Vec3.normalize, hdot, hroot]
  simp only [Vec3.sub, Vec3.scale]
  have hR0 : R ≠ 0 := ne_of_gt hR
  cases D with
  | mk x y z =>
    simp only [Vec3.mk.injEq]
    refine ⟨by field_simp, by field_simp, by field_simp⟩

/-- The geometric content of the light volume: seen from `c - D * R` towards
`c`, every point within `r` of `c` is inside the volume
ortho(-R, R, -R, R, 0.1, 3R), when `D` is a unit vector that is not vertical,
`r ≤ R` and `0.1 ≤ R - r`. -/
theorem light_volume_generic (lib : FloatLib F S)
    (hsqrt : ∀ x, 0 ≤ x → 0 ≤ lib.sqrt x ∧ lib.sqrt x * lib.sqrt x = x) (c D p : Vec3 F)
    (R r : F) (hD : Vec3.dot D D = 1) (hq : D.x * D.x + D.z * D.z ≠ 0)
    (hr : 0 ≤ r) (hR : 0 < R) (hrR : r ≤ R) (hnear : 0.1 ≤ R - r)
    (hp : Vec3.dot (Vec3.sub p c) (Vec3.sub p c) ≤ r * r) :
    insideOrtho (-R) R (-R) R 0.1 (R * 3.0)
      (lookAtCoords lib (Vec3.sub c (Vec3.scale D R)) c ⟨0, 1, 0⟩ p) := by
  obtain ⟨a1, a2, a3, a4⟩ := lookAt_axes lib hsqrt D hD hq
  simp only [lookAtCoords, normalize_toward lib hsqrt c D R hD hR]
  exact inside_of_frame _ _ D c p R r a1 a3 hD a2 a4 hr hrR hnear (by linarith) hp
theorem getLightViewProjection_eq (lib : FloatLib F S) (app : RSMApp F S) (sc : ObjLoader F)
    (hsc : app._scene = some sc) :
    ∃ next, RSMApp.getLightViewProjection lib app =
      some (Mat4.mul
        (Mat4.ortho (-(sc.getRadius lib * 1.5)) (sc.getRadius lib * 1.5)
          (-(sc.getRadius lib * 1.5)) (sc.getRadius lib * 1.5) 0.1
          (sc.getRadius lib * 1.5 * 3.0))
        (Mat4.lookAt
          (Vec3.sub sc.getCenter
            (Vec3.scale (Vec3.normalize lib
              (RSMApp.lightDirRaw lib app._lightYaw app._lightPitch))
              (sc.getRadius lib * 1.5)))
          sc.getCenter ⟨0, 1, 0⟩), next) := by
  simp only [RSMApp.getLightViewProjection, hsc, Option.bind_eq_bind, Option.some_bind,
    Option.pure_def]
  exact ⟨_, rfl⟩

theorem lightDir_unit (lib : FloatLib F S) (hpyth : ∀ a, lib.sin a ^ 2 + lib.cos a ^ 2 = 1)
    (hsqrt : ∀ x, 0 ≤ x → 0 ≤ lib.sqrt x ∧ lib.sqrt x * lib.sqrt x = x) (yaw pitch : F) :
    Vec3.normalize lib (RSMApp.lightDirRaw lib yaw pitch) = RSMApp.lightDirRaw lib yaw pitch ∧
      Vec3.dot (RSMApp.lightDirRaw lib yaw pitch) (RSMApp.lightDirRaw lib yaw pitch) = 1 :=
  ⟨normalize_unit lib hsqrt _ (lightDirRaw_unit lib hpyth yaw pitch),
    lightDirRaw_unit lib hpyth yaw pitch⟩

theorem getRadius_nonneg (lib : FloatLib F S)
    (hsqrt : ∀ x, 0 ≤ x → 0 ≤ lib.sqrt x ∧ lib.sqrt x * lib.sqrt x = x) (sc : ObjLoader F) :
    0 ≤ sc.getRadius lib := by
  have h0 : 0 ≤ Vec3.dot (Vec3.sub sc._maxBounds sc._minBounds)
      (Vec3.sub sc._maxBounds sc._minBounds) := by
    simp only [Vec3.dot]
    exact add_nonneg (add_nonneg (mul_self_nonneg _) (mul_self_nonneg _)) (mul_self_nonneg _)
  have h1 := (hsqrt _ h0).1
  simp only [ObjLoader.getRadius, Vec3.length]
  exact mul_nonneg h1 (by norm_num)

theorem length_le_sq (lib : FloatLib F S)
    (hsqrt : ∀ x, 0 ≤ x → 0 ≤ lib.sqrt x ∧ lib.sqrt x * lib.sqrt x = x) (v : Vec3 F) (r : F)
    (h : Vec3.length lib v ≤ r) : Vec3.dot v v ≤ r * r := by
  have h0 : 0 ≤ Vec3.dot v v := by
    simp only [Vec3.dot]
    exact add_nonneg (add_nonneg (mul_self_nonneg _) (mul_self_nonneg _)) (mul_self_nonneg _)
  obtain ⟨k0, k1⟩ := hsqrt _ h0
  simp only [Vec3.length] at h
  rw [← k1]
  exact mul_self_le_mul_self k0 h

/-- The light volume built by getLightViewProjection encloses the bounding
sphere of the scene when the scene radius is at least 0.2 and the sine of the
pitch is not zero. -/
theorem lightVolume_encloses (lib : FloatLib F S)
    (hpyth : ∀ a, lib.sin a ^ 2 + lib.cos a ^ 2 = 1)
    (hsqrt : ∀ x, 0 ≤ x → 0 ≤ lib.sqrt x ∧ lib.sqrt x * lib.sqrt x = x)
    (app : RSMApp F S) (sc : ObjLoader F) (hsc : app._scene = some sc)
    (hne : lib.sin (radians app._lightPitch) ≠ 0) (hr : 0.2 ≤ sc.getRadius lib) :
    ∃ m next, RSMApp.getLightViewProjection lib app = some (m, next) ∧
      ∀ p, Vec3.length lib (Vec3.sub p sc.getCenter) ≤ sc.getRadius lib →
        Mat4.encloses lib m p := by
  obtain ⟨next, hnext⟩ := getLightViewProjection_eq lib app sc hsc
  refine ⟨_, next, hnext, ?_⟩
  intro p hp
  obtain ⟨hn, hD⟩ := lightDir_unit lib hpyth hsqrt app._lightYaw app._lightPitch
  simp only [Mat4.encloses]
  rw [hn]
  have hr0 : (0 : F) ≤ sc.getRadius lib := getRadius_nonneg lib hsqrt sc
  refine light_volume_generic lib hsqrt sc.getCenter _ p _ (sc.getRadius lib) hD ?_ hr0
    (by linarith) (by linarith) (by linarith) (length_le_sq lib hsqrt _ _ hp)
  have h1 := hpyth (radians app._lightYaw)
  have hsq : lib.sin (radians app._lightPitch) * lib.sin (radians app._lightPitch) ≠ 0 :=
    mul_ne_zero hne hne
  intro h0
  apply hsq
  simp only [RSMApp.lightDirRaw] at h0
  linear_combination h0 - (lib.sin (radians app._lightPitch)) ^ 2 * h1

/-- The near plane at 0.1 clips the bounding sphere of a scene whose radius is
positive and below 0.2: the point of the sphere nearest the light is at
distance half the radius from it. -/
theorem lightVolume_clips (lib : FloatLib F S)
    (hpyth : ∀ a, lib.sin a ^ 2 + lib.cos a ^ 2 = 1)
    (hsqrt : ∀ x, 0 ≤ x → 0 ≤ lib.sqrt x ∧ lib.sqrt x * lib.sqrt x = x)
    (app : RSMApp F S) (sc : ObjLoader F) (hsc : app._scene = some sc)
    (hr0 : 0 < sc.getRadius lib) (hr : sc.getRadius lib < 0.2) :
    ¬ RSMApp.LightVolumeFrames lib app := by
  rintro ⟨m, next, sc1, hm, hsc1, hall⟩
  rw [hsc] at hsc1
  cases hsc1
  obtain ⟨next1, hnext⟩ := getLightViewProjection_eq lib app sc hsc
  rw [hnext] at hm
  simp only [Option.some.injEq, Prod.mk.injEq] at hm
  obtain ⟨hm1, _⟩ := hm
  subst hm1
  obtain ⟨hn, hD⟩ := lightDir_unit lib hpyth hsqrt app._lightYaw app._lightPitch
  have hD1 : (RSMApp.lightDirRaw lib app._lightYaw app._lightPitch).x *
        (RSMApp.lightDirRaw lib app._lightYaw app._lightPitch).x +
      (RSMApp.lightDirRaw lib app._lightYaw app._lightPitch).y *
        (RSMApp.lightDirRaw lib app._lightYaw app._lightPitch).y +
      (RSMApp.lightDirRaw lib app._lightYaw app._lightPitch).z *
        (RSMApp.lightDirRaw lib app._lightYaw app._lightPitch).z = 1 := hD
  have hin := hall
    (Vec3.sub sc.getCenter
      (Vec3.scale (RSMApp.lightDirRaw lib app._lightYaw app._lightPitch) (sc.getRadius lib)))
    (by
      have hdot : Vec3.dot
          (Vec3.sub (Vec3.sub sc.getCenter
            (Vec3.scale (RSMApp.lightDirRaw lib app._lightYaw app._lightPitch)
              (sc.getRadius lib))) sc.getCenter)
          (Vec3.sub (Vec3.sub sc.getCenter
            (Vec3.scale (RSMApp.lightDirRaw lib app._lightYaw app._lightPitch)
              (sc.getRadius lib))) sc.getCenter) =
          sc.getRadius lib * sc.getRadius lib := by
        simp only [Vec3.dot, Vec3.sub, Vec3.scale]
        linear_combination (sc.getRadius lib * sc.getRadius lib) * hD1
      simp only [Vec3.length, hdot]
      rw [sqrt_mul_self_eq lib hsqrt, abs_of_pos hr0])
  simp only [Mat4.encloses] at hin
  rw [hn] at hin
  simp only [lookAtCoords, normalize_toward lib hsqrt sc.getCenter _ _ hD
    (by linarith : (0 : F) < sc.getRadius lib * 1.5), insideOrtho] at hin
  obtain ⟨_, _, _, _, hnear, _⟩ := hin
  have hdepth : -(-(Vec3.dot (RSMApp.lightDirRaw lib app._lightYaw app._lightPitch)
        (Vec3.sub sc.getCenter
          (Vec3.scale (RSMApp.lightDirRaw lib app._lightYaw app._lightPitch)
            (sc.getRadius lib)))) +
      Vec3.dot (RSMApp.lightDirRaw lib app._lightYaw app._lightPitch)
        (Vec3.sub sc.getCenter
          (Vec3.scale (RSMApp.lightDirRaw lib app._lightYaw app._lightPitch)
            (sc.getRadius lib * 1.5)))) = sc.getRadius lib * 0.5 := by
    simp only [Vec3.dot, Vec3.sub, Vec3.scale]
    linear_combination (sc.getRadius lib * 0.5) * hD1
  rw [hdepth] at hnear
  linarith
/-- The frame hands the passes the matrix getLightViewProjection returns:
update is getLightViewProjection on the state after the resize step, followed
by the four passes, with rsmBufferPass and shadingPass given that matrix. -/
theorem update_uses_lightVP (lib : FloatLib F S) (ui : UIInput F) (size : Int × Int)
    (self : RSMApp F S) :
    RSMApp.update lib ui size self =
      (RSMApp.getLightViewProjection lib (RSMApp.beforePasses ui size self)).bind
        (RSMApp.runPasses lib (RSMApp.beforePasses ui size self)) := by
  unfold RSMApp.update RSMApp.getLightViewProjection RSMApp.beforePasses RSMApp.runPasses
  simp only [Option.bind_eq_bind, Option.pure_def]
  cases (RSMApp.resizeStep size (RSMApp.drawUI ui self))._scene with
  | none => rfl
  | some sc => rfl

theorem sin_radians_pos (x : ℝ) (hlo : 10 ≤ x) (hhi : x ≤ 170) :
    0 < Real.sin (radians x) := by
  have hrad : radians x = x * 0.01745329251994329576923690768489 := rfl
  have hpi := Real.pi_gt_three
  apply Real.sin_pos_of_pos_of_lt_pi
  · rw [hrad]
    nlinarith
  · rw [hrad]
    nlinarith

theorem tinyScene_sphere :
    (tinyScene : ObjLoader ℝ).getCenter = ⟨0.1, 0, 0⟩ ∧
      (tinyScene : ObjLoader ℝ).getRadius (libOf Real.sin Real.cos Real.sqrt) = 0.1 := by
  have hb : (tinyScene : ObjLoader ℝ)._minBounds = ⟨0, 0, 0⟩ ∧
      (tinyScene : ObjLoader ℝ)._maxBounds = ⟨0.2, 0, 0⟩ := by
    simp only [tinyScene, tinySegment, ObjLoader.calculateBounds, vertexAt, ObjLoader.init,
      Vec3.min, Vec3.max, Vec3.minS, Vec3.maxS, Vec3.splat, FLT_MAX, List.foldl_cons,
      List.foldl_nil]
    norm_num
  obtain ⟨h1, h2⟩ := hb
  refine ⟨?_, ?_⟩
  · simp only [ObjLoader.getCenter, h1, h2, Vec3.add, Vec3.scale]
    norm_num
  · simp only [ObjLoader.getRadius, Vec3.length, h1, h2, Vec3.sub, Vec3.dot, libOf]
    have : ((0.2 : ℝ) - 0) * (0.2 - 0) + (0 - 0) * (0 - 0) + (0 - 0) * (0 - 0) = 0.2 * 0.2 := by
      norm_num
    rw [this, Real.sqrt_mul_self (by norm_num)]
    norm_num

theorem cubeScene_radius :
    (0.2 : ℝ) ≤ (cubeScene : ObjLoader ℝ).getRadius (libOf Real.sin Real.cos Real.sqrt) := by
  have hb : (cubeScene : ObjLoader ℝ)._minBounds = ⟨-0.5, -0.5, -0.5⟩ ∧
      (cubeScene : ObjLoader ℝ)._maxBounds = ⟨0.5, 0.5, 0.5⟩ := by
    simp only [cubeScene, ObjLoader.calculateBounds, cubeCorners, vertexAt, ObjLoader.init, Vec3.min,
      Vec3.max, Vec3.minS, Vec3.maxS, Vec3.splat, FLT_MAX, List.foldl_cons, List.foldl_nil]
    norm_num
  obtain ⟨h1, h2⟩ := hb
  simp only [ObjLoader.getRadius, Vec3.length, h1, h2, Vec3.sub, Vec3.dot, libOf]
  have h3 : (1 : ℝ) ≤ Real.sqrt ((0.5 - -0.5) * (0.5 - -0.5) + (0.5 - -0.5) * (0.5 - -0.5) +
      (0.5 - -0.5) * (0.5 - -0.5)) := by
    rw [Real.one_le_sqrt]
    norm_num
  linarith

/-! ## The shading model -/

theorem ready_withEnableRSM (app : RSMApp F S) (b : Bool) (h : Ready app) :
    Ready (app.withEnableRSM b) :=
  h.congr rfl rfl rfl rfl (fun t ht => ⟨t, ht⟩) (fun t ht => ⟨t, ht⟩) (fun t ht => ⟨t, ht⟩)
    (fun t ht => ⟨t, ht⟩) (fun t ht => ⟨t, ht⟩) rfl rfl rfl rfl rfl (fun t ht => ⟨t, ht⟩)
    (fun t ht => ⟨t, ht⟩) (fun t ht => ⟨t, ht⟩) rfl rfl

theorem vec3_add_zero (v : Vec3 F) : Vec3.add v ⟨0, 0, 0⟩ = v := by
  cases v
  simp only [Vec3.add, add_zero]

theorem shade_disabled (px : ShadingPixel F) (h : px.enableRSM = false) :
    px.shade = px.direct := by
  simp only [ShadingPixel.shade, ShadingPixel.indirect, h, Bool.false_eq_true, if_false,
    vec3_add_zero]

theorem shade_no_samples (px : ShadingPixel F) (h : px.vplCount = 0) :
    px.shade = px.direct := by
  simp only [ShadingPixel.shade, ShadingPixel.indirect, h, Int.toNat_zero,
    ShadingPixel.gather, List.range_zero, List.foldl_nil, Vec3.scale, zero_mul, ite_self,
    vec3_add_zero]

/-! ## The texture flag and the texture handle -/

theorem loadTexture_consistent (fs : FileSystem F) (basePath : String) (m : ObjMaterial F)
    (gl : GLContext F) (hnone : m.diffuseTexture = none)
    (hpath : m.hasTexture = true → m.diffuseTexturePath.isEmpty = false) :
    ((ObjLoader.loadTexture fs basePath m gl).1.hasTexture = true ↔
      (ObjLoader.loadTexture fs basePath m gl).1.diffuseTexture.isSome = true) := by
  unfold ObjLoader.loadTexture
  by_cases hc : (m.hasTexture && !m.diffuseTexturePath.isEmpty) = true
  · rw [if_pos hc]
    simp only [Bool.and_eq_true] at hc
    cases hload : fs.loadImage (ObjLoader.texturePath basePath m.diffuseTexturePath) with
    | none => simp [hnone]
    | some wh =>
      obtain ⟨w, h⟩ := wh
      simp [hc.1]
  · rw [if_neg hc]
    cases ht : m.hasTexture with
    | false => simp [hnone]
    | true =>
      exfalso
      apply hc
      simp [ht, hpath ht]

theorem loadTextures_consistent (fs : FileSystem F) (basePath : String)
    (mats : List (ObjMaterial F)) :
    ∀ gl : GLContext F,
      (∀ m ∈ mats, m.diffuseTexture = none ∧
        (m.hasTexture = true → m.diffuseTexturePath.isEmpty = false)) →
      ∀ m ∈ (ObjLoader.loadTextures fs basePath mats gl).1,
        (m.hasTexture = true ↔ m.diffuseTexture.isSome = true) := by
  induction mats with
  | nil =>
    intro gl _ m hm
    simp [ObjLoader.loadTextures] at hm
  | cons m0 rest ih =>
    intro gl hpre m hm
    simp only [ObjLoader.loadTextures] at hm
    rcases List.mem_cons.mp hm with hm | hm
    · subst hm
      exact loadTexture_consistent fs basePath m0 gl (hpre m0 (List.mem_cons_self _ _)).1
        (hpre m0 (List.mem_cons_self _ _)).2
    · exact ih _ (fun x hx => hpre x (List.mem_cons_of_mem _ hx)) m hm

theorem convertMaterial_path (mat : TinyMaterial F) :
    (ObjLoader.convertMaterial mat).hasTexture = true →
      (ObjLoader.convertMaterial mat).diffuseTexturePath.isEmpty = false := by
  unfold ObjLoader.convertMaterial
  dsimp only
  split
  · rename_i h
    intro _
    simpa using h
  · intro h
    simp [ObjMaterial.init] at h

theorem load_consistent (fs : FileSystem F) (self : ObjLoader F) (filepath : String)
    (gl : GLContext F) (hok : (ObjLoader.load fs self filepath gl).1 = true) :
    (ObjLoader.load fs self filepath gl).2.1.getMaterials ≠ [] ∧
      ∀ m ∈ (ObjLoader.load fs self filepath gl).2.1.getMaterials,
        (m.hasTexture = true ↔ m.diffuseTexture.isSome = true) := by
  cases hparse : fs.parseObj filepath with
  | none => simp [ObjLoader.load, hparse] at hok
  | some parsed =>
    obtain ⟨_, hmat⟩ := load_materials fs self filepath gl parsed hparse
    rw [hmat]
    refine ⟨?_, ?_⟩
    · intro hnil
      have hlen := loadTextures_length fs (ObjLoader.basePathOf filepath)
        (if (parsed.materials.map ObjLoader.convertMaterial).isEmpty then
          [ObjLoader.defaultMaterial] else parsed.materials.map ObjLoader.convertMaterial)
        (ObjLoader.clearMaterials self._materials gl)
      rw [hnil] at hlen
      split at hlen
      · simp at hlen
      · rename_i hne
        have : (parsed.materials.map ObjLoader.convertMaterial) = [] :=
          List.length_eq_zero.mp hlen.symm
        exact hne (by simp [this])
    · apply loadTextures_consistent
      intro m hm
      split at hm
      · simp only [List.mem_singleton] at hm
        subst hm
        exact ⟨rfl, fun h => by simp [ObjLoader.defaultMaterial, ObjMaterial.init] at h⟩
      · obtain ⟨tm, _, rfl⟩ := List.mem_map.mp hm
        exact ⟨convertMaterial_texture tm, convertMaterial_path tm⟩

theorem load_default (fs : FileSystem F) (self : ObjLoader F) (filepath : String)
    (gl : GLContext F) (parsed : ParsedObj F) (hparse : fs.parseObj filepath = some parsed)
    (hempty : parsed.materials = []) :
    (ObjLoader.load fs self filepath gl).2.1.getMaterials = [ObjLoader.defaultMaterial] := by
  obtain ⟨_, hmat⟩ := load_materials fs self filepath gl parsed hparse
  rw [hmat, hempty]
  simp [ObjLoader.loadTextures, ObjLoader.loadTexture, ObjLoader.defaultMaterial,
    ObjMaterial.init]

/-! ## The light direction is never vertical -/

/-- The horizontal part of the light direction has squared length
sin(pitch)^2. -/
theorem lightDirRaw_horizontal (lib : FloatLib F S)
    (hpyth : ∀ a, lib.sin a ^ 2 + lib.cos a ^ 2 = 1) (yaw pitch : F) :
    (RSMApp.lightDirRaw lib yaw pitch).x * (RSMApp.lightDirRaw lib yaw pitch).x +
        (RSMApp.lightDirRaw lib yaw pitch).z * (RSMApp.lightDirRaw lib yaw pitch).z =
      lib.sin (radians pitch) * lib.sin (radians pitch) := by
  have h1 := hpyth (radians yaw)
  simp only [RSMApp.lightDirRaw]
  linear_combination (lib.sin (radians pitch)) ^ 2 * h1

/-- A vector with a non-zero horizontal part is not a multiple of (0, 1, 0),
and its cross product with (0, 1, 0) is not zero. -/
theorem not_vertical (D : Vec3 F) (hq : D.x * D.x + D.z * D.z ≠ 0) :
    (∀ c : F, D ≠ Vec3.scale ⟨0, 1, 0⟩ c) ∧ Vec3.cross D ⟨0, 1, 0⟩ ≠ ⟨0, 0, 0⟩ := by
  refine ⟨?_, ?_⟩
  · intro c hc
    apply hq
    rw [hc]
    simp only [Vec3.scale]
    ring
  · intro hc
    apply hq
    simp only [Vec3.cross, Vec3.mk.injEq] at hc
    obtain ⟨h1, _, h3⟩ := hc
    have hz : D.z = 0 := by linear_combination -h1
    have hx : D.x = 0 := by linear_combination h3
    rw [hz, hx]
    ring

theorem update_lightDir (lib : FloatLib F S)
    (hpyth : ∀ a, lib.sin a ^ 2 + lib.cos a ^ 2 = 1)
    (hsqrt : ∀ x, 0 ≤ x → 0 ≤ lib.sqrt x ∧ lib.sqrt x * lib.sqrt x = x)
    (ui : UIInput F) (size : Int × Int) (self : RSMApp F S) (h : Ready self) :
    ∃ next, RSMApp.update lib ui size self = some next ∧
      next._lightDir = RSMApp.lightDirRaw lib next._lightYaw next._lightPitch ∧
      Vec3.length lib next._lightDir = 1 := by
  obtain ⟨gl1, hup, _⟩ := update_spec lib ui size self h
  refine ⟨_, hup, ?_, ?_⟩
  · exact (lightDir_unit lib hpyth hsqrt _ _).1
  · show Vec3.length lib (Vec3.normalize lib _) = 1
    rw [(lightDir_unit lib hpyth hsqrt _ _).1]
    simp only [Vec3.length, (lightDir_unit lib hpyth hsqrt _ _).2, sqrt_one_eq lib hsqrt]

/-! ## Error analysis of the rounded bounding sphere -/

theorem accurate_nonneg (rnd : F → F) (u x : F) (h : Rounded.Accurate rnd u x) (hx : 0 ≤ x) :
    (1 - u) * x ≤ rnd x := by
  unfold Rounded.Accurate at h
  rw [abs_of_nonneg hx] at h
  have := (abs_le.mp h).1
  linarith

theorem accurate_sq (rnd : F → F) (u x : F) (hu1 : u ≤ 1) (h : Rounded.Accurate rnd u x) :
    (1 - u) ^ 2 * (x * x) ≤ rnd x * rnd x := by
  unfold Rounded.Accurate at h
  have h1 : (1 - u) * |x| ≤ |rnd x| := by
    have h2 := abs_sub_abs_le_abs_sub x (rnd x)
    rw [abs_sub_comm x (rnd x)] at h2
    linarith
  have h0 : 0 ≤ (1 - u) * |x| := mul_nonneg (sub_nonneg.mpr hu1) (abs_nonneg x)
  have h3 := mul_le_mul h1 h1 h0 (abs_nonneg (rnd x))
  rw [abs_mul_abs_self] at h3
  have h4 : (1 - u) * |x| * ((1 - u) * |x|) = (1 - u) ^ 2 * (|x| * |x|) := by ring
  rw [h4, abs_mul_abs_self] at h3
  exact h3

/-- The rounded dot product of a vector with itself is at least
`(1 - u)^3` times the exact one, and not negative. -/
theorem dot_self_lower (rnd : F → F) (u : F) (hu0 : 0 ≤ u) (hu1 : u ≤ 1) (a : Vec3 F)
    (h : Rounded.DotAccurate rnd u a a) :
    (1 - u) ^ 3 * (a.x * a.x + a.y * a.y + a.z * a.z) ≤ Rounded.dot rnd a a := by
  obtain ⟨hx, hy, hz, h1, h2⟩ := h
  have t0 : 0 ≤ 1 - u := sub_nonneg.mpr hu1
  have t1 : 1 - u ≤ 1 := by linarith
  have px := accurate_nonneg rnd u _ hx (mul_self_nonneg a.x)
  have py := accurate_nonneg rnd u _ hy (mul_self_nonneg a.y)
  have pz := accurate_nonneg rnd u _ hz (mul_self_nonneg a.z)
  have nx : 0 ≤ rnd (a.x * a.x) := le_trans (mul_nonneg t0 (mul_self_nonneg a.x)) px
  have ny : 0 ≤ rnd (a.y * a.y) := le_trans (mul_nonneg t0 (mul_self_nonneg a.y)) py
  have nz : 0 ≤ rnd (a.z * a.z) := le_trans (mul_nonneg t0 (mul_self_nonneg a.z)) pz
  have s1 := accurate_nonneg rnd u _ h1 (add_nonneg nx ny)
  have n1 : 0 ≤ rnd (rnd (a.x * a.x) + rnd (a.y * a.y)) :=
    le_trans (mul_nonneg t0 (add_nonneg nx ny)) s1
  have s2 := accurate_nonneg rnd u _ h2 (add_nonneg n1 nz)
  unfold Rounded.dot
  have e1 : (1 - u) * ((1 - u) * (a.x * a.x) + (1 - u) * (a.y * a.y)) ≤
      rnd (rnd (a.x * a.x) + rnd (a.y * a.y)) :=
    le_trans (mul_le_mul_of_nonneg_left (add_le_add px py) t0) s1
  have e2 : (1 - u) * ((1 - u) * (a.z * a.z)) ≤ rnd (a.z * a.z) :=
    le_trans (mul_le_of_le_one_left (mul_nonneg t0 (mul_self_nonneg a.z)) t1) pz
  have e3 := le_trans (mul_le_mul_of_nonneg_left (add_le_add e1 e2) t0) s2
  have e4 : (1 - u) ^ 3 * (a.x * a.x + a.y * a.y + a.z * a.z) =
      (1 - u) * ((1 - u) * ((1 - u) * (a.x * a.x) + (1 - u) * (a.y * a.y)) +
        (1 - u) * ((1 - u) * (a.z * a.z))) := by ring
  rw [e4]
  exact e3

/-- The radius returned in rounded arithmetic is not negative and is at least
`(1 - u)^(9/2)` times the exact half diagonal, in squared form. -/
theorem rounded_radius_lower (rnd sqrt : F → F) (u : F) (hu0 : 0 ≤ u) (hu1 : u ≤ 1)
    (self : ObjLoader F) (h : Rounded.RadiusAccurate rnd sqrt u self) :
    0 ≤ Rounded.getRadius rnd sqrt self ∧
      (1 - u) ^ 9 *
          ((self._maxBounds.x - self._minBounds.x) * (self._maxBounds.x - self._minBounds.x) +
            (self._maxBounds.y - self._minBounds.y) * (self._maxBounds.y - self._minBounds.y) +
            (self._maxBounds.z - self._minBounds.z) * (self._maxBounds.z - self._minBounds.z)) ≤
        4 * (Rounded.getRadius rnd sqrt self * Rounded.getRadius rnd sqrt self) := by
  obtain ⟨⟨hx, hy, hz⟩, hd, ⟨q0, q1, _⟩, hh⟩ := h
  have t0 : 0 ≤ 1 - u := sub_nonneg.mpr hu1
  have ex := accurate_sq rnd u _ hu1 hx
  have ey := accurate_sq rnd u _ hu1 hy
  have ez := accurate_sq rnd u _ hu1 hz
  have d := dot_self_lower rnd u hu0 hu1 _ hd
  have e5 : (1 - u) ^ 5 *
      ((self._maxBounds.x - self._minBounds.x) * (self._maxBounds.x - self._minBounds.x) +
        (self._maxBounds.y - self._minBounds.y) * (self._maxBounds.y - self._minBounds.y) +
        (self._maxBounds.z - self._minBounds.z) * (self._maxBounds.z - self._minBounds.z)) ≤
      Rounded.dot rnd (Rounded.extent rnd self) (Rounded.extent rnd self) := by
    refine le_trans ?_ d
    have := mul_le_mul_of_nonneg_left (add_le_add (add_le_add ex ey) ez) (pow_nonneg t0 3)
    simp only [Rounded.extent]
    calc (1 - u) ^ 5 * _ = (1 - u) ^ 3 * _ := by ring
      _ ≤ _ := this
  have hhalf : (0 : F) ≤ 0.5 := by norm_num
  have r1 := accurate_nonneg rnd u _ hh (mul_nonneg q0 hhalf)
  have r0 : 0 ≤ (1 - u) *
      (sqrt (Rounded.dot rnd (Rounded.extent rnd self) (Rounded.extent rnd self)) * 0.5) :=
    mul_nonneg t0 (mul_nonneg q0 hhalf)
  have rn : 0 ≤ Rounded.getRadius rnd sqrt self := le_trans r0 r1
  refine ⟨rn, ?_⟩
  have r2 := mul_le_mul r1 r1 r0 rn
  have e7 := le_trans (mul_le_mul_of_nonneg_left e5 (pow_nonneg t0 2)) q1
  have e9 := mul_le_mul_of_nonneg_left e7 (pow_nonneg t0 2)
  have eh : (0.5 : F) = 1 / 2 := by norm_num
  rw [eh] at r2
  unfold Rounded.getRadius
  rw [eh]
  generalize sqrt (Rounded.dot rnd (Rounded.extent rnd self) (Rounded.extent rnd self)) = q
    at r2 e9 ⊢
  generalize rnd (q * (1 / 2)) = r at r2 ⊢
  calc (1 - u) ^ 9 * _ = (1 - u) ^ 2 * ((1 - u) ^ 2 * ((1 - u) ^ 5 * _)) := by ring
    _ ≤ (1 - u) ^ 2 * (q * q) := e9
    _ = 4 * ((1 - u) * (q * (1 / 2)) * ((1 - u) * (q * (1 / 2)))) := by ring
    _ ≤ 4 * (r * r) := by linarith

/-- One component of the rounded centre is within relative error
`2u + u^2` of the exact midpoint. -/
theorem center_component (rnd : F → F) (u a : F) (hu0 : 0 ≤ u)
    (h1 : Rounded.Accurate rnd u a) (h2 : Rounded.Accurate rnd u (rnd a * 0.5)) :
    |rnd (rnd a * 0.5) - a * 0.5| ≤ (2 * u + u ^ 2) * |a * 0.5| := by
  unfold Rounded.Accurate at h1 h2
  have eh : (0.5 : F) = 1 / 2 := by norm_num
  rw [eh] at h2 ⊢
  have hb : |rnd a| ≤ (1 + u) * |a| := by
    have := abs_sub_abs_le_abs_sub (rnd a) a
    linarith
  have e1 : |rnd a * (1 / 2)| = |rnd a| * (1 / 2) := by
    rw [abs_mul, abs_of_pos (by norm_num : (0 : F) < 1 / 2)]
  have e2 : |a * (1 / 2)| = |a| * (1 / 2) := by
    rw [abs_mul, abs_of_pos (by norm_num : (0 : F) < 1 / 2)]
  have e3 : |rnd a * (1 / 2) - a * (1 / 2)| = |rnd a - a| * (1 / 2) := by
    rw [← sub_mul, abs_mul, abs_of_pos (by norm_num : (0 : F) < 1 / 2)]
  rw [e1] at h2
  have tri : |rnd (rnd a * (1 / 2)) - a * (1 / 2)| ≤
      |rnd (rnd a * (1 / 2)) - rnd a * (1 / 2)| + |rnd a * (1 / 2) - a * (1 / 2)| :=
    abs_sub_le _ _ _
  rw [e3] at tri
  rw [e2]
  have hu : u * |rnd a| ≤ u * ((1 + u) * |a|) := mul_le_mul_of_nonneg_left hb hu0
  nlinarith [abs_nonneg a, abs_nonneg (rnd a)]

/-- A point between the bounds of a loader is within the exact half diagonal
of the exact midpoint, in squared form. -/
theorem within_half_diagonal (self : ObjLoader F) (p : Vec3 F)
    (hx : self._minBounds.x ≤ p.x ∧ p.x ≤ self._maxBounds.x)
    (hy : self._minBounds.y ≤ p.y ∧ p.y ≤ self._maxBounds.y)
    (hz : self._minBounds.z ≤ p.z ∧ p.z ≤ self._maxBounds.z) :
    4 * Vec3.dot (Vec3.sub p self.getCenter) (Vec3.sub p self.getCenter) ≤
      (self._maxBounds.x - self._minBounds.x) * (self._maxBounds.x - self._minBounds.x) +
        (self._maxBounds.y - self._minBounds.y) * (self._maxBounds.y - self._minBounds.y) +
        (self._maxBounds.z - self._minBounds.z) * (self._maxBounds.z - self._minBounds.z) := by
  have cx := coord_within_half _ _ _ hx.1 hx.2
  have cy := coord_within_half _ _ _ hy.1 hy.2
  have cz := coord_within_half _ _ _ hz.1 hz.2
  simp only [ObjLoader.getCenter, Vec3.sub, Vec3.add, Vec3.scale, Vec3.dot]
  linarith

/-! ## Evaluating binary32 operations -/

theorem roundEven_of_near (y : ℚ) (n : ℤ) (h1 : (n : ℚ) - 1 / 2 < y)
    (h2 : y < (n : ℚ) + 1 / 2) : Binary32.roundEven y = n := by
  unfold Binary32.roundEven
  by_cases hy : (n : ℚ) ≤ y
  · have hf : ⌊y⌋ = n := Int.floor_eq_iff.mpr ⟨hy, by linarith⟩
    rw [hf, if_pos (by linarith)]
  · push_neg at hy
    have hf : ⌊y⌋ = n - 1 := Int.floor_eq_iff.mpr ⟨by push_cast; linarith, by push_cast; linarith⟩
    rw [hf, if_neg (by push_cast; linarith), if_pos (by push_cast; linarith)]
    ring

theorem log_eq_of (x : ℚ) (e : ℤ) (h1 : (2 : ℚ) ^ e ≤ x) (h2 : x < (2 : ℚ) ^ (e + 1)) :
    Int.log 2 x = e := by
  have hx : 0 < x := lt_of_lt_of_le (zpow_pos (by norm_num) e) h1
  have a1 : e ≤ Int.log 2 x :=
    (Int.zpow_le_iff_le_log (by norm_num) hx).mp (by simpa using h1)
  have a2 : Int.log 2 x < e + 1 :=
    (Int.lt_zpow_iff_log_lt (by norm_num) hx).mp (by simpa using h2)
  omega

theorem round_zero : Binary32.round 0 = 0 := by
  simp [Binary32.round, Binary32.roundEven]

theorem round_eq_of (x : ℚ) (e n : ℤ) (he : -126 ≤ e) (h1 : (2 : ℚ) ^ e ≤ |x|)
    (h2 : |x| < (2 : ℚ) ^ (e + 1)) (h3 : (n : ℚ) - 1 / 2 < x * 2 ^ (23 - e))
    (h4 : x * 2 ^ (23 - e) < (n : ℚ) + 1 / 2) :
    Binary32.round x = (n : ℚ) / 2 ^ (23 - e) := by
  have hk : Binary32.fracBits x = 23 - e := by
    unfold Binary32.fracBits
    rw [log_eq_of _ e h1 h2]
    omega
  unfold Binary32.round
  rw [hk, roundEven_of_near _ n h3 h4]

theorem sqrt_eq_of (x : ℚ) (e : ℤ) (f n m : ℕ) (h1 : (2 : ℚ) ^ e ≤ x)
    (h2 : x < (2 : ℚ) ^ (e + 1)) (hf1 : (f : ℚ) ≤ x * 4 ^ (23 - e / 2))
    (hf2 : x * 4 ^ (23 - e / 2) < (f : ℚ) + 1) (hn1 : n * n ≤ f)
    (hn2 : f < (n + 1) * (n + 1))
    (hm : (x * 4 ^ (23 - e / 2) < ((n : ℚ) + 1 / 2) ^ 2 ∧ m = n) ∨
      (((n : ℚ) + 1 / 2) ^ 2 < x * 4 ^ (23 - e / 2) ∧ m = n + 1)) :
    Binary32.sqrt x = (m : ℚ) / 2 ^ (23 - e / 2) := by
  have hx : 0 < x := lt_of_lt_of_le (zpow_pos (by norm_num) e) h1
  have hy0 : 0 ≤ x * 4 ^ (23 - e / 2) :=
    mul_nonneg hx.le (zpow_nonneg (by norm_num) _)
  have hfl : ⌊x * 4 ^ (23 - e / 2)⌋₊ = f := (Nat.floor_eq_iff hy0).mpr ⟨hf1, hf2⟩
  have hsq : Nat.sqrt f = n := (Nat.eq_sqrt.mpr ⟨hn1, hn2⟩).symm
  unfold Binary32.sqrt
  rw [if_neg (not_le.mpr hx)]
  simp only [log_eq_of x e h1 h2, hfl, hsq]
  rcases hm with ⟨ha, rfl⟩ | ⟨ha, rfl⟩
  · rw [if_pos ha]
  · rw [if_neg (not_lt.mpr ha.le), if_pos ha]

/-! ## Accuracy of the binary32 operations -/

theorem sqrt_down_bounds (u n y : F) (hu0 : 0 ≤ u) (hu1 : u ≤ 1) (hn : 1 / 2 ≤ u * n)
    (hn0 : 0 ≤ n) (h1 : n * n ≤ y) (h2 : y ≤ (n + 1 / 2) ^ 2) :
    (1 - u) ^ 2 * y ≤ n * n ∧ n * n ≤ (1 + u) ^ 2 * y := by
  have t0 : 0 ≤ 1 - u := sub_nonneg.mpr hu1
  have y0 : 0 ≤ y := le_trans (mul_self_nonneg n) h1
  have a1 : (1 - u) * (n + 1 / 2) ≤ n := by linarith
  have a0 : 0 ≤ (1 - u) * (n + 1 / 2) := mul_nonneg t0 (by linarith)
  have a2 := mul_le_mul a1 a1 a0 hn0
  have a3 := mul_le_mul_of_nonneg_left h2 (sq_nonneg (1 - u))
  have a4 : 0 ≤ (2 * u + u ^ 2) * y := mul_nonneg (by positivity) y0
  constructor
  · calc (1 - u) ^ 2 * y ≤ (1 - u) ^ 2 * (n + 1 / 2) ^ 2 := a3
      _ = (1 - u) * (n + 1 / 2) * ((1 - u) * (n + 1 / 2)) := by ring
      _ ≤ n * n := a2
  · calc n * n ≤ y := h1
      _ ≤ y + (2 * u + u ^ 2) * y := by linarith
      _ = (1 + u) ^ 2 * y := by ring

theorem sqrt_up_bounds (u n y : F) (hu0 : 0 ≤ u) (hu1 : u ≤ 1) (hn : 1 / 2 ≤ u * n)
    (hn0 : 0 ≤ n) (h1 : (n + 1 / 2) ^ 2 ≤ y) (h2 : y ≤ (n + 1) * (n + 1)) :
    (1 - u) ^ 2 * y ≤ (n + 1) * (n + 1) ∧ (n + 1) * (n + 1) ≤ (1 + u) ^ 2 * y := by
  have t0 : 0 ≤ 1 - u := sub_nonneg.mpr hu1
  have y0 : 0 ≤ y := le_trans (sq_nonneg _) h1
  have b1 : n + 1 ≤ (1 + u) * (n + 1 / 2) := by linarith
  have b2 := mul_le_mul b1 b1 (by linarith : (0 : F) ≤ n + 1)
    (mul_nonneg (by linarith) (by linarith))
  have b3 := mul_le_mul_of_nonneg_left h1 (sq_nonneg (1 + u))
  have b4 : (1 - u) ^ 2 ≤ 1 := pow_le_one₀ t0 (by linarith)
  have b5 := mul_le_mul_of_nonneg_right b4 y0
  constructor
  · calc (1 - u) ^ 2 * y ≤ 1 * y := b5
      _ = y := one_mul y
      _ ≤ (n + 1) * (n + 1) := h2
  · calc (n + 1) * (n + 1) ≤ (1 + u) * (n + 1 / 2) * ((1 + u) * (n + 1 / 2)) := b2
      _ = (1 + u) ^ 2 * (n + 1 / 2) ^ 2 := by ring
      _ ≤ (1 + u) ^ 2 * y := b3

theorem roundEven_near (y : ℚ) : |(Binary32.roundEven y : ℚ) - y| ≤ 1 / 2 := by
  have h1 : (⌊y⌋ : ℚ) ≤ y := Int.floor_le y
  have h2 : y < (⌊y⌋ : ℚ) + 1 := Int.lt_floor_add_one y
  unfold Binary32.roundEven
  rw [abs_le]
  split_ifs with a b c
  · constructor <;> linarith
  · push_cast
    constructor <;> linarith
  · constructor <;> linarith
  · push_cast
    constructor <;> linarith

/-- Rounding to binary32 has relative error at most 2^(-24) on zero and on
every value of absolute value at least 2^(-126), the least normal number. -/
theorem round_accurate (x : ℚ) (hx : x = 0 ∨ (2 : ℚ) ^ (-126 : ℤ) ≤ |x|) :
    Rounded.Accurate Binary32.round Binary32.unitRoundoff x := by
  unfold Rounded.Accurate
  rcases hx with rfl | hx
  · simp [round_zero]
  · have hpos : 0 < |x| := lt_of_lt_of_le (zpow_pos (by norm_num) _) hx
    have hlo : (2 : ℚ) ^ Int.log 2 |x| ≤ |x| := by
      simpa using Int.zpow_log_le_self (b := 2) (by norm_num) hpos
    have he : -126 ≤ Int.log 2 |x| :=
      (Int.zpow_le_iff_le_log (by norm_num) hpos).mp (by simpa using hx)
    have hk : Binary32.fracBits x = 23 - Int.log 2 |x| := by
      unfold Binary32.fracBits
      omega
    have hs : (0 : ℚ) < 2 ^ (23 - Int.log 2 |x|) := zpow_pos (by norm_num) _
    have hnear := roundEven_near (x * 2 ^ (23 - Int.log 2 |x|))
    unfold Binary32.round
    rw [hk]
    have e1 : (Binary32.roundEven (x * 2 ^ (23 - Int.log 2 |x|)) : ℚ) /
          2 ^ (23 - Int.log 2 |x|) - x =
        ((Binary32.roundEven (x * 2 ^ (23 - Int.log 2 |x|)) : ℚ) -
          x * 2 ^ (23 - Int.log 2 |x|)) / 2 ^ (23 - Int.log 2 |x|) := by
      field_simp
      ring
    rw [e1, abs_div, abs_of_pos hs, div_le_iff₀ hs]
    have e2 : (2 : ℚ) ^ Int.log 2 |x| * 2 ^ (23 - Int.log 2 |x|) = 2 ^ (23 : ℤ) := by
      rw [← zpow_add₀ (by norm_num : (2 : ℚ) ≠ 0)]
      congr 1
      ring
    have e3 : (2 : ℚ) ^ (23 : ℤ) ≤ |x| * 2 ^ (23 - Int.log 2 |x|) := by
      rw [← e2]
      exact mul_le_mul_of_nonneg_right hlo hs.le
    have e4 : (2 : ℚ) ^ (23 : ℤ) = 8388608 := by norm_num
    rw [e4] at e3
    unfold Binary32.unitRoundoff
    linarith

/-- The binary32 square root has relative error at most 2^(-24) on every
non-negative value. -/
theorem sqrt_accurate (x : ℚ) (hx : 0 ≤ x) :
    Rounded.SqrtAccurate Binary32.sqrt Binary32.unitRoundoff x := by
  unfold Rounded.SqrtAccurate
  rcases hx.eq_or_lt with rfl | hpos
  · simp [Binary32.sqrt]
  · have hlo : (2 : ℚ) ^ Int.log 2 x ≤ x := by
      simpa using Int.zpow_log_le_self (b := 2) (by norm_num) hpos
    have hs : (0 : ℚ) < 2 ^ (23 - Int.log 2 x / 2) := zpow_pos (by norm_num) _
    have h4 : (4 : ℚ) ^ (23 - Int.log 2 x / 2) =
        2 ^ (23 - Int.log 2 x / 2) * 2 ^ (23 - Int.log 2 x / 2) := by
      rw [← mul_zpow]
      norm_num
    have hy46 : (2 : ℚ) ^ (46 : ℤ) ≤ x * 4 ^ (23 - Int.log 2 x / 2) := by
      have e1 : (2 : ℚ) ^ Int.log 2 x * 4 ^ (23 - Int.log 2 x / 2) =
          2 ^ (Int.log 2 x + (23 - Int.log 2 x / 2) + (23 - Int.log 2 x / 2)) := by
        rw [h4, zpow_add₀ (by norm_num : (2 : ℚ) ≠ 0), zpow_add₀ (by norm_num : (2 : ℚ) ≠ 0)]
        ring
      have e2 : (2 : ℚ) ^ (46 : ℤ) ≤
          2 ^ (Int.log 2 x + (23 - Int.log 2 x / 2) + (23 - Int.log 2 x / 2)) :=
        zpow_le_zpow_right₀ (by norm_num) (by omega)
      calc (2 : ℚ) ^ (46 : ℤ) ≤ _ := e2
        _ = (2 : ℚ) ^ Int.log 2 x * 4 ^ (23 - Int.log 2 x / 2) := e1.symm
        _ ≤ x * 4 ^ (23 - Int.log 2 x / 2) :=
          mul_le_mul_of_nonneg_right hlo (zpow_nonneg (by norm_num) _)
    have hy0 : 0 ≤ x * 4 ^ (23 - Int.log 2 x / 2) :=
      le_trans (zpow_nonneg (by norm_num) _) hy46
    have hfl1 : ((⌊x * 4 ^ (23 - Int.log 2 x / 2)⌋₊ : ℕ) : ℚ) ≤
        x * 4 ^ (23 - Int.log 2 x / 2) := Nat.floor_le hy0
    have hfl2 : x * 4 ^ (23 - Int.log 2 x / 2) <
        ((⌊x * 4 ^ (23 - Int.log 2 x / 2)⌋₊ : ℕ) : ℚ) + 1 := Nat.lt_floor_add_one _
    have hf46 : 2 ^ 46 ≤ ⌊x * 4 ^ (23 - Int.log 2 x / 2)⌋₊ := by
      apply Nat.le_floor
      have : (2 : ℚ) ^ (46 : ℤ) = ((2 ^ 46 : ℕ) : ℚ) := by norm_num
      rw [← this]
      exact hy46
    have hn23 : 2 ^ 23 ≤ Nat.sqrt ⌊x * 4 ^ (23 - Int.log 2 x / 2)⌋₊ :=
      Nat.le_sqrt.mpr (by norm_num at hf46 ⊢; exact hf46)
    have hn1 : Nat.sqrt ⌊x * 4 ^ (23 - Int.log 2 x / 2)⌋₊ *
        Nat.sqrt ⌊x * 4 ^ (23 - Int.log 2 x / 2)⌋₊ ≤ ⌊x * 4 ^ (23 - Int.log 2 x / 2)⌋₊ :=
      Nat.sqrt_le _
    have hn2 : ⌊x * 4 ^ (23 - Int.log 2 x / 2)⌋₊ <
        (Nat.sqrt ⌊x * 4 ^ (23 - Int.log 2 x / 2)⌋₊ + 1) *
          (Nat.sqrt ⌊x * 4 ^ (23 - Int.log 2 x / 2)⌋₊ + 1) := Nat.lt_succ_sqrt _
    unfold Binary32.sqrt
    rw [if_neg (not_le.mpr hpos)]
    dsimp only
    generalize hyy : x * 4 ^ (23 - Int.log 2 x / 2) = y at *
    generalize hff : ⌊y⌋₊ = f at *
    generalize hnn : Nat.sqrt f = n at *
    have hnq : (8388608 : ℚ) ≤ (n : ℚ) := by
      have h23 : (8388608 : ℕ) ≤ n := by simpa using hn23
      exact_mod_cast h23
    have hn1q : (n : ℚ) * n ≤ y := by
      have : ((n * n : ℕ) : ℚ) ≤ (f : ℚ) := Nat.cast_le.mpr hn1
      push_cast at this
      linarith
    have hn2q : y < ((n : ℚ) + 1) * (n + 1) := by
      have : ((f + 1 : ℕ) : ℚ) ≤ (((n + 1) * (n + 1) : ℕ) : ℚ) := Nat.cast_le.mpr hn2
      push_cast at this
      linarith
    have key : ∀ m : ℕ, (m = n ∧ y ≤ ((n : ℚ) + 1 / 2) ^ 2) ∨
        (m = n + 1 ∧ ((n : ℚ) + 1 / 2) ^ 2 ≤ y) →
        (0 : ℚ) ≤ (m : ℚ) / 2 ^ (23 - Int.log 2 x / 2) ∧
          (1 - Binary32.unitRoundoff) ^ 2 * x ≤
            (m : ℚ) / 2 ^ (23 - Int.log 2 x / 2) * ((m : ℚ) / 2 ^ (23 - Int.log 2 x / 2)) ∧
          (m : ℚ) / 2 ^ (23 - Int.log 2 x / 2) * ((m : ℚ) / 2 ^ (23 - Int.log 2 x / 2)) ≤
            (1 + Binary32.unitRoundoff) ^ 2 * x := by
      intro m hm
      have hxy : x = y / (2 ^ (23 - Int.log 2 x / 2) * 2 ^ (23 - Int.log 2 x / 2)) := by
        rw [← hyy, h4]
        field_simp
      have hu0 : (0 : ℚ) ≤ Binary32.unitRoundoff := by
        unfold Binary32.unitRoundoff
        norm_num
      have hu1 : Binary32.unitRoundoff ≤ 1 := by
        unfold Binary32.unitRoundoff
        norm_num
      have hun : (1 : ℚ) / 2 ≤ Binary32.unitRoundoff * n := by
        unfold Binary32.unitRoundoff
        linarith
      have hmm : (1 - Binary32.unitRoundoff) ^ 2 * y ≤ (m : ℚ) * m ∧
          (m : ℚ) * m ≤ (1 + Binary32.unitRoundoff) ^ 2 * y := by
        rcases hm with ⟨rfl, hle⟩ | ⟨rfl, hle⟩
        · exact sqrt_down_bounds _ _ y hu0 hu1 hun (Nat.cast_nonneg m) hn1q hle
        · push_cast
          exact sqrt_up_bounds _ _ y hu0 hu1 hun (Nat.cast_nonneg n) hle hn2q.le
      refine ⟨div_nonneg (Nat.cast_nonneg m) hs.le, ?_, ?_⟩
      · rw [div_mul_div_comm, le_div_iff₀ (mul_pos hs hs)]
        calc (1 - Binary32.unitRoundoff) ^ 2 * x *
              (2 ^ (23 - Int.log 2 x / 2) * 2 ^ (23 - Int.log 2 x / 2)) =
            (1 - Binary32.unitRoundoff) ^ 2 * y := by
              rw [← hyy, h4]
              ring
          _ ≤ _ := hmm.1
      · rw [div_mul_div_comm, div_le_iff₀ (mul_pos hs hs)]
        calc (m : ℚ) * m ≤ (1 + Binary32.unitRoundoff) ^ 2 * y := hmm.2
          _ = _ := by
              rw [← hyy, h4]
              ring
    apply key
    split_ifs with a b c
    · exact Or.inl ⟨rfl, a.le⟩
    · exact Or.inr ⟨rfl, b.le⟩
    · exact Or.inl ⟨rfl, not_lt.mp b⟩
    · exact Or.inr ⟨rfl, not_lt.mp a⟩

/-! ## The segment from 0.1f to 0.7f in binary32 -/

theorem segment32_bounds :
    ((ObjLoader.init : ObjLoader ℚ).calculateBounds segment32)._minBounds =
        ⟨13421773 / 134217728, 0, 0⟩ ∧
      ((ObjLoader.init : ObjLoader ℚ).calculateBounds segment32)._maxBounds =
        ⟨11744051 / 16777216, 0, 0⟩ := by
  simp only [segment32, ObjLoader.calculateBounds, vertexAt, ObjLoader.init,
    Vec3.min, Vec3.max, Vec3.minS, Vec3.maxS, Vec3.splat, FLT_MAX, List.foldl_cons,
    List.foldl_nil]
  norm_num

theorem round_segment_sum :
    Binary32.round (107374181 / 134217728) = 13421773 / 16777216 := by
  rw [round_eq_of (107374181 / 134217728) (-1) 13421773 (by norm_num)
    (by rw [abs_of_pos (by norm_num)]; norm_num) (by rw [abs_of_pos (by norm_num)]; norm_num)
    (by norm_num) (by norm_num)]
  norm_num

theorem round_segment_center :
    Binary32.round (13421773 / 33554432) = 13421773 / 33554432 := by
  rw [round_eq_of (13421773 / 33554432) (-2) 13421773 (by norm_num)
    (by rw [abs_of_pos (by norm_num)]; norm_num) (by rw [abs_of_pos (by norm_num)]; norm_num)
    (by norm_num) (by norm_num)]
  norm_num

theorem round_segment_extent :
    Binary32.round (80530635 / 134217728) = 10066329 / 16777216 := by
  rw [round_eq_of (80530635 / 134217728) (-1) 10066329 (by norm_num)
    (by rw [abs_of_pos (by norm_num)]; norm_num) (by rw [abs_of_pos (by norm_num)]; norm_num)
    (by norm_num) (by norm_num)]
  norm_num

/-- The square of the extent 10066329 / 2^24, which is
101330979536241 / 2^48, rounded. -/
theorem round_segment_square :
    Binary32.round (101330979536241 / 281474976710656) = 6039797 / 16777216 := by
  rw [round_eq_of (101330979536241 / 281474976710656) (-2) 12079594 (by norm_num)
    (by rw [abs_of_pos (by norm_num)]; norm_num) (by rw [abs_of_pos (by norm_num)]; norm_num)
    (by norm_num) (by norm_num)]
  norm_num

theorem round_segment_dot :
    Binary32.round (6039797 / 16777216) = 6039797 / 16777216 := by
  rw [round_eq_of (6039797 / 16777216) (-2) 12079594 (by norm_num)
    (by rw [abs_of_pos (by norm_num)]; norm_num) (by rw [abs_of_pos (by norm_num)]; norm_num)
    (by norm_num) (by norm_num)]
  norm_num

theorem sqrt_segment_dot :
    Binary32.sqrt (6039797 / 16777216) = 10066329 / 16777216 := by
  rw [sqrt_eq_of (6039797 / 16777216) (-2) 101330978865152 10066328 10066329 (by norm_num)
    (by norm_num) (by norm_num) (by norm_num) (by norm_num) (by norm_num)
    (Or.inr ⟨by norm_num, rfl⟩)]
  norm_num

theorem round_segment_radius :
    Binary32.round (10066329 / 33554432) = 10066329 / 33554432 := by
  rw [round_eq_of (10066329 / 33554432) (-2) 10066329 (by norm_num)
    (by rw [abs_of_pos (by norm_num)]; norm_num) (by rw [abs_of_pos (by norm_num)]; norm_num)
    (by norm_num) (by norm_num)]
  norm_num

/-- The centre and the radius of the segment from 0.1f to 0.7f as binary32
arithmetic gives them: (13421773 / 2^25, 0, 0) and 10066329 / 2^25. -/
theorem segment_binary32 :
    Rounded.getCenter Binary32.round
        ((ObjLoader.init : ObjLoader ℚ).calculateBounds segment32) =
        ⟨13421773 / 33554432, 0, 0⟩ ∧
      Rounded.getRadius Binary32.round Binary32.sqrt
        ((ObjLoader.init : ObjLoader ℚ).calculateBounds segment32) = 10066329 / 33554432 := by
  obtain ⟨c1, c2⟩ := segment32_bounds
  constructor
  · simp only [Rounded.getCenter, c1, c2]
    norm_num [round_zero, round_segment_sum, round_segment_center]
  · simp only [Rounded.getRadius, Rounded.extent, Rounded.dot, c1, c2]
    norm_num [round_zero, round_segment_extent, round_segment_square, round_segment_dot,
      sqrt_segment_dot, round_segment_radius]

/-- Frames keep the scene: from a ready state every sequence of frames runs to
a ready state with the same loader. -/
theorem run_scene (lib : FloatLib F S) (frames : List (UIInput F × (Int × Int))) :
    ∀ self : RSMApp F S, Ready self →
      ∃ app, RSMApp.run lib frames self = some app ∧ Ready app ∧
        app._scene = self._scene := by
  induction frames with
  | nil => intro self h; exact ⟨self, rfl, h, rfl⟩
  | cons fr rest ih =>
    intro self h
    obtain ⟨g, hg, _⟩ := update_spec lib fr.1 fr.2 self h
    have hr : Ready (RSMApp.resizeStep fr.2 (RSMApp.drawUI fr.1 self)) :=
      ready_resizeStep fr.2 _ (ready_drawUI fr.1 self h)
    have hr1 : Ready (afterFrame lib fr.1 fr.2 self g) :=
      hr.congr rfl rfl rfl rfl (fun t ht => ⟨t, ht⟩) (fun t ht => ⟨t, ht⟩)
        (fun t ht => ⟨t, ht⟩) (fun t ht => ⟨t, ht⟩) (fun t ht => ⟨t, ht⟩) rfl rfl rfl rfl rfl
        (fun t ht => ⟨t, ht⟩) (fun t ht => ⟨t, ht⟩) (fun t ht => ⟨t, ht⟩) rfl rfl
    obtain ⟨b, hb, hrb, hsb⟩ := ih _ hr1
    refine ⟨b, by simp only [RSMApp.run, hg, hb], hrb, hsb.trans ?_⟩
    exact (resizeStep_rsm fr.2 (RSMApp.drawUI fr.1 self)).2.2

end Lemmas

/-! ## C1: resize invariant -/

section Claims

variable {F : Type} [LinearOrderedField F] {S : Type}

/-- C1. Resize invariant: when the shaders build, init followed by update over
any finite sequence of frames returns a state, and if the size observed in the
last frame is (W, H) with W > 0 and H > 0, then each of the six
camera-resolution targets (G-buffer albedo, normal, position, depth; output
colour, output depth) has width W and height H. Earlier frames may report any
size, a zero dimension included. -/
theorem C1_resize_invariant (lib : FloatLib F S) (env : Env F) (hs : env.shaders.isSome)
    (frames : List (UIInput F × (Int × Int))) (ui : UIInput F) (W H : Int)
    (hW : 0 < W) (hH : 0 < H) :
    ∃ app, (RSMApp.init lib env (RSMApp.new lib)).bind
        (RSMApp.run lib (frames ++ [(ui, (W, H))])) = some app ∧
      ∀ t ∈ RSMApp.cameraTargets app, hasSize t W H := by
  obtain ⟨a0, h0, hr0, hz0, _, _⟩ := init_spec lib env hs
  obtain ⟨a1, h1, hr1, hz1⟩ := run_sized lib frames a0 hr0 hz0
  obtain ⟨a2, h2, _, hz2, hw, hh⟩ := update_sized lib ui (W, H) a1 hr1 hz1
  refine ⟨a2, ?_, ?_⟩
  · simp [h0, run_append, h1, RSMApp.run, h2]
  · intro t ht
    have := hz2 t ht
    rw [hw, hh] at this
    exact this

/-- Witness for C1: a 1024 x 768 start, one frame that reports a zero-width
framebuffer, then a frame that reports 800 x 600. -/
theorem C1_resize_invariant_witness :
    (exampleEnv (F := ℝ)).shaders.isSome ∧ (0 : Int) < 800 ∧ (0 : Int) < 600 ∧
      ∃ app, (RSMApp.init (libOf Real.sin Real.cos Real.sqrt) exampleEnv
          (RSMApp.new (libOf Real.sin Real.cos Real.sqrt))).bind
          (RSMApp.run (libOf Real.sin Real.cos Real.sqrt)
            ([(noInput, (0, 600))] ++ [(noInput, (800, 600))])) = some app ∧
        ∀ t ∈ RSMApp.cameraTargets app, hasSize t 800 600 :=
  ⟨rfl, by decide, by decide,
    C1_resize_invariant (libOf Real.sin Real.cos Real.sqrt) exampleEnv rfl
      [(noInput, (0, 600))] noInput 800 600 (by decide) (by decide)⟩

/-! ## C2: zero-size guard -/

/-- C2, counterexample. From the state after init with a 1024 x 768
framebuffer, a frame that observes the size (0, 768) falsifies the zero-size
guard: the camera-resolution targets are destroyed and rebuilt. -/
theorem C2_zero_size_guard_counterexample :
    ¬ RSMApp.ZeroSizeGuard (libOf Real.sin Real.cos Real.sqrt) noInput
      (RSMApp.start (libOf Real.sin Real.cos Real.sqrt) exampleEnv) (0, 768) := by
  rintro ⟨b, hb, _, _, _, hev⟩
  have hreach := start_reachable (libOf Real.sin Real.cos Real.sqrt) (exampleEnv (F := ℝ)) rfl
  have hr := (reachable_spec _ _ hreach).1
  obtain ⟨b1, hb1, _, _, extra, hex, hdel, _, _, _⟩ :=
    update_changed (libOf Real.sin Real.cos Real.sqrt) noInput _ hr (0, 768)
      (by rw [start_size (libOf Real.sin Real.cos Real.sqrt) (exampleEnv (F := ℝ)) rfl]; decide)
  rw [hb] at hb1
  cases hb1
  rw [hev] at hex
  have hnil : extra = [] := by simpa using hex.symm
  obtain ⟨tex, _, hmem⟩ := hdel _ (List.mem_cons_self _ _)
  rw [hnil] at hmem
  exact absurd hmem (List.not_mem_nil _)

/-- C2 (amended). update has no zero-size guard. In every reachable state,
when the observed framebuffer size is (0, H) or (W, 0) and differs from the
stored size, update returns (no null pointer is dereferenced), and it has
destroyed each of the six camera-resolution targets and the two framebuffer
groups built on them, and constructed six new targets whose width and height
are the observed ones, a zero included, and two new groups; the four RSM
targets and their framebuffer group are the same objects as before. -/
theorem C2_zero_size_recreates (lib : FloatLib F S) (ui : UIInput F) (app : RSMApp F S)
    (hreach : RSMApp.Reachable lib app) (size : Int × Int)
    (hzero : size.1 = 0 ∨ size.2 = 0)
    (hdiff : size ≠ (app._currentWidth, app._currentHeight)) :
    ∃ next, RSMApp.update lib ui size app = some next ∧
      RSMApp.rsmTargets next = RSMApp.rsmTargets app ∧ next._rsmFBO = app._rsmFBO ∧
      ∃ extra, next.gl.resourceEvents = app.gl.resourceEvents ++ extra ∧
        (∀ t ∈ RSMApp.cameraTargets app, ∃ tex, t = some tex ∧
          GLEvent.deleteTexture tex.id ∈ extra) ∧
        (∀ t ∈ RSMApp.cameraTargets next, ∃ tex, t = some tex ∧
          tex.width = size.1 ∧ tex.height = size.2 ∧
          app.gl.nextId ≤ tex.id ∧ GLEvent.genTexture tex ∈ extra) ∧
        (∀ g ∈ RSMApp.cameraGroups app, ∃ fb, g = some fb ∧
          GLEvent.deleteFramebuffer fb.id ∈ extra) ∧
        (∀ g ∈ RSMApp.cameraGroups next, ∃ fb, g = some fb ∧
          app.gl.nextId ≤ fb.id ∧ GLEvent.genFramebuffer fb ∈ extra) :=
  update_changed lib ui app (reachable_spec lib app hreach).1 size hdiff

/-- Witness for C2: the state after init with a 1024 x 768 framebuffer, and a
frame that observes the size (0, 768). -/
theorem C2_zero_size_recreates_witness :
    RSMApp.Reachable (libOf Real.sin Real.cos Real.sqrt)
        (RSMApp.start (libOf Real.sin Real.cos Real.sqrt) exampleEnv) ∧
      ((0 : Int) = 0 ∨ (768 : Int) = 0) ∧
      ((0 : Int), (768 : Int)) ≠
        ((RSMApp.start (libOf Real.sin Real.cos Real.sqrt) (exampleEnv (F := ℝ)))._currentWidth,
          (RSMApp.start (libOf Real.sin Real.cos Real.sqrt)
            (exampleEnv (F := ℝ)))._currentHeight) ∧
      ∃ next, RSMApp.update (libOf Real.sin Real.cos Real.sqrt) noInput ((0 : Int), (768 : Int))
          (RSMApp.start (libOf Real.sin Real.cos Real.sqrt) exampleEnv) = some next ∧
        RSMApp.rsmTargets next =
          RSMApp.rsmTargets (RSMApp.start (libOf Real.sin Real.cos Real.sqrt) exampleEnv) ∧
        next._rsmFBO = (RSMApp.start (libOf Real.sin Real.cos Real.sqrt) exampleEnv)._rsmFBO ∧
        ∃ extra, next.gl.resourceEvents =
            (RSMApp.start (libOf Real.sin Real.cos Real.sqrt) exampleEnv).gl.resourceEvents
              ++ extra ∧
          (∀ t ∈ RSMApp.cameraTargets (RSMApp.start (libOf Real.sin Real.cos Real.sqrt) exampleEnv),
            ∃ tex, t = some tex ∧ GLEvent.deleteTexture tex.id ∈ extra) ∧
          (∀ t ∈ RSMApp.cameraTargets next, ∃ tex, t = some tex ∧
            tex.width = 0 ∧ tex.height = 768 ∧
            (RSMApp.start (libOf Real.sin Real.cos Real.sqrt) exampleEnv).gl.nextId ≤ tex.id ∧
            GLEvent.genTexture tex ∈ extra) ∧
          (∀ g ∈ RSMApp.cameraGroups (RSMApp.start (libOf Real.sin Real.cos Real.sqrt) exampleEnv),
            ∃ fb, g = some fb ∧ GLEvent.deleteFramebuffer fb.id ∈ extra) ∧
          (∀ g ∈ RSMApp.cameraGroups next, ∃ fb, g = some fb ∧
            (RSMApp.start (libOf Real.sin Real.cos Real.sqrt) exampleEnv).gl.nextId ≤ fb.id ∧
            GLEvent.genFramebuffer fb ∈ extra) :=
  ⟨start_reachable _ _ rfl, Or.inl rfl,
    (by rw [start_size (libOf Real.sin Real.cos Real.sqrt) (exampleEnv (F := ℝ)) rfl]; decide),
    C2_zero_size_recreates (libOf Real.sin Real.cos Real.sqrt) noInput
      (RSMApp.start (libOf Real.sin Real.cos Real.sqrt) exampleEnv)
      (start_reachable _ _ rfl) (0, 768) (Or.inl rfl)
      (by rw [start_size (libOf Real.sin Real.cos Real.sqrt) (exampleEnv (F := ℝ)) rfl]; decide)⟩

/-! ## C3, C4: the VPL samples -/

/-- C3. VPL sample bounds: when the library sine and cosine satisfy
sin^2 + cos^2 = 1 and every draw of the generator lies in [0, 1), then for
every index i < MAX_VPL_NUM the sample v stored by generateVPLSamples at i
satisfies x^2 + y^2 <= 1, and x^2 + y^2 = xi1^2 = z where xi1 is the first of the
two draws of iteration i (draw 2 i of the generator). -/
theorem C3_vpl_sample_bounds (lib : FloatLib F S)
    (hpyth : ∀ a, lib.sin a ^ 2 + lib.cos a ^ 2 = 1)
    (hdraw : ∀ s, 0 ≤ (lib.uniform01 s).1 ∧ (lib.uniform01 s).1 < 1)
    (app : RSMApp F S) (i : Nat) (hi : i < MAX_VPL_NUM) :
    ∃ v, (RSMApp.generateVPLSamples lib app)._vplSamples[i]? = some v ∧
      v.x ^ 2 + v.y ^ 2 ≤ 1 ∧
      v.x ^ 2 + v.y ^ 2 = RSMApp.draw lib (2 * i) ^ 2 ∧
      v.z = RSMApp.draw lib (2 * i) ^ 2 := by
  obtain ⟨_, hspec⟩ := generateVPLSamples_spec lib app
  obtain ⟨hxy, hz⟩ := vplSample_norm lib hpyth (RSMApp.draw lib (2 * i))
    (RSMApp.draw lib (2 * i + 1))
  refine ⟨_, hspec i hi, ?_, hxy, hz⟩
  rw [hxy]
  obtain ⟨h0, h1⟩ := hdraw (RSMApp.advance lib (2 * i) (lib.seed 42))
  exact sq_le_one_of_unit _ h0 h1

/-- Witness for C3: the real sine and cosine, a generator with draws in
[0, 1), the freshly constructed application, index 3. -/
theorem C3_vpl_sample_bounds_witness :
    (∀ a, (libOf Real.sin Real.cos Real.sqrt).sin a ^ 2 +
        (libOf Real.sin Real.cos Real.sqrt).cos a ^ 2 = 1) ∧
      (∀ s, 0 ≤ ((libOf Real.sin Real.cos Real.sqrt).uniform01 s).1 ∧
        ((libOf Real.sin Real.cos Real.sqrt).uniform01 s).1 < 1) ∧
      3 < MAX_VPL_NUM ∧
      ∃ v, (RSMApp.generateVPLSamples (libOf Real.sin Real.cos Real.sqrt)
          (RSMApp.new (libOf Real.sin Real.cos Real.sqrt)))._vplSamples[3]? = some v ∧
        v.x ^ 2 + v.y ^ 2 ≤ 1 ∧
        v.x ^ 2 + v.y ^ 2 = RSMApp.draw (libOf Real.sin Real.cos Real.sqrt) (2 * 3) ^ 2 ∧
        v.z = RSMApp.draw (libOf Real.sin Real.cos Real.sqrt) (2 * 3) ^ 2 :=
  ⟨fun a => Real.sin_sq_add_cos_sq a, libOf_draw_unit _ _ _, by decide,
    C3_vpl_sample_bounds (libOf Real.sin Real.cos Real.sqrt)
      (fun a => Real.sin_sq_add_cos_sq a) (libOf_draw_unit _ _ _)
      (RSMApp.new (libOf Real.sin Real.cos Real.sqrt)) 3 (by decide)⟩

/-- C4. VPL sample formula: generateVPLSamples leaves exactly MAX_VPL_NUM = 512
samples; for every i < 512, with xi1 draw 2 i and xi2 draw 2 i + 1 of the
generator seeded with 42, sample i is
(xi1 * sin(angle), xi1 * cos(angle), xi1^2, 0) with angle = 2 * 3.14159265 * xi2
(the constant the source writes for pi); and the samples are the same whatever
state (camera, light, parameters, old samples) the application is in. -/
theorem C4_vpl_sample_formula (lib : FloatLib F S) (app other : RSMApp F S) :
    MAX_VPL_NUM = 512 ∧
      (RSMApp.generateVPLSamples lib app)._vplSamples.length = 512 ∧
      (∀ i, i < 512 →
        (RSMApp.generateVPLSamples lib app)._vplSamples[i]? =
          some ⟨RSMApp.draw lib (2 * i) *
              lib.sin (2.0 * 3.14159265 * RSMApp.draw lib (2 * i + 1)),
            RSMApp.draw lib (2 * i) * lib.cos (2.0 * 3.14159265 * RSMApp.draw lib (2 * i + 1)),
            RSMApp.draw lib (2 * i) ^ 2, 0⟩) ∧
      (RSMApp.generateVPLSamples lib app)._vplSamples =
        (RSMApp.generateVPLSamples lib other)._vplSamples := by
  obtain ⟨hl, hs⟩ := generateVPLSamples_spec lib app
  obtain ⟨hl2, hs2⟩ := generateVPLSamples_spec lib other
  refine ⟨rfl, hl, ?_, ?_⟩
  · intro i hi
    rw [hs i hi]
    simp only [RSMApp.vplSample, sq]
  · apply List.ext_getElem?
    intro i
    by_cases hi : i < MAX_VPL_NUM
    · rw [hs i hi, hs2 i hi]
    · rw [List.getElem?_eq_none (by omega), List.getElem?_eq_none (by omega)]

/-! ## C5: the bounding box -/

/-- The bounds of the cube corners after calculateBounds on a fresh loader. -/
theorem cube_bounds :
    ((ObjLoader.init : ObjLoader F).calculateBounds cubeCorners).getMinBounds =
        ⟨-0.5, -0.5, -0.5⟩ ∧
      ((ObjLoader.init : ObjLoader F).calculateBounds cubeCorners).getMaxBounds =
        ⟨0.5, 0.5, 0.5⟩ := by
  simp only [ObjLoader.calculateBounds, cubeCorners, vertexAt, ObjLoader.init, Vec3.min,
    Vec3.max, Vec3.minS, Vec3.maxS, Vec3.splat, FLT_MAX, ObjLoader.getMinBounds,
    ObjLoader.getMaxBounds, List.foldl_cons, List.foldl_nil]
  norm_num

/-- C5. Bounding box correctness: for every non-empty list of vertices whose
coordinates are within float range, calculateBounds on a freshly constructed
loader leaves in getMinBounds the componentwise minimum and in getMaxBounds the
componentwise maximum of the positions. For the 8 cube corners at +-0.5 the
result is min = (-0.5, -0.5, -0.5), max = (0.5, 0.5, 0.5) and
getRadius = sqrt(3) / 2. -/
theorem C5_bounding_box (lib : FloatLib F S) (vs : List (Vertex F)) (hne : vs ≠ [])
    (hrange : ∀ v ∈ vs, InFloatRange v.position) :
    (IsMinCoord ((ObjLoader.init : ObjLoader F).calculateBounds vs).getMinBounds.x
        (vs.map (fun v => v.position.x)) ∧
      IsMinCoord ((ObjLoader.init : ObjLoader F).calculateBounds vs).getMinBounds.y
        (vs.map (fun v => v.position.y)) ∧
      IsMinCoord ((ObjLoader.init : ObjLoader F).calculateBounds vs).getMinBounds.z
        (vs.map (fun v => v.position.z)) ∧
      IsMaxCoord ((ObjLoader.init : ObjLoader F).calculateBounds vs).getMaxBounds.x
        (vs.map (fun v => v.position.x)) ∧
      IsMaxCoord ((ObjLoader.init : ObjLoader F).calculateBounds vs).getMaxBounds.y
        (vs.map (fun v => v.position.y)) ∧
      IsMaxCoord ((ObjLoader.init : ObjLoader F).calculateBounds vs).getMaxBounds.z
        (vs.map (fun v => v.position.z))) ∧
    ((ObjLoader.init : ObjLoader F).calculateBounds cubeCorners).getMinBounds =
        ⟨-0.5, -0.5, -0.5⟩ ∧
    ((ObjLoader.init : ObjLoader F).calculateBounds cubeCorners).getMaxBounds =
        ⟨0.5, 0.5, 0.5⟩ ∧
    ((ObjLoader.init : ObjLoader F).calculateBounds cubeCorners).getRadius lib =
        lib.sqrt 3 / 2 := by
  obtain ⟨e1, e2, e3, e4, e5, e6⟩ := calculateBounds_components vs (ObjLoader.init : ObjLoader F)
  obtain ⟨c1, c2⟩ := cube_bounds (F := F)
  refine ⟨⟨?_, ?_, ?_, ?_, ?_, ?_⟩, c1, c2, ?_⟩
  · simp only [ObjLoader.getMinBounds, e1]
    exact foldl_minS_isMin _ vs hne (fun v hv => (hrange v hv).1.2)
  · simp only [ObjLoader.getMinBounds, e2]
    exact foldl_minS_isMin _ vs hne (fun v hv => (hrange v hv).2.1.2)
  · simp only [ObjLoader.getMinBounds, e3]
    exact foldl_minS_isMin _ vs hne (fun v hv => (hrange v hv).2.2.2)
  · simp only [ObjLoader.getMaxBounds, e4]
    exact foldl_maxS_isMax _ vs hne (fun v hv => (hrange v hv).1.1)
  · simp only [ObjLoader.getMaxBounds, e5]
    exact foldl_maxS_isMax _ vs hne (fun v hv => (hrange v hv).2.1.1)
  · simp only [ObjLoader.getMaxBounds, e6]
    exact foldl_maxS_isMax _ vs hne (fun v hv => (hrange v hv).2.2.1)
  · simp only [ObjLoader.getMinBounds, ObjLoader.getMaxBounds] at c1 c2
    simp only [ObjLoader.getRadius, c1, c2, Vec3.length, Vec3.sub, Vec3.dot]
    norm_num
    ring

/-- The cube corners are within float range. -/
theorem cubeCorners_inRange : ∀ v ∈ (cubeCorners : List (Vertex F)), InFloatRange v.position := by
  intro v hv
  simp only [cubeCorners, List.mem_cons, List.mem_singleton, List.not_mem_nil, or_false] at hv
  rcases hv with h | h | h | h | h | h | h | h <;> subst h <;>
    simp only [InFloatRange, vertexAt, FLT_MAX] <;> norm_num

/-- Witness for C5: the 8 cube corners, over the reals. -/
theorem C5_bounding_box_witness :
    (cubeCorners : List (Vertex ℝ)) ≠ [] ∧
    (∀ v ∈ (cubeCorners : List (Vertex ℝ)), InFloatRange v.position) ∧
    ((IsMinCoord ((ObjLoader.init : ObjLoader ℝ).calculateBounds cubeCorners).getMinBounds.x
        (cubeCorners.map (fun v => v.position.x)) ∧
      IsMinCoord ((ObjLoader.init : ObjLoader ℝ).calculateBounds cubeCorners).getMinBounds.y
        (cubeCorners.map (fun v => v.position.y)) ∧
      IsMinCoord ((ObjLoader.init : ObjLoader ℝ).calculateBounds cubeCorners).getMinBounds.z
        (cubeCorners.map (fun v => v.position.z)) ∧
      IsMaxCoord ((ObjLoader.init : ObjLoader ℝ).calculateBounds cubeCorners).getMaxBounds.x
        (cubeCorners.map (fun v => v.position.x)) ∧
      IsMaxCoord ((ObjLoader.init : ObjLoader ℝ).calculateBounds cubeCorners).getMaxBounds.y
        (cubeCorners.map (fun v => v.position.y)) ∧
      IsMaxCoord ((ObjLoader.init : ObjLoader ℝ).calculateBounds cubeCorners).getMaxBounds.z
        (cubeCorners.map (fun v => v.position.z))) ∧
    ((ObjLoader.init : ObjLoader ℝ).calculateBounds cubeCorners).getMinBounds =
        ⟨-0.5, -0.5, -0.5⟩ ∧
    ((ObjLoader.init : ObjLoader ℝ).calculateBounds cubeCorners).getMaxBounds =
        ⟨0.5, 0.5, 0.5⟩ ∧
    ((ObjLoader.init : ObjLoader ℝ).calculateBounds cubeCorners).getRadius
        (libOf Real.sin Real.cos Real.sqrt) = Real.sqrt 3 / 2) :=
  ⟨by simp [cubeCorners], cubeCorners_inRange,
    C5_bounding_box (libOf Real.sin Real.cos Real.sqrt) cubeCorners (by simp [cubeCorners])
      cubeCorners_inRange⟩

/-! ## C6: the bounding sphere in rounded arithmetic -/

/-! ## The cube corners in binary32 -/

theorem round_one : Binary32.round 1 = 1 := by
  rw [round_eq_of 1 0 8388608 (by norm_num) (by norm_num) (by norm_num) (by norm_num)
    (by norm_num)]
  norm_num

theorem round_two : Binary32.round 2 = 2 := by
  rw [round_eq_of 2 1 8388608 (by norm_num) (by norm_num) (by norm_num) (by norm_num)
    (by norm_num)]
  norm_num

theorem round_three : Binary32.round 3 = 3 := by
  rw [round_eq_of 3 1 12582912 (by norm_num) (by norm_num) (by norm_num) (by norm_num)
    (by norm_num)]
  norm_num

theorem sqrt_three : Binary32.sqrt 3 = 14529495 / 8388608 := by
  rw [sqrt_eq_of 3 1 211106232532992 14529495 14529495 (by norm_num) (by norm_num)
    (by norm_num) (by norm_num) (by norm_num) (by norm_num) (Or.inl ⟨by norm_num, rfl⟩)]
  norm_num

theorem round_half_sqrt_three :
    Binary32.round (14529495 / 16777216) = 14529495 / 16777216 := by
  rw [round_eq_of (14529495 / 16777216) (-1) 14529495 (by norm_num)
    (by rw [abs_of_pos (by norm_num)]; norm_num) (by rw [abs_of_pos (by norm_num)]; norm_num)
    (by norm_num) (by norm_num)]
  norm_num

/-- The centre and the radius of the cube with corners at +0.5 and -0.5 as
binary32 arithmetic gives them: (0, 0, 0) and 14529495 / 2^24. -/
theorem cube_binary32 :
    Rounded.getCenter Binary32.round
        ((ObjLoader.init : ObjLoader ℚ).calculateBounds cubeCorners) = ⟨0, 0, 0⟩ ∧
      Rounded.extent Binary32.round
        ((ObjLoader.init : ObjLoader ℚ).calculateBounds cubeCorners) = ⟨1, 1, 1⟩ ∧
      Rounded.dot Binary32.round (⟨1, 1, 1⟩ : Vec3 ℚ) ⟨1, 1, 1⟩ = 3 ∧
      Rounded.getRadius Binary32.round Binary32.sqrt
        ((ObjLoader.init : ObjLoader ℚ).calculateBounds cubeCorners) = 14529495 / 16777216 := by
  obtain ⟨c1, c2⟩ := cube_bounds (F := ℚ)
  simp only [ObjLoader.getMinBounds, ObjLoader.getMaxBounds] at c1 c2
  have hd : Rounded.dot Binary32.round (⟨1, 1, 1⟩ : Vec3 ℚ) ⟨1, 1, 1⟩ = 3 := by
    simp only [Rounded.dot, mul_one, round_one]
    norm_num [round_two, round_three]
  have he : Rounded.extent Binary32.round
      ((ObjLoader.init : ObjLoader ℚ).calculateBounds cubeCorners) = ⟨1, 1, 1⟩ := by
    simp only [Rounded.extent, c1, c2]
    norm_num [round_one]
  refine ⟨?_, he, hd, ?_⟩
  · simp only [Rounded.getCenter, c1, c2]
    norm_num [round_zero]
  · simp only [Rounded.getRadius, he, hd, sqrt_three]
    norm_num [round_half_sqrt_three]

/-- Binary32 arithmetic rounds every operation of getCenter and getRadius on
the cube corners with relative error at most 2^(-24). -/
theorem cube_accurate :
    Rounded.CenterAccurate Binary32.round Binary32.unitRoundoff
        ((ObjLoader.init : ObjLoader ℚ).calculateBounds cubeCorners) ∧
      Rounded.RadiusAccurate Binary32.round Binary32.sqrt Binary32.unitRoundoff
        ((ObjLoader.init : ObjLoader ℚ).calculateBounds cubeCorners) := by
  obtain ⟨c1, c2⟩ := cube_bounds (F := ℚ)
  simp only [ObjLoader.getMinBounds, ObjLoader.getMaxBounds] at c1 c2
  obtain ⟨_, he, hd, _⟩ := cube_binary32
  have z0 : Rounded.Accurate Binary32.round Binary32.unitRoundoff 0 :=
    round_accurate 0 (Or.inl rfl)
  have z1 : Rounded.Accurate Binary32.round Binary32.unitRoundoff 1 :=
    round_accurate 1 (Or.inr (by norm_num))
  have z2 : Rounded.Accurate Binary32.round Binary32.unitRoundoff 2 :=
    round_accurate 2 (Or.inr (by norm_num))
  have z3 : Rounded.Accurate Binary32.round Binary32.unitRoundoff 3 :=
    round_accurate 3 (Or.inr (by norm_num))
  have zr : Rounded.Accurate Binary32.round Binary32.unitRoundoff (14529495 / 16777216) :=
    round_accurate _ (Or.inr (by rw [abs_of_pos (by norm_num)]; norm_num))
  constructor
  · simp only [Rounded.CenterAccurate, c1, c2]
    norm_num [round_zero]
    exact z0
  · simp only [Rounded.RadiusAccurate, he, hd, c1, c2, Rounded.DotAccurate, sqrt_three]
    norm_num [round_one, round_two]
    exact ⟨z1, ⟨z1, z2, z3⟩, sqrt_accurate 3 (by norm_num), zr⟩

/-- C6, the claim evaluated in binary32. For the 8 cube corners at +0.5 and
-0.5 the centre returned is (0, 0, 0) and the radius returned is
14529495 / 2^24 = 0.86602538..., the rounded square root of 3 halved, while
the corner (0.5, 0.5, 0.5) is at squared distance 3/4 from that centre, more
than the square of that radius. For the two vertices (0.1f, 0, 0) and
(0.7f, 0, 0) the centre returned is (13421773 / 2^25, 0, 0) = (0.40000000596,
0, 0) and the radius returned is 10066329 / 2^25 = 0.29999998211, while the
first vertex is at distance 0.30000000447 from that centre. In both scenes a
vertex is outside the sphere. -/
theorem C6_bounding_sphere_counterexample :
    (Rounded.getCenter Binary32.round
        ((ObjLoader.init : ObjLoader ℚ).calculateBounds cubeCorners) = ⟨0, 0, 0⟩ ∧
      Rounded.getRadius Binary32.round Binary32.sqrt
        ((ObjLoader.init : ObjLoader ℚ).calculateBounds cubeCorners) = 14529495 / 16777216 ∧
      ¬ ∀ v ∈ (cubeCorners : List (Vertex ℚ)),
        Vec3.dot
            (Vec3.sub v.position (Rounded.getCenter Binary32.round
              ((ObjLoader.init : ObjLoader ℚ).calculateBounds cubeCorners)))
            (Vec3.sub v.position (Rounded.getCenter Binary32.round
              ((ObjLoader.init : ObjLoader ℚ).calculateBounds cubeCorners))) ≤
          Rounded.getRadius Binary32.round Binary32.sqrt
              ((ObjLoader.init : ObjLoader ℚ).calculateBounds cubeCorners) *
            Rounded.getRadius Binary32.round Binary32.sqrt
              ((ObjLoader.init : ObjLoader ℚ).calculateBounds cubeCorners)) ∧
    (Rounded.getCenter Binary32.round
        ((ObjLoader.init : ObjLoader ℚ).calculateBounds segment32) =
        ⟨13421773 / 33554432, 0, 0⟩ ∧
      Rounded.getRadius Binary32.round Binary32.sqrt
        ((ObjLoader.init : ObjLoader ℚ).calculateBounds segment32) = 10066329 / 33554432 ∧
      ¬ ∀ v ∈ segment32,
        Vec3.dot
            (Vec3.sub v.position (Rounded.getCenter Binary32.round
              ((ObjLoader.init : ObjLoader ℚ).calculateBounds segment32)))
            (Vec3.sub v.position (Rounded.getCenter Binary32.round
              ((ObjLoader.init : ObjLoader ℚ).calculateBounds segment32))) ≤
          Rounded.getRadius Binary32.round Binary32.sqrt
              ((ObjLoader.init : ObjLoader ℚ).calculateBounds segment32) *
            Rounded.getRadius Binary32.round Binary32.sqrt
              ((ObjLoader.init : ObjLoader ℚ).calculateBounds segment32)) := by
  obtain ⟨hc, _, _, hr⟩ := cube_binary32
  obtain ⟨sc, sr⟩ := segment_binary32
  refine ⟨⟨hc, hr, ?_⟩, sc, sr, ?_⟩
  · intro h
    have h1 := h (vertexAt ⟨0.5, 0.5, 0.5⟩) (by simp [cubeCorners])
    rw [hc, hr] at h1
    simp only [vertexAt, Vec3.sub, Vec3.dot] at h1
    norm_num at h1
  · intro h
    have h1 := h (vertexAt ⟨13421773 / 134217728, 0, 0⟩) (by simp [segment32])
    rw [sc, sr] at h1
    simp only [vertexAt, Vec3.sub, Vec3.dot] at h1
    norm_num at h1

/-- C6. The bounding sphere encloses the scene up to rounding. Let getCenter
and getRadius be evaluated on the bounds that calculateBounds leaves in a
fresh loader for a non-empty vertex list, in an arithmetic in which each
operation of the two computations is rounded with relative error at most u,
0 ≤ u ≤ 1 (binary32 with u = 2^(-24), as long as no result overflows or
underflows). Then the radius returned is not negative, every vertex v of the
list satisfies (1 - u)^9 |v - c|^2 ≤ getRadius^2 for the exact midpoint
c = (min + max) / 2, that is (1 - u)^(9/2) |v - c| ≤ getRadius, and each
component of the centre returned differs from that of c by at most
(2u + u^2) times its absolute value. For u = 0, exact arithmetic, this is
|v - getCenter| ≤ getRadius. -/
theorem C6_bounding_sphere_rounded (rnd sqrt : F → F) (u : F) (hu0 : 0 ≤ u) (hu1 : u ≤ 1)
    (vs : List (Vertex F)) (hne : vs ≠ [])
    (hc : Rounded.CenterAccurate rnd u ((ObjLoader.init : ObjLoader F).calculateBounds vs))
    (hr : Rounded.RadiusAccurate rnd sqrt u
      ((ObjLoader.init : ObjLoader F).calculateBounds vs)) :
    0 ≤ Rounded.getRadius rnd sqrt ((ObjLoader.init : ObjLoader F).calculateBounds vs) ∧
      (∀ v ∈ vs,
        (1 - u) ^ 9 *
            Vec3.dot
              (Vec3.sub v.position ((ObjLoader.init : ObjLoader F).calculateBounds vs).getCenter)
              (Vec3.sub v.position
                ((ObjLoader.init : ObjLoader F).calculateBounds vs).getCenter) ≤
          Rounded.getRadius rnd sqrt ((ObjLoader.init : ObjLoader F).calculateBounds vs) *
            Rounded.getRadius rnd sqrt ((ObjLoader.init : ObjLoader F).calculateBounds vs)) ∧
      |(Rounded.getCenter rnd ((ObjLoader.init : ObjLoader F).calculateBounds vs)).x -
          ((ObjLoader.init : ObjLoader F).calculateBounds vs).getCenter.x| ≤
        (2 * u + u ^ 2) * |((ObjLoader.init : ObjLoader F).calculateBounds vs).getCenter.x| ∧
      |(Rounded.getCenter rnd ((ObjLoader.init : ObjLoader F).calculateBounds vs)).y -
          ((ObjLoader.init : ObjLoader F).calculateBounds vs).getCenter.y| ≤
        (2 * u + u ^ 2) * |((ObjLoader.init : ObjLoader F).calculateBounds vs).getCenter.y| ∧
      |(Rounded.getCenter rnd ((ObjLoader.init : ObjLoader F).calculateBounds vs)).z -
          ((ObjLoader.init : ObjLoader F).calculateBounds vs).getCenter.z| ≤
        (2 * u + u ^ 2) * |((ObjLoader.init : ObjLoader F).calculateBounds vs).getCenter.z| := by
  obtain ⟨r0, r1⟩ := rounded_radius_lower rnd sqrt u hu0 hu1 _ hr
  obtain ⟨⟨x1, x2⟩, ⟨y1, y2⟩, ⟨z1, z2⟩⟩ := hc
  refine ⟨r0, ?_, center_component rnd u _ hu0 x1 x2, center_component rnd u _ hu0 y1 y2,
    center_component rnd u _ hu0 z1 z2⟩
  intro v hv
  obtain ⟨hx, hy, hz⟩ := calculateBounds_encloses vs (ObjLoader.init : ObjLoader F) v hv
  have hd := within_half_diagonal _ v.position hx hy hz
  have h9 := mul_le_mul_of_nonneg_left hd (pow_nonneg (sub_nonneg.mpr hu1) 9)
  linarith

/-- Witness for C6: binary32 arithmetic, whose unit roundoff is 2^(-24), on
the 8 cube corners. -/
theorem C6_bounding_sphere_rounded_witness :
    (0 : ℚ) ≤ Binary32.unitRoundoff ∧ Binary32.unitRoundoff ≤ 1 ∧
      (cubeCorners : List (Vertex ℚ)) ≠ [] ∧
      Rounded.CenterAccurate Binary32.round Binary32.unitRoundoff
        ((ObjLoader.init : ObjLoader ℚ).calculateBounds cubeCorners) ∧
      Rounded.RadiusAccurate Binary32.round Binary32.sqrt Binary32.unitRoundoff
        ((ObjLoader.init : ObjLoader ℚ).calculateBounds cubeCorners) ∧
      (0 ≤ Rounded.getRadius Binary32.round Binary32.sqrt ((ObjLoader.init : ObjLoader ℚ).calculateBounds cubeCorners) ∧
      (∀ v ∈ (cubeCorners : List (Vertex ℚ)),
        (1 - Binary32.unitRoundoff) ^ 9 *
            Vec3.dot
              (Vec3.sub v.position ((ObjLoader.init : ObjLoader ℚ).calculateBounds cubeCorners).getCenter)
              (Vec3.sub v.position
                ((ObjLoader.init : ObjLoader ℚ).calculateBounds cubeCorners).getCenter) ≤
          Rounded.getRadius Binary32.round Binary32.sqrt ((ObjLoader.init : ObjLoader ℚ).calculateBounds cubeCorners) *
            Rounded.getRadius Binary32.round Binary32.sqrt ((ObjLoader.init : ObjLoader ℚ).calculateBounds cubeCorners)) ∧
      |(Rounded.getCenter Binary32.round ((ObjLoader.init : ObjLoader ℚ).calculateBounds cubeCorners)).x -
          ((ObjLoader.init : ObjLoader ℚ).calculateBounds cubeCorners).getCenter.x| ≤
        (2 * Binary32.unitRoundoff + Binary32.unitRoundoff ^ 2) * |((ObjLoader.init : ObjLoader ℚ).calculateBounds cubeCorners).getCenter.x| ∧
      |(Rounded.getCenter Binary32.round ((ObjLoader.init : ObjLoader ℚ).calculateBounds cubeCorners)).y -
          ((ObjLoader.init : ObjLoader ℚ).calculateBounds cubeCorners).getCenter.y| ≤
        (2 * Binary32.unitRoundoff + Binary32.unitRoundoff ^ 2) * |((ObjLoader.init : ObjLoader ℚ).calculateBounds cubeCorners).getCenter.y| ∧
      |(Rounded.getCenter Binary32.round ((ObjLoader.init : ObjLoader ℚ).calculateBounds cubeCorners)).z -
          ((ObjLoader.init : ObjLoader ℚ).calculateBounds cubeCorners).getCenter.z| ≤
        (2 * Binary32.unitRoundoff + Binary32.unitRoundoff ^ 2) * |((ObjLoader.init : ObjLoader ℚ).calculateBounds cubeCorners).getCenter.z|) :=
  ⟨by norm_num [Binary32.unitRoundoff], by norm_num [Binary32.unitRoundoff],
    by simp [cubeCorners], cube_accurate.1, cube_accurate.2,
    C6_bounding_sphere_rounded Binary32.round Binary32.sqrt Binary32.unitRoundoff
      (by norm_num [Binary32.unitRoundoff]) (by norm_num [Binary32.unitRoundoff]) cubeCorners
      (by simp [cubeCorners]) cube_accurate.1 cube_accurate.2⟩

/-! ## C7: display selection -/

/-- C7. Display selection: in every reachable state and for every integer
value `mode` of the display-mode selector, displayPass returns, binds the
presentation surface (framebuffer 0), and draws the full-screen triangle with
the texture `tex` on unit 0 (the unit the sampler uTexture is set to), where
`tex` is given by the table 0 -> final
output, 1 -> G-buffer albedo, 2 -> G-buffer normal, 3 -> G-buffer position,
4 -> RSM flux, 5 -> RSM normal, 6 -> RSM position, and for every value below 0
or above 6 the final output. -/
theorem C7_display_selection (lib : FloatLib F S) (app : RSMApp F S)
    (hreach : RSMApp.Reachable lib app) (mode : Int) :
    ∃ next tex r, RSMApp.displayPass (app.withDisplayMode mode) = some next ∧
      next.gl.events = app.gl.events ++
        [GLEvent.bindFramebuffer 0, GLEvent.clear true false, GLEvent.draw r] ∧
      r.target = 0 ∧ r.mesh = MeshRef.screenQuad ∧ r.units 0 = tex.id ∧
      (app.gl.hasLocation ProgramName.display Uniform.uTexture = true →
        r.uniforms Uniform.uTexture = some (UValue.int 0)) ∧
      (mode = 0 → app._outputTexture = some tex) ∧
      (mode = 1 → app._gbufferAlbedo = some tex) ∧
      (mode = 2 → app._gbufferNormal = some tex) ∧
      (mode = 3 → app._gbufferPosition = some tex) ∧
      (mode = 4 → app._rsmFlux = some tex) ∧
      (mode = 5 → app._rsmNormal = some tex) ∧
      (mode = 6 → app._rsmPosition = some tex) ∧
      (mode < 0 ∨ 6 < mode → app._outputTexture = some tex) := by
  have hr := ready_withDisplayMode app mode (reachable_spec lib app hreach).1
  obtain ⟨next, tex, r, ht, hd, hev, htg, _, hms, hun, hut⟩ := displayPass_events _ hr
  refine ⟨next, tex, r, hd, hev, htg, hms, hun, hut, ?_, ?_, ?_, ?_, ?_, ?_, ?_, ?_⟩
  · intro hm; subst hm; exact ht
  · intro hm; subst hm; exact ht
  · intro hm; subst hm; exact ht
  · intro hm; subst hm; exact ht
  · intro hm; subst hm; exact ht
  · intro hm; subst hm; exact ht
  · intro hm; subst hm; exact ht
  · intro hm
    simp only [RSMApp.displayTexture, RSMApp.withDisplayMode] at ht
    split at ht
    all_goals first | exact ht | omega

/-- Witness for C7: the state after init, with the selector set to 9. -/
theorem C7_display_selection_witness :
    RSMApp.Reachable (libOf Real.sin Real.cos Real.sqrt)
        (RSMApp.start (libOf Real.sin Real.cos Real.sqrt) exampleEnv) ∧
      ∃ next tex r,
        RSMApp.displayPass ((RSMApp.start (libOf Real.sin Real.cos Real.sqrt)
          exampleEnv).withDisplayMode 9) = some next ∧
        next.gl.events =
          (RSMApp.start (libOf Real.sin Real.cos Real.sqrt) exampleEnv).gl.events ++
            [GLEvent.bindFramebuffer 0, GLEvent.clear true false, GLEvent.draw r] ∧
        r.target = 0 ∧ r.mesh = MeshRef.screenQuad ∧ r.units 0 = tex.id ∧
        ((RSMApp.start (libOf Real.sin Real.cos Real.sqrt) exampleEnv).gl.hasLocation
            ProgramName.display Uniform.uTexture = true →
          r.uniforms Uniform.uTexture = some (UValue.int 0)) ∧
        ((9 : Int) = 0 →
          (RSMApp.start (libOf Real.sin Real.cos Real.sqrt) exampleEnv)._outputTexture
            = some tex) ∧
        ((9 : Int) = 1 →
          (RSMApp.start (libOf Real.sin Real.cos Real.sqrt) exampleEnv)._gbufferAlbedo
            = some tex) ∧
        ((9 : Int) = 2 →
          (RSMApp.start (libOf Real.sin Real.cos Real.sqrt) exampleEnv)._gbufferNormal
            = some tex) ∧
        ((9 : Int) = 3 →
          (RSMApp.start (libOf Real.sin Real.cos Real.sqrt) exampleEnv)._gbufferPosition
            = some tex) ∧
        ((9 : Int) = 4 →
          (RSMApp.start (libOf Real.sin Real.cos Real.sqrt) exampleEnv)._rsmFlux = some tex) ∧
        ((9 : Int) = 5 →
          (RSMApp.start (libOf Real.sin Real.cos Real.sqrt) exampleEnv)._rsmNormal
            = some tex) ∧
        ((9 : Int) = 6 →
          (RSMApp.start (libOf Real.sin Real.cos Real.sqrt) exampleEnv)._rsmPosition
            = some tex) ∧
        ((9 : Int) < 0 ∨ 6 < (9 : Int) →
          (RSMApp.start (libOf Real.sin Real.cos Real.sqrt) exampleEnv)._outputTexture
            = some tex) :=
  ⟨start_reachable _ _ rfl,
    C7_display_selection (libOf Real.sin Real.cos Real.sqrt)
      (RSMApp.start (libOf Real.sin Real.cos Real.sqrt) exampleEnv)
      (start_reachable _ _ rfl) 9⟩

/-! ## C8: the VPL count handed to the shading stage -/

/-- C8, counterexample. In the state after init with the VPL-count parameter
holding 1000, shadingPass hands 1000 to the shading stage, which is above
MAX_VPL_NUM = 512: the value is not clamped. -/
theorem C8_vpl_count_clamped_counterexample :
    ¬ RSMApp.VplCountClamped (Mat4.identity : Mat4 ℝ) Mat4.identity
      ((RSMApp.start (libOf Real.sin Real.cos Real.sqrt) exampleEnv).withVplNum 1000) := by
  rintro ⟨next, fbo, r, hs, hev, n, hn, _, hle⟩
  have hr := ready_withVplNum _ 1000
    (reachable_spec _ _ (start_reachable (libOf Real.sin Real.cos Real.sqrt)
      (exampleEnv (F := ℝ)) rfl)).1
  obtain ⟨next1, fbo1, r1, _, hs1, hev1, _, _, _, hun⟩ :=
    shadingPass_events (Mat4.identity : Mat4 ℝ) Mat4.identity _ hr
  rw [hs] at hs1
  cases hs1
  rw [hev] at hev1
  have hl := List.append_cancel_left hev1
  simp only [List.cons.injEq, GLEvent.draw.injEq] at hl
  obtain ⟨_, _, hrr, _⟩ := hl
  subst hrr
  have hloc : ((RSMApp.start (libOf Real.sin Real.cos Real.sqrt)
      (exampleEnv (F := ℝ))).withVplNum 1000).gl.hasLocation ProgramName.shading
      Uniform.uVPLNum = true := by
    show (RSMApp.start (libOf Real.sin Real.cos Real.sqrt)
      (exampleEnv (F := ℝ))).gl.hasLocation ProgramName.shading Uniform.uVPLNum = true
    rw [start_hasLocation _ _ (fun _ _ => true) rfl]
  rw [hun hloc] at hn
  simp only [RSMApp.withVplNum, Option.some.injEq, UValue.int.injEq] at hn
  subst hn
  exact absurd hle (by decide)

/-- C8 (amended). shadingPass does not clamp: in every reachable state whose
shading program has the uniform uVPLNum, and for every integer value `n` of the
VPL-count parameter, the value of uVPLNum that the draw call of shadingPass
sees is `n` itself. Hence it is at most MAX_VPL_NUM exactly when the parameter
is, as it is for the values 8 .. MAX_VPL_NUM of the UI slider. -/
theorem C8_vpl_count_forwarded (lib : FloatLib F S) (view lightVP : Mat4 F)
    (app : RSMApp F S) (hreach : RSMApp.Reachable lib app)
    (hloc : app.gl.hasLocation ProgramName.shading Uniform.uVPLNum = true) (n : Int) :
    ∃ next fbo r, RSMApp.shadingPass view lightVP (app.withVplNum n) = some next ∧
      next.gl.events = app.gl.events ++
        [GLEvent.bindFramebuffer fbo, GLEvent.clear true false, GLEvent.draw r,
          GLEvent.bindFramebuffer 0] ∧
      r.uniforms Uniform.uVPLNum = some (UValue.int n) ∧
      ((8 ≤ n ∧ n ≤ MAX_VPL_NUM) ↔
        ∃ k : Int, r.uniforms Uniform.uVPLNum = some (UValue.int k) ∧ 8 ≤ k ∧
          k ≤ MAX_VPL_NUM) := by
  have hr := ready_withVplNum app n (reachable_spec lib app hreach).1
  obtain ⟨next, fbo, r, _, hs, hev, _, _, _, hun⟩ := shadingPass_events view lightVP _ hr
  have hu : r.uniforms Uniform.uVPLNum = some (UValue.int n) := hun hloc
  refine ⟨next, fbo.id, r, hs, hev, hu, ?_⟩
  constructor
  · intro h
    exact ⟨n, hu, h.1, h.2⟩
  · rintro ⟨k, hk, h1, h2⟩
    rw [hu] at hk
    simp only [Option.some.injEq, UValue.int.injEq] at hk
    subst hk
    exact ⟨h1, h2⟩

/-- Witness for C8: the state after init, with the parameter set to 1000. -/
theorem C8_vpl_count_forwarded_witness :
    RSMApp.Reachable (libOf Real.sin Real.cos Real.sqrt)
        (RSMApp.start (libOf Real.sin Real.cos Real.sqrt) exampleEnv) ∧
      (RSMApp.start (libOf Real.sin Real.cos Real.sqrt) exampleEnv).gl.hasLocation
        ProgramName.shading Uniform.uVPLNum = true ∧
      ∃ next fbo r,
        RSMApp.shadingPass (Mat4.identity : Mat4 ℝ) Mat4.identity
          ((RSMApp.start (libOf Real.sin Real.cos Real.sqrt) exampleEnv).withVplNum 1000)
            = some next ∧
        next.gl.events =
          (RSMApp.start (libOf Real.sin Real.cos Real.sqrt) exampleEnv).gl.events ++
            [GLEvent.bindFramebuffer fbo, GLEvent.clear true false, GLEvent.draw r,
              GLEvent.bindFramebuffer 0] ∧
        r.uniforms Uniform.uVPLNum = some (UValue.int 1000) ∧
        ((8 ≤ (1000 : Int) ∧ (1000 : Int) ≤ MAX_VPL_NUM) ↔
          ∃ k : Int, r.uniforms Uniform.uVPLNum = some (UValue.int k) ∧ 8 ≤ k ∧
            k ≤ MAX_VPL_NUM) :=
  ⟨start_reachable _ _ rfl,
    by rw [start_hasLocation _ _ (fun _ _ => true) rfl],
    C8_vpl_count_forwarded (libOf Real.sin Real.cos Real.sqrt) Mat4.identity Mat4.identity
      (RSMApp.start (libOf Real.sin Real.cos Real.sqrt) exampleEnv)
      (start_reachable _ _ rfl)
      (by rw [start_hasLocation _ _ (fun _ _ => true) rfl]) 1000⟩

/-! ## C9: batches without a valid material index -/

/-- C9, counterexample. In a scene with one red material, after the batch that
uses it has been drawn, the batch with material index 5 is drawn, and its draw
call sees the diffuse colour red (1, 0, 0), not the default gray. -/
theorem C9_material_fallback_counterexample :
    (∃ r : DrawRecord ℝ,
        RSMApp.gbufferBatch ProgramName.gbuffer (strayScene : ObjLoader ℝ) afterRedBatch 1
          strayBatch = some (afterRedBatch.draw (MeshRef.batch 1)) ∧
        (afterRedBatch.draw (MeshRef.batch 1)).events =
          afterRedBatch.events ++ [GLEvent.draw r] ∧
        r.uniforms Uniform.uDiffuseColor = some (UValue.vec3 ⟨1, 0, 0⟩)) ∧
      ¬ RSMApp.MaterialFallback ProgramName.gbuffer (strayScene : ObjLoader ℝ) afterRedBatch 1
        strayBatch := by
  have hb : RSMApp.gbufferBatch ProgramName.gbuffer (strayScene : ObjLoader ℝ) afterRedBatch 1
      strayBatch = some (afterRedBatch.draw (MeshRef.batch 1)) :=
    gbufferBatch_out_of_range _ _ _ _ _ triangle rfl
      (by simp [strayBatch, strayScene, ObjLoader.getMaterials])
  have hred : (match (afterRedBatch : GLContext ℝ).currentProgram with
      | some p => (afterRedBatch : GLContext ℝ).uniforms p Uniform.uDiffuseColor
      | none => none) = some (UValue.vec3 ⟨1, 0, 0⟩) := by
    simp [afterRedBatch, RSMApp.gbufferBatch, redBatch, strayScene, ObjLoader.getMaterials,
      redMaterial, ObjMaterial.init, gbufferContext, GLContext.useProgram,
      GLContext.setUniformBool, setUniform_uniforms, setUniform_hasLocation,
      setUniform_currentProgram, GLContext.draw, GLContext.log, RSMApp.freshContext]
  refine ⟨⟨_, hb, rfl, hred⟩, ?_⟩
  rintro ⟨gl1, r, h1, hev, hcol, _⟩
  rw [hb] at h1
  cases h1
  have hl := List.append_cancel_left hev
  simp only [GLContext.draw, GLContext.log, List.cons.injEq, GLEvent.draw.injEq,
    and_true] at hl
  subst hl
  dsimp only at hcol
  rw [hred] at hcol
  simp only [Option.some.injEq, UValue.vec3.injEq, Vec3.splat, Vec3.mk.injEq] at hcol
  norm_num at hcol

/-- C9 (amended). Neither pass has a material fallback. For every scene, every
context and every draw batch whose materialIndex is not in
[0, materials.size()), the loop body of gbufferPass (and likewise of
rsmBufferPass) sets no uniform and binds no texture: it only draws, so the draw
call sees the uniform values and texture bindings that were current before the
batch. When another batch was drawn just before, these are the ones which that
batch was drawn with. -/
theorem C9_material_state_kept (prog : ProgramName) (scene : ObjLoader F) (gl : GLContext F)
    (i : Nat) (mesh : ObjMesh F) (k : Mesh F) (hmesh : mesh.mesh = some k)
    (hinv : ¬ (0 ≤ mesh.materialIndex ∧
      mesh.materialIndex < (scene.getMaterials.length : Int))) :
    RSMApp.gbufferBatch prog scene gl i mesh = some (gl.draw (MeshRef.batch i)) ∧
      RSMApp.rsmBatch prog scene gl i mesh = some (gl.draw (MeshRef.batch i)) ∧
      (∃ r, (gl.draw (MeshRef.batch i)).events = gl.events ++ [GLEvent.draw r] ∧
        r.units = gl.units ∧
        r.uniforms = fun u => match gl.currentProgram with
          | some p => gl.uniforms p u
          | none => none) ∧
      ∀ (before : GLContext F) (previous : ObjMesh F),
        RSMApp.gbufferBatch prog scene before (i - 1) previous = some gl →
        ∃ r0 r1, (gl.draw (MeshRef.batch i)).events =
            before.events ++ [GLEvent.draw r0, GLEvent.draw r1] ∧
          r1.uniforms = r0.uniforms ∧ r1.units = r0.units ∧ r1.program = r0.program := by
  refine ⟨gbufferBatch_out_of_range prog scene gl i mesh k hmesh hinv,
    rsmBatch_out_of_range prog scene gl i mesh k hmesh hinv, ⟨_, rfl, rfl, rfl⟩, ?_⟩
  intro before previous hprev
  obtain ⟨r0, hev, _, hp, hu, hf⟩ := gbufferBatch_draw prog scene before (i - 1) previous gl hprev
  refine ⟨r0, ?_⟩
  apply Exists.intro
  refine ⟨?ev, ?uf, ?un, ?pg⟩
  case ev =>
    simp only [GLContext.draw, GLContext.log, hev, List.append_assoc, List.singleton_append]
    rfl
  case uf => rw [hf]
  case un => rw [hu]
  case pg => rw [hp]

/-- Witness for C9: the one-material scene, the context after its red batch
has been drawn, and the batch with material index 5. -/
theorem C9_material_state_kept_witness :
    (strayBatch : ObjMesh ℝ).mesh = some triangle ∧
      ¬ (0 ≤ (strayBatch : ObjMesh ℝ).materialIndex ∧
        (strayBatch : ObjMesh ℝ).materialIndex <
          ((strayScene : ObjLoader ℝ).getMaterials.length : Int)) ∧
      (RSMApp.gbufferBatch ProgramName.gbuffer (strayScene : ObjLoader ℝ) afterRedBatch 1
          strayBatch = some (afterRedBatch.draw (MeshRef.batch 1)) ∧
        RSMApp.rsmBatch ProgramName.gbuffer (strayScene : ObjLoader ℝ) afterRedBatch 1
          strayBatch = some (afterRedBatch.draw (MeshRef.batch 1)) ∧
        (∃ r, ((afterRedBatch : GLContext ℝ).draw (MeshRef.batch 1)).events =
            afterRedBatch.events ++ [GLEvent.draw r] ∧
          r.units = (afterRedBatch : GLContext ℝ).units ∧
          r.uniforms = fun u => match (afterRedBatch : GLContext ℝ).currentProgram with
            | some p => (afterRedBatch : GLContext ℝ).uniforms p u
            | none => none) ∧
        ∀ (before : GLContext ℝ) (previous : ObjMesh ℝ),
          RSMApp.gbufferBatch ProgramName.gbuffer (strayScene : ObjLoader ℝ) before (1 - 1)
            previous = some afterRedBatch →
          ∃ r0 r1, ((afterRedBatch : GLContext ℝ).draw (MeshRef.batch 1)).events =
              before.events ++ [GLEvent.draw r0, GLEvent.draw r1] ∧
            r1.uniforms = r0.uniforms ∧ r1.units = r0.units ∧ r1.program = r0.program) :=
  ⟨rfl, by simp [strayBatch, strayScene, ObjLoader.getMaterials],
    C9_material_state_kept ProgramName.gbuffer (strayScene : ObjLoader ℝ) afterRedBatch 1
      strayBatch triangle rfl (by simp [strayBatch, strayScene, ObjLoader.getMaterials])⟩

/-! ## C10: a texture that fails to load -/

/-- C10. Recoverable texture error. (a) For every material list and every
material in it whose hasTexture flag is set and whose texture file (it names
one) fails to load, after loadTextures that material is the same with
hasTexture = false, so its diffuseColor is unchanged; and every entry of the
result is computed from the entry of the input at the same index alone, so the
failure changes no other material. (b) When the OBJ file parses, load returns
true whatever textures fail; its material list has one entry per parsed
material, and a parsed material that names a texture which fails to load ends
with hasTexture = false, no texture handle, and the parsed diffuse colour. -/
theorem C10_texture_failure_recoverable (fs : FileSystem F) (self : ObjLoader F)
    (filepath : String) (gl : GLContext F) (parsed : ParsedObj F)
    (hparse : fs.parseObj filepath = some parsed) (i : Nat) (pm : TinyMaterial F)
    (hi : parsed.materials[i]? = some pm) (hname : pm.diffuse_texname.isEmpty = false)
    (hfail : fs.loadImage
      (ObjLoader.texturePath (ObjLoader.basePathOf filepath) pm.diffuse_texname) = none) :
    (∀ (basePath : String) (mats : List (ObjMaterial F)) (g : GLContext F),
      (ObjLoader.loadTextures fs basePath mats g).1.length = mats.length ∧
      (∀ (j : Nat) (mj : ObjMaterial F), mats[j]? = some mj →
        ∃ gj, (ObjLoader.loadTextures fs basePath mats g).1[j]? =
          some (ObjLoader.loadTexture fs basePath mj gj).1) ∧
      (∀ (k : Nat) (m : ObjMaterial F), mats[k]? = some m → m.hasTexture = true →
        m.diffuseTexturePath.isEmpty = false →
        fs.loadImage (ObjLoader.texturePath basePath m.diffuseTexturePath) = none →
        (ObjLoader.loadTextures fs basePath mats g).1[k]? =
          some { m with hasTexture := false })) ∧
    (ObjLoader.load fs self filepath gl).1 = true ∧
    (ObjLoader.load fs self filepath gl).2.1.getMaterials.length = parsed.materials.length ∧
    ∃ m, (ObjLoader.load fs self filepath gl).2.1.getMaterials[i]? = some m ∧
      m.hasTexture = false ∧ m.diffuseTexture = none ∧ m.diffuseColor = pm.diffuse ∧
      m.name = pm.name := by
  have partA : ∀ (basePath : String) (mats : List (ObjMaterial F)) (g : GLContext F)
      (k : Nat) (m : ObjMaterial F), mats[k]? = some m → m.hasTexture = true →
      m.diffuseTexturePath.isEmpty = false →
      fs.loadImage (ObjLoader.texturePath basePath m.diffuseTexturePath) = none →
      (ObjLoader.loadTextures fs basePath mats g).1[k]? =
        some { m with hasTexture := false } := by
    intro basePath mats g k m hk hflag hpath hf
    obtain ⟨gk, hgk⟩ := loadTextures_getElem fs basePath mats g k m hk
    rw [hgk, loadTexture_failure fs basePath m gk hflag hpath hf]
  obtain ⟨hret, hmats⟩ := load_materials fs self filepath gl parsed hparse
  have hne : (parsed.materials.map (ObjLoader.convertMaterial (F := F))).isEmpty = false := by
    cases hp : parsed.materials with
    | nil => rw [hp] at hi; simp at hi
    | cons a l => rfl
  rw [hne] at hmats
  simp only [Bool.false_eq_true, if_false] at hmats
  have hconv : (parsed.materials.map (ObjLoader.convertMaterial (F := F)))[i]? =
      some (ObjLoader.convertMaterial pm) := by
    rw [List.getElem?_map, hi]
    rfl
  refine ⟨fun basePath mats g => ⟨loadTextures_length fs basePath mats g,
    loadTextures_getElem fs basePath mats g, partA basePath mats g⟩, hret, ?_, ?_⟩
  · rw [hmats, loadTextures_length, List.length_map]
  · have hflag : (ObjLoader.convertMaterial pm).hasTexture = true := by
      simp [ObjLoader.convertMaterial, hname]
    have hpath : (ObjLoader.convertMaterial pm).diffuseTexturePath = pm.diffuse_texname := by
      simp [ObjLoader.convertMaterial, hname]
    refine ⟨{ ObjLoader.convertMaterial pm with hasTexture := false }, ?_, ?_⟩
    · rw [hmats]
      exact partA _ _ _ i _ hconv hflag (by rw [hpath]; exact hname)
        (by rw [hpath]; exact hfail)
    · simp [ObjLoader.convertMaterial, hname, ObjMaterial.init]

/-- Witness for C10: the example scene, whose one material names the texture
`wall.png`, in a file system where no image can be read. -/
theorem C10_texture_failure_recoverable_witness :
    (exampleFiles : FileSystem ℝ).parseObj "scene/room.obj" = some exampleParsed ∧
    (exampleParsed : ParsedObj ℝ).materials[0]? =
      some ⟨"wall", ⟨1, 0, 0⟩, ⟨0, 0, 0⟩, 1, "wall.png"⟩ ∧
    ("wall.png" : String).isEmpty = false ∧
    (exampleFiles : FileSystem ℝ).loadImage
      (ObjLoader.texturePath (ObjLoader.basePathOf "scene/room.obj") "wall.png") = none ∧
    ((∀ (basePath : String) (mats : List (ObjMaterial ℝ)) (g : GLContext ℝ),
      (ObjLoader.loadTextures exampleFiles basePath mats g).1.length = mats.length ∧
      (∀ (j : Nat) (mj : ObjMaterial ℝ), mats[j]? = some mj →
        ∃ gj, (ObjLoader.loadTextures exampleFiles basePath mats g).1[j]? =
          some (ObjLoader.loadTexture exampleFiles basePath mj gj).1) ∧
      (∀ (k : Nat) (m : ObjMaterial ℝ), mats[k]? = some m → m.hasTexture = true →
        m.diffuseTexturePath.isEmpty = false →
        (exampleFiles : FileSystem ℝ).loadImage
          (ObjLoader.texturePath basePath m.diffuseTexturePath) = none →
        (ObjLoader.loadTextures exampleFiles basePath mats g).1[k]? =
          some { m with hasTexture := false })) ∧
    (ObjLoader.load exampleFiles (ObjLoader.init : ObjLoader ℝ) "scene/room.obj"
      RSMApp.freshContext).1 = true ∧
    (ObjLoader.load exampleFiles (ObjLoader.init : ObjLoader ℝ) "scene/room.obj"
      RSMApp.freshContext).2.1.getMaterials.length = (exampleParsed : ParsedObj ℝ).materials.length ∧
    ∃ m, (ObjLoader.load exampleFiles (ObjLoader.init : ObjLoader ℝ) "scene/room.obj"
        RSMApp.freshContext).2.1.getMaterials[0]? = some m ∧
      m.hasTexture = false ∧ m.diffuseTexture = none ∧ m.diffuseColor = ⟨1, 0, 0⟩ ∧
      m.name = "wall") :=
  ⟨rfl, rfl, rfl, rfl,
    C10_texture_failure_recoverable exampleFiles (ObjLoader.init : ObjLoader ℝ)
      "scene/room.obj" RSMApp.freshContext exampleParsed rfl 0
      ⟨"wall", ⟨1, 0, 0⟩, ⟨0, 0, 0⟩, 1, "wall.png"⟩ rfl rfl rfl⟩

/-! ## C11: a failed scene load -/

/-- C11, counterexample. In an environment where the scene file cannot be
parsed and the shaders build, the loader returns false and init nevertheless
completes: the claim that a failed load aborts initialisation is false. -/
theorem C11_fatal_init_error_counterexample :
    ¬ RSMApp.AbortsOnLoadFailure (libOf Real.sin Real.cos Real.sqrt)
      (missingSceneEnv (F := ℝ)) := by
  intro h
  obtain ⟨a, ha, _⟩ := init_spec (libOf Real.sin Real.cos Real.sqrt)
    (missingSceneEnv (F := ℝ)) rfl
  rw [h rfl] at ha
  cases ha

/-- C11 (amended). A failed scene load is not fatal. When the loader returns
false on the scene file, init aborts exactly when a shader program fails to
build; when the shaders build, init completes with the scene an empty loader
(no meshes, no materials), the four programs, the three framebuffer groups and
the screen quad created, and 512 VPL samples; and from that state every
sequence of frames runs (each update returns) to a state that keeps the empty
scene, from which every further frame runs and keeps the empty scene. -/
theorem C11_load_failure_ignored (lib : FloatLib F S) (env : Env F)
    (hload : (ObjLoader.load env.fs ObjLoader.init (RSMApp.scenePath env)
      (RSMApp.freshContext : GLContext F)).1 = false) :
    (env.shaders = none → RSMApp.init lib env (RSMApp.new lib) = none) ∧
    (env.shaders.isSome → ∃ app, RSMApp.init lib env (RSMApp.new lib) = some app ∧
      Ready app ∧ app._scene = some ObjLoader.init ∧
      app._vplSamples.length = MAX_VPL_NUM ∧
      ∀ frames, ∃ st, RSMApp.run lib frames app = some st ∧
        st._scene = some ObjLoader.init ∧
        ∀ ui size, ∃ next, RSMApp.update lib ui size st = some next ∧
          next._scene = some ObjLoader.init) := by
  refine ⟨init_none lib env, ?_⟩
  intro hs
  obtain ⟨app, h0, hr, _⟩ := init_spec lib env hs
  obtain ⟨app1, h1, hsc, hlen⟩ := init_scene lib env hs
  rw [h0] at h1
  cases h1
  have hsc1 : app._scene = some ObjLoader.init := by
    rw [hsc, load_false _ _ _ _ hload]
  refine ⟨app, h0, hr, hsc1, hlen, ?_⟩
  intro frames
  obtain ⟨st, hst, hrs, hss⟩ := run_scene lib frames app hr
  refine ⟨st, hst, hss.trans hsc1, ?_⟩
  intro ui size
  obtain ⟨g, hg, _⟩ := update_spec lib ui size st hrs
  refine ⟨_, hg, ?_⟩
  exact (resizeStep_rsm size (RSMApp.drawUI ui st)).2.2.trans (hss.trans hsc1)

/-- Witness for C11: the environment in which no OBJ file can be parsed. -/
theorem C11_load_failure_ignored_witness :
    (ObjLoader.load (missingSceneEnv (F := ℝ)).fs ObjLoader.init
        (RSMApp.scenePath (missingSceneEnv (F := ℝ)))
        (RSMApp.freshContext : GLContext ℝ)).1 = false ∧
      ((missingSceneEnv (F := ℝ)).shaders = none →
        RSMApp.init (libOf Real.sin Real.cos Real.sqrt) missingSceneEnv
          (RSMApp.new (libOf Real.sin Real.cos Real.sqrt)) = none) ∧
      ((missingSceneEnv (F := ℝ)).shaders.isSome →
        ∃ app, RSMApp.init (libOf Real.sin Real.cos Real.sqrt) missingSceneEnv
            (RSMApp.new (libOf Real.sin Real.cos Real.sqrt)) = some app ∧
          Ready app ∧ app._scene = some ObjLoader.init ∧
          app._vplSamples.length = MAX_VPL_NUM ∧
          ∀ frames, ∃ st,
            RSMApp.run (libOf Real.sin Real.cos Real.sqrt) frames app = some st ∧
            st._scene = some ObjLoader.init ∧
            ∀ ui size, ∃ next,
              RSMApp.update (libOf Real.sin Real.cos Real.sqrt) ui size st = some next ∧
                next._scene = some ObjLoader.init) :=
  ⟨rfl, C11_load_failure_ignored (libOf Real.sin Real.cos Real.sqrt) missingSceneEnv rfl⟩
/-! ## C12: no read/write hazard inside a frame -/

/-- C12. No intra-frame read/write hazard: from every reachable state, for
every UI input (so every display mode) and observed size, update returns, the
calls it logs after the resize step are those of gbufferPass, rsmBufferPass,
shadingPass and displayPass in this order (each draw call seeing the
framebuffer and the textures named by the access sets), the framebuffers the
first three passes render into have as attachments the G-buffer targets, the
RSM targets and the output targets, and no pass binds for sampling a texture
that is attached to the framebuffer it or a later pass of the frame renders
into. -/
theorem C12_no_intra_frame_hazard (lib : FloatLib F S) (ui : UIInput F) (size : Int × Int)
    (app : RSMApp F S) (hreach : RSMApp.Reachable lib app) :
    ∃ next cg cr cs cd, RSMApp.update lib ui size app = some next ∧
      next.gl.events =
        (RSMApp.beforePasses ui size app).gl.events ++ cg ++ cr ++ cs ++ cd ∧
      RSMApp.GbufferLog (RSMApp.beforePasses ui size app) cg ∧
      RSMApp.RsmLog (RSMApp.beforePasses ui size app) cr ∧
      RSMApp.ShadingLog (RSMApp.beforePasses ui size app) cs ∧
      RSMApp.DisplayLog (RSMApp.beforePasses ui size app) cd ∧
      attachments (RSMApp.beforePasses ui size app)._gbufferFBO =
        ([ (RSMApp.beforePasses ui size app)._gbufferAlbedo,
          (RSMApp.beforePasses ui size app)._gbufferNormal,
          (RSMApp.beforePasses ui size app)._gbufferPosition,
          (RSMApp.beforePasses ui size app)._gbufferDepth ]).filterMap
            (fun t => t.map (fun x => x.id)) ∧
      attachments (RSMApp.beforePasses ui size app)._rsmFBO =
        (RSMApp.rsmTargets (RSMApp.beforePasses ui size app)).filterMap
          (fun t => t.map (fun x => x.id)) ∧
      attachments (RSMApp.beforePasses ui size app)._outputFBO =
        ([ (RSMApp.beforePasses ui size app)._outputTexture,
          (RSMApp.beforePasses ui size app)._outputDepth ]).filterMap
            (fun t => t.map (fun x => x.id)) ∧
      HazardFree (RSMApp.frameAccess (RSMApp.beforePasses ui size app)) := by
  have hr := (reachable_spec lib app hreach).1
  have hw := reachable_wired lib app hreach
  have hw1 : Wired (RSMApp.drawUI ui app) :=
    ⟨hw.gbuffer, hw.rsm, hw.rsmSize, hw.output, hw.groups, hw.distinct, hw.below, hw.materials⟩
  have hw2 : Wired (RSMApp.beforePasses ui size app) := wired_resizeStep size _ hw1
  obtain ⟨gl1, cg, cr, cs, cd, hu, _, he, h1, h2, h3, h4⟩ := update_frame lib ui size app hr
  obtain ⟨a, n, p, d, g, ea, en, ep, ed, eg, gc, gd⟩ := hw2.gbuffer
  obtain ⟨rf, rn, rp, rd, r, erf, ern, erp, erd, er, rc, rdd⟩ := hw2.rsm
  obtain ⟨ot, od, o, eot, eod, eo, oc, odd⟩ := hw2.output
  refine ⟨_, cg, cr, cs, cd, hu, he, h1, h2, h3, h4, ?_, ?_, ?_, hazardFree_of_wired _ hw2⟩
  · simp only [attachments, eg, gc, gd, ea, en, ep, ed, List.cons_append, List.nil_append,
      List.filterMap_cons, List.filterMap_nil, Option.map_some']
  · simp only [attachments, RSMApp.rsmTargets, er, rc, rdd, erf, ern, erp, erd,
      List.cons_append, List.nil_append, List.filterMap_cons, List.filterMap_nil,
      Option.map_some']
  · simp only [attachments, eo, oc, odd, eot, eod, List.cons_append, List.nil_append,
      List.filterMap_cons, List.filterMap_nil, Option.map_some']

/-- Witness for C12: the state after init with a 1024 x 768 framebuffer, and
a frame that selects display mode 1 (the G-buffer albedo) at 800 x 600. -/
theorem C12_no_intra_frame_hazard_witness :
    RSMApp.Reachable (libOf Real.sin Real.cos Real.sqrt)
        (RSMApp.start (libOf Real.sin Real.cos Real.sqrt) (exampleEnv (F := ℝ))) ∧
      ∃ next cg cr cs cd, RSMApp.update (libOf Real.sin Real.cos Real.sqrt) albedoInput (800, 600)
          (RSMApp.start (libOf Real.sin Real.cos Real.sqrt) (exampleEnv (F := ℝ))) = some next ∧
        next.gl.events =
          (RSMApp.beforePasses albedoInput (800, 600)
            (RSMApp.start (libOf Real.sin Real.cos Real.sqrt) (exampleEnv (F := ℝ)))).gl.events ++ cg ++ cr ++ cs ++ cd ∧
        RSMApp.GbufferLog (RSMApp.beforePasses albedoInput (800, 600)
          (RSMApp.start (libOf Real.sin Real.cos Real.sqrt) (exampleEnv (F := ℝ)))) cg ∧
        RSMApp.RsmLog (RSMApp.beforePasses albedoInput (800, 600)
          (RSMApp.start (libOf Real.sin Real.cos Real.sqrt) (exampleEnv (F := ℝ)))) cr ∧
        RSMApp.ShadingLog (RSMApp.beforePasses albedoInput (800, 600)
          (RSMApp.start (libOf Real.sin Real.cos Real.sqrt) (exampleEnv (F := ℝ)))) cs ∧
        RSMApp.DisplayLog (RSMApp.beforePasses albedoInput (800, 600)
          (RSMApp.start (libOf Real.sin Real.cos Real.sqrt) (exampleEnv (F := ℝ)))) cd ∧
        attachments (RSMApp.beforePasses albedoInput (800, 600)
          (RSMApp.start (libOf Real.sin Real.cos Real.sqrt) (exampleEnv (F := ℝ))))._gbufferFBO =
          ([ (RSMApp.beforePasses albedoInput (800, 600)
              (RSMApp.start (libOf Real.sin Real.cos Real.sqrt) (exampleEnv (F := ℝ))))._gbufferAlbedo,
            (RSMApp.beforePasses albedoInput (800, 600)
              (RSMApp.start (libOf Real.sin Real.cos Real.sqrt) (exampleEnv (F := ℝ))))._gbufferNormal,
            (RSMApp.beforePasses albedoInput (800, 600)
              (RSMApp.start (libOf Real.sin Real.cos Real.sqrt) (exampleEnv (F := ℝ))))._gbufferPosition,
            (RSMApp.beforePasses albedoInput (800, 600)
              (RSMApp.start (libOf Real.sin Real.cos Real.sqrt) (exampleEnv (F := ℝ))))._gbufferDepth ]).filterMap
              (fun t => t.map (fun x => x.id)) ∧
        attachments (RSMApp.beforePasses albedoInput (800, 600)
          (RSMApp.start (libOf Real.sin Real.cos Real.sqrt) (exampleEnv (F := ℝ))))._rsmFBO =
          (RSMApp.rsmTargets (RSMApp.beforePasses albedoInput (800, 600)
              (RSMApp.start (libOf Real.sin Real.cos Real.sqrt) (exampleEnv (F := ℝ))))).filterMap
            (fun t => t.map (fun x => x.id)) ∧
        attachments (RSMApp.beforePasses albedoInput (800, 600)
          (RSMApp.start (libOf Real.sin Real.cos Real.sqrt) (exampleEnv (F := ℝ))))._outputFBO =
          ([ (RSMApp.beforePasses albedoInput (800, 600)
              (RSMApp.start (libOf Real.sin Real.cos Real.sqrt) (exampleEnv (F := ℝ))))._outputTexture,
            (RSMApp.beforePasses albedoInput (800, 600)
              (RSMApp.start (libOf Real.sin Real.cos Real.sqrt) (exampleEnv (F := ℝ))))._outputDepth ]).filterMap
              (fun t => t.map (fun x => x.id)) ∧
        HazardFree (RSMApp.frameAccess (RSMApp.beforePasses albedoInput (800, 600)
            (RSMApp.start (libOf Real.sin Real.cos Real.sqrt) (exampleEnv (F := ℝ))))) :=
  ⟨start_reachable _ _ rfl,
    C12_no_intra_frame_hazard (libOf Real.sin Real.cos Real.sqrt) albedoInput (800, 600)
      (RSMApp.start (libOf Real.sin Real.cos Real.sqrt) (exampleEnv (F := ℝ)))
      (start_reachable _ _ rfl)⟩

/-! ## C13: order of the passes -/

/-- C13. Pass order: from every reachable state, for every UI input and
observed size, update returns, and what it appends to the log is first the
calls of the resize step (creations and destructions only, its recreation
complete), then the calls of gbufferPass, then those of rsmBufferPass, then
those of shadingPass, then those of displayPass: each pass once, in this
order. -/
theorem C13_pass_order (lib : FloatLib F S) (ui : UIInput F) (size : Int × Int)
    (app : RSMApp F S) (hreach : RSMApp.Reachable lib app) :
    ∃ next rz cg cr cs cd, RSMApp.update lib ui size app = some next ∧
      next.gl.events = app.gl.events ++ rz ++ cg ++ cr ++ cs ++ cd ∧
      (RSMApp.beforePasses ui size app).gl.events = app.gl.events ++ rz ∧
      (∀ e ∈ rz, GLEvent.isResource e = true) ∧
      (∀ e ∈ cg ++ cr ++ cs ++ cd, GLEvent.isResource e = false) ∧
      RSMApp.GbufferLog (RSMApp.beforePasses ui size app) cg ∧
      RSMApp.RsmLog (RSMApp.beforePasses ui size app) cr ∧
      RSMApp.ShadingLog (RSMApp.beforePasses ui size app) cs ∧
      RSMApp.DisplayLog (RSMApp.beforePasses ui size app) cd := by
  have hr := (reachable_spec lib app hreach).1
  obtain ⟨gl1, cg, cr, cs, cd, hu, hsame, he, h1, h2, h3, h4⟩ :=
    update_frame lib ui size app hr
  obtain ⟨rz, hrz, hres, _, _⟩ := resizeStep_calls size (RSMApp.drawUI ui app)
    (ready_drawUI ui app hr)
  have hrz1 : (RSMApp.beforePasses ui size app).gl.events = app.gl.events ++ rz := hrz
  have hpass := passes_not_resource
    (RSMApp.beforePasses ui size app).gl.events (cg ++ cr ++ cs ++ cd)
    (by
      have := hsame.2.2
      simp only [GLContext.resourceEvents, he, List.append_assoc] at this ⊢
      exact this)
  refine ⟨_, rz, cg, cr, cs, cd, hu, ?_, hrz1, hres, hpass, h1, h2, h3, h4⟩
  show gl1.events = _
  rw [he]
  show (RSMApp.beforePasses ui size app).gl.events ++ cg ++ cr ++ cs ++ cd = _
  rw [hrz1]

/-- Witness for C13: the state after init with a 1024 x 768 framebuffer, and
a frame that observes the size 800 x 600. -/
theorem C13_pass_order_witness :
    RSMApp.Reachable (libOf Real.sin Real.cos Real.sqrt)
        (RSMApp.start (libOf Real.sin Real.cos Real.sqrt) (exampleEnv (F := ℝ))) ∧
      ∃ next rz cg cr cs cd, RSMApp.update (libOf Real.sin Real.cos Real.sqrt) noInput (800, 600)
          (RSMApp.start (libOf Real.sin Real.cos Real.sqrt) (exampleEnv (F := ℝ))) = some next ∧
        next.gl.events =
          (RSMApp.start (libOf Real.sin Real.cos Real.sqrt) (exampleEnv (F := ℝ))).gl.events ++ rz ++ cg ++ cr ++ cs ++ cd ∧
        (RSMApp.beforePasses noInput (800, 600)
          (RSMApp.start (libOf Real.sin Real.cos Real.sqrt) (exampleEnv (F := ℝ)))).gl.events =
          (RSMApp.start (libOf Real.sin Real.cos Real.sqrt) (exampleEnv (F := ℝ))).gl.events ++ rz ∧
        (∀ e ∈ rz, GLEvent.isResource e = true) ∧
        (∀ e ∈ cg ++ cr ++ cs ++ cd, GLEvent.isResource e = false) ∧
        RSMApp.GbufferLog (RSMApp.beforePasses noInput (800, 600)
          (RSMApp.start (libOf Real.sin Real.cos Real.sqrt) (exampleEnv (F := ℝ)))) cg ∧
        RSMApp.RsmLog (RSMApp.beforePasses noInput (800, 600)
          (RSMApp.start (libOf Real.sin Real.cos Real.sqrt) (exampleEnv (F := ℝ)))) cr ∧
        RSMApp.ShadingLog (RSMApp.beforePasses noInput (800, 600)
          (RSMApp.start (libOf Real.sin Real.cos Real.sqrt) (exampleEnv (F := ℝ)))) cs ∧
        RSMApp.DisplayLog (RSMApp.beforePasses noInput (800, 600)
          (RSMApp.start (libOf Real.sin Real.cos Real.sqrt) (exampleEnv (F := ℝ)))) cd :=
  ⟨start_reachable _ _ rfl,
    C13_pass_order (libOf Real.sin Real.cos Real.sqrt) noInput (800, 600)
      (RSMApp.start (libOf Real.sin Real.cos Real.sqrt) (exampleEnv (F := ℝ)))
      (start_reachable _ _ rfl)⟩
/-! ## C14: the RSM targets keep their resolution -/

/-- C14. The RSM targets are resolution-fixed: whatever framebuffer size the
environment reports, init creates the four RSM targets (flux, normal,
position, depth) RSM_SIZE x RSM_SIZE = 2048 x 2048; and in every state reached
from there by any frames, every further update, whatever size it observes,
returns with the same four targets and the same RSM framebuffer group (same
objects, still 2048 x 2048), and logs no destruction of any of them. -/
theorem C14_rsm_targets_fixed (lib : FloatLib F S) (env : Env F) (hs : env.shaders.isSome) :
    ∃ a0, RSMApp.init lib env (RSMApp.new lib) = some a0 ∧
      (∀ t ∈ RSMApp.rsmTargets a0, hasSize t 2048 2048) ∧
      ∀ frames app, RSMApp.run lib frames a0 = some app →
        ∀ ui size, ∃ next calls, RSMApp.update lib ui size app = some next ∧
          RSMApp.rsmTargets next = RSMApp.rsmTargets app ∧ next._rsmFBO = app._rsmFBO ∧
          RSMApp.rsmTargets next = RSMApp.rsmTargets a0 ∧ next._rsmFBO = a0._rsmFBO ∧
          (∀ t ∈ RSMApp.rsmTargets next, hasSize t 2048 2048) ∧
          next.gl.events = app.gl.events ++ calls ∧
          (∀ tex, some tex ∈ RSMApp.rsmTargets app → GLEvent.deleteTexture tex.id ∉ calls) ∧
          (∀ fb, app._rsmFBO = some fb → GLEvent.deleteFramebuffer fb.id ∉ calls) := by
  obtain ⟨a0, h0, hr0, hz0, _⟩ := init_spec lib env hs
  obtain ⟨a1, h1, hw0⟩ := init_wired lib env hs
  rw [h0] at h1
  cases h1
  refine ⟨a0, h0, hw0.rsmSize, ?_⟩
  intro frames app hrun ui size
  have hreach := reachable_of_run lib env frames a0 app h0 hrun
  have hr := (reachable_spec lib app hreach).1
  have hw := reachable_wired lib app hreach
  have hkeep := run_rsm lib frames a0 hr0 hz0 app hrun
  obtain ⟨gl1, cg, cr, cs, cd, hu, hsame, he, _, _, _, _⟩ := update_frame lib ui size app hr
  obtain ⟨rz, hrz, _, hdt, hdf⟩ := resizeStep_calls size (RSMApp.drawUI ui app)
    (ready_drawUI ui app hr)
  have hrz1 : (RSMApp.resizeStep size (RSMApp.drawUI ui app)).gl.events =
      app.gl.events ++ rz := hrz
  have hpass := passes_not_resource
    (RSMApp.resizeStep size (RSMApp.drawUI ui app)).gl.events (cg ++ cr ++ cs ++ cd)
    (by
      have := hsame.2.2
      simp only [GLContext.resourceEvents, he, List.append_assoc] at this ⊢
      exact this)
  obtain ⟨k1, k2, _⟩ := resizeStep_rsm size (RSMApp.drawUI ui app)
  have hw3 : Wired (afterFrame lib ui size app gl1) :=
    wired_afterFrame lib ui size app gl1 hw hsame.1
  refine ⟨_, rz ++ (cg ++ cr ++ cs ++ cd), hu, k1, k2, k1.trans hkeep.1, k2.trans hkeep.2,
    hw3.rsmSize, ?_, ?_, ?_⟩
  · show gl1.events = _
    rw [he, hrz1]
    simp only [List.append_assoc]
  · intro tex htex hmem
    rcases List.mem_append.mp hmem with hmem | hmem
    · obtain ⟨c, hc, hid⟩ := hdt _ hmem
      exact wired_disjoint app hw c hc tex htex hid
    · have := hpass _ hmem
      simp [GLEvent.isResource] at this
  · intro fb hfb hmem
    rcases List.mem_append.mp hmem with hmem | hmem
    · obtain ⟨c, hc, hid⟩ := hdf _ hmem
      obtain ⟨g0, r0, o0, eg0, er0, eo0, n1, n2, _⟩ := hw.groups
      rw [hfb] at er0
      cases er0
      have hc1 : some c = app._gbufferFBO ∨ some c = app._outputFBO := by
        simpa [RSMApp.cameraGroups] using hc
      rcases hc1 with hc1 | hc1
      · rw [eg0] at hc1
        cases hc1
        exact n1 hid.symm
      · rw [eo0] at hc1
        cases hc1
        exact n2 hid.symm
    · have := hpass _ hmem
      simp [GLEvent.isResource] at this

/-- Witness for C14: the environment with a 1024 x 768 framebuffer. -/
theorem C14_rsm_targets_fixed_witness :
    (exampleEnv (F := ℝ)).shaders.isSome ∧
      ∃ a0, RSMApp.init (libOf Real.sin Real.cos Real.sqrt) (exampleEnv (F := ℝ))
          (RSMApp.new (libOf Real.sin Real.cos Real.sqrt)) = some a0 ∧
        (∀ t ∈ RSMApp.rsmTargets a0, hasSize t 2048 2048) ∧
        ∀ frames app, RSMApp.run (libOf Real.sin Real.cos Real.sqrt) frames a0 = some app →
          ∀ ui size, ∃ next calls,
            RSMApp.update (libOf Real.sin Real.cos Real.sqrt) ui size app = some next ∧
            RSMApp.rsmTargets next = RSMApp.rsmTargets app ∧ next._rsmFBO = app._rsmFBO ∧
            RSMApp.rsmTargets next = RSMApp.rsmTargets a0 ∧ next._rsmFBO = a0._rsmFBO ∧
            (∀ t ∈ RSMApp.rsmTargets next, hasSize t 2048 2048) ∧
            next.gl.events = app.gl.events ++ calls ∧
            (∀ tex, some tex ∈ RSMApp.rsmTargets app →
              GLEvent.deleteTexture tex.id ∉ calls) ∧
            (∀ fb, app._rsmFBO = some fb → GLEvent.deleteFramebuffer fb.id ∉ calls) :=
  ⟨rfl, C14_rsm_targets_fixed (libOf Real.sin Real.cos Real.sqrt) exampleEnv rfl⟩

/-! ## C15: a frame at an unchanged size -/

/-- C15. Resize is a no-op on an unchanged size: from every reachable state,
when the observed framebuffer size equals the stored one, update returns and
has logged no creation or destruction of a texture or framebuffer; the six
camera-resolution targets, the four RSM targets and the three framebuffer
groups are the same objects as before, so every target has the dimensions it
had; and the stored dimensions (_currentWidth, _currentHeight, _width,
_height) are unchanged. -/
theorem C15_resize_noop (lib : FloatLib F S) (ui : UIInput F) (app : RSMApp F S)
    (hreach : RSMApp.Reachable lib app) (size : Int × Int)
    (hsize : size = (app._currentWidth, app._currentHeight)) :
    ∃ next, RSMApp.update lib ui size app = some next ∧
      next.gl.resourceEvents = app.gl.resourceEvents ∧
      RSMApp.cameraTargets next = RSMApp.cameraTargets app ∧
      RSMApp.rsmTargets next = RSMApp.rsmTargets app ∧
      RSMApp.cameraGroups next = RSMApp.cameraGroups app ∧ next._rsmFBO = app._rsmFBO ∧
      (∀ t ∈ RSMApp.cameraTargets next,
        hasSize t app._currentWidth app._currentHeight) ∧
      (∀ t ∈ RSMApp.rsmTargets next, hasSize t 2048 2048) ∧
      next._currentWidth = app._currentWidth ∧ next._currentHeight = app._currentHeight ∧
      next._width = app._width ∧ next._height = app._height := by
  obtain ⟨hr, hz⟩ := reachable_spec lib app hreach
  have hw := reachable_wired lib app hreach
  obtain ⟨gl1, hu, hsame⟩ := update_spec lib ui size app hr
  have hX : RSMApp.resizeStep size (RSMApp.drawUI ui app) = RSMApp.drawUI ui app :=
    resizeStep_same size _ hsize
  have e1 : RSMApp.cameraTargets (afterFrame lib ui size app gl1) =
      RSMApp.cameraTargets (RSMApp.resizeStep size (RSMApp.drawUI ui app)) := rfl
  have e2 : RSMApp.rsmTargets (afterFrame lib ui size app gl1) =
      RSMApp.rsmTargets (RSMApp.resizeStep size (RSMApp.drawUI ui app)) := rfl
  have e3 : RSMApp.cameraGroups (afterFrame lib ui size app gl1) =
      RSMApp.cameraGroups (RSMApp.resizeStep size (RSMApp.drawUI ui app)) := rfl
  have e4 : (afterFrame lib ui size app gl1)._rsmFBO =
      (RSMApp.resizeStep size (RSMApp.drawUI ui app))._rsmFBO := rfl
  have e5 : (afterFrame lib ui size app gl1)._currentWidth =
      (RSMApp.resizeStep size (RSMApp.drawUI ui app))._currentWidth := rfl
  have e6 : (afterFrame lib ui size app gl1)._currentHeight =
      (RSMApp.resizeStep size (RSMApp.drawUI ui app))._currentHeight := rfl
  have e7 : gl1.resourceEvents =
      (RSMApp.resizeStep size (RSMApp.drawUI ui app)).gl.resourceEvents := hsame.2.2
  have e8 : (afterFrame lib ui size app gl1)._width =
      (RSMApp.resizeStep size (RSMApp.drawUI ui app))._width := rfl
  have e9 : (afterFrame lib ui size app gl1)._height =
      (RSMApp.resizeStep size (RSMApp.drawUI ui app))._height := rfl
  rw [hX] at e1 e2 e3 e4 e5 e6 e7 e8 e9
  refine ⟨_, hu, e7, e1, e2, e3, e4, ?_, ?_, e5, e6, e8, e9⟩
  · intro t ht
    rw [e1] at ht
    exact hz t ht
  · intro t ht
    rw [e2] at ht
    exact hw.rsmSize t ht

/-- Witness for C15: the state after init with a 1024 x 768 framebuffer, and
a frame that observes 1024 x 768 again. -/
theorem C15_resize_noop_witness :
    RSMApp.Reachable (libOf Real.sin Real.cos Real.sqrt)
        (RSMApp.start (libOf Real.sin Real.cos Real.sqrt) (exampleEnv (F := ℝ))) ∧
      ((1024 : Int), (768 : Int)) =
        ((RSMApp.start (libOf Real.sin Real.cos Real.sqrt) (exampleEnv (F := ℝ)))._currentWidth,
          (RSMApp.start (libOf Real.sin Real.cos Real.sqrt)
            (exampleEnv (F := ℝ)))._currentHeight) ∧
      ∃ next, RSMApp.update (libOf Real.sin Real.cos Real.sqrt) noInput (1024, 768)
          (RSMApp.start (libOf Real.sin Real.cos Real.sqrt) (exampleEnv (F := ℝ))) = some next ∧
        next.gl.resourceEvents =
          (RSMApp.start (libOf Real.sin Real.cos Real.sqrt)
            (exampleEnv (F := ℝ))).gl.resourceEvents ∧
        RSMApp.cameraTargets next = RSMApp.cameraTargets
          (RSMApp.start (libOf Real.sin Real.cos Real.sqrt) (exampleEnv (F := ℝ))) ∧
        RSMApp.rsmTargets next = RSMApp.rsmTargets
          (RSMApp.start (libOf Real.sin Real.cos Real.sqrt) (exampleEnv (F := ℝ))) ∧
        RSMApp.cameraGroups next = RSMApp.cameraGroups
          (RSMApp.start (libOf Real.sin Real.cos Real.sqrt) (exampleEnv (F := ℝ))) ∧
        next._rsmFBO =
          (RSMApp.start (libOf Real.sin Real.cos Real.sqrt) (exampleEnv (F := ℝ)))._rsmFBO ∧
        (∀ t ∈ RSMApp.cameraTargets next, hasSize t
          (RSMApp.start (libOf Real.sin Real.cos Real.sqrt) (exampleEnv (F := ℝ)))._currentWidth
          (RSMApp.start (libOf Real.sin Real.cos Real.sqrt)
            (exampleEnv (F := ℝ)))._currentHeight) ∧
        (∀ t ∈ RSMApp.rsmTargets next, hasSize t 2048 2048) ∧
        next._currentWidth =
          (RSMApp.start (libOf Real.sin Real.cos Real.sqrt)
            (exampleEnv (F := ℝ)))._currentWidth ∧
        next._currentHeight =
          (RSMApp.start (libOf Real.sin Real.cos Real.sqrt)
            (exampleEnv (F := ℝ)))._currentHeight ∧
        next._width =
          (RSMApp.start (libOf Real.sin Real.cos Real.sqrt) (exampleEnv (F := ℝ)))._width ∧
        next._height =
          (RSMApp.start (libOf Real.sin Real.cos Real.sqrt) (exampleEnv (F := ℝ)))._height :=
  ⟨start_reachable _ _ rfl,
    (start_size (libOf Real.sin Real.cos Real.sqrt) (exampleEnv (F := ℝ)) rfl).symm,
    C15_resize_noop (libOf Real.sin Real.cos Real.sqrt) noInput
      (RSMApp.start (libOf Real.sin Real.cos Real.sqrt) (exampleEnv (F := ℝ)))
      (start_reachable _ _ rfl) (1024, 768)
      (start_size (libOf Real.sin Real.cos Real.sqrt) (exampleEnv (F := ℝ)) rfl).symm⟩

/-! ## C16: one size per framebuffer group -/

/-- C16. Framebuffer-group dimension invariant: in every reachable state, each
of the three framebuffer groups (G-buffer, RSM, output) is built on its member
targets, and all its colour targets have one width and one height, which are
also those of its depth/stencil target. -/
theorem C16_group_dimensions (lib : FloatLib F S) (app : RSMApp F S)
    (hreach : RSMApp.Reachable lib app) :
    GroupUniform [app._gbufferAlbedo, app._gbufferNormal, app._gbufferPosition]
        app._gbufferDepth app._gbufferFBO ∧
      GroupUniform [app._rsmFlux, app._rsmNormal, app._rsmPosition] app._rsmDepth
        app._rsmFBO ∧
      GroupUniform [app._outputTexture] app._outputDepth app._outputFBO := by
  obtain ⟨hr, hz⟩ := reachable_spec lib app hreach
  have hw := reachable_wired lib app hreach
  obtain ⟨a, n, p, d, g, ea, en, ep, ed, eg, gc, gd⟩ := hw.gbuffer
  obtain ⟨rf, rn, rp, rd, r, erf, ern, erp, erd, er, rc, rdd⟩ := hw.rsm
  obtain ⟨ot, od, o, eot, eod, eo, oc, odd⟩ := hw.output
  have hcam : ∀ t ∈ RSMApp.cameraTargets app,
      hasSize t app._currentWidth app._currentHeight := hz
  have hrsm := hw.rsmSize
  simp only [RSMApp.cameraTargets, RSMApp.rsmTargets, List.mem_cons, List.mem_singleton,
    List.not_mem_nil, or_false, forall_eq_or_imp, forall_eq] at hcam hrsm
  obtain ⟨c1, c2, c3, c4, c5, c6⟩ := hcam
  obtain ⟨r1, r2, r3, r4⟩ := hrsm
  have size_of : ∀ (t : Option Texture2D) (x : Texture2D) (w h : Int), t = some x →
      hasSize t w h → x.width = w ∧ x.height = h := by
    intro t x w h e ⟨y, hy, hw1, hh1⟩
    rw [e] at hy
    cases hy
    exact ⟨hw1, hh1⟩
  refine ⟨⟨app._currentWidth, app._currentHeight, g, d, eg, ed, gd, ?_,
      (size_of _ d _ _ ed c4).1, (size_of _ d _ _ ed c4).2, ?_⟩,
    ⟨2048, 2048, r, rd, er, erd, rdd, ?_,
      (size_of _ rd _ _ erd r4).1, (size_of _ rd _ _ erd r4).2, ?_⟩,
    ⟨app._currentWidth, app._currentHeight, o, od, eo, eod, odd, ?_,
      (size_of _ od _ _ eod c6).1, (size_of _ od _ _ eod c6).2, ?_⟩⟩
  · simp only [gc, ea, en, ep, List.filterMap_cons, List.filterMap_nil, Option.map_some']
  · intro c hc
    simp only [List.mem_cons, List.mem_singleton, List.not_mem_nil, or_false] at hc
    rcases hc with hc | hc | hc <;> subst hc
    · exact c1
    · exact c2
    · exact c3
  · simp only [rc, erf, ern, erp, List.filterMap_cons, List.filterMap_nil, Option.map_some']
  · intro c hc
    simp only [List.mem_cons, List.mem_singleton, List.not_mem_nil, or_false] at hc
    rcases hc with hc | hc | hc <;> subst hc
    · exact r1
    · exact r2
    · exact r3
  · simp only [oc, eot, List.filterMap_cons, List.filterMap_nil, Option.map_some']
  · intro c hc
    simp only [List.mem_singleton] at hc
    subst hc
    exact c5

/-- Witness for C16: the state after init with a 1024 x 768 framebuffer. -/
theorem C16_group_dimensions_witness :
    RSMApp.Reachable (libOf Real.sin Real.cos Real.sqrt)
        (RSMApp.start (libOf Real.sin Real.cos Real.sqrt) (exampleEnv (F := ℝ))) ∧
      GroupUniform
        [(RSMApp.start (libOf Real.sin Real.cos Real.sqrt)
            (exampleEnv (F := ℝ)))._gbufferAlbedo,
          (RSMApp.start (libOf Real.sin Real.cos Real.sqrt)
            (exampleEnv (F := ℝ)))._gbufferNormal,
          (RSMApp.start (libOf Real.sin Real.cos Real.sqrt)
            (exampleEnv (F := ℝ)))._gbufferPosition]
        (RSMApp.start (libOf Real.sin Real.cos Real.sqrt) (exampleEnv (F := ℝ)))._gbufferDepth
        (RSMApp.start (libOf Real.sin Real.cos Real.sqrt) (exampleEnv (F := ℝ)))._gbufferFBO ∧
      GroupUniform
        [(RSMApp.start (libOf Real.sin Real.cos Real.sqrt) (exampleEnv (F := ℝ)))._rsmFlux,
          (RSMApp.start (libOf Real.sin Real.cos Real.sqrt) (exampleEnv (F := ℝ)))._rsmNormal,
          (RSMApp.start (libOf Real.sin Real.cos Real.sqrt)
            (exampleEnv (F := ℝ)))._rsmPosition]
        (RSMApp.start (libOf Real.sin Real.cos Real.sqrt) (exampleEnv (F := ℝ)))._rsmDepth
        (RSMApp.start (libOf Real.sin Real.cos Real.sqrt) (exampleEnv (F := ℝ)))._rsmFBO ∧
      GroupUniform
        [(RSMApp.start (libOf Real.sin Real.cos Real.sqrt)
            (exampleEnv (F := ℝ)))._outputTexture]
        (RSMApp.start (libOf Real.sin Real.cos Real.sqrt) (exampleEnv (F := ℝ)))._outputDepth
        (RSMApp.start (libOf Real.sin Real.cos Real.sqrt) (exampleEnv (F := ℝ)))._outputFBO :=
  ⟨start_reachable _ _ rfl,
    C16_group_dimensions (libOf Real.sin Real.cos Real.sqrt)
      (RSMApp.start (libOf Real.sin Real.cos Real.sqrt) (exampleEnv (F := ℝ)))
      (start_reachable _ _ rfl)⟩

/-! ## C17: the light volume -/

/-- C17, counterexample. A scene of radius 0.1 (two vertices 0.2 apart), with
the light pitch at 45 degrees, inside the UI range: the point of the bounding
sphere nearest the light is at distance 0.05 from the light position, in front
of the near plane at 0.1, so the light volume does not enclose the sphere. -/
theorem C17_light_volume_counterexample :
    0 < (tinyScene : ObjLoader ℝ).getRadius (libOf Real.sin Real.cos Real.sqrt) ∧
      (tinyApp (libOf Real.sin Real.cos Real.sqrt))._scene = some tinyScene ∧
      (10 : ℝ) ≤ (tinyApp (libOf Real.sin Real.cos Real.sqrt))._lightPitch ∧
      (tinyApp (libOf Real.sin Real.cos Real.sqrt))._lightPitch ≤ (170 : ℝ) ∧
      ¬ RSMApp.LightVolumeFrames (libOf Real.sin Real.cos Real.sqrt)
        (tinyApp (libOf Real.sin Real.cos Real.sqrt)) := by
  have hrad := tinyScene_sphere.2
  refine ⟨by rw [hrad]; norm_num, rfl, ?_, ?_, ?_⟩
  · show (10 : ℝ) ≤ 45
    norm_num
  · show (45 : ℝ) ≤ 170
    norm_num
  · exact lightVolume_clips (libOf Real.sin Real.cos Real.sqrt) Real.sin_sq_add_cos_sq
      (fun x hx => ⟨Real.sqrt_nonneg x, Real.mul_self_sqrt hx⟩)
      (tinyApp (libOf Real.sin Real.cos Real.sqrt)) tinyScene rfl
      (by rw [hrad]; norm_num) (by rw [hrad]; norm_num)

/-- C17 (amended). The light volume frames the scene when the scene radius r
is at least 0.2: with the real sine, cosine and square root, for every scene
with centre c and radius r ≥ 0.2, every yaw and every pitch in the UI range
[10, 170] degrees, getLightViewProjection returns
ortho(-R, R, -R, R, 0.1, 3R) * lookAt(c - R * lightDir, c, (0, 1, 0)) with
R = 1.5 r, every point p with |p - c| ≤ r is inside its volume (the two
lateral light-view coordinates are in [-R, R] and the distance along the light
direction from the light position is in [0.1, 3R]), and update, which repeats
the computation, hands this matrix to rsmBufferPass and shadingPass. -/
theorem C17_light_volume_frames (lib : FloatLib ℝ S) (hsin : lib.sin = Real.sin)
    (hcos : lib.cos = Real.cos) (hroot : lib.sqrt = Real.sqrt) (app : RSMApp ℝ S)
    (sc : ObjLoader ℝ) (hsc : app._scene = some sc) (hr : 0.2 ≤ sc.getRadius lib)
    (hlo : 10 ≤ app._lightPitch) (hhi : app._lightPitch ≤ 170) :
    ∃ next, RSMApp.getLightViewProjection lib app =
        some (Mat4.mul
          (Mat4.ortho (-(sc.getRadius lib * 1.5)) (sc.getRadius lib * 1.5)
            (-(sc.getRadius lib * 1.5)) (sc.getRadius lib * 1.5) 0.1
            (sc.getRadius lib * 1.5 * 3.0))
          (Mat4.lookAt
            (Vec3.sub sc.getCenter
              (Vec3.scale
                (Vec3.normalize lib (RSMApp.lightDirRaw lib app._lightYaw app._lightPitch))
                (sc.getRadius lib * 1.5)))
            sc.getCenter ⟨0, 1, 0⟩), next) ∧
      (∀ p, Vec3.length lib (Vec3.sub p sc.getCenter) ≤ sc.getRadius lib →
        insideOrtho (-(sc.getRadius lib * 1.5)) (sc.getRadius lib * 1.5)
          (-(sc.getRadius lib * 1.5)) (sc.getRadius lib * 1.5) 0.1
          (sc.getRadius lib * 1.5 * 3.0)
          (lookAtCoords lib
            (Vec3.sub sc.getCenter
              (Vec3.scale
                (Vec3.normalize lib (RSMApp.lightDirRaw lib app._lightYaw app._lightPitch))
                (sc.getRadius lib * 1.5)))
            sc.getCenter ⟨0, 1, 0⟩ p)) ∧
      ∀ ui size pre, RSMApp.beforePasses ui size pre = app →
        RSMApp.update lib ui size pre =
          (RSMApp.getLightViewProjection lib app).bind (RSMApp.runPasses lib app) := by
  have hpyth : ∀ a, lib.sin a ^ 2 + lib.cos a ^ 2 = 1 := by
    intro a
    rw [hsin, hcos]
    exact Real.sin_sq_add_cos_sq a
  have hsqrt : ∀ x, 0 ≤ x → 0 ≤ lib.sqrt x ∧ lib.sqrt x * lib.sqrt x = x := by
    intro x hx
    rw [hroot]
    exact ⟨Real.sqrt_nonneg x, Real.mul_self_sqrt hx⟩
  have hne : lib.sin (radians app._lightPitch) ≠ 0 := by
    rw [hsin]
    exact ne_of_gt (sin_radians_pos _ hlo hhi)
  obtain ⟨next, hnext⟩ := getLightViewProjection_eq lib app sc hsc
  obtain ⟨m, next1, hm, hall⟩ := lightVolume_encloses lib hpyth hsqrt app sc hsc hne hr
  rw [hnext] at hm
  simp only [Option.some.injEq, Prod.mk.injEq] at hm
  obtain ⟨hm1, _⟩ := hm
  subst hm1
  refine ⟨next, hnext, fun p hp => hall p hp, ?_⟩
  intro ui size pre hpre
  subst hpre
  exact update_uses_lightVP lib ui size pre

/-- Witness for C17: the scene of the 8 cube corners at +0.5 and -0.5 (radius
sqrt(3) / 2), with light yaw and pitch 45 degrees. -/
theorem C17_light_volume_frames_witness :
    (libOf Real.sin Real.cos Real.sqrt).sin = Real.sin ∧
      (libOf Real.sin Real.cos Real.sqrt).cos = Real.cos ∧
      (libOf Real.sin Real.cos Real.sqrt).sqrt = Real.sqrt ∧
      (cubeApp (libOf Real.sin Real.cos Real.sqrt))._scene = some cubeScene ∧
      (0.2 : ℝ) ≤ cubeScene.getRadius (libOf Real.sin Real.cos Real.sqrt) ∧
      (10 : ℝ) ≤ (cubeApp (libOf Real.sin Real.cos Real.sqrt))._lightPitch ∧
      (cubeApp (libOf Real.sin Real.cos Real.sqrt))._lightPitch ≤ (170 : ℝ) ∧
      ∃ next, RSMApp.getLightViewProjection (libOf Real.sin Real.cos Real.sqrt)
          (cubeApp (libOf Real.sin Real.cos Real.sqrt)) =
          some (Mat4.mul
            (Mat4.ortho
              (-(cubeScene.getRadius (libOf Real.sin Real.cos Real.sqrt) * 1.5))
              (cubeScene.getRadius (libOf Real.sin Real.cos Real.sqrt) * 1.5)
              (-(cubeScene.getRadius (libOf Real.sin Real.cos Real.sqrt) * 1.5))
              (cubeScene.getRadius (libOf Real.sin Real.cos Real.sqrt) * 1.5) 0.1
              (cubeScene.getRadius (libOf Real.sin Real.cos Real.sqrt) * 1.5 * 3.0))
            (Mat4.lookAt
              (Vec3.sub cubeScene.getCenter
                (Vec3.scale
                  (Vec3.normalize (libOf Real.sin Real.cos Real.sqrt)
                    (RSMApp.lightDirRaw (libOf Real.sin Real.cos Real.sqrt)
                      (cubeApp (libOf Real.sin Real.cos Real.sqrt))._lightYaw
                      (cubeApp (libOf Real.sin Real.cos Real.sqrt))._lightPitch))
                  (cubeScene.getRadius (libOf Real.sin Real.cos Real.sqrt) * 1.5)))
              cubeScene.getCenter ⟨0, 1, 0⟩), next) ∧
        (∀ p, Vec3.length (libOf Real.sin Real.cos Real.sqrt)
            (Vec3.sub p cubeScene.getCenter) ≤
              cubeScene.getRadius (libOf Real.sin Real.cos Real.sqrt) →
          insideOrtho
            (-(cubeScene.getRadius (libOf Real.sin Real.cos Real.sqrt) * 1.5))
            (cubeScene.getRadius (libOf Real.sin Real.cos Real.sqrt) * 1.5)
            (-(cubeScene.getRadius (libOf Real.sin Real.cos Real.sqrt) * 1.5))
            (cubeScene.getRadius (libOf Real.sin Real.cos Real.sqrt) * 1.5) 0.1
            (cubeScene.getRadius (libOf Real.sin Real.cos Real.sqrt) * 1.5 * 3.0)
            (lookAtCoords (libOf Real.sin Real.cos Real.sqrt)
              (Vec3.sub cubeScene.getCenter
                (Vec3.scale
                  (Vec3.normalize (libOf Real.sin Real.cos Real.sqrt)
                    (RSMApp.lightDirRaw (libOf Real.sin Real.cos Real.sqrt)
                      (cubeApp (libOf Real.sin Real.cos Real.sqrt))._lightYaw
                      (cubeApp (libOf Real.sin Real.cos Real.sqrt))._lightPitch))
                  (cubeScene.getRadius (libOf Real.sin Real.cos Real.sqrt) * 1.5)))
              cubeScene.getCenter ⟨0, 1, 0⟩ p)) ∧
        ∀ ui size pre,
          RSMApp.beforePasses ui size pre = cubeApp (libOf Real.sin Real.cos Real.sqrt) →
          RSMApp.update (libOf Real.sin Real.cos Real.sqrt) ui size pre =
            (RSMApp.getLightViewProjection (libOf Real.sin Real.cos Real.sqrt)
              (cubeApp (libOf Real.sin Real.cos Real.sqrt))).bind
              (RSMApp.runPasses (libOf Real.sin Real.cos Real.sqrt)
                (cubeApp (libOf Real.sin Real.cos Real.sqrt))) :=
  ⟨rfl, rfl, rfl, rfl, cubeScene_radius, by show (10 : ℝ) ≤ 45; norm_num,
    by show (45 : ℝ) ≤ 170; norm_num,
    C17_light_volume_frames (libOf Real.sin Real.cos Real.sqrt) rfl rfl rfl
      (cubeApp (libOf Real.sin Real.cos Real.sqrt)) cubeScene rfl cubeScene_radius
      (by show (10 : ℝ) ≤ 45; norm_num) (by show (45 : ℝ) ≤ 170; norm_num)⟩

/-! ## C18: camera placement -/

/-- C18. Camera placement: for every target t, distance d, yaw and pitch, the
view matrix getCameraView builds is lookAt(eye, t, (0, 1, 0)) with
eye = t - d * (sin yaw * cos pitch, sin pitch, cos yaw * cos pitch), the
angles converted from degrees; when sin^2 + cos^2 = 1 and the square root is a
square root (exact arithmetic), this direction has unit length and
|eye - t| = |d|. -/
theorem C18_camera_placement (lib : FloatLib F S)
    (hpyth : ∀ a, lib.sin a ^ 2 + lib.cos a ^ 2 = 1)
    (hsqrt : ∀ x, 0 ≤ x → 0 ≤ lib.sqrt x ∧ lib.sqrt x * lib.sqrt x = x)
    (app : RSMApp F S) :
    RSMApp.getCameraView lib app =
        Mat4.lookAt
          (Vec3.sub app._cameraTarget
            (Vec3.scale
              ⟨lib.sin (radians app._cameraYaw) * lib.cos (radians app._cameraPitch),
                lib.sin (radians app._cameraPitch),
                lib.cos (radians app._cameraYaw) * lib.cos (radians app._cameraPitch)⟩
              app._cameraDistance))
          app._cameraTarget ⟨0, 1, 0⟩ ∧
      Vec3.length lib
          ⟨lib.sin (radians app._cameraYaw) * lib.cos (radians app._cameraPitch),
            lib.sin (radians app._cameraPitch),
            lib.cos (radians app._cameraYaw) * lib.cos (radians app._cameraPitch)⟩ = 1 ∧
      Vec3.length lib (Vec3.sub (RSMApp.cameraPos lib app) app._cameraTarget) =
        |app._cameraDistance| := by
  have hdir := cameraDir_unit lib hpyth app._cameraYaw app._cameraPitch
  refine ⟨rfl, ?_, ?_⟩
  · have : Vec3.length lib (RSMApp.cameraDir lib app._cameraYaw app._cameraPitch) = 1 := by
      simp only [Vec3.length, hdir, sqrt_one_eq lib hsqrt]
    exact this
  · have hD1 : (RSMApp.cameraDir lib app._cameraYaw app._cameraPitch).x *
          (RSMApp.cameraDir lib app._cameraYaw app._cameraPitch).x +
        (RSMApp.cameraDir lib app._cameraYaw app._cameraPitch).y *
          (RSMApp.cameraDir lib app._cameraYaw app._cameraPitch).y +
        (RSMApp.cameraDir lib app._cameraYaw app._cameraPitch).z *
          (RSMApp.cameraDir lib app._cameraYaw app._cameraPitch).z = 1 := hdir
    have hdot : Vec3.dot (Vec3.sub (RSMApp.cameraPos lib app) app._cameraTarget)
        (Vec3.sub (RSMApp.cameraPos lib app) app._cameraTarget) =
        app._cameraDistance * app._cameraDistance := by
      simp only [RSMApp.cameraPos, Vec3.dot, Vec3.sub, Vec3.scale]
      linear_combination (app._cameraDistance * app._cameraDistance) * hD1
    simp only [Vec3.length, hdot, sqrt_mul_self_eq lib hsqrt]

/-- Witness for C18: the real sine, cosine and square root, and the
constructed application object (target (0, 100, 0), distance 1, yaw 180,
pitch 0). -/
theorem C18_camera_placement_witness :
    (∀ a : ℝ, (libOf Real.sin Real.cos Real.sqrt).sin a ^ 2 +
      (libOf Real.sin Real.cos Real.sqrt).cos a ^ 2 = 1) ∧
    (∀ x : ℝ, 0 ≤ x → 0 ≤ (libOf Real.sin Real.cos Real.sqrt).sqrt x ∧
      (libOf Real.sin Real.cos Real.sqrt).sqrt x * (libOf Real.sin Real.cos Real.sqrt).sqrt x
        = x) ∧
    (RSMApp.getCameraView (libOf Real.sin Real.cos Real.sqrt)
        (RSMApp.new (libOf Real.sin Real.cos Real.sqrt)) =
        Mat4.lookAt
          (Vec3.sub ⟨0, 100, 0⟩
            (Vec3.scale
              ⟨Real.sin (radians 180) * Real.cos (radians 0), Real.sin (radians 0),
                Real.cos (radians 180) * Real.cos (radians 0)⟩ 1))
          ⟨0, 100, 0⟩ ⟨0, 1, 0⟩ ∧
      Vec3.length (libOf Real.sin Real.cos Real.sqrt)
          ⟨Real.sin (radians 180) * Real.cos (radians 0), Real.sin (radians 0),
            Real.cos (radians 180) * Real.cos (radians 0)⟩ = 1 ∧
      Vec3.length (libOf Real.sin Real.cos Real.sqrt)
          (Vec3.sub (RSMApp.cameraPos (libOf Real.sin Real.cos Real.sqrt)
            (RSMApp.new (libOf Real.sin Real.cos Real.sqrt))) ⟨0, 100, 0⟩) = |(1 : ℝ)|) :=
  ⟨Real.sin_sq_add_cos_sq, fun x hx => ⟨Real.sqrt_nonneg x, Real.mul_self_sqrt hx⟩,
    C18_camera_placement (libOf Real.sin Real.cos Real.sqrt) Real.sin_sq_add_cos_sq
      (fun x hx => ⟨Real.sqrt_nonneg x, Real.mul_self_sqrt hx⟩)
      (RSMApp.new (libOf Real.sin Real.cos Real.sqrt))⟩

/-! ## C19: switching RSM off -/

/-- C19. RSM toggle equivalence, with the fragment stage modelled from the
specification: in every reachable state whose shading program has the
uniforms uEnableRSM and uVPLNum, and for every view and light matrix,
shadingPass with the enable flag false and shadingPass with the enable flag
true and VPL count 0 both return and log one draw call; for every pixel input
(G-buffer and RSM contents, light, parameters), with the flag and the count
those draw calls see, the pass output is the same in both cases, and it is
the direct light alone. -/
theorem C19_rsm_toggle_equivalence (lib : FloatLib F S) (view lightVP : Mat4 F)
    (app : RSMApp F S) (hreach : RSMApp.Reachable lib app)
    (hflag : app.gl.hasLocation ProgramName.shading Uniform.uEnableRSM = true)
    (hcount : app.gl.hasLocation ProgramName.shading Uniform.uVPLNum = true)
    (px : ShadingPixel F) :
    ∃ nextOff nextOn fbo roff ron,
      RSMApp.shadingPass view lightVP (app.withEnableRSM false) = some nextOff ∧
      nextOff.gl.events = app.gl.events ++
        [GLEvent.bindFramebuffer fbo, GLEvent.clear true false, GLEvent.draw roff,
          GLEvent.bindFramebuffer 0] ∧
      RSMApp.shadingPass view lightVP ((app.withEnableRSM true).withVplNum 0) = some nextOn ∧
      nextOn.gl.events = app.gl.events ++
        [GLEvent.bindFramebuffer fbo, GLEvent.clear true false, GLEvent.draw ron,
          GLEvent.bindFramebuffer 0] ∧
      roff.uniforms Uniform.uEnableRSM = some (UValue.int 0) ∧
      ron.uniforms Uniform.uEnableRSM = some (UValue.int 1) ∧
      ron.uniforms Uniform.uVPLNum = some (UValue.int 0) ∧
      (px.withUniforms roff).shade = (px.withUniforms ron).shade ∧
      (px.withUniforms roff).shade = px.direct := by
  have hr := (reachable_spec lib app hreach).1
  obtain ⟨n1, f1, r1, hf1, hp1, he1, _, _, _, _, hen1, _⟩ :=
    shadingPass_frame view lightVP (app.withEnableRSM false) (ready_withEnableRSM app false hr)
  obtain ⟨n2, f2, r2, hf2, hp2, he2, _, _, _, _, hen2, hvp2⟩ :=
    shadingPass_frame view lightVP ((app.withEnableRSM true).withVplNum 0)
      (ready_withVplNum _ 0 (ready_withEnableRSM app true hr))
  have hff : f2 = f1 := by
    have e1 : app._outputFBO = some f1 := hf1
    have e2 : app._outputFBO = some f2 := hf2
    rw [e1] at e2
    exact (Option.some.inj e2).symm
  subst hff
  have u1 : r1.uniforms Uniform.uEnableRSM = some (UValue.int 0) := hen1 hflag
  have u2 : r2.uniforms Uniform.uEnableRSM = some (UValue.int 1) := hen2 hflag
  have u3 : r2.uniforms Uniform.uVPLNum = some (UValue.int 0) := hvp2 hcount
  have s1 : (px.withUniforms r1).shade = px.direct := by
    have := shade_disabled (px.withUniforms r1)
      (by simp only [ShadingPixel.withUniforms, u1]; rfl)
    exact this
  have s2 : (px.withUniforms r2).shade = px.direct := by
    have := shade_no_samples (px.withUniforms r2)
      (by simp only [ShadingPixel.withUniforms, u3])
    exact this
  exact ⟨n1, n2, f2.id, r1, r2, hp1, he1, hp2, he2, u1, u2, u3, s1.trans s2.symm, s1⟩

/-- Witness for C19: the state after init in the example environment (every
uniform has a location), identity matrices, and a lit white pixel. -/
theorem C19_rsm_toggle_equivalence_witness :
    RSMApp.Reachable (libOf Real.sin Real.cos Real.sqrt)
        (RSMApp.start (libOf Real.sin Real.cos Real.sqrt) (exampleEnv (F := ℝ))) ∧
      (RSMApp.start (libOf Real.sin Real.cos Real.sqrt) (exampleEnv (F := ℝ))).gl.hasLocation
        ProgramName.shading Uniform.uEnableRSM = true ∧
      (RSMApp.start (libOf Real.sin Real.cos Real.sqrt) (exampleEnv (F := ℝ))).gl.hasLocation
        ProgramName.shading Uniform.uVPLNum = true ∧
      ∃ nextOff nextOn fbo roff ron,
        RSMApp.shadingPass Mat4.identity Mat4.identity
          ((RSMApp.start (libOf Real.sin Real.cos Real.sqrt)
            (exampleEnv (F := ℝ))).withEnableRSM false) = some nextOff ∧
        nextOff.gl.events =
          (RSMApp.start (libOf Real.sin Real.cos Real.sqrt) (exampleEnv (F := ℝ))).gl.events ++
            [GLEvent.bindFramebuffer fbo, GLEvent.clear true false, GLEvent.draw roff,
              GLEvent.bindFramebuffer 0] ∧
        RSMApp.shadingPass Mat4.identity Mat4.identity
          (((RSMApp.start (libOf Real.sin Real.cos Real.sqrt)
            (exampleEnv (F := ℝ))).withEnableRSM true).withVplNum 0) = some nextOn ∧
        nextOn.gl.events =
          (RSMApp.start (libOf Real.sin Real.cos Real.sqrt) (exampleEnv (F := ℝ))).gl.events ++
            [GLEvent.bindFramebuffer fbo, GLEvent.clear true false, GLEvent.draw ron,
              GLEvent.bindFramebuffer 0] ∧
        roff.uniforms Uniform.uEnableRSM = some (UValue.int 0) ∧
        ron.uniforms Uniform.uEnableRSM = some (UValue.int 1) ∧
        ron.uniforms Uniform.uVPLNum = some (UValue.int 0) ∧
        ((examplePixel : ShadingPixel ℝ).withUniforms roff).shade =
          ((examplePixel : ShadingPixel ℝ).withUniforms ron).shade ∧
        ((examplePixel : ShadingPixel ℝ).withUniforms roff).shade =
          (examplePixel : ShadingPixel ℝ).direct :=
  ⟨start_reachable _ _ rfl,
    by rw [start_hasLocation (libOf Real.sin Real.cos Real.sqrt) (exampleEnv (F := ℝ)) _ rfl],
    by rw [start_hasLocation (libOf Real.sin Real.cos Real.sqrt) (exampleEnv (F := ℝ)) _ rfl],
    C19_rsm_toggle_equivalence (libOf Real.sin Real.cos Real.sqrt) Mat4.identity Mat4.identity
      (RSMApp.start (libOf Real.sin Real.cos Real.sqrt) (exampleEnv (F := ℝ)))
      (start_reachable _ _ rfl)
      (by rw [start_hasLocation (libOf Real.sin Real.cos Real.sqrt) (exampleEnv (F := ℝ)) _
        rfl])
      (by rw [start_hasLocation (libOf Real.sin Real.cos Real.sqrt) (exampleEnv (F := ℝ)) _
        rfl])
      examplePixel⟩
/-! ## C20: faces without a material -/

/-- C20, the code at the failing input. Loading a file whose material file
defines the one material "wall" (red) and whose one face has material id -1
returns true with one mesh of materialIndex 0, and material 0 is "wall", red:
no material named "default" exists. Loading the same geometry with a material
file that defines no material gives materialIndex 0 as well, and material 0 is
then "default", gray (0.8, 0.8, 0.8), without texture. -/
theorem C20_negative_id_first_material :
    (ObjLoader.load (filesOf (untaggedParsed : ParsedObj ℝ)) ObjLoader.init "scene.obj"
        RSMApp.freshContext).1 = true ∧
      (ObjLoader.load (filesOf (untaggedParsed : ParsedObj ℝ)) ObjLoader.init "scene.obj"
        RSMApp.freshContext).2.1.getMeshes.map (fun m => (m.materialIndex, m.materialName)) =
        [(0, "wall")] ∧
      (ObjLoader.load (filesOf (untaggedParsed : ParsedObj ℝ)) ObjLoader.init "scene.obj"
        RSMApp.freshContext).2.1.getMaterials.map
          (fun m => (m.name, m.diffuseColor, m.hasTexture)) =
        [("wall", ⟨1, 0, 0⟩, false)] ∧
      (ObjLoader.load (filesOf (untaggedBare : ParsedObj ℝ)) ObjLoader.init "scene.obj"
        RSMApp.freshContext).2.1.getMeshes.map (fun m => (m.materialIndex, m.materialName)) =
        [(0, "default")] ∧
      (ObjLoader.load (filesOf (untaggedBare : ParsedObj ℝ)) ObjLoader.init "scene.obj"
        RSMApp.freshContext).2.1.getMaterials.map
          (fun m => (m.name, m.diffuseColor, m.hasTexture)) =
        [("default", ⟨0.8, 0.8, 0.8⟩, false)] := by
  have he : ("" : String).isEmpty = true := rfl
  refine ⟨rfl, ?_, ?_, ?_, ?_⟩
  · simp [he, ObjLoader.load, filesOf, untaggedParsed, ObjLoader.addShape, ObjLoader.groupFaces,
      ObjLoader.pushFace, ObjLoader.addGroup, ObjLoader.faceVertices, ObjLoader.getMeshes,
      ObjLoader.loadTextures, ObjLoader.loadTexture, ObjLoader.convertMaterial,
      ObjLoader.calculateBounds, ObjLoader.init, ObjMaterial.init, List.range, List.range.loop]
  · simp [he, ObjLoader.load, filesOf, untaggedParsed, ObjLoader.addShape, ObjLoader.groupFaces,
      ObjLoader.pushFace, ObjLoader.addGroup, ObjLoader.faceVertices, ObjLoader.getMaterials,
      ObjLoader.loadTextures, ObjLoader.loadTexture, ObjLoader.convertMaterial,
      ObjLoader.calculateBounds, ObjLoader.init, ObjMaterial.init, List.range, List.range.loop]
  · simp [he, ObjLoader.load, filesOf, untaggedBare, untaggedParsed, ObjLoader.addShape,
      ObjLoader.groupFaces,
      ObjLoader.pushFace, ObjLoader.addGroup, ObjLoader.faceVertices, ObjLoader.getMeshes,
      ObjLoader.loadTextures, ObjLoader.loadTexture, ObjLoader.defaultMaterial,
      ObjLoader.calculateBounds, ObjLoader.init, ObjMaterial.init, List.range, List.range.loop]
  · simp [he, ObjLoader.load, filesOf, untaggedBare, untaggedParsed, ObjLoader.addShape,
      ObjLoader.groupFaces,
      ObjLoader.pushFace, ObjLoader.addGroup, ObjLoader.faceVertices, ObjLoader.getMaterials,
      ObjLoader.loadTextures, ObjLoader.loadTexture, ObjLoader.defaultMaterial,
      ObjLoader.calculateBounds, ObjLoader.init, ObjMaterial.init, Vec3.splat, List.range,
      List.range.loop]

/-! ## C21: the cube mesh -/

/-- C21. The cube mesh is well-formed and outward-wound: create_cube_mesh
yields exactly 24 vertices and 36 indices, every index is below 24, every
position coordinate is +0.5 or -0.5, and for each of the 12 triangles the
three vertices store one normal and the cross product
(p[i1] - p[i0]) x (p[i2] - p[i0]) is a positive multiple of it. -/
theorem C21_cube_mesh_well_formed :
    (create_cube_mesh : Mesh F).vertices.length = 24 ∧
      (create_cube_mesh : Mesh F).indices.length = 36 ∧
      (∀ i ∈ (create_cube_mesh : Mesh F).indices, i < 24) ∧
      (∀ v ∈ (create_cube_mesh : Mesh F).vertices,
        (v.position.x = 0.5 ∨ v.position.x = -0.5) ∧
        (v.position.y = 0.5 ∨ v.position.y = -0.5) ∧
        (v.position.z = 0.5 ∨ v.position.z = -0.5)) ∧
      ∀ k, k < 12 → (create_cube_mesh : Mesh F).OutwardWound k := by
  refine ⟨rfl, rfl, ?_, ?_, ?_⟩
  · intro i hi
    simp only [create_cube_mesh, pushCubeFace, List.nil_append, List.length_nil,
      List.length_cons, List.length_append, List.mem_append, List.mem_cons,
      List.mem_singleton, List.not_mem_nil, or_false] at hi
    omega
  · intro v hv
    simp only [create_cube_mesh, pushCubeFace, List.nil_append, List.mem_append, List.mem_cons,
      List.mem_singleton, List.not_mem_nil, or_false] at hv
    rcases hv with ((((((hv | hv | hv | hv) | hv | hv | hv | hv) | hv | hv | hv | hv) |
      hv | hv | hv | hv) | hv | hv | hv | hv) | hv | hv | hv | hv) <;> subst hv <;> simp
  · intro k hk
    interval_cases k <;>
      refine ⟨_, _, _, 1, rfl, rfl, rfl, rfl, rfl, one_pos, ?_⟩ <;>
      simp only [Vec3.cross, Vec3.sub, Vec3.scale, Vec3.mk.injEq] <;>
      norm_num

/-! ## C22: loading a second scene -/

/-- C22, the code at the failing input. Loading `large.obj` (a triangle with
corners (-10, -10, -10), (10, -10, -10), (0, 10, 10)) and then `small.obj` (a
triangle with corners (0, 0, 0), (1, 0, 0), (0, 1, 0)) into the same loader:
both loads return true, and the meshes and the materials after the second load
are those of `small.obj` loaded alone into a fresh loader, but the bounds are
not. Loaded alone, `small.obj` gives the bounds (0, 0, 0) to (1, 1, 0); after
`large.obj` it gives (-10, -10, -10) to (10, 10, 10), the bounds of the first
scene, because load never sets the bounds back to their initial values. -/
theorem C22_bounds_accumulate :
    (ObjLoader.load (twoSceneFiles : FileSystem ℝ) ObjLoader.init "large.obj"
        RSMApp.freshContext).1 = true ∧
      (ObjLoader.load (twoSceneFiles : FileSystem ℝ)
        (ObjLoader.load (twoSceneFiles : FileSystem ℝ) ObjLoader.init "large.obj"
          RSMApp.freshContext).2.1 "small.obj"
        (ObjLoader.load (twoSceneFiles : FileSystem ℝ) ObjLoader.init "large.obj"
          RSMApp.freshContext).2.2).1 = true ∧
      (ObjLoader.load (twoSceneFiles : FileSystem ℝ) ObjLoader.init "small.obj"
        RSMApp.freshContext).1 = true ∧
      (ObjLoader.load (twoSceneFiles : FileSystem ℝ)
        (ObjLoader.load (twoSceneFiles : FileSystem ℝ) ObjLoader.init "large.obj"
          RSMApp.freshContext).2.1 "small.obj"
        (ObjLoader.load (twoSceneFiles : FileSystem ℝ) ObjLoader.init "large.obj"
          RSMApp.freshContext).2.2).2.1.getMeshes =
        (ObjLoader.load (twoSceneFiles : FileSystem ℝ) ObjLoader.init "small.obj"
          RSMApp.freshContext).2.1.getMeshes ∧
      (ObjLoader.load (twoSceneFiles : FileSystem ℝ)
        (ObjLoader.load (twoSceneFiles : FileSystem ℝ) ObjLoader.init "large.obj"
          RSMApp.freshContext).2.1 "small.obj"
        (ObjLoader.load (twoSceneFiles : FileSystem ℝ) ObjLoader.init "large.obj"
          RSMApp.freshContext).2.2).2.1.getMaterials =
        (ObjLoader.load (twoSceneFiles : FileSystem ℝ) ObjLoader.init "small.obj"
          RSMApp.freshContext).2.1.getMaterials ∧
      (ObjLoader.load (twoSceneFiles : FileSystem ℝ) ObjLoader.init "small.obj"
        RSMApp.freshContext).2.1.getMinBounds = ⟨0, 0, 0⟩ ∧
      (ObjLoader.load (twoSceneFiles : FileSystem ℝ) ObjLoader.init "small.obj"
        RSMApp.freshContext).2.1.getMaxBounds = ⟨1, 1, 0⟩ ∧
      (ObjLoader.load (twoSceneFiles : FileSystem ℝ)
        (ObjLoader.load (twoSceneFiles : FileSystem ℝ) ObjLoader.init "large.obj"
          RSMApp.freshContext).2.1 "small.obj"
        (ObjLoader.load (twoSceneFiles : FileSystem ℝ) ObjLoader.init "large.obj"
          RSMApp.freshContext).2.2).2.1.getMinBounds = ⟨-10, -10, -10⟩ ∧
      (ObjLoader.load (twoSceneFiles : FileSystem ℝ)
        (ObjLoader.load (twoSceneFiles : FileSystem ℝ) ObjLoader.init "large.obj"
          RSMApp.freshContext).2.1 "small.obj"
        (ObjLoader.load (twoSceneFiles : FileSystem ℝ) ObjLoader.init "large.obj"
          RSMApp.freshContext).2.2).2.1.getMaxBounds = ⟨10, 10, 10⟩ := by
  have he : ("" : String).isEmpty = true := rfl
  have hne : ¬ (("small.obj" : String) = "large.obj") := by decide
  refine ⟨rfl, rfl, rfl, ?_, ?_, ?_, ?_, ?_, ?_⟩
  · simp [he, hne, ObjLoader.load, twoSceneFiles, largeParsed, untaggedBare, untaggedParsed,
      ObjLoader.addShape, ObjLoader.groupFaces, ObjLoader.pushFace, ObjLoader.addGroup,
      ObjLoader.faceVertices, ObjLoader.getMeshes, ObjLoader.loadTextures,
      ObjLoader.loadTexture, ObjLoader.defaultMaterial, ObjLoader.calculateBounds,
      ObjLoader.init, ObjMaterial.init, List.range, List.range.loop]
  · simp [he, hne, ObjLoader.load, twoSceneFiles, largeParsed, untaggedBare, untaggedParsed,
      ObjLoader.addShape, ObjLoader.groupFaces, ObjLoader.pushFace, ObjLoader.addGroup,
      ObjLoader.faceVertices, ObjLoader.getMaterials, ObjLoader.loadTextures,
      ObjLoader.loadTexture, ObjLoader.defaultMaterial, ObjLoader.calculateBounds,
      ObjLoader.init, ObjMaterial.init, List.range, List.range.loop]
  · simp [he, hne, ObjLoader.load, twoSceneFiles, largeParsed, untaggedBare, untaggedParsed,
      ObjLoader.addShape, ObjLoader.groupFaces, ObjLoader.pushFace, ObjLoader.addGroup,
      ObjLoader.faceVertices, ObjLoader.getMinBounds, ObjLoader.loadTextures,
      ObjLoader.loadTexture, ObjLoader.defaultMaterial, ObjLoader.calculateBounds,
      ObjLoader.makeVertex, ObjLoader.elemAt, Vec3.min, Vec3.max, Vec3.minS, Vec3.maxS,
      Vec3.splat, FLT_MAX,
      ObjLoader.init, ObjMaterial.init, List.range, List.range.loop]
  · simp [he, hne, ObjLoader.load, twoSceneFiles, largeParsed, untaggedBare, untaggedParsed,
      ObjLoader.addShape, ObjLoader.groupFaces, ObjLoader.pushFace, ObjLoader.addGroup,
      ObjLoader.faceVertices, ObjLoader.getMaxBounds, ObjLoader.loadTextures,
      ObjLoader.loadTexture, ObjLoader.defaultMaterial, ObjLoader.calculateBounds,
      ObjLoader.makeVertex, ObjLoader.elemAt, Vec3.min, Vec3.max, Vec3.minS, Vec3.maxS,
      Vec3.splat, FLT_MAX,
      ObjLoader.init, ObjMaterial.init, List.range, List.range.loop]
  · simp [he, hne, ObjLoader.load, twoSceneFiles, largeParsed, untaggedBare, untaggedParsed,
      ObjLoader.addShape, ObjLoader.groupFaces, ObjLoader.pushFace, ObjLoader.addGroup,
      ObjLoader.faceVertices, ObjLoader.getMinBounds, ObjLoader.loadTextures,
      ObjLoader.loadTexture, ObjLoader.defaultMaterial, ObjLoader.calculateBounds,
      ObjLoader.makeVertex, ObjLoader.elemAt, Vec3.min, Vec3.max, Vec3.minS, Vec3.maxS,
      Vec3.splat, FLT_MAX,
      ObjLoader.init, ObjMaterial.init, List.range, List.range.loop]
    norm_num
  · simp [he, hne, ObjLoader.load, twoSceneFiles, largeParsed, untaggedBare, untaggedParsed,
      ObjLoader.addShape, ObjLoader.groupFaces, ObjLoader.pushFace, ObjLoader.addGroup,
      ObjLoader.faceVertices, ObjLoader.getMaxBounds, ObjLoader.loadTextures,
      ObjLoader.loadTexture, ObjLoader.defaultMaterial, ObjLoader.calculateBounds,
      ObjLoader.makeVertex, ObjLoader.elemAt, Vec3.min, Vec3.max, Vec3.minS, Vec3.maxS,
      Vec3.splat, FLT_MAX,
      ObjLoader.init, ObjMaterial.init, List.range, List.range.loop]
    norm_num


/-! ## C23: the texture flag agrees with the texture handle -/

/-- C23. Material texture consistency: after every load that returns true,
into a loader in any state, whatever image files can or cannot be read, the
material list is not empty and every material has hasTexture = true exactly
when its diffuseTexture handle is non-null; when the material file defines no
material the list is the one synthesised default material, whose flag is false
and whose handle is null. -/
theorem C23_texture_flag_consistent (fs : FileSystem F) (self : ObjLoader F)
    (filepath : String) (gl : GLContext F)
    (hok : (ObjLoader.load fs self filepath gl).1 = true) :
    (ObjLoader.load fs self filepath gl).2.1.getMaterials ≠ [] ∧
      (∀ m ∈ (ObjLoader.load fs self filepath gl).2.1.getMaterials,
        (m.hasTexture = true ↔ m.diffuseTexture.isSome = true)) ∧
      (∀ parsed, fs.parseObj filepath = some parsed → parsed.materials = [] →
        (ObjLoader.load fs self filepath gl).2.1.getMaterials = [ObjLoader.defaultMaterial]) ∧
      (ObjLoader.defaultMaterial : ObjMaterial F).hasTexture = false ∧
      (ObjLoader.defaultMaterial : ObjMaterial F).diffuseTexture = none := by
  obtain ⟨h1, h2⟩ := load_consistent fs self filepath gl hok
  exact ⟨h1, h2, fun parsed hp he => load_default fs self filepath gl parsed hp he, rfl, rfl⟩

/-- Witness for C23: a scene whose one material names the texture `wall.png`,
with files in which every image can be read. -/
theorem C23_texture_flag_consistent_witness :
    (ObjLoader.load (imageFilesOf (exampleParsed : ParsedObj ℝ)) ObjLoader.init "scene.obj"
        RSMApp.freshContext).1 = true ∧
      (ObjLoader.load (imageFilesOf (exampleParsed : ParsedObj ℝ)) ObjLoader.init "scene.obj"
        RSMApp.freshContext).2.1.getMaterials ≠ [] ∧
      (∀ m ∈ (ObjLoader.load (imageFilesOf (exampleParsed : ParsedObj ℝ)) ObjLoader.init
          "scene.obj" RSMApp.freshContext).2.1.getMaterials,
        (m.hasTexture = true ↔ m.diffuseTexture.isSome = true)) ∧
      (∀ parsed, (imageFilesOf (exampleParsed : ParsedObj ℝ)).parseObj "scene.obj" =
          some parsed → parsed.materials = [] →
        (ObjLoader.load (imageFilesOf (exampleParsed : ParsedObj ℝ)) ObjLoader.init "scene.obj"
          RSMApp.freshContext).2.1.getMaterials = [ObjLoader.defaultMaterial]) ∧
      (ObjLoader.defaultMaterial : ObjMaterial ℝ).hasTexture = false ∧
      (ObjLoader.defaultMaterial : ObjMaterial ℝ).diffuseTexture = none :=
  ⟨rfl, C23_texture_flag_consistent (imageFilesOf (exampleParsed : ParsedObj ℝ))
    ObjLoader.init "scene.obj" RSMApp.freshContext rfl⟩

/-! ## C24: the light direction is not degenerate -/

/-- C24. The light direction is non-degenerate, over the reals with the real
sine, cosine and square root: for every yaw and pitch the vector
(sin(yaw) sin(pitch), -cos(pitch), cos(yaw) sin(pitch)) that update computes
has length exactly 1, so the square root normalize divides by is not zero and
normalize returns the vector unchanged; for every pitch in [10, 170] degrees
the vector is not a multiple of the up vector (0, 1, 0), its cross product
with the up vector is not zero, and neither is that of the forward axis
glm::lookAt derives from the light position at any distance R > 0; and every
frame on a ready state stores this unit vector in `_lightDir`. -/
theorem C24_light_direction_nondegenerate (lib : FloatLib ℝ S) (hsin : lib.sin = Real.sin)
    (hcos : lib.cos = Real.cos) (hroot : lib.sqrt = Real.sqrt) (yaw pitch : ℝ) :
    Vec3.length lib (RSMApp.lightDirRaw lib yaw pitch) = 1 ∧
      lib.sqrt (Vec3.dot (RSMApp.lightDirRaw lib yaw pitch)
        (RSMApp.lightDirRaw lib yaw pitch)) ≠ 0 ∧
      Vec3.normalize lib (RSMApp.lightDirRaw lib yaw pitch) =
        RSMApp.lightDirRaw lib yaw pitch ∧
      (10 ≤ pitch → pitch ≤ 170 →
        (∀ c : ℝ, Vec3.normalize lib (RSMApp.lightDirRaw lib yaw pitch) ≠
          Vec3.scale ⟨0, 1, 0⟩ c) ∧
        Vec3.cross (Vec3.normalize lib (RSMApp.lightDirRaw lib yaw pitch)) ⟨0, 1, 0⟩ ≠
          ⟨0, 0, 0⟩ ∧
        ∀ (center : Vec3 ℝ) (R : ℝ), 0 < R →
          Vec3.cross
            (Vec3.normalize lib (Vec3.sub center (Vec3.sub center
              (Vec3.scale (Vec3.normalize lib (RSMApp.lightDirRaw lib yaw pitch)) R))))
            ⟨0, 1, 0⟩ ≠ ⟨0, 0, 0⟩) ∧
      ∀ (ui : UIInput ℝ) (size : Int × Int) (self : RSMApp ℝ S), Ready self →
        ∃ next, RSMApp.update lib ui size self = some next ∧
          next._lightDir = RSMApp.lightDirRaw lib next._lightYaw next._lightPitch ∧
          Vec3.length lib next._lightDir = 1 := by
  have hpyth : ∀ a, lib.sin a ^ 2 + lib.cos a ^ 2 = 1 := by
    intro a
    rw [hsin, hcos]
    exact Real.sin_sq_add_cos_sq a
  have hsqrt : ∀ x, 0 ≤ x → 0 ≤ lib.sqrt x ∧ lib.sqrt x * lib.sqrt x = x := by
    intro x hx
    rw [hroot]
    exact ⟨Real.sqrt_nonneg x, Real.mul_self_sqrt hx⟩
  obtain ⟨hn, hD⟩ := lightDir_unit lib hpyth hsqrt yaw pitch
  have hlen : Vec3.length lib (RSMApp.lightDirRaw lib yaw pitch) = 1 := by
    simp only [Vec3.length, hD, sqrt_one_eq lib hsqrt]
  refine ⟨hlen, ?_, hn, ?_, ?_⟩
  · rw [hD, sqrt_one_eq lib hsqrt]
    exact one_ne_zero
  · intro hlo hhi
    have hne : lib.sin (radians pitch) ≠ 0 := by
      rw [hsin]
      exact ne_of_gt (sin_radians_pos _ hlo hhi)
    have hq : (RSMApp.lightDirRaw lib yaw pitch).x * (RSMApp.lightDirRaw lib yaw pitch).x +
        (RSMApp.lightDirRaw lib yaw pitch).z * (RSMApp.lightDirRaw lib yaw pitch).z ≠ 0 := by
      rw [lightDirRaw_horizontal lib hpyth]
      exact mul_ne_zero hne hne
    obtain ⟨k1, k2⟩ := not_vertical _ hq
    rw [hn]
    refine ⟨k1, k2, ?_⟩
    intro center R hR
    rw [normalize_toward lib hsqrt center _ R hD hR]
    exact k2
  · intro ui size self h
    exact update_lightDir lib hpyth hsqrt ui size self h

/-- Witness for C24: the real sine, cosine and square root, with the initial
light yaw and pitch of 45 degrees. -/
theorem C24_light_direction_nondegenerate_witness :
    (libOf Real.sin Real.cos Real.sqrt).sin = Real.sin ∧
      (libOf Real.sin Real.cos Real.sqrt).cos = Real.cos ∧
      (libOf Real.sin Real.cos Real.sqrt).sqrt = Real.sqrt ∧
      Vec3.length (libOf Real.sin Real.cos Real.sqrt)
        (RSMApp.lightDirRaw (libOf Real.sin Real.cos Real.sqrt) 45 45) = 1 ∧
      (libOf Real.sin Real.cos Real.sqrt).sqrt
        (Vec3.dot (RSMApp.lightDirRaw (libOf Real.sin Real.cos Real.sqrt) 45 45)
          (RSMApp.lightDirRaw (libOf Real.sin Real.cos Real.sqrt) 45 45)) ≠ 0 ∧
      Vec3.normalize (libOf Real.sin Real.cos Real.sqrt)
          (RSMApp.lightDirRaw (libOf Real.sin Real.cos Real.sqrt) 45 45) =
        RSMApp.lightDirRaw (libOf Real.sin Real.cos Real.sqrt) 45 45 ∧
      ((10 : ℝ) ≤ 45 → (45 : ℝ) ≤ 170 →
        (∀ c : ℝ, Vec3.normalize (libOf Real.sin Real.cos Real.sqrt)
            (RSMApp.lightDirRaw (libOf Real.sin Real.cos Real.sqrt) 45 45) ≠
          Vec3.scale ⟨0, 1, 0⟩ c) ∧
        Vec3.cross (Vec3.normalize (libOf Real.sin Real.cos Real.sqrt)
            (RSMApp.lightDirRaw (libOf Real.sin Real.cos Real.sqrt) 45 45)) ⟨0, 1, 0⟩ ≠
          ⟨0, 0, 0⟩ ∧
        ∀ (center : Vec3 ℝ) (R : ℝ), 0 < R →
          Vec3.cross
            (Vec3.normalize (libOf Real.sin Real.cos Real.sqrt) (Vec3.sub center
              (Vec3.sub center
                (Vec3.scale (Vec3.normalize (libOf Real.sin Real.cos Real.sqrt)
                  (RSMApp.lightDirRaw (libOf Real.sin Real.cos Real.sqrt) 45 45)) R))))
            ⟨0, 1, 0⟩ ≠ ⟨0, 0, 0⟩) ∧
      ∀ (ui : UIInput ℝ) (size : Int × Int) (self : RSMApp ℝ Nat), Ready self →
        ∃ next, RSMApp.update (libOf Real.sin Real.cos Real.sqrt) ui size self = some next ∧
          next._lightDir = RSMApp.lightDirRaw (libOf Real.sin Real.cos Real.sqrt)
            next._lightYaw next._lightPitch ∧
          Vec3.length (libOf Real.sin Real.cos Real.sqrt) next._lightDir = 1 :=
  ⟨rfl, rfl, rfl,
    C24_light_direction_nondegenerate (libOf Real.sin Real.cos Real.sqrt) rfl rfl rfl 45 45⟩

end Claims

end RSM
